import Mathlib

/-!
# Digital zoom controller (HPS side): the grayscale bitmap codec

A shallow embedding of `src/hps/bitmap.c` and `src/hps/bitmap.h`.  The controller,
`src/hps/main.c`, is embedded in the namespace `App` below; the theorems about
both come after the definitions.

Conventions of the embedding

* A byte is a natural number; a file and a pixel buffer are lists of bytes.
* C `int` values are integers; fields stored in the packed headers go through
  their 32-bit two's complement image (`u32_de_int`, `int_de_u32`).  Signed
  overflow is undefined in C, so the theorems about sizes carry the bound that
  keeps the arithmetic of the source in range.
* The target is the 32-bit ARM HPS: `size_t` and `long` are 32 bits wide and
  the packed structures are laid out little-endian.
* The environment of a call is explicit: whether `fopen` succeeds (an
  `Option`), whether `malloc` succeeds (a `Bool`), and how many bytes the
  destination of a write accepts before writes come back short.
* Diagnostics printed on `stdout`/`stderr` are not part of the model.
-/

namespace Bitmap

/-! ## Little-endian fields -/

/-- Bytes of a 16-bit field, least significant first. -/
def le16 (n : Nat) : List Nat := [n % 256, n / 256 % 256]

/-- Bytes of a 32-bit field, least significant first. -/
def le32 (n : Nat) : List Nat :=
  [n % 256, n / 256 % 256, n / 65536 % 256, n / 16777216 % 256]

/-- The 32-bit two's complement image of a C `int` (also the conversion of an
`int` to `uint32_t` or `size_t`). -/
def u32_de_int (v : Int) : Nat := (v % 4294967296).toNat

/-- The signed reading of a 32-bit pattern (conversion of `uint32_t` to `int`
or to `long` on the target). -/
def int_de_u32 (n : Nat) : Int :=
  if n < 2147483648 then (n : Int) else (n : Int) - 4294967296

/-- Read a 16-bit little-endian field at byte offset `i`. -/
def ler_u16 (b : List Nat) (i : Nat) : Nat := b.getD i 0 + 256 * b.getD (i + 1) 0

/-- Read a 32-bit little-endian field at byte offset `i`. -/
def ler_u32 (b : List Nat) (i : Nat) : Nat :=
  b.getD i 0 + 256 * b.getD (i + 1) 0 + 65536 * b.getD (i + 2) 0
    + 16777216 * b.getD (i + 3) 0

/-- Read a signed 32-bit little-endian field at byte offset `i`. -/
def ler_i32 (b : List Nat) (i : Nat) : Int := int_de_u32 (ler_u32 b i)

/-! ## The packed headers of `bitmap.h` -/

/-- The primary header, 14 bytes packed. -/
structure BMPHeader where
  tipo : Nat
  tamanho : Nat
  reservado1 : Nat
  reservado2 : Nat
  offset : Nat
deriving DecidableEq, Repr

/-- The info header, 40 bytes packed. -/
structure BMPInfoHeader where
  tamanho : Nat
  largura : Int
  altura : Int
  planos : Nat
  bits_por_pixel : Nat
  compressao : Nat
  tamanho_imagem : Nat
  resolucao_x : Int
  resolucao_y : Int
  cores_usadas : Nat
  cores_importantes : Nat
deriving DecidableEq, Repr

/-- Value of `sizeof(BMPHeader)`. -/
def sizeof_BMPHeader : Nat := 14

/-- Value of `sizeof(BMPInfoHeader)`. -/
def sizeof_BMPInfoHeader : Nat := 40

/-- Memory image of a primary header (what `fwrite(&header, ...)` emits). -/
def BMPHeader.bytes (h : BMPHeader) : List Nat :=
  le16 h.tipo ++ le32 h.tamanho ++ le16 h.reservado1 ++ le16 h.reservado2 ++ le32 h.offset

/-- Memory image of an info header (what `fwrite(&info, ...)` emits). -/
def BMPInfoHeader.bytes (h : BMPInfoHeader) : List Nat :=
  le32 h.tamanho ++ le32 (u32_de_int h.largura) ++ le32 (u32_de_int h.altura)
    ++ le16 h.planos ++ le16 h.bits_por_pixel ++ le32 h.compressao
    ++ le32 h.tamanho_imagem ++ le32 (u32_de_int h.resolucao_x)
    ++ le32 (u32_de_int h.resolucao_y) ++ le32 h.cores_usadas ++ le32 h.cores_importantes

/-- The primary header held by the 14 bytes starting at offset `i` of `b`
(what `fread(&header, ...)` leaves in the structure). -/
def BMPHeader.de_bytes (b : List Nat) (i : Nat) : BMPHeader :=
  { tipo := ler_u16 b i
    tamanho := ler_u32 b (i + 2)
    reservado1 := ler_u16 b (i + 6)
    reservado2 := ler_u16 b (i + 8)
    offset := ler_u32 b (i + 10) }

/-- The info header held by the 40 bytes starting at offset `i` of `b`. -/
def BMPInfoHeader.de_bytes (b : List Nat) (i : Nat) : BMPInfoHeader :=
  { tamanho := ler_u32 b i
    largura := ler_i32 b (i + 4)
    altura := ler_i32 b (i + 8)
    planos := ler_u16 b (i + 12)
    bits_por_pixel := ler_u16 b (i + 14)
    compressao := ler_u32 b (i + 16)
    tamanho_imagem := ler_u32 b (i + 20)
    resolucao_x := ler_i32 b (i + 24)
    resolucao_y := ler_i32 b (i + 28)
    cores_usadas := ler_u32 b (i + 32)
    cores_importantes := ler_u32 b (i + 36) }

/-! ## Streams -/

/-- An open input stream: the bytes of the file and the read position. -/
structure Arquivo where
  dados : List Nat
  pos : Nat
deriving DecidableEq, Repr

/-- The bytes delivered by `fread(p, 1, n, f)`: as many as the file still
holds from the read position, at most `n`.  The read is short when fewer than
`n` come back. -/
def fread (f : Arquivo) (n : Nat) : List Nat := (f.dados.drop f.pos).take n

/-- The stream after `fread(p, 1, n, f)`. -/
def avancar (f : Arquivo) (n : Nat) : Arquivo :=
  ⟨f.dados, f.pos + min n (f.dados.length - f.pos)⟩

/-- Effect of `fseek(f, deslocamento, SEEK_SET)`: a negative offset is refused
and leaves the position where it was; any other offset is taken, also one
beyond the end of the file. -/
def fseek (f : Arquivo) (deslocamento : Int) : Arquivo :=
  if deslocamento < 0 then f else ⟨f.dados, deslocamento.toNat⟩

/-- Effect of `memcpy(&dst[pos], src, n)` on the destination. -/
def memcpy (dst : List Nat) (pos : Nat) (src : List Nat) (n : Nat) : List Nat :=
  dst.take pos ++ src.take n ++ dst.drop (pos + n)

/-- Effect of `fwrite(dados, 1, n, f)` on an output stream whose destination
accepts `cap` bytes in all: the bytes that still fit are appended, the others
are lost (a short write). -/
def fwrite (cap : Nat) (f : List Nat) (dados : List Nat) : List Nat :=
  f ++ dados.take (cap - f.length)

/-- Row padding computed by both routines: `(4 - (largura_bytes % 4)) % 4`
with the truncating remainder of C. -/
def calc_padding (largura_bytes : Int) : Int :=
  (4 - largura_bytes.tmod 4).tmod 4

/-! ## Conversion of a 24-bit pixel -/

/-- The binary64 constant `0.299`, in units of `2^-56`. -/
def k_r : Nat := 21545220617340452

/-- The binary64 constant `0.587`, in units of `2^-56`. -/
def k_g : Nat := 42297807700263696

/-- The binary64 constant `0.114`, in units of `2^-56`. -/
def k_b : Nat := 8214565720323785

/-- Rounding of the exact value `n * 2^-56` (below `2^8`, so `n < 2^64`) to
binary64, to nearest with ties to even; the result is in the same units. The
53 significant bits are kept by dropping `desl` low bits, `desl` being the
number of powers `2^53, ..., 2^63` that `n` reaches. -/
def arredonda_double (n : Nat) : Nat :=
  let desl := ((List.range 11).filter (fun k => decide (2 ^ (53 + k) ≤ n))).length
  let q := n / 2 ^ desl
  let resto := n % 2 ^ desl
  if 2 * resto > 2 ^ desl ∨ (2 * resto = 2 ^ desl ∧ q % 2 = 1) then (q + 1) * 2 ^ desl
  else q * 2 ^ desl

/-- The statement `gray = (unsigned char)(0.299 * r + 0.587 * g + 0.114 * b)`:
the operands are converted to `double` exactly, each product and each sum is
rounded to binary64 (left to right, no extended precision, no fused
multiply-add), and the conversion to `unsigned char` truncates. -/
def cinza (r g b : Nat) : Nat :=
  let pr := arredonda_double (k_r * r)
  let pg := arredonda_double (k_g * g)
  let pb := arredonda_double (k_b * b)
  let s := arredonda_double (arredonda_double (pr + pg) + pb)
  s / 2 ^ 56 % 256

/-! ## `carregar_bitmap` -/

/-- The row loop of the 8-bit branch, `for (y = 0; y < altura_abs; y++)`, with
`n` rows still to be read: a row of `n_linha = largura_bytes + padding` bytes
is read, a short read ends the call with `-1`, otherwise the first
`largura_esperada` bytes go to row `linha_destino` of the buffer. -/
def ler_linhas_8 (largura_esperada n_linha altura_abs : Nat) (invertido : Bool) :
    Nat → Nat → Arquivo → List Nat → Int × List Nat
  | 0, _, _, buffer => (0, buffer)
  | n + 1, y, arquivo, buffer =>
    let linha_destino := if invertido then altura_abs - 1 - y else y
    let linha := fread arquivo n_linha
    if linha.length ≠ n_linha then (-1, buffer)
    else
      ler_linhas_8 largura_esperada n_linha altura_abs invertido n (y + 1)
        (avancar arquivo n_linha)
        (memcpy buffer (linha_destino * largura_esperada) linha largura_esperada)

/-- The pixel loop of the 24-bit branch, `for (x = 0; x < largura_esperada; x++)`,
with `n` pixels still to convert; `base` is `linha_destino * largura_esperada`. -/
def converter_linha (linha : List Nat) (base : Nat) : Nat → Nat → List Nat → List Nat
  | 0, _, buffer => buffer
  | n + 1, x, buffer =>
    let idx_rgb := x * 3
    let b := linha.getD idx_rgb 0
    let g := linha.getD (idx_rgb + 1) 0
    let r := linha.getD (idx_rgb + 2) 0
    let gray := cinza r g b
    converter_linha linha base n (x + 1) (buffer.set (base + x) gray)

/-- The row loop of the 24-bit branch, with `n` rows still to be read. -/
def ler_linhas_24 (largura_esperada n_linha altura_abs : Nat) (invertido : Bool) :
    Nat → Nat → Arquivo → List Nat → Int × List Nat
  | 0, _, _, buffer => (0, buffer)
  | n + 1, y, arquivo, buffer =>
    let linha_destino := if invertido then altura_abs - 1 - y else y
    let linha := fread arquivo n_linha
    if linha.length ≠ n_linha then (-1, buffer)
    else
      ler_linhas_24 largura_esperada n_linha altura_abs invertido n (y + 1)
        (avancar arquivo n_linha)
        (converter_linha linha (linha_destino * largura_esperada) largura_esperada 0 buffer)

/-- Where the 8-bit branch positions the stream before the rows:
`fseek(arquivo, sizeof(BMPHeader) + sizeof(BMPInfoHeader) + tamanho_paleta * 4, SEEK_SET)`
with `tamanho_paleta = (cores_usadas > 0) ? cores_usadas : 256` held in an
`int` and the sum formed in `size_t`. -/
def deslocamento_paleta (cores_usadas : Nat) : Int :=
  let tamanho_paleta : Int := if cores_usadas > 0 then int_de_u32 cores_usadas else 256
  int_de_u32
    ((sizeof_BMPHeader + sizeof_BMPInfoHeader + u32_de_int (tamanho_paleta * 4)) % 4294967296)

/-- The function `carregar_bitmap` of `bitmap.c`.  `nome_arquivo` is what `fopen` finds
(`none` when the file cannot be opened), `malloc_ok` tells whether the row
buffer can be allocated (the second allocation of the 24-bit branch is not
checked by the source and is taken to succeed), `buffer` is the caller's output
buffer.  The result is the returned code and the caller's buffer after the
call.  Sizes that are negative as `int` have no defined meaning as `size_t` and
are clamped to 0; `abs` is the mathematical absolute value (`abs(INT_MIN)` is
undefined in C; the compiled code gives `INT_MIN`, which
`carregar_bitmap_compilado` follows, and the two definitions give the same call
for every expected height that is an `int` other than `INT_MIN`). -/
def carregar_bitmap (nome_arquivo : Option (List Nat)) (malloc_ok : Bool)
    (buffer : List Nat) (largura_esperada altura_esperada : Int) : Int × List Nat :=
  match nome_arquivo with
  | none => (-1, buffer)
  | some dados =>
    let arquivo : Arquivo := ⟨dados, 0⟩
    -- Ler header principal
    let bytes_header := fread arquivo sizeof_BMPHeader
    if bytes_header.length ≠ sizeof_BMPHeader then (-1, buffer) else
    let header := BMPHeader.de_bytes bytes_header 0
    let arquivo := avancar arquivo sizeof_BMPHeader
    -- Verificar assinatura "BM"
    if header.tipo ≠ 0x4D42 then (-1, buffer) else
    -- Ler info header
    let bytes_info := fread arquivo sizeof_BMPInfoHeader
    if bytes_info.length ≠ sizeof_BMPInfoHeader then (-1, buffer) else
    let info := BMPInfoHeader.de_bytes bytes_info 0
    let arquivo := avancar arquivo sizeof_BMPInfoHeader
    -- Verificar dimensões
    if info.largura ≠ largura_esperada ∨ (info.altura.natAbs : Int) ≠ altura_esperada then
      (-1, buffer)
    else
    -- Posicionar no início dos dados
    let arquivo := fseek arquivo (int_de_u32 header.offset)
    let largura_bytes := largura_esperada
    let padding := calc_padding largura_bytes
    let altura_abs := info.altura.natAbs
    let invertido := decide (info.altura > 0)
    if !malloc_ok then (-1, buffer) else
    if info.bits_por_pixel = 8 then
      let arquivo :=
        if info.cores_usadas > 0 ∨ info.bits_por_pixel = 8 then
          fseek arquivo (deslocamento_paleta info.cores_usadas)
        else arquivo
      ler_linhas_8 largura_esperada.toNat (largura_bytes + padding).toNat altura_abs
        invertido altura_abs 0 arquivo buffer
    else if info.bits_por_pixel = 24 then
      let largura_bytes := largura_esperada * 3
      let padding := calc_padding largura_bytes
      ler_linhas_24 largura_esperada.toNat (largura_bytes + padding).toNat altura_abs
        invertido altura_abs 0 arquivo buffer
    else (-1, buffer)

/-! ## `salvar_bitmap` -/

/-- The palette loop, `for (i = 0; i < 256; i++)`, with `n` entries still to
write: entry `i` is `{i, i, i, 0}` (B, G, R, A) as `unsigned char`. -/
def escrever_paleta (cap : Nat) : Nat → Nat → List Nat → List Nat
  | 0, _, arquivo => arquivo
  | n + 1, i, arquivo =>
    escrever_paleta cap n (i + 1) (fwrite cap arquivo [i % 256, i % 256, i % 256, 0])

/-- The row loop, `for (y = altura - 1; y >= 0; y--)`, entered with `y + 1`
rows still to write: row `y` of the buffer, then `padding` zero bytes taken
from `padding_bytes[3]` when `padding > 0`. -/
def escrever_linhas (cap : Nat) (buffer : List Nat) (largura padding : Nat) :
    Nat → List Nat → List Nat
  | 0, arquivo => arquivo
  | y + 1, arquivo =>
    let arquivo := fwrite cap arquivo ((buffer.drop (y * largura)).take largura)
    let arquivo :=
      if padding > 0 then fwrite cap arquivo (([0, 0, 0] : List Nat).take padding)
      else arquivo
    escrever_linhas cap buffer largura padding y arquivo

/-- The function `salvar_bitmap` of `bitmap.c`.  `destino` is `none` when the file cannot be
created and `some cap` when it can and accepts `cap` bytes.  The result is the
returned code and the bytes of the file left behind (`none`: no file). No
result of `fwrite` or `fclose` is looked at by the source. -/
def salvar_bitmap (destino : Option Nat) (buffer : List Nat) (largura altura : Int) :
    Int × Option (List Nat) :=
  match destino with
  | none => (-1, none)
  | some cap =>
    -- Calcular padding
    let largura_bytes := largura
    let padding := calc_padding largura_bytes
    let tamanho_linha := largura_bytes + padding
    let tamanho_imagem := tamanho_linha * altura
    let tamanho_paleta : Int := 256 * 4
    let header : BMPHeader :=
      { tipo := 0x4D42
        tamanho := u32_de_int
          (sizeof_BMPHeader + sizeof_BMPInfoHeader + tamanho_paleta + tamanho_imagem)
        reservado1 := 0
        reservado2 := 0
        offset := u32_de_int (sizeof_BMPHeader + sizeof_BMPInfoHeader + tamanho_paleta) }
    let info : BMPInfoHeader :=
      { tamanho := sizeof_BMPInfoHeader
        largura := largura
        altura := altura
        planos := 1
        bits_por_pixel := 8
        compressao := 0
        tamanho_imagem := u32_de_int tamanho_imagem
        resolucao_x := 0
        resolucao_y := 0
        cores_usadas := 256
        cores_importantes := 256 }
    -- Escrever headers
    let arquivo := fwrite cap [] header.bytes
    let arquivo := fwrite cap arquivo info.bytes
    -- Escrever paleta de cores (escala de cinza)
    let arquivo := escrever_paleta cap 256 0 arquivo
    -- Escrever dados da imagem (de baixo para cima)
    let arquivo := escrever_linhas cap buffer largura.toNat padding.toNat altura.toNat arquivo
    (0, some arquivo)

/-! ## Notions used to state the properties -/

/-- Position of the stream when the row loop of `carregar_bitmap` starts, for a
file whose two headers were read whole: after `fseek` to the declared offset
and, for 8 bits per pixel, after the second `fseek` past the colour table. -/
def inicio_pixels (dados : List Nat) : Nat :=
  let header := BMPHeader.de_bytes dados 0
  let info := BMPInfoHeader.de_bytes dados 14
  let arquivo := fseek ⟨dados, 54⟩ (int_de_u32 header.offset)
  if info.bits_por_pixel = 8 then (fseek arquivo (deslocamento_paleta info.cores_usadas)).pos
  else arquivo.pos

/-- Number of bytes `carregar_bitmap` reads for one stored row: `largura_bytes + padding`,
with `largura_bytes` three times the width for 24 bits per pixel. -/
def bytes_por_linha (largura_esperada : Int) (bits_por_pixel : Nat) : Nat :=
  if bits_por_pixel = 24 then (largura_esperada * 3 + calc_padding (largura_esperada * 3)).toNat
  else (largura_esperada + calc_padding largura_esperada).toNat

/-- The checks `carregar_bitmap` makes on the headers before it reads pixel rows:
both headers present, magic, declared dimensions, supported depth. -/
def passa_validacao (dados : List Nat) (largura_esperada altura_esperada : Int) : Bool :=
  decide (54 ≤ dados.length) &&
  decide ((BMPHeader.de_bytes dados 0).tipo = 0x4D42) &&
  decide ((BMPInfoHeader.de_bytes dados 14).largura = largura_esperada) &&
  decide (((BMPInfoHeader.de_bytes dados 14).altura.natAbs : Int) = altura_esperada) &&
  (decide ((BMPInfoHeader.de_bytes dados 14).bits_por_pixel = 8) ||
    decide ((BMPInfoHeader.de_bytes dados 14).bits_por_pixel = 24))

/-- The 256 palette entries as they reach the file when no write is short,
from entry `i` on, `n` entries. -/
def paleta_bytes : Nat → Nat → List Nat
  | 0, _ => []
  | n + 1, i => [i % 256, i % 256, i % 256, 0] ++ paleta_bytes n (i + 1)

/-- The stored rows as they reach the file when no write is short: rows
`y - 1`, ..., `0` of the buffer, each followed by `padding` zero bytes. -/
def linhas_bytes (buffer : List Nat) (largura padding : Nat) : Nat → List Nat
  | 0 => []
  | y + 1 =>
    (buffer.drop (y * largura)).take largura ++ List.replicate padding 0
      ++ linhas_bytes buffer largura padding y

/-- The file `salvar_bitmap` produces for a `w` by `h` frame when every write is
complete: the two headers, the palette, the stored rows. -/
def arquivo_salvo (buffer : List Nat) (w h : Nat) : List Nat :=
  (BMPHeader.mk 0x4D42 (1078 + (w + 3) / 4 * 4 * h) 0 0 1078).bytes
    ++ (BMPInfoHeader.mk 40 w h 1 8 0 ((w + 3) / 4 * 4 * h) 0 0 256 256).bytes
    ++ paleta_bytes 256 0
    ++ linhas_bytes buffer w ((w + 3) / 4 * 4 - w) h

/-- Value of a stored pixel as `carregar_bitmap` computes it from the row that
starts at byte `p` of the file: the byte of column `x` for 8 bits per pixel, the
conversion of the triple at `3 * x` (blue, green, red) for 24. -/
def pixel_armazenado (dados : List Nat) (bits_por_pixel p x : Nat) : Option Nat :=
  if bits_por_pixel = 24 then
    some (cinza (dados.getD (p + (x * 3 + 2)) 0) (dados.getD (p + (x * 3 + 1)) 0)
      (dados.getD (p + x * 3) 0))
  else dados[p + x]?

/-! ## Small files used as concrete inputs -/

/-- A file cut short: headers declaring 1 x 2 pixels, 8 bits per pixel and one
colour, the colour table, and only the first of the two stored rows (`7` and
three bytes of padding). -/
def arquivo_cortado : List Nat :=
  [66, 77, 66, 0, 0, 0, 0, 0, 0, 0, 58, 0, 0, 0,
   40, 0, 0, 0, 1, 0, 0, 0, 2, 0, 0, 0, 1, 0, 8, 0, 0, 0, 0, 0, 8, 0, 0, 0,
   0, 0, 0, 0, 0, 0, 0, 0, 1, 0, 0, 0, 1, 0, 0, 0,
   0, 0, 0, 0,
   7, 0, 0, 0]

/-- The complete 1 x 2 file: `arquivo_cortado` followed by its second stored
row (`3` and three bytes of padding); the declared height is 2. -/
def arquivo_de_baixo_para_cima : List Nat := arquivo_cortado ++ [3, 0, 0, 0]

/-- The same image stored top to bottom: declared height -2 and the two stored
rows in the other order. -/
def arquivo_de_cima_para_baixo : List Nat :=
  [66, 77, 66, 0, 0, 0, 0, 0, 0, 0, 58, 0, 0, 0,
   40, 0, 0, 0, 1, 0, 0, 0, 254, 255, 255, 255, 1, 0, 8, 0, 0, 0, 0, 0, 8, 0, 0, 0,
   0, 0, 0, 0, 0, 0, 0, 0, 1, 0, 0, 0, 1, 0, 0, 0,
   0, 0, 0, 0,
   3, 0, 0, 0,
   7, 0, 0, 0]

/-- The file `arquivo_de_baixo_para_cima` with other values in its six padding bytes. -/
def arquivo_com_outro_padding : List Nat := arquivo_cortado.take 59 ++ [1, 2, 3, 3, 4, 5, 6]

/-! ## The formula of the specification for 24-bit pixels -/

/-- The value the specification gives for a 24-bit pixel: `Y = 0.299 R + 0.587 G + 0.114 B`
in exact arithmetic, truncated toward zero to an unsigned 8-bit value. -/
def luma_da_formula (r g b : Nat) : Nat := (299 * r + 587 * g + 114 * b) / 1000 % 256

/-- A 24-bit file of 1 x 1 pixel: the two headers (pixel data at byte 54) and
one stored row, the triple blue 1, green 1, red 1 and one byte of padding. -/
def arquivo_cinza_24 : List Nat :=
  [66, 77, 58, 0, 0, 0, 0, 0, 0, 0, 54, 0, 0, 0,
   40, 0, 0, 0, 1, 0, 0, 0, 1, 0, 0, 0, 1, 0, 24, 0, 0, 0, 0, 0, 4, 0, 0, 0,
   0, 0, 0, 0, 0, 0, 0, 0, 0, 0, 0, 0, 0, 0, 0, 0,
   1, 1, 1, 0]

/-! ## Files whose colour count does not fit the arithmetic of the decoder -/

/-- A file of 58 bytes: headers declaring 1 x 2 pixels, 8 bits per pixel,
`0xFFFFFFFF` colours and 7 important colours, followed by the first entry of
the colour table, whose blue byte is `azul`; no stored row follows. -/
def arquivo_paleta_cortada (azul : Nat) : List Nat :=
  [66, 77, 58, 0, 0, 0, 0, 0, 0, 0, 58, 0, 0, 0,
   40, 0, 0, 0, 1, 0, 0, 0, 2, 0, 0, 0, 1, 0, 8, 0, 0, 0, 0, 0, 8, 0, 0, 0,
   0, 0, 0, 0, 0, 0, 0, 0, 255, 255, 255, 255, 7, 0, 0, 0,
   azul, 0, 0, 0]

/-- The number of entries the decoder takes the colour table of an 8-bit file
to have: the field `cores_usadas`, and 256 when the field is 0. -/
def entradas_da_paleta (dados : List Nat) : Nat :=
  if (BMPInfoHeader.de_bytes dados 14).cores_usadas = 0 then 256
  else (BMPInfoHeader.de_bytes dados 14).cores_usadas

/-- The value the compiled code gives for `abs(v)` on a 32-bit `int`: the
magnitude of `v`, and `INT_MIN` for `v = INT_MIN`, whose magnitude is not an
`int` (the negation wraps; the call is undefined in C). -/
def abs_de_int (v : Int) : Int :=
  if v = -2147483648 then -2147483648 else (v.natAbs : Int)

/-- The function `carregar_bitmap` of `bitmap.c` with `abs(info.altura)` as the
compiled code computes it (`abs_de_int`), where the definition `carregar_bitmap`
above has the mathematical absolute value: the comparison with
`altura_esperada` and the bound `altura_abs` of the row loops are those of the
code also for the height field `0x80000000`, for which `altura_abs` is negative
and the row loop runs no turn.  Everything else is as in `carregar_bitmap`. -/
def carregar_bitmap_compilado (nome_arquivo : Option (List Nat)) (malloc_ok : Bool)
    (buffer : List Nat) (largura_esperada altura_esperada : Int) : Int × List Nat :=
  match nome_arquivo with
  | none => (-1, buffer)
  | some dados =>
    let arquivo : Arquivo := ⟨dados, 0⟩
    -- Ler header principal
    let bytes_header := fread arquivo sizeof_BMPHeader
    if bytes_header.length ≠ sizeof_BMPHeader then (-1, buffer) else
    let header := BMPHeader.de_bytes bytes_header 0
    let arquivo := avancar arquivo sizeof_BMPHeader
    -- Verificar assinatura "BM"
    if header.tipo ≠ 0x4D42 then (-1, buffer) else
    -- Ler info header
    let bytes_info := fread arquivo sizeof_BMPInfoHeader
    if bytes_info.length ≠ sizeof_BMPInfoHeader then (-1, buffer) else
    let info := BMPInfoHeader.de_bytes bytes_info 0
    let arquivo := avancar arquivo sizeof_BMPInfoHeader
    -- Verificar dimensões
    if info.largura ≠ largura_esperada ∨ abs_de_int info.altura ≠ altura_esperada then
      (-1, buffer)
    else
    -- Posicionar no início dos dados
    let arquivo := fseek arquivo (int_de_u32 header.offset)
    let largura_bytes := largura_esperada
    let padding := calc_padding largura_bytes
    let altura_abs := (abs_de_int info.altura).toNat
    let invertido := decide (info.altura > 0)
    if !malloc_ok then (-1, buffer) else
    if info.bits_por_pixel = 8 then
      let arquivo :=
        if info.cores_usadas > 0 ∨ info.bits_por_pixel = 8 then
          fseek arquivo (deslocamento_paleta info.cores_usadas)
        else arquivo
      ler_linhas_8 largura_esperada.toNat (largura_bytes + padding).toNat altura_abs
        invertido altura_abs 0 arquivo buffer
    else if info.bits_por_pixel = 24 then
      let largura_bytes := largura_esperada * 3
      let padding := calc_padding largura_bytes
      ler_linhas_24 largura_esperada.toNat (largura_bytes + padding).toNat altura_abs
        invertido altura_abs 0 arquivo buffer
    else (-1, buffer)

/-- A file of 54 bytes, the two headers and nothing else: 1 pixel wide, 8 bits
per pixel, and the height field `0x80000000`, the `int` `INT_MIN`. -/
def arquivo_altura_minima : List Nat :=
  [66, 77, 54, 0, 0, 0, 0, 0, 0, 0, 54, 0, 0, 0,
   40, 0, 0, 0, 1, 0, 0, 0, 0, 0, 0, 128, 1, 0, 8, 0, 0, 0, 0, 0, 0, 0, 0, 0,
   0, 0, 0, 0, 0, 0, 0, 0, 0, 0, 0, 0, 0, 0, 0, 0]

end Bitmap

namespace App

/-!
# The controller (`src/hps/main.c`) and the command interface (`src/hps/coprocessador.h`)

Conventions of the embedding

* Frames are lists of bytes, `int` values are integers; arithmetic on `int` that
  would overflow is undefined in C and is left unbounded here.
* `nivel_zoom` is a `float`.  Every value the program stores in it is a power of
  two between `2^-3` and `2^3`, on which the products, quotients and
  comparisons of the source are exact, so the model uses rational numbers.
* The calls made to the coprocessor are recorded, in order, as a list of
  `Comando`.
* What the environment decides is explicit: the success of each `malloc` and the
  bytes a fresh block holds (`Ambiente`), the input events and the key read in
  one turn of the main loop (`Entrada`).
* Text printed on the terminal is not part of the model.
-/

/-! ## Constants -/

/-- Macro `IMG_WIDTH`. -/
def IMG_WIDTH : Int := 160

/-- Macro `IMG_HEIGHT`. -/
def IMG_HEIGHT : Int := 120

/-- Macro `IMG_SIZE`, `(IMG_WIDTH * IMG_HEIGHT)`. -/
def IMG_SIZE : Int := IMG_WIDTH * IMG_HEIGHT

/-- Macro `CURSOR_SIZE`. -/
def CURSOR_SIZE : Int := 5

/-- Macro `CURSOR_COLOR`. -/
def CURSOR_COLOR : Nat := 255

/-- Macro `CURSOR_BORDER_COLOR`. -/
def CURSOR_BORDER_COLOR : Nat := 0

/-- Macro `RECT_THICKNESS`. -/
def RECT_THICKNESS : Int := 2

/-- Macro `RECT_COLOR`. -/
def RECT_COLOR : Nat := 255

/-- Macro `CORNER_SIZE`. -/
def CORNER_SIZE : Int := 8

/-! ## Data -/

/-- The zoom region, `JanelaZoom`. -/
structure JanelaZoom where
  x1 : Int
  y1 : Int
  x2 : Int
  y2 : Int
  ativo : Int
  pontos_definidos : Int
deriving DecidableEq, Repr

/-- The algorithms, `TipoAlgoritmo`. -/
inductive TipoAlgoritmo where
  | ALG_VIZINHO_PROXIMO
  | ALG_REPLICACAO
  | ALG_MEDIA
deriving DecidableEq, Repr

open TipoAlgoritmo

/-- The application state, `EstadoApp`; the two frames are held by value. -/
structure EstadoApp where
  imagem_original : List Nat
  imagem_atual : List Nat
  janela : JanelaZoom
  algoritmo : TipoAlgoritmo
  nivel_zoom : ℚ
  mouse_x : Int
  mouse_y : Int
deriving DecidableEq

/-- A call of the interface declared in `coprocessador.h`. -/
inductive Comando where
  | iniciar_coprocessador
  | encerrar_coprocessador
  | carregar_imagem (buffer_hps : List Nat) (tamanho : Int)
  | limpar_imagem
  | api_bypass
  | api_media_0_5x
  | api_media_0_25x
  | api_vizinho_2x
  | api_vizinho_4x
  | api_vizinho_0_5x
  | api_vizinho_0_25x
  | api_replicacao_2x
  | api_replicacao_4x
deriving DecidableEq, Repr

/-- Modelled from the spec: the assembly routines declared in `coprocessador.h`
are not among the sources.  Each `api_*` routine is taken to send the operation
code its declaration documents (`Opcode: n`), a value of the 10-bit range the
specification gives for operation codes; the transfer routines send none. -/
def Comando.opcode : Comando → Option Nat
  | .iniciar_coprocessador => none
  | .encerrar_coprocessador => none
  | .carregar_imagem _ _ => none
  | .limpar_imagem => none
  | .api_bypass => some 0
  | .api_media_0_5x => some 11
  | .api_media_0_25x => some 12
  | .api_vizinho_2x => some 17
  | .api_vizinho_4x => some 18
  | .api_vizinho_0_5x => some 27
  | .api_vizinho_0_25x => some 28
  | .api_replicacao_2x => some 33
  | .api_replicacao_4x => some 34

/-- What the environment decides during one call: whether each allocation
succeeds and which bytes a block returned by `malloc` holds (byte `i` of a
fresh block is `lixo i`). -/
structure Ambiente where
  malloc_imagens : Bool
  malloc_regiao : Bool
  malloc_temporario : Bool
  malloc_linha : Bool
  lixo : Nat → Nat

/-- A block of `n` bytes as `malloc` returns it. -/
def bloco (amb : Ambiente) (n : Int) : List Nat := (List.range n.toNat).map amb.lixo

/-- The store `buffer[i] = v`.  A store outside the buffer is undefined in C; the
model leaves the buffer as it is. -/
def escrever (buffer : List Nat) (i : Int) (v : Nat) : List Nat :=
  if 0 ≤ i then buffer.set i.toNat v else buffer

/-- The load `buffer[i]`.  A load outside the buffer is undefined in C; the model
gives 0. -/
def ler (buffer : List Nat) (i : Int) : Nat :=
  if 0 ≤ i then buffer.getD i.toNat 0 else 0

/-! ## Drawing into a frame -/

/-- The loop `for (x = start; x <= end; x++) buffer[y * largura + x] = cor;` with
`n` iterations left. -/
def laco_linha_horizontal (y largura : Int) (cor : Nat) : Nat → Int → List Nat → List Nat
  | 0, _, buffer => buffer
  | n + 1, x, buffer =>
    laco_linha_horizontal y largura cor n (x + 1) (escrever buffer (y * largura + x) cor)

/-- The function `desenhar_linha_horizontal`. -/
def desenhar_linha_horizontal (buffer : List Nat) (x1 x2 y largura altura : Int)
    (cor : Nat) : List Nat :=
  if y < 0 ∨ y ≥ altura then buffer
  else
    let start := if x1 < 0 then 0 else x1
    let fim := if x2 ≥ largura then largura - 1 else x2
    laco_linha_horizontal y largura cor (fim - start + 1).toNat start buffer

/-- The loop `for (y = start; y <= end; y++) buffer[y * largura + x] = cor;` with
`n` iterations left. -/
def laco_linha_vertical (x largura : Int) (cor : Nat) : Nat → Int → List Nat → List Nat
  | 0, _, buffer => buffer
  | n + 1, y, buffer =>
    laco_linha_vertical x largura cor n (y + 1) (escrever buffer (y * largura + x) cor)

/-- The function `desenhar_linha_vertical`. -/
def desenhar_linha_vertical (buffer : List Nat) (x y1 y2 largura altura : Int)
    (cor : Nat) : List Nat :=
  if x < 0 ∨ x ≥ largura then buffer
  else
    let start := if y1 < 0 then 0 else y1
    let fim := if y2 ≥ altura then altura - 1 else y2
    laco_linha_vertical x largura cor (fim - start + 1).toNat start buffer

/-- The function `desenhar_cursor`. -/
def desenhar_cursor (buffer : List Nat) (mouse_x mouse_y largura altura : Int) : List Nat :=
  let buffer := desenhar_linha_horizontal buffer (mouse_x - CURSOR_SIZE) (mouse_x + CURSOR_SIZE)
    (mouse_y - 1) largura altura CURSOR_BORDER_COLOR
  let buffer := desenhar_linha_horizontal buffer (mouse_x - CURSOR_SIZE) (mouse_x + CURSOR_SIZE)
    mouse_y largura altura CURSOR_COLOR
  let buffer := desenhar_linha_horizontal buffer (mouse_x - CURSOR_SIZE) (mouse_x + CURSOR_SIZE)
    (mouse_y + 1) largura altura CURSOR_BORDER_COLOR
  let buffer := desenhar_linha_vertical buffer (mouse_x - 1) (mouse_y - CURSOR_SIZE)
    (mouse_y + CURSOR_SIZE) largura altura CURSOR_BORDER_COLOR
  let buffer := desenhar_linha_vertical buffer mouse_x (mouse_y - CURSOR_SIZE)
    (mouse_y + CURSOR_SIZE) largura altura CURSOR_COLOR
  desenhar_linha_vertical buffer (mouse_x + 1) (mouse_y - CURSOR_SIZE)
    (mouse_y + CURSOR_SIZE) largura altura CURSOR_BORDER_COLOR

/-- The first loop of `desenhar_retangulo`, `for (i = 0; i < RECT_THICKNESS; i++)`
over the top and bottom sides, with `n` iterations left. -/
def laco_bordas_horizontais (x1 y1 x2 y2 largura altura : Int) :
    Nat → Int → List Nat → List Nat
  | 0, _, buffer => buffer
  | n + 1, i, buffer =>
    let buffer := desenhar_linha_horizontal buffer x1 x2 (y1 + i) largura altura RECT_COLOR
    let buffer := desenhar_linha_horizontal buffer x1 x2 (y2 - i) largura altura RECT_COLOR
    laco_bordas_horizontais x1 y1 x2 y2 largura altura n (i + 1) buffer

/-- The second loop of `desenhar_retangulo`, over the left and right sides, with
`n` iterations left. -/
def laco_bordas_verticais (x1 y1 x2 y2 largura altura : Int) :
    Nat → Int → List Nat → List Nat
  | 0, _, buffer => buffer
  | n + 1, i, buffer =>
    let buffer := desenhar_linha_vertical buffer (x1 + i) y1 y2 largura altura RECT_COLOR
    let buffer := desenhar_linha_vertical buffer (x2 - i) y1 y2 largura altura RECT_COLOR
    laco_bordas_verticais x1 y1 x2 y2 largura altura n (i + 1) buffer

/-- The function `desenhar_retangulo`: the corners are put in order, then the
two loops run. -/
def desenhar_retangulo (buffer : List Nat) (x1 y1 x2 y2 largura altura : Int) : List Nat :=
  let (x1, x2) := if x1 > x2 then (x2, x1) else (x1, x2)
  let (y1, y2) := if y1 > y2 then (y2, y1) else (y1, y2)
  let buffer :=
    laco_bordas_horizontais x1 y1 x2 y2 largura altura RECT_THICKNESS.toNat 0 buffer
  laco_bordas_verticais x1 y1 x2 y2 largura altura RECT_THICKNESS.toNat 0 buffer

/-- The function `desenhar_cantos_animados`; `fase % 4` is the truncating remainder of C. -/
def desenhar_cantos_animados (buffer : List Nat) (x y largura altura fase : Int) : List Nat :=
  let tamanho := CORNER_SIZE + fase.tmod 4
  let buffer := desenhar_linha_horizontal buffer (x - 1) (x + tamanho) (y - 1)
    largura altura CURSOR_BORDER_COLOR
  let buffer := desenhar_linha_horizontal buffer x (x + tamanho) y
    largura altura CURSOR_COLOR
  let buffer := desenhar_linha_horizontal buffer (x - 1) (x + tamanho) (y + 1)
    largura altura CURSOR_BORDER_COLOR
  let buffer := desenhar_linha_vertical buffer (x - 1) (y - 1) (y + tamanho)
    largura altura CURSOR_BORDER_COLOR
  let buffer := desenhar_linha_vertical buffer x y (y + tamanho)
    largura altura CURSOR_COLOR
  let buffer := desenhar_linha_vertical buffer (x + 1) (y - 1) (y + tamanho)
    largura altura CURSOR_BORDER_COLOR
  if x ≥ 0 ∧ x < largura ∧ y ≥ 0 ∧ y < altura then
    escrever buffer (y * largura + x) CURSOR_COLOR
  else buffer

/-! ## Regions -/

/-- The function `normalizar_janela`. -/
def normalizar_janela (janela : JanelaZoom) : JanelaZoom :=
  let janela :=
    if janela.x1 > janela.x2 then { janela with x1 := janela.x2, x2 := janela.x1 }
    else janela
  if janela.y1 > janela.y2 then { janela with y1 := janela.y2, y2 := janela.y1 }
  else janela

/-- The inner loop of `extrair_regiao`, `for (x = 0; x < largura_regiao; x++)`,
with `n` iterations left. -/
def extrair_linha (imagem_completa : List Nat) (x1 y1 largura_regiao y : Int) :
    Nat → Int → List Nat → List Nat
  | 0, _, regiao => regiao
  | n + 1, x, regiao =>
    let src_x := x1 + x
    let src_y := y1 + y
    let regiao :=
      if src_x ≥ 0 ∧ src_x < IMG_WIDTH ∧ src_y ≥ 0 ∧ src_y < IMG_HEIGHT then
        escrever regiao (y * largura_regiao + x) (ler imagem_completa (src_y * IMG_WIDTH + src_x))
      else regiao
    extrair_linha imagem_completa x1 y1 largura_regiao y n (x + 1) regiao

/-- The outer loop of `extrair_regiao`, `for (y = 0; y < altura_regiao; y++)`,
with `n` iterations left. -/
def extrair_linhas (imagem_completa : List Nat) (x1 y1 largura_regiao : Int) :
    Nat → Int → List Nat → List Nat
  | 0, _, regiao => regiao
  | n + 1, y, regiao =>
    extrair_linhas imagem_completa x1 y1 largura_regiao n (y + 1)
      (extrair_linha imagem_completa x1 y1 largura_regiao y largura_regiao.toNat 0 regiao)

/-- The function `extrair_regiao`; the result is the region buffer after the call. -/
def extrair_regiao (imagem_completa regiao : List Nat) (x1 y1 x2 y2 : Int) : List Nat :=
  let largura_regiao := x2 - x1
  let altura_regiao := y2 - y1
  extrair_linhas imagem_completa x1 y1 largura_regiao altura_regiao.toNat 0 regiao

/-- The inner loop of `sobrepor_regiao`,
`for (x = 0; x < largura && (x1 + x) < IMG_WIDTH; x++)`, with `n` values of `x`
below `largura` left; the loop ends at the first `x` with `x1 + x >= IMG_WIDTH`. -/
def sobrepor_linha (regiao : List Nat) (x1 y1 largura y : Int) :
    Nat → Int → List Nat → List Nat
  | 0, _, imagem_base => imagem_base
  | n + 1, x, imagem_base =>
    if x1 + x < IMG_WIDTH then
      let dst_idx := (y1 + y) * IMG_WIDTH + (x1 + x)
      let src_idx := y * largura + x
      let imagem_base :=
        if dst_idx < IMG_SIZE then escrever imagem_base dst_idx (ler regiao src_idx)
        else imagem_base
      sobrepor_linha regiao x1 y1 largura y n (x + 1) imagem_base
    else imagem_base

/-- The outer loop of `sobrepor_regiao`,
`for (y = 0; y < altura && (y1 + y) < IMG_HEIGHT; y++)`, with `n` values of `y`
below `altura` left. -/
def sobrepor_linhas (regiao : List Nat) (x1 y1 largura : Int) :
    Nat → Int → List Nat → List Nat
  | 0, _, imagem_base => imagem_base
  | n + 1, y, imagem_base =>
    if y1 + y < IMG_HEIGHT then
      sobrepor_linhas regiao x1 y1 largura n (y + 1)
        (sobrepor_linha regiao x1 y1 largura y largura.toNat 0 imagem_base)
    else imagem_base

/-- The function `sobrepor_regiao`; the result is the base image after the call. -/
def sobrepor_regiao (imagem_base regiao : List Nat) (x1 y1 largura altura : Int) : List Nat :=
  sobrepor_linhas regiao x1 y1 largura altura.toNat 0 imagem_base

/-! ## Algorithm and zoom -/

/-- The function `algoritmo_zoom_compativel`. -/
def algoritmo_zoom_compativel (algoritmo : TipoAlgoritmo) (zoom : ℚ) : Int :=
  if algoritmo = ALG_MEDIA ∧ zoom > 1 then 0
  else if algoritmo = ALG_REPLICACAO ∧ zoom < 1 then 0
  else 1

/-- The function `ajustar_zoom_para_algoritmo`. -/
def ajustar_zoom_para_algoritmo (estado : EstadoApp) : EstadoApp :=
  let estado :=
    if estado.algoritmo = ALG_MEDIA ∧ estado.nivel_zoom > 1 then
      { estado with nivel_zoom := 0.5 }
    else estado
  if estado.algoritmo = ALG_REPLICACAO ∧ estado.nivel_zoom < 1 then
    { estado with nivel_zoom := 2 }
  else estado

/-- The function `validar_mudanca_zoom`. -/
def validar_mudanca_zoom (algoritmo : TipoAlgoritmo) (zoom_atual : ℚ) (direcao : Int) : Int :=
  let novo_zoom := if direcao > 0 then zoom_atual * 2 else zoom_atual / 2
  if algoritmo = ALG_MEDIA ∧ novo_zoom > 1 then 0
  else if algoritmo = ALG_REPLICACAO ∧ novo_zoom < 1 then 0
  else 1

/-! ## The render pass -/

/-- The chain of tests on `nivel_zoom` and `algoritmo` that ends the region
branch of `processar_com_algoritmo`: the `api_*` routines it calls. -/
def despachar_regiao (estado : EstadoApp) : List Comando :=
  if estado.nivel_zoom = 2 then
    if estado.algoritmo = ALG_MEDIA then [Comando.api_vizinho_2x]
    else if estado.algoritmo = ALG_REPLICACAO then [Comando.api_replicacao_2x]
    else [Comando.api_vizinho_2x]
  else if estado.nivel_zoom = 4 then
    if estado.algoritmo = ALG_MEDIA then [Comando.api_vizinho_4x]
    else if estado.algoritmo = ALG_REPLICACAO then [Comando.api_replicacao_4x]
    else [Comando.api_vizinho_4x]
  else if estado.nivel_zoom = 0.5 then
    if estado.algoritmo = ALG_REPLICACAO then [Comando.api_vizinho_0_5x]
    else if estado.algoritmo = ALG_MEDIA then [Comando.api_media_0_5x]
    else [Comando.api_vizinho_0_5x]
  else if estado.nivel_zoom = 0.25 then
    if estado.algoritmo = ALG_REPLICACAO then [Comando.api_vizinho_0_25x]
    else if estado.algoritmo = ALG_MEDIA then [Comando.api_media_0_25x]
    else [Comando.api_vizinho_0_25x]
  else []

/-- The chain of tests that ends the full-frame branch of
`processar_com_algoritmo`. -/
def despachar_completa (estado : EstadoApp) : List Comando :=
  if estado.nivel_zoom = 1 then [Comando.api_bypass]
  else if estado.nivel_zoom = 2 then
    if estado.algoritmo = ALG_MEDIA then [Comando.api_vizinho_2x]
    else if estado.algoritmo = ALG_REPLICACAO then [Comando.api_replicacao_2x]
    else [Comando.api_vizinho_2x]
  else if estado.nivel_zoom = 4 then
    if estado.algoritmo = ALG_MEDIA then [Comando.api_vizinho_4x]
    else if estado.algoritmo = ALG_REPLICACAO then [Comando.api_replicacao_4x]
    else [Comando.api_vizinho_4x]
  else if estado.nivel_zoom = 0.5 then
    if estado.algoritmo = ALG_REPLICACAO then [Comando.api_vizinho_0_5x]
    else if estado.algoritmo = ALG_MEDIA then [Comando.api_media_0_5x]
    else [Comando.api_vizinho_0_5x]
  else if estado.nivel_zoom = 0.25 then
    if estado.algoritmo = ALG_REPLICACAO then [Comando.api_vizinho_0_25x]
    else if estado.algoritmo = ALG_MEDIA then [Comando.api_media_0_25x]
    else [Comando.api_vizinho_0_25x]
  else []

/-- The function `processar_com_algoritmo`.  The static `frame_counter` is an argument and a
result; the third component lists the calls made to the coprocessor, in order. -/
def processar_com_algoritmo (amb : Ambiente) (estado : EstadoApp) (frame_counter : Int) :
    EstadoApp × Int × List Comando :=
  -- Copiar imagem original para buffer de trabalho
  let estado : EstadoApp :=
    { estado with
      imagem_atual := Bitmap.memcpy estado.imagem_atual 0 estado.imagem_original IMG_SIZE.toNat }
  if estado.janela.ativo ≠ 0 ∧ estado.janela.pontos_definidos = 2 ∧ estado.nivel_zoom ≠ 1 then
    let estado : EstadoApp := { estado with janela := normalizar_janela estado.janela }
    let largura_janela := estado.janela.x2 - estado.janela.x1
    let altura_janela := estado.janela.y2 - estado.janela.y1
    let tamanho_regiao := largura_janela * altura_janela
    let comandos : List Comando :=
      if !amb.malloc_regiao ∨ !amb.malloc_temporario then []
      else
        -- 1. Extrair apenas a região selecionada
        let regiao_extraida := extrair_regiao estado.imagem_original (bloco amb tamanho_regiao)
          estado.janela.x1 estado.janela.y1 estado.janela.x2 estado.janela.y2
        -- 2. Criar imagem 160x120 com a região no centro (resto preto)
        let buffer_temporario := List.replicate IMG_SIZE.toNat 0
        let offset_x := (IMG_WIDTH - largura_janela).tdiv 2
        let offset_y := (IMG_HEIGHT - altura_janela).tdiv 2
        let buffer_temporario := sobrepor_regiao buffer_temporario regiao_extraida
          offset_x offset_y largura_janela altura_janela
        -- 3. Enviar buffer temporário para FPGA e processar
        Comando.carregar_imagem buffer_temporario IMG_SIZE :: despachar_regiao estado
    -- cleanup: desenhar overlays na imagem original
    let estado : EstadoApp :=
      { estado with
        imagem_atual := desenhar_retangulo estado.imagem_atual estado.janela.x1 estado.janela.y1
          estado.janela.x2 estado.janela.y2 IMG_WIDTH IMG_HEIGHT }
    (estado, frame_counter, comandos)
  else
    let (imagem_atual, frame_counter) :=
      if estado.janela.pontos_definidos = 1 then
        (desenhar_cantos_animados estado.imagem_atual estado.janela.x1 estado.janela.y1
          IMG_WIDTH IMG_HEIGHT frame_counter, frame_counter + 1)
      else (estado.imagem_atual, frame_counter)
    let estado : EstadoApp :=
      { estado with
        imagem_atual := desenhar_cursor imagem_atual estado.mouse_x estado.mouse_y
          IMG_WIDTH IMG_HEIGHT }
    (estado, frame_counter,
      Comando.carregar_imagem estado.imagem_atual IMG_SIZE :: despachar_completa estado)

/-! ## Loading another image -/

/-- The function `carregar_nova_imagem`.  `linha` is what `fgets` leaves in `caminho` (`none`
when it returns `NULL`), `arquivos` what `fopen` finds under a path.  The result
is the returned value, the state after the call and the calls made to the
coprocessor. -/
def carregar_nova_imagem (amb : Ambiente) (linha : Option (List Char))
    (arquivos : List Char → Option (List Nat)) (estado : EstadoApp) :
    Int × EstadoApp × List Comando :=
  match linha with
  | none => (0, estado, [])
  | some caminho =>
    -- Remover newline
    let caminho := caminho.takeWhile (fun c => c ≠ Char.ofNat 10)
    -- Validar entrada
    if caminho.length = 0 then (0, estado, [])
    else if !amb.malloc_temporario then (0, estado, [])
    else
      -- Tentar carregar nova imagem em buffer temporário
      let temp_buffer := bloco amb IMG_SIZE
      let resultado := Bitmap.carregar_bitmap (arquivos caminho) amb.malloc_linha temp_buffer
        IMG_WIDTH IMG_HEIGHT
      if resultado.1 ≠ 0 then (0, estado, [])
      else
        let temp_buffer := resultado.2
        -- Sucesso! Substituir imagem atual
        let estado : EstadoApp :=
          { estado with
            imagem_original :=
              Bitmap.memcpy estado.imagem_original 0 temp_buffer IMG_SIZE.toNat
            imagem_atual := Bitmap.memcpy estado.imagem_atual 0 temp_buffer IMG_SIZE.toNat }
        -- Resetar estado
        let estado : EstadoApp :=
          { estado with
            janela := { estado.janela with pontos_definidos := 0, ativo := 0 }
            nivel_zoom := 1
            algoritmo := ALG_VIZINHO_PROXIMO }
        -- Atualizar display
        (1, estado, [Comando.carregar_imagem estado.imagem_atual IMG_SIZE, Comando.api_bypass])

/-! ## The main loop -/

/-- An input event, `struct input_event` without its time stamp. -/
structure input_event where
  type : Int
  code : Int
  value : Int
deriving DecidableEq, Repr

/-- Event type `EV_KEY` of `linux/input.h`. -/
def EV_KEY : Int := 1

/-- Event type `EV_REL` of `linux/input.h`. -/
def EV_REL : Int := 2

/-- Event code `REL_X` of `linux/input.h`. -/
def REL_X : Int := 0

/-- Event code `REL_Y` of `linux/input.h`. -/
def REL_Y : Int := 1

/-- Event code `BTN_LEFT` of `linux/input.h`. -/
def BTN_LEFT : Int := 272

/-- The variables of `main` that live across the turns of its loop, the static
`frame_counter` of `processar_com_algoritmo`, and the calls made to the
coprocessor so far. -/
structure Laco where
  estado : EstadoApp
  frame_counter : Int
  mouse_fd : Int
  executando : Int
  mouse_moved : Int
  last_mouse_x : Int
  last_mouse_y : Int
  update_counter : Int
  comandos : List Comando

/-- What one turn of the main loop receives: the events `read` delivers, the
key `getchar` returns when one is available, what a reload would read, and the
outcome of the allocations. -/
structure Entrada where
  eventos : List input_event
  tecla : Option Char
  linha : Option (List Char)
  arquivos : List Char → Option (List Nat)
  amb : Ambiente

/-- The statement `processar_com_algoritmo(&estado);` of `main`. -/
def chamar_processar (amb : Ambiente) (l : Laco) : Laco :=
  let r := processar_com_algoritmo amb l.estado l.frame_counter
  { l with estado := r.1, frame_counter := r.2.1, comandos := l.comandos ++ r.2.2 }

/-- The body of `while (read(mouse_fd, &ev, sizeof(ev)) > 0)` for one event. -/
def tratar_evento (ev : input_event) (l : Laco) : Laco :=
  if ev.type = EV_REL then
    if ev.code = REL_X then
      let mouse_x := l.estado.mouse_x + ev.value
      let mouse_x := if mouse_x < 0 then 0 else mouse_x
      let mouse_x := if mouse_x ≥ IMG_WIDTH then IMG_WIDTH - 1 else mouse_x
      { l with estado := { l.estado with mouse_x := mouse_x }, mouse_moved := 1 }
    else if ev.code = REL_Y then
      let mouse_y := l.estado.mouse_y + ev.value
      let mouse_y := if mouse_y < 0 then 0 else mouse_y
      let mouse_y := if mouse_y ≥ IMG_HEIGHT then IMG_HEIGHT - 1 else mouse_y
      { l with estado := { l.estado with mouse_y := mouse_y }, mouse_moved := 1 }
    else l
  else if ev.type = EV_KEY ∧ ev.code = BTN_LEFT ∧ ev.value = 1 then
    -- Clique do botão esquerdo - APENAS EM MODO BYPASS (1X)
    if l.estado.nivel_zoom ≠ 1 then l
    else if l.estado.janela.pontos_definidos = 0 then
      { l with
        estado :=
          { l.estado with
            janela :=
              { l.estado.janela with
                x1 := l.estado.mouse_x, y1 := l.estado.mouse_y, pontos_definidos := 1 } }
        mouse_moved := 1 }
    else if l.estado.janela.pontos_definidos = 1 then
      { l with
        estado :=
          { l.estado with
            janela :=
              normalizar_janela
                { l.estado.janela with
                  x2 := l.estado.mouse_x, y2 := l.estado.mouse_y, pontos_definidos := 2,
                  ativo := 1 } }
        mouse_moved := 1 }
    else l
  else l

/-- The `switch (tecla)` of `main`. -/
def tratar_tecla (e : Entrada) (tecla : Char) (l : Laco) : Laco :=
  if tecla = '+' ∨ tecla = '=' then
    -- Zoom in
    if l.estado.nivel_zoom < 4 then
      if validar_mudanca_zoom l.estado.algoritmo l.estado.nivel_zoom 1 ≠ 0 then
        chamar_processar e.amb
          { l with estado := { l.estado with nivel_zoom := l.estado.nivel_zoom * 2 } }
      else l
    else l
  else if tecla = '-' ∨ tecla = '_' then
    -- Zoom out
    if l.estado.nivel_zoom > 0.25 then
      if validar_mudanca_zoom l.estado.algoritmo l.estado.nivel_zoom (-1) ≠ 0 then
        chamar_processar e.amb
          { l with estado := { l.estado with nivel_zoom := l.estado.nivel_zoom / 2 } }
      else l
    else l
  else if tecla = '1' then
    chamar_processar e.amb { l with estado := { l.estado with algoritmo := ALG_VIZINHO_PROXIMO } }
  else if tecla = '2' then
    let estado : EstadoApp := { l.estado with algoritmo := ALG_REPLICACAO }
    -- Se incompatível, volta para 1x
    let estado : EstadoApp :=
      if algoritmo_zoom_compativel estado.algoritmo estado.nivel_zoom = 0 then
        { estado with nivel_zoom := 1 }
      else estado
    chamar_processar e.amb { l with estado := estado }
  else if tecla = '3' then
    let estado : EstadoApp := { l.estado with algoritmo := ALG_MEDIA }
    -- Se incompatível, volta para 1x
    let estado : EstadoApp :=
      if algoritmo_zoom_compativel estado.algoritmo estado.nivel_zoom = 0 then
        { estado with nivel_zoom := 1 }
      else estado
    chamar_processar e.amb { l with estado := estado }
  else if tecla = 'l' ∨ tecla = 'L' then
    -- Carregar nova imagem
    let r := carregar_nova_imagem e.amb e.linha e.arquivos l.estado
    { l with estado := r.2.1, comandos := l.comandos ++ r.2.2 }
  else if tecla = 'r' ∨ tecla = 'R' then
    -- Resetar janela
    chamar_processar e.amb
      { l with
        estado :=
          { l.estado with
            janela := { l.estado.janela with pontos_definidos := 0, ativo := 0 }
            nivel_zoom := 1 } }
  else if tecla = 'q' ∨ tecla = 'Q' then
    { l with executando := 0 }
  else l

/-- The first block of the loop body, `if (mouse_fd >= 0)`: the events are
handled in the order `read` delivers them. -/
def processar_eventos (e : Entrada) (l : Laco) : Laco :=
  if l.mouse_fd ≥ 0 then e.eventos.foldl (fun l ev => tratar_evento ev l) l else l

/-- The second block of the loop body: the display is refreshed when the
cursor moved, at zoom 1 only. -/
def atualizar_ao_mover (e : Entrada) (l : Laco) : Laco :=
  if l.mouse_moved ≠ 0 ∧
      (l.estado.mouse_x ≠ l.last_mouse_x ∨ l.estado.mouse_y ≠ l.last_mouse_y) then
    -- Só atualiza cursor em tempo real se estiver em modo bypass (1x)
    let l := if l.estado.nivel_zoom = 1 then chamar_processar e.amb l else l
    { l with
      last_mouse_x := l.estado.mouse_x, last_mouse_y := l.estado.mouse_y, mouse_moved := 0 }
  else l

/-- The third block of the loop body: the periodic refresh that animates the
first corner, at zoom 1 only. -/
def animar_primeiro_canto (e : Entrada) (l : Laco) : Laco :=
  if l.estado.janela.pontos_definidos = 1 ∧ l.estado.nivel_zoom = 1 then
    let contador := l.update_counter
    let l := { l with update_counter := contador + 1 }
    if contador.tmod 50 = 0 then chamar_processar e.amb l else l
  else l

/-- The fourth block of the loop body: the key, when `kbhit` reports one. -/
def processar_tecla (e : Entrada) (l : Laco) : Laco :=
  match e.tecla with
  | none => l
  | some tecla => tratar_tecla e tecla l

/-- One turn of `while (executando)`: its four blocks in order. -/
def iteracao (e : Entrada) (l : Laco) : Laco :=
  processar_tecla e (animar_primeiro_canto e (atualizar_ao_mover e (processar_eventos e l)))

/-- The turns of the main loop for the given inputs; the loop ends when
`executando` is 0. -/
def executar : List Entrada → Laco → Laco
  | [], l => l
  | e :: es, l => if l.executando ≠ 0 then executar es (iteracao e l) else l

/-- The part of `main` before its loop, for a command line that names one file:
`none` when `main` returns 1 (a failed allocation or a bitmap that does not
load).  `arquivo` is what `fopen` finds under `argv[1]`, `mouse_fd` the
descriptor the calls of `open` end with. -/
def iniciar (amb : Ambiente) (arquivo : Option (List Nat)) (mouse_fd : Int) : Option Laco :=
  if !amb.malloc_imagens then none
  else
    let resultado := Bitmap.carregar_bitmap arquivo amb.malloc_linha (bloco amb IMG_SIZE)
      IMG_WIDTH IMG_HEIGHT
    if resultado.1 ≠ 0 then none
    else
      let imagem_original := resultado.2
      let imagem_atual := Bitmap.memcpy (bloco amb IMG_SIZE) 0 imagem_original IMG_SIZE.toNat
      some
        { estado :=
            { imagem_original := imagem_original
              imagem_atual := imagem_atual
              janela := { x1 := 0, y1 := 0, x2 := 0, y2 := 0, ativo := 0, pontos_definidos := 0 }
              algoritmo := ALG_VIZINHO_PROXIMO
              nivel_zoom := 1
              mouse_x := 0
              mouse_y := 0 }
          frame_counter := 0
          mouse_fd := mouse_fd
          executando := 1
          mouse_moved := 0
          last_mouse_x := -1
          last_mouse_y := -1
          update_counter := 0
          comandos :=
            [Comando.iniciar_coprocessador, Comando.carregar_imagem imagem_atual IMG_SIZE,
              Comando.api_bypass] }

/-- The states of the loop the program can be in: those `executar` reaches from
a state `iniciar` produces. -/
def Alcancavel (l : Laco) : Prop :=
  ∃ amb arquivo mouse_fd l0 entradas,
    iniciar amb arquivo mouse_fd = some l0 ∧ executar entradas l0 = l

/-! ## Notions used to state the properties of the controller -/

/-- The five zoom levels of the specification. -/
def cinco_niveis (z : ℚ) : Prop := z = 0.25 ∨ z = 0.5 ∨ z = 1 ∨ z = 2 ∨ z = 4

/-- The property every turn of the main loop keeps: the zoom is one of the five
levels, the pair of algorithm and zoom passes `algoritmo_zoom_compativel`, and
a selection with two corners has them in order. -/
def estado_coerente (e : EstadoApp) : Prop :=
  cinco_niveis e.nivel_zoom ∧
  algoritmo_zoom_compativel e.algoritmo e.nivel_zoom = 1 ∧
  (e.janela.pontos_definidos = 2 → e.janela.x1 ≤ e.janela.x2 ∧ e.janela.y1 ≤ e.janela.y2)

/-- The operation each pair of algorithm and zoom level stands for: bypass at
zoom 1; otherwise the routine of the algorithm for that level, and the routine
of the nearest neighbour for a level the algorithm does not support.  `none`
outside the five levels. -/
def operacao_da_tabela (a : TipoAlgoritmo) (z : ℚ) : Option Comando :=
  if z = 1 then some Comando.api_bypass
  else
    match a with
    | ALG_VIZINHO_PROXIMO =>
      if z = 2 then some Comando.api_vizinho_2x
      else if z = 4 then some Comando.api_vizinho_4x
      else if z = 0.5 then some Comando.api_vizinho_0_5x
      else if z = 0.25 then some Comando.api_vizinho_0_25x
      else none
    | ALG_REPLICACAO =>
      if z = 2 then some Comando.api_replicacao_2x
      else if z = 4 then some Comando.api_replicacao_4x
      else if z = 0.5 then some Comando.api_vizinho_0_5x
      else if z = 0.25 then some Comando.api_vizinho_0_25x
      else none
    | ALG_MEDIA =>
      if z = 0.5 then some Comando.api_media_0_5x
      else if z = 0.25 then some Comando.api_media_0_25x
      else if z = 2 then some Comando.api_vizinho_2x
      else if z = 4 then some Comando.api_vizinho_4x
      else none

/-- Two selections that differ at most in corner coordinates that no click has
set since the selection was emptied: the same `ativo` and `pontos_definidos`,
the same first corner once one corner is set, and the same four coordinates as
soon as the selection is active or has two corners. -/
def mesma_selecao (j k : JanelaZoom) : Prop :=
  j.ativo = k.ativo ∧ j.pontos_definidos = k.pontos_definidos ∧
  (j.pontos_definidos = 1 → j.x1 = k.x1 ∧ j.y1 = k.y1) ∧
  ((j.ativo ≠ 0 ∨ (j.pontos_definidos ≠ 0 ∧ j.pontos_definidos ≠ 1)) → j = k)

/-- Two application states that differ at most in such corner coordinates. -/
def mesmo_estado (e f : EstadoApp) : Prop :=
  e.imagem_original = f.imagem_original ∧
  e.imagem_atual = f.imagem_atual ∧
  mesma_selecao e.janela f.janela ∧
  e.algoritmo = f.algoritmo ∧
  e.nivel_zoom = f.nivel_zoom ∧
  e.mouse_x = f.mouse_x ∧
  e.mouse_y = f.mouse_y

/-- Two states of the loop that differ at most in such corner coordinates. -/
def mesmo_laco (s t : Laco) : Prop :=
  mesmo_estado s.estado t.estado ∧
  s.frame_counter = t.frame_counter ∧
  s.mouse_fd = t.mouse_fd ∧
  s.executando = t.executando ∧
  s.mouse_moved = t.mouse_moved ∧
  s.last_mouse_x = t.last_mouse_x ∧
  s.last_mouse_y = t.last_mouse_y ∧
  s.update_counter = t.update_counter ∧
  s.comandos = t.comandos

/-- The selection with its four corner coordinates set to 0. -/
def limpar_cantos (l : Laco) : Laco :=
  { l with
    estado :=
      { l.estado with
        janela := { l.estado.janela with x1 := 0, y1 := 0, x2 := 0, y2 := 0 } } }

/-- The left-button press, as `read` delivers it. -/
def clique : input_event := { type := EV_KEY, code := BTN_LEFT, value := 1 }

/-! ## Concrete inputs -/

/-- A state with an all-black image, the empty selection and the cursor at the origin. -/
def estado_exemplo (a : TipoAlgoritmo) (z : ℚ) : EstadoApp :=
  { imagem_original := List.replicate 19200 0
    imagem_atual := List.replicate 19200 0
    janela := { x1 := 0, y1 := 0, x2 := 0, y2 := 0, ativo := 0, pontos_definidos := 0 }
    algoritmo := a
    nivel_zoom := z
    mouse_x := 0
    mouse_y := 0 }

/-- A state of the loop around `estado_exemplo`. -/
def laco_exemplo (a : TipoAlgoritmo) (z : ℚ) : Laco :=
  { estado := estado_exemplo a z
    frame_counter := 0
    mouse_fd := 3
    executando := 1
    mouse_moved := 0
    last_mouse_x := 0
    last_mouse_y := 0
    update_counter := 0
    comandos := [] }

/-- The state `laco_exemplo` with the selection bound to the corners (10, 20)
and (50, 60). -/
def laco_com_selecao (a : TipoAlgoritmo) (z : ℚ) : Laco :=
  { laco_exemplo a z with
    estado :=
      { estado_exemplo a z with
        janela := { x1 := 10, y1 := 20, x2 := 50, y2 := 60, ativo := 1, pontos_definidos := 2 } } }

/-- The state `l` with the cursor at `(x, y)`. -/
def laco_com_cursor (l : Laco) (x y : Int) : Laco :=
  { l with estado := { l.estado with mouse_x := x, mouse_y := y } }

/-- An environment in which every allocation succeeds and fresh blocks hold zeros. -/
def ambiente_exemplo : Ambiente :=
  { malloc_imagens := true
    malloc_regiao := true
    malloc_temporario := true
    malloc_linha := true
    lixo := fun _ => 0 }

/-- A turn of the loop with the given events and key and nothing to reload. -/
def entrada_exemplo (eventos : List input_event) (tecla : Option Char) : Entrada :=
  { eventos := eventos
    tecla := tecla
    linha := none
    arquivos := fun _ => none
    amb := ambiente_exemplo }

/-- The file `salvar_bitmap` writes for the all-black frame of 160 by 120 pixels. -/
def arquivo_exemplo : List Nat := Bitmap.arquivo_salvo (List.replicate 19200 0) 160 120

/-- A turn of the loop with the key `l` and a path under which `fopen` finds
`arquivo_exemplo`. -/
def entrada_de_recarga : Entrada :=
  { eventos := []
    tecla := some 'l'
    linha := some ['a', Char.ofNat 10]
    arquivos := fun _ => some arquivo_exemplo
    amb := ambiente_exemplo }

/-! ## The loops over a buffer with out-of-bounds accesses made explicit

The functions of this section repeat the loops of `desenhar_linha_horizontal`,
`desenhar_linha_vertical`, `extrair_regiao` and `sobrepor_regiao` with every
load and store checked against the length of its buffer: the result is `none`
as soon as one access falls outside. -/

/-- The store `buffer[i] = v`; `none` when `i` is not an index of the buffer. -/
def escrever_verificado (buffer : List Nat) (i : Int) (v : Nat) : Option (List Nat) :=
  if 0 ≤ i ∧ i < buffer.length then some (buffer.set i.toNat v) else none

/-- The load `buffer[i]`; `none` when `i` is not an index of the buffer. -/
def ler_verificado (buffer : List Nat) (i : Int) : Option Nat :=
  if 0 ≤ i ∧ i < buffer.length then some (buffer.getD i.toNat 0) else none

/-- The loop of `desenhar_linha_horizontal`, every store checked. -/
def laco_linha_horizontal_verificado (y largura : Int) (cor : Nat) :
    Nat → Int → List Nat → Option (List Nat)
  | 0, _, buffer => some buffer
  | n + 1, x, buffer =>
    (escrever_verificado buffer (y * largura + x) cor).bind
      (laco_linha_horizontal_verificado y largura cor n (x + 1))

/-- The function `desenhar_linha_horizontal`, every store checked. -/
def desenhar_linha_horizontal_verificado (buffer : List Nat) (x1 x2 y largura altura : Int)
    (cor : Nat) : Option (List Nat) :=
  if y < 0 ∨ y ≥ altura then some buffer
  else
    let start := if x1 < 0 then 0 else x1
    let fim := if x2 ≥ largura then largura - 1 else x2
    laco_linha_horizontal_verificado y largura cor (fim - start + 1).toNat start buffer

/-- The loop of `desenhar_linha_vertical`, every store checked. -/
def laco_linha_vertical_verificado (x largura : Int) (cor : Nat) :
    Nat → Int → List Nat → Option (List Nat)
  | 0, _, buffer => some buffer
  | n + 1, y, buffer =>
    (escrever_verificado buffer (y * largura + x) cor).bind
      (laco_linha_vertical_verificado x largura cor n (y + 1))

/-- The function `desenhar_linha_vertical`, every store checked. -/
def desenhar_linha_vertical_verificado (buffer : List Nat) (x y1 y2 largura altura : Int)
    (cor : Nat) : Option (List Nat) :=
  if x < 0 ∨ x ≥ largura then some buffer
  else
    let start := if y1 < 0 then 0 else y1
    let fim := if y2 ≥ altura then altura - 1 else y2
    laco_linha_vertical_verificado x largura cor (fim - start + 1).toNat start buffer

/-- The inner loop of `extrair_regiao`, every load and store checked. -/
def extrair_linha_verificada (imagem_completa : List Nat) (x1 y1 largura_regiao y : Int) :
    Nat → Int → List Nat → Option (List Nat)
  | 0, _, regiao => some regiao
  | n + 1, x, regiao =>
    let src_x := x1 + x
    let src_y := y1 + y
    let passo : Option (List Nat) :=
      if src_x ≥ 0 ∧ src_x < IMG_WIDTH ∧ src_y ≥ 0 ∧ src_y < IMG_HEIGHT then
        (ler_verificado imagem_completa (src_y * IMG_WIDTH + src_x)).bind
          (fun v => escrever_verificado regiao (y * largura_regiao + x) v)
      else some regiao
    passo.bind (extrair_linha_verificada imagem_completa x1 y1 largura_regiao y n (x + 1))

/-- The outer loop of `extrair_regiao`, every load and store checked. -/
def extrair_linhas_verificada (imagem_completa : List Nat) (x1 y1 largura_regiao : Int) :
    Nat → Int → List Nat → Option (List Nat)
  | 0, _, regiao => some regiao
  | n + 1, y, regiao =>
    (extrair_linha_verificada imagem_completa x1 y1 largura_regiao y largura_regiao.toNat 0
      regiao).bind
      (extrair_linhas_verificada imagem_completa x1 y1 largura_regiao n (y + 1))

/-- The function `extrair_regiao`, every load and store checked. -/
def extrair_regiao_verificada (imagem_completa regiao : List Nat) (x1 y1 x2 y2 : Int) :
    Option (List Nat) :=
  let largura_regiao := x2 - x1
  let altura_regiao := y2 - y1
  extrair_linhas_verificada imagem_completa x1 y1 largura_regiao altura_regiao.toNat 0 regiao

/-- The inner loop of `sobrepor_regiao`, every load and store checked. -/
def sobrepor_linha_verificada (regiao : List Nat) (x1 y1 largura y : Int) :
    Nat → Int → List Nat → Option (List Nat)
  | 0, _, imagem_base => some imagem_base
  | n + 1, x, imagem_base =>
    if x1 + x < IMG_WIDTH then
      let dst_idx := (y1 + y) * IMG_WIDTH + (x1 + x)
      let src_idx := y * largura + x
      let passo : Option (List Nat) :=
        if dst_idx < IMG_SIZE then
          (ler_verificado regiao src_idx).bind (fun v => escrever_verificado imagem_base dst_idx v)
        else some imagem_base
      passo.bind (sobrepor_linha_verificada regiao x1 y1 largura y n (x + 1))
    else some imagem_base

/-- The outer loop of `sobrepor_regiao`, every load and store checked. -/
def sobrepor_linhas_verificada (regiao : List Nat) (x1 y1 largura : Int) :
    Nat → Int → List Nat → Option (List Nat)
  | 0, _, imagem_base => some imagem_base
  | n + 1, y, imagem_base =>
    if y1 + y < IMG_HEIGHT then
      (sobrepor_linha_verificada regiao x1 y1 largura y largura.toNat 0 imagem_base).bind
        (sobrepor_linhas_verificada regiao x1 y1 largura n (y + 1))
    else some imagem_base

/-- The function `sobrepor_regiao`, every load and store checked. -/
def sobrepor_regiao_verificada (imagem_base regiao : List Nat) (x1 y1 largura altura : Int) :
    Option (List Nat) :=
  sobrepor_linhas_verificada regiao x1 y1 largura altura.toNat 0 imagem_base

/-! ## Notions used to state the properties of frames -/

/-- Pixel `(X, Y)` of a frame of `IMG_WIDTH` columns. -/
def pixel (buffer : List Nat) (X Y : Int) : Nat := ler buffer (Y * IMG_WIDTH + X)

/-- The coordinates of the pixels of the frame. -/
def dentro_do_quadro (X Y : Int) : Prop := 0 ≤ X ∧ X < IMG_WIDTH ∧ 0 ≤ Y ∧ Y < IMG_HEIGHT

/-- The cells the eight segments of `desenhar_retangulo` pass through: the rows
`min y`, `min y + 1`, `max y`, `max y - 1` between the two columns of the
corners, and the columns `min x`, `min x + 1`, `max x`, `max x - 1` between the
two rows. -/
def coberto_pelos_segmentos (x1 y1 x2 y2 X Y : Int) : Prop :=
  ((Y = min y1 y2 ∨ Y = min y1 y2 + 1 ∨ Y = max y1 y2 ∨ Y = max y1 y2 - 1) ∧
    min x1 x2 ≤ X ∧ X ≤ max x1 x2) ∨
  ((X = min x1 x2 ∨ X = min x1 x2 + 1 ∨ X = max x1 x2 ∨ X = max x1 x2 - 1) ∧
    min y1 y2 ≤ Y ∧ Y ≤ max y1 y2)

/-- The border of the specification: the cells of the closed rectangle
`[min x, max x] x [min y, max y]` at distance less than 2 from one of its four
sides. -/
def na_borda_do_retangulo (x1 y1 x2 y2 X Y : Int) : Prop :=
  (min x1 x2 ≤ X ∧ X ≤ max x1 x2 ∧ min y1 y2 ≤ Y ∧ Y ≤ max y1 y2) ∧
  (X - min x1 x2 < 2 ∨ max x1 x2 - X < 2 ∨ Y - min y1 y2 < 2 ∨ max y1 y2 - Y < 2)

/-- The cursor and the two corners of the selection are coordinates of the frame. -/
def estado_no_quadro (e : EstadoApp) : Prop :=
  dentro_do_quadro e.mouse_x e.mouse_y ∧ dentro_do_quadro e.janela.x1 e.janela.y1 ∧
  dentro_do_quadro e.janela.x2 e.janela.y2

/-- Whether a call is one of the `api_*` routines, the calls that start an
operation of the coprocessor. -/
def Comando.inicia_operacao : Comando → Bool
  | .iniciar_coprocessador => false
  | .encerrar_coprocessador => false
  | .carregar_imagem _ _ => false
  | .limpar_imagem => false
  | .api_bypass => true
  | .api_media_0_5x => true
  | .api_media_0_25x => true
  | .api_vizinho_2x => true
  | .api_vizinho_4x => true
  | .api_vizinho_0_5x => true
  | .api_vizinho_0_25x => true
  | .api_replicacao_2x => true
  | .api_replicacao_4x => true

/-- The frame the region branch of `processar_com_algoritmo` sends, for the
selection `janela` already put in order: the region extracted from the
original frame, centred on a zero-filled canvas (steps 1 and 2 of the
branch). -/
def quadro_da_regiao (amb : Ambiente) (imagem_original : List Nat) (janela : JanelaZoom) :
    List Nat :=
  let largura_janela := janela.x2 - janela.x1
  let altura_janela := janela.y2 - janela.y1
  let tamanho_regiao := largura_janela * altura_janela
  let regiao_extraida := extrair_regiao imagem_original (bloco amb tamanho_regiao)
    janela.x1 janela.y1 janela.x2 janela.y2
  let buffer_temporario := List.replicate IMG_SIZE.toNat 0
  let offset_x := (IMG_WIDTH - largura_janela).tdiv 2
  let offset_y := (IMG_HEIGHT - altura_janela).tdiv 2
  sobrepor_regiao buffer_temporario regiao_extraida offset_x offset_y largura_janela
    altura_janela

/-! ## The overlays with out-of-bounds accesses made explicit -/

/-- The function `desenhar_cursor`, every store checked. -/
def desenhar_cursor_verificado (buffer : List Nat) (mouse_x mouse_y largura altura : Int) :
    Option (List Nat) :=
  (desenhar_linha_horizontal_verificado buffer (mouse_x - CURSOR_SIZE) (mouse_x + CURSOR_SIZE)
    (mouse_y - 1) largura altura CURSOR_BORDER_COLOR).bind fun buffer =>
  (desenhar_linha_horizontal_verificado buffer (mouse_x - CURSOR_SIZE) (mouse_x + CURSOR_SIZE)
    mouse_y largura altura CURSOR_COLOR).bind fun buffer =>
  (desenhar_linha_horizontal_verificado buffer (mouse_x - CURSOR_SIZE) (mouse_x + CURSOR_SIZE)
    (mouse_y + 1) largura altura CURSOR_BORDER_COLOR).bind fun buffer =>
  (desenhar_linha_vertical_verificado buffer (mouse_x - 1) (mouse_y - CURSOR_SIZE)
    (mouse_y + CURSOR_SIZE) largura altura CURSOR_BORDER_COLOR).bind fun buffer =>
  (desenhar_linha_vertical_verificado buffer mouse_x (mouse_y - CURSOR_SIZE)
    (mouse_y + CURSOR_SIZE) largura altura CURSOR_COLOR).bind fun buffer =>
  desenhar_linha_vertical_verificado buffer (mouse_x + 1) (mouse_y - CURSOR_SIZE)
    (mouse_y + CURSOR_SIZE) largura altura CURSOR_BORDER_COLOR

/-- The function `desenhar_cantos_animados`, every store checked. -/
def desenhar_cantos_animados_verificado (buffer : List Nat) (x y largura altura fase : Int) :
    Option (List Nat) :=
  let tamanho := CORNER_SIZE + fase.tmod 4
  (desenhar_linha_horizontal_verificado buffer (x - 1) (x + tamanho) (y - 1)
    largura altura CURSOR_BORDER_COLOR).bind fun buffer =>
  (desenhar_linha_horizontal_verificado buffer x (x + tamanho) y
    largura altura CURSOR_COLOR).bind fun buffer =>
  (desenhar_linha_horizontal_verificado buffer (x - 1) (x + tamanho) (y + 1)
    largura altura CURSOR_BORDER_COLOR).bind fun buffer =>
  (desenhar_linha_vertical_verificado buffer (x - 1) (y - 1) (y + tamanho)
    largura altura CURSOR_BORDER_COLOR).bind fun buffer =>
  (desenhar_linha_vertical_verificado buffer x y (y + tamanho)
    largura altura CURSOR_COLOR).bind fun buffer =>
  (desenhar_linha_vertical_verificado buffer (x + 1) (y - 1) (y + tamanho)
    largura altura CURSOR_BORDER_COLOR).bind fun buffer =>
  if x ≥ 0 ∧ x < largura ∧ y ≥ 0 ∧ y < altura then
    escrever_verificado buffer (y * largura + x) CURSOR_COLOR
  else some buffer

/-! ## Notions used to state the properties of the overlays -/

/-- The cross of the specification around `(x, y)`: the cells with
`|dx| ≤ 5, |dy| ≤ 1` and those with `|dx| ≤ 1, |dy| ≤ 5`. -/
def na_cruz (x y X Y : Int) : Prop :=
  (x - 5 ≤ X ∧ X ≤ x + 5 ∧ y - 1 ≤ Y ∧ Y ≤ y + 1) ∨
  (x - 1 ≤ X ∧ X ≤ x + 1 ∧ y - 5 ≤ Y ∧ Y ≤ y + 5)

/-- Two frames that hold the same sample in every cell of the rectangle
`[x1, x2) x [y1, y2)`. -/
def iguais_na_regiao (a b : List Nat) (x1 y1 x2 y2 : Int) : Prop :=
  ∀ X Y : Int, x1 ≤ X → X < x2 → y1 ≤ Y → Y < y2 → pixel a X Y = pixel b X Y

/-- The key of a turn of the loop neither resets the selection nor replaces the
image: it is not `r` or `R`, and when it is `l` or `L` the call of
`carregar_nova_imagem` returns 0 (the value returned does not depend on the
state). -/
def sem_reset_nem_recarga (e : Entrada) : Prop :=
  ∀ tecla, e.tecla = some tecla →
    tecla ≠ 'r' ∧ tecla ≠ 'R' ∧
    ((tecla = 'l' ∨ tecla = 'L') →
      ∀ estado, (carregar_nova_imagem e.amb e.linha e.arquivos estado).1 = 0)

/-! ## More concrete inputs -/

/-- The all-black example state with the first corner set at (10, 20) and the
cursor at (100, 100). -/
def estado_com_um_canto : EstadoApp :=
  { estado_exemplo ALG_VIZINHO_PROXIMO 1 with
    janela := { x1 := 10, y1 := 20, x2 := 0, y2 := 0, ativo := 0, pontos_definidos := 1 }
    mouse_x := 100
    mouse_y := 100 }

end App

namespace Bitmap

/-! ## Arithmetic of rows and buffers -/

theorem calc_padding_nat (w : Nat) : calc_padding (w : Int) = (((4 - w % 4) % 4 : Nat) : Int) := by
  unfold calc_padding
  have h1 : ((w : Int)).tmod 4 = ((w % 4 : Nat) : Int) := by
    rw [Int.tmod_eq_emod (by omega) (by omega)]; omega
  rw [h1]
  have h2 : (4 - ((w % 4 : Nat) : Int)) = ((4 - w % 4 : Nat) : Int) := by omega
  rw [h2, Int.tmod_eq_emod (by omega) (by omega)]
  omega

theorem n_linha_nat (w : Nat) : ((w : Int) + calc_padding (w : Int)).toNat = (w + 3) / 4 * 4 := by
  rw [calc_padding_nat]; omega

theorem padding_toNat (w : Nat) : (calc_padding (w : Int)).toNat = (w + 3) / 4 * 4 - w := by
  rw [calc_padding_nat]; omega

theorem memcpy_length (dst src : List Nat) (pos n : Nat) (h1 : pos + n ≤ dst.length)
    (h2 : n ≤ src.length) : (memcpy dst pos src n).length = dst.length := by
  simp [memcpy]; omega

theorem memcpy_getElem? (dst src : List Nat) (pos n i : Nat) (h1 : pos + n ≤ dst.length)
    (h2 : n ≤ src.length) :
    (memcpy dst pos src n)[i]? = if pos ≤ i ∧ i < pos + n then src[i - pos]? else dst[i]? := by
  unfold memcpy
  have e1 : (List.take pos dst).length = pos := by simp; omega
  have e2 : (List.take n src).length = n := by simp; omega
  by_cases hi : i < pos
  · rw [List.append_assoc, List.getElem?_append_left (by omega)]
    rw [List.getElem?_take, if_pos hi, if_neg (by omega)]
  · by_cases hi2 : i < pos + n
    · rw [List.getElem?_append_left (by rw [List.length_append]; omega),
        List.getElem?_append_right (by omega), e1, List.getElem?_take, if_pos (by omega),
        if_pos (by omega)]
    · rw [List.getElem?_append_right (by rw [List.length_append]; omega), List.length_append,
        e1, e2, List.getElem?_drop, if_neg (by omega)]
      congr 1; omega

/-! ## Decoding: the row loops and the unfolding of `carregar_bitmap` -/

theorem fread_length (dados : List Nat) (pos n : Nat) :
    (fread ⟨dados, pos⟩ n).length = min n (dados.length - pos) := by
  simp [fread]

theorem fread_getElem? (dados : List Nat) (pos n x : Nat) (hx : x < n) :
    (fread ⟨dados, pos⟩ n)[x]? = dados[pos + x]? := by
  simp [fread, List.getElem?_take, hx]

theorem avancar_ok (dados : List Nat) (pos n : Nat) (h : n ≤ dados.length - pos) :
    avancar ⟨dados, pos⟩ n = ⟨dados, pos + n⟩ := by
  simp [avancar]; omega

theorem ler_linhas_8_geral (dados : List Nat) (w s h : Nat) (inv : Bool) (hws : w ≤ s) :
    ∀ (n y pos : Nat) (buffer : List Nat), y + n = h → buffer.length = w * h →
      ∃ frame, ler_linhas_8 w s h inv n y ⟨dados, pos⟩ buffer
          = (if n * s ≤ dados.length - pos then 0 else -1, frame) ∧
        frame.length = w * h ∧
        ∀ r x, r < h → x < w → frame[r * w + x]? =
          if y ≤ (if inv then h - 1 - r else r) ∧
              ((if inv then h - 1 - r else r) - y + 1) * s ≤ dados.length - pos
          then dados[pos + ((if inv then h - 1 - r else r) - y) * s + x]?
          else buffer[r * w + x]? := by
  intro n
  induction n with
  | zero =>
    intro y pos buffer hy hb
    refine ⟨buffer, by simp [ler_linhas_8], hb, ?_⟩
    intro r x hr hx
    rw [if_neg]
    intro hc
    have := hc.1
    cases inv <;> simp at this <;> omega
  | succ n ih =>
    intro y pos buffer hy hb
    have hmul : (n + 1) * s = n * s + s := by ring
    by_cases hrow : s ≤ dados.length - pos
    · have hlen : (fread ⟨dados, pos⟩ s).length = s := by
        rw [fread_length]; omega
      set d := (if inv then h - 1 - y else y) with hd
      have hdlt : d < h := by
        rw [hd]; cases inv <;> simp <;> omega
      have hdw : d * w + w ≤ w * h := by
        have : (d + 1) * w ≤ h * w := Nat.mul_le_mul_right w hdlt
        have e1 : (d + 1) * w = d * w + w := by ring
        have e2 : h * w = w * h := by ring
        omega
      have hb1 : (memcpy buffer (d * w) (fread ⟨dados, pos⟩ s) w).length = w * h := by
        rw [memcpy_length _ _ _ _ (by omega) (by omega), hb]
      obtain ⟨frame, hf, hfl, hfp⟩ := ih (y + 1) (pos + s)
        (memcpy buffer (d * w) (fread ⟨dados, pos⟩ s) w) (by omega) hb1
      refine ⟨frame, ?_, hfl, ?_⟩
      · rw [ler_linhas_8]
        simp only [hlen, ne_eq, not_true_eq_false, if_false]
        rw [avancar_ok _ _ _ (by omega), hf]
        congr 1
        by_cases hc : n * s ≤ dados.length - (pos + s)
        · rw [if_pos hc, if_pos (by omega)]
        · rw [if_neg hc, if_neg (by omega)]
      · intro r x hr hx
        rw [hfp r x hr hx]
        set o := (if inv then h - 1 - r else r) with ho
        by_cases h1 : y + 1 ≤ o
        · obtain ⟨k, hk⟩ : ∃ k, o = y + 1 + k := ⟨o - (y + 1), by omega⟩
          have e1 : o - (y + 1) = k := by omega
          have e2 : o - y = k + 1 := by omega
          have e3 : (k + 1 + 1) * s = (k + 1) * s + s := by ring
          have e4 : pos + s + k * s = pos + (k + 1) * s := by ring
          rw [e1, e2, e4]
          by_cases hc : (k + 1) * s ≤ dados.length - (pos + s)
          · rw [if_pos ⟨h1, hc⟩, if_pos ⟨by omega, by omega⟩]
          · rw [if_neg (fun hh => hc hh.2), if_neg (fun hh => hc (by have := hh.2; omega)),
              memcpy_getElem? _ _ _ _ _ (by omega) (by omega), if_neg]
            intro hcc
            have hrd : d ≠ r := by
              intro hrd
              rw [hd] at hrd; rw [ho, ← hrd] at hk
              cases inv <;> simp at hk <;> omega
            rcases Nat.lt_or_gt_of_ne hrd with hlt | hgt
            · have : (d + 1) * w ≤ r * w := Nat.mul_le_mul_right w hlt
              have e1 : (d + 1) * w = d * w + w := by ring
              omega
            · have : (r + 1) * w ≤ d * w := Nat.mul_le_mul_right w hgt
              have e1 : (r + 1) * w = r * w + w := by ring
              omega
        · rw [if_neg (fun hh => h1 hh.1), memcpy_getElem? _ _ _ _ _ (by omega) (by omega)]
          by_cases h2 : y = o
          · have hrd : r = d := by
              rw [hd]; rw [ho] at h2
              cases inv <;> simp at h2 ⊢ <;> omega
            have hc : d * w ≤ r * w + x ∧ r * w + x < d * w + w := by
              rw [hrd]; omega
            have e0 : o - y = 0 := by omega
            have hyo : y ≤ o ∧ (o - y + 1) * s ≤ dados.length - pos := by
              rw [e0]; constructor
              · omega
              · simpa using hrow
            rw [if_pos hc, if_pos hyo, fread_getElem? _ _ _ _ (by omega)]
            congr 1
            rw [e0, hrd]; simp
          · have hrd : r ≠ d := by
              intro hrd; apply h2
              rw [hd] at hrd; rw [ho, hrd]
              cases inv
              · simp
              · simp; omega
            have hyo : ¬ (y ≤ o ∧ (o - y + 1) * s ≤ dados.length - pos) := by
              intro hh; have := hh.1; omega
            have hc : ¬ (d * w ≤ r * w + x ∧ r * w + x < d * w + w) := by
              intro hc
              obtain ⟨ha, hb2⟩ := hc
              rcases Nat.lt_or_gt_of_ne hrd with hlt | hgt
              · have : (r + 1) * w ≤ d * w := Nat.mul_le_mul_right w hlt
                have e1 : (r + 1) * w = r * w + w := by ring
                omega
              · have : (d + 1) * w ≤ r * w := Nat.mul_le_mul_right w hgt
                have e1 : (d + 1) * w = d * w + w := by ring
                omega
            rw [if_neg hc, if_neg hyo]
    · have hlen : (fread ⟨dados, pos⟩ s).length ≠ s := by
        rw [fread_length]; omega
      refine ⟨buffer, ?_, hb, ?_⟩
      · rw [ler_linhas_8]
        simp only [hlen, ne_eq, not_false_eq_true, if_true]
        rw [if_neg (by omega)]
      · intro r x hr hx
        rw [if_neg]
        intro hh
        have h2 := hh.2
        have : s ≤ ((if inv then h - 1 - r else r) - y + 1) * s :=
          Nat.le_mul_of_pos_left s (by omega)
        omega

theorem getD_take (l : List Nat) (n i : Nat) (h : i < n) : (l.take n).getD i 0 = l.getD i 0 := by
  simp [List.getD_eq_getElem?_getD, List.getElem?_take, h]

theorem getD_drop_take (l : List Nat) (k n i : Nat) (h : i < n) :
    ((l.drop k).take n).getD i 0 = l.getD (k + i) 0 := by
  simp [List.getD_eq_getElem?_getD, List.getElem?_take, h]

theorem header_fread (dados : List Nat) :
    BMPHeader.de_bytes (fread ⟨dados, 0⟩ sizeof_BMPHeader) 0 = BMPHeader.de_bytes dados 0 := by
  simp [BMPHeader.de_bytes, fread, sizeof_BMPHeader, ler_u16, ler_u32, getD_take]

theorem info_fread (dados : List Nat) :
    BMPInfoHeader.de_bytes (fread ⟨dados, 14⟩ sizeof_BMPInfoHeader) 0
      = BMPInfoHeader.de_bytes dados 14 := by
  simp [BMPInfoHeader.de_bytes, fread, sizeof_BMPInfoHeader, ler_u16, ler_u32, ler_i32,
    getD_drop_take]

theorem fseek_dados (f : Arquivo) (d : Int) : (fseek f d).dados = f.dados := by
  unfold fseek; split <;> rfl

theorem fseek_eta (f : Arquivo) (d : Int) : fseek f d = ⟨f.dados, (fseek f d).pos⟩ := by
  unfold fseek; split <;> rfl

/-- Unfolding of `carregar_bitmap` on a file that cannot hold both headers. -/
theorem carregar_bitmap_curto (dados : List Nat) (m : Bool) (buffer : List Nat) (w h : Int)
    (hlen : dados.length < 54) : carregar_bitmap (some dados) m buffer w h = (-1, buffer) := by
  unfold carregar_bitmap
  by_cases h14 : dados.length < 14
  · have l1 : (fread ⟨dados, 0⟩ sizeof_BMPHeader).length ≠ sizeof_BMPHeader := by
      rw [fread_length]; simp [sizeof_BMPHeader]; omega
    simp only [l1, ne_eq, not_false_eq_true, if_true]
  · have e1 : avancar ⟨dados, 0⟩ sizeof_BMPHeader = ⟨dados, 14⟩ := by
      rw [avancar_ok _ _ _ (by simp [sizeof_BMPHeader]; omega)]; rfl
    have l2 : (fread ⟨dados, 14⟩ sizeof_BMPInfoHeader).length ≠ sizeof_BMPInfoHeader := by
      rw [fread_length]; simp [sizeof_BMPInfoHeader]; omega
    simp only [e1, l2, ne_eq, not_false_eq_true, if_true, ite_self]

/-- Unfolding of `carregar_bitmap` on a file that holds both headers. -/
theorem carregar_bitmap_longo (dados : List Nat) (m : Bool) (buffer : List Nat) (w h : Int)
    (hlen : 54 ≤ dados.length) :
    carregar_bitmap (some dados) m buffer w h =
      if (BMPHeader.de_bytes dados 0).tipo ≠ 0x4D42 then (-1, buffer)
      else if (BMPInfoHeader.de_bytes dados 14).largura ≠ w ∨
          ((BMPInfoHeader.de_bytes dados 14).altura.natAbs : Int) ≠ h then (-1, buffer)
      else if !m then (-1, buffer)
      else if (BMPInfoHeader.de_bytes dados 14).bits_por_pixel = 8 then
        ler_linhas_8 w.toNat (bytes_por_linha w 8) (BMPInfoHeader.de_bytes dados 14).altura.natAbs
          (decide ((BMPInfoHeader.de_bytes dados 14).altura > 0))
          (BMPInfoHeader.de_bytes dados 14).altura.natAbs 0 ⟨dados, inicio_pixels dados⟩ buffer
      else if (BMPInfoHeader.de_bytes dados 14).bits_por_pixel = 24 then
        ler_linhas_24 w.toNat (bytes_por_linha w 24)
          (BMPInfoHeader.de_bytes dados 14).altura.natAbs
          (decide ((BMPInfoHeader.de_bytes dados 14).altura > 0))
          (BMPInfoHeader.de_bytes dados 14).altura.natAbs 0 ⟨dados, inicio_pixels dados⟩ buffer
      else (-1, buffer) := by
  unfold carregar_bitmap
  have e1 : avancar ⟨dados, 0⟩ sizeof_BMPHeader = ⟨dados, 14⟩ := by
    rw [avancar_ok _ _ _ (by simp [sizeof_BMPHeader]; omega)]; rfl
  have e2 : avancar ⟨dados, 14⟩ sizeof_BMPInfoHeader = ⟨dados, 54⟩ := by
    rw [avancar_ok _ _ _ (by simp [sizeof_BMPInfoHeader]; omega)]; rfl
  have l1 : (fread ⟨dados, 0⟩ sizeof_BMPHeader).length = sizeof_BMPHeader := by
    rw [fread_length]; simp [sizeof_BMPHeader]; omega
  have l2 : (fread ⟨dados, 14⟩ sizeof_BMPInfoHeader).length = sizeof_BMPInfoHeader := by
    rw [fread_length]; simp [sizeof_BMPInfoHeader]; omega
  simp only [e1, e2, l1, l2, header_fread, info_fread, ne_eq, not_true_eq_false, if_false]
  split
  · rfl
  · split
    · rfl
    · split
      · rfl
      · by_cases h8 : (BMPInfoHeader.de_bytes dados 14).bits_por_pixel = 8
        · simp only [h8, if_true, or_true, inicio_pixels, bytes_por_linha]
          rw [fseek_eta]
          simp [fseek_dados]
        · simp only [h8, if_false, inicio_pixels, bytes_por_linha]
          split
          · rw [fseek_eta]
            simp [fseek_dados]
          · rfl

theorem fread_getD (dados : List Nat) (pos n j : Nat) (hj : j < n) :
    (fread ⟨dados, pos⟩ n).getD j 0 = dados.getD (pos + j) 0 := by
  unfold fread
  exact getD_drop_take dados pos n j hj

theorem converter_linha_length (linha : List Nat) (base : Nat) :
    ∀ (n x : Nat) (buffer : List Nat),
      (converter_linha linha base n x buffer).length = buffer.length := by
  intro n
  induction n with
  | zero => intro x buffer; rfl
  | succ n ih => intro x buffer; rw [converter_linha, ih, List.length_set]

theorem converter_linha_getElem? (linha : List Nat) (base : Nat) :
    ∀ (n x : Nat) (buffer : List Nat) (i : Nat), base + x + n ≤ buffer.length →
      (converter_linha linha base n x buffer)[i]? =
        if base + x ≤ i ∧ i < base + x + n
        then some (cinza (linha.getD ((i - base) * 3 + 2) 0) (linha.getD ((i - base) * 3 + 1) 0)
          (linha.getD ((i - base) * 3) 0))
        else buffer[i]? := by
  intro n
  induction n with
  | zero =>
    intro x buffer i _
    rw [converter_linha, if_neg (by omega)]
  | succ n ih =>
    intro x buffer i hb
    rw [converter_linha, ih _ _ _ (by rw [List.length_set]; omega)]
    by_cases h1 : base + (x + 1) ≤ i ∧ i < base + (x + 1) + n
    · rw [if_pos h1, if_pos (by omega)]
    · rw [if_neg h1, List.getElem?_set]
      by_cases h2 : base + x = i
      · have e : i - base = x := by omega
        rw [if_pos h2, if_pos (by omega), if_pos (by omega), e]
      · rw [if_neg h2, if_neg (by omega)]

theorem ler_linhas_24_geral (dados : List Nat) (w s h : Nat) (inv : Bool) (hws : w * 3 ≤ s) :
    ∀ (n y pos : Nat) (buffer : List Nat), y + n = h → buffer.length = w * h →
      ∃ frame, ler_linhas_24 w s h inv n y ⟨dados, pos⟩ buffer
          = (if n * s ≤ dados.length - pos then 0 else -1, frame) ∧
        frame.length = w * h ∧
        ∀ r x, r < h → x < w → frame[r * w + x]? =
          if y ≤ (if inv then h - 1 - r else r) ∧
              ((if inv then h - 1 - r else r) - y + 1) * s ≤ dados.length - pos
          then some (cinza
            (dados.getD (pos + ((if inv then h - 1 - r else r) - y) * s + (x * 3 + 2)) 0)
            (dados.getD (pos + ((if inv then h - 1 - r else r) - y) * s + (x * 3 + 1)) 0)
            (dados.getD (pos + ((if inv then h - 1 - r else r) - y) * s + x * 3) 0))
          else buffer[r * w + x]? := by
  intro n
  induction n with
  | zero =>
    intro y pos buffer hy hb
    refine ⟨buffer, by simp [ler_linhas_24], hb, ?_⟩
    intro r x hr hx
    rw [if_neg]
    intro hc
    have := hc.1
    cases inv <;> simp at this <;> omega
  | succ n ih =>
    intro y pos buffer hy hb
    have hmul : (n + 1) * s = n * s + s := by ring
    by_cases hrow : s ≤ dados.length - pos
    · have hlen : (fread ⟨dados, pos⟩ s).length = s := by
        rw [fread_length]; omega
      set d := (if inv then h - 1 - y else y) with hd
      have hdlt : d < h := by
        rw [hd]; cases inv <;> simp <;> omega
      have hdw : d * w + w ≤ w * h := by
        have : (d + 1) * w ≤ h * w := Nat.mul_le_mul_right w hdlt
        have e1 : (d + 1) * w = d * w + w := by ring
        have e2 : h * w = w * h := by ring
        omega
      have hb1 : (converter_linha (fread ⟨dados, pos⟩ s) (d * w) w 0 buffer).length = w * h := by
        rw [converter_linha_length, hb]
      obtain ⟨frame, hf, hfl, hfp⟩ := ih (y + 1) (pos + s)
        (converter_linha (fread ⟨dados, pos⟩ s) (d * w) w 0 buffer) (by omega) hb1
      refine ⟨frame, ?_, hfl, ?_⟩
      · rw [ler_linhas_24]
        simp only [hlen, ne_eq, not_true_eq_false, if_false]
        rw [avancar_ok _ _ _ (by omega), hf]
        congr 1
        by_cases hc : n * s ≤ dados.length - (pos + s)
        · rw [if_pos hc, if_pos (by omega)]
        · rw [if_neg hc, if_neg (by omega)]
      · intro r x hr hx
        rw [hfp r x hr hx]
        set o := (if inv then h - 1 - r else r) with ho
        by_cases h1 : y + 1 ≤ o
        · obtain ⟨k, hk⟩ : ∃ k, o = y + 1 + k := ⟨o - (y + 1), by omega⟩
          have e1 : o - (y + 1) = k := by omega
          have e2 : o - y = k + 1 := by omega
          have e3 : (k + 1 + 1) * s = (k + 1) * s + s := by ring
          have e4 : pos + s + k * s = pos + (k + 1) * s := by ring
          rw [e1, e2, e4]
          by_cases hc : (k + 1) * s ≤ dados.length - (pos + s)
          · rw [if_pos ⟨h1, hc⟩, if_pos ⟨by omega, by omega⟩]
          · rw [if_neg (fun hh => hc hh.2), if_neg (fun hh => hc (by have := hh.2; omega)),
              converter_linha_getElem? _ _ _ _ _ _ (by omega), if_neg]
            intro hcc
            have hrd : d ≠ r := by
              intro hrd
              rw [hd] at hrd; rw [ho, ← hrd] at hk
              cases inv <;> simp at hk <;> omega
            rcases Nat.lt_or_gt_of_ne hrd with hlt | hgt
            · have : (d + 1) * w ≤ r * w := Nat.mul_le_mul_right w hlt
              have e1 : (d + 1) * w = d * w + w := by ring
              omega
            · have : (r + 1) * w ≤ d * w := Nat.mul_le_mul_right w hgt
              have e1 : (r + 1) * w = r * w + w := by ring
              omega
        · rw [if_neg (fun hh => h1 hh.1), converter_linha_getElem? _ _ _ _ _ _ (by omega)]
          by_cases h2 : y = o
          · have hrd : r = d := by
              rw [hd]; rw [ho] at h2
              cases inv <;> simp at h2 ⊢ <;> omega
            have hc : d * w + 0 ≤ r * w + x ∧ r * w + x < d * w + 0 + w := by
              rw [hrd]; omega
            have e0 : o - y = 0 := by omega
            have hyo : y ≤ o ∧ (o - y + 1) * s ≤ dados.length - pos := by
              rw [e0]; constructor
              · omega
              · simpa using hrow
            have ex : r * w + x - d * w = x := by rw [hrd]; omega
            rw [if_pos hc, if_pos hyo, ex, e0, fread_getD _ _ _ _ (by omega),
              fread_getD _ _ _ _ (by omega), fread_getD _ _ _ _ (by omega)]
            simp only [Nat.zero_mul, Nat.add_zero]
          · have hrd : r ≠ d := by
              intro hrd; apply h2
              rw [hd] at hrd; rw [ho, hrd]
              cases inv
              · simp
              · simp; omega
            have hyo : ¬ (y ≤ o ∧ (o - y + 1) * s ≤ dados.length - pos) := by
              intro hh; have := hh.1; omega
            have hc : ¬ (d * w + 0 ≤ r * w + x ∧ r * w + x < d * w + 0 + w) := by
              intro hc
              obtain ⟨ha, hb2⟩ := hc
              rcases Nat.lt_or_gt_of_ne hrd with hlt | hgt
              · have : (r + 1) * w ≤ d * w := Nat.mul_le_mul_right w hlt
                have e1 : (r + 1) * w = r * w + w := by ring
                omega
              · have : (d + 1) * w ≤ r * w := Nat.mul_le_mul_right w hgt
                have e1 : (d + 1) * w = d * w + w := by ring
                omega
            rw [if_neg hc, if_neg hyo]
    · have hlen : (fread ⟨dados, pos⟩ s).length ≠ s := by
        rw [fread_length]; omega
      refine ⟨buffer, ?_, hb, ?_⟩
      · rw [ler_linhas_24]
        simp only [hlen, ne_eq, not_false_eq_true, if_true]
        rw [if_neg (by omega)]
      · intro r x hr hx
        rw [if_neg]
        intro hh
        have h2 := hh.2
        have : s ≤ ((if inv then h - 1 - r else r) - y + 1) * s :=
          Nat.le_mul_of_pos_left s (by omega)
        omega

theorem bytes_por_linha_8 (w : Nat) : bytes_por_linha (w : Int) 8 = (w + 3) / 4 * 4 := by
  unfold bytes_por_linha
  rw [if_neg (by decide), n_linha_nat]

theorem bytes_por_linha_24 (w : Nat) : bytes_por_linha (w : Int) 24 = (w * 3 + 3) / 4 * 4 := by
  unfold bytes_por_linha
  have e : (w : Int) * 3 = ((w * 3 : Nat) : Int) := by push_cast; ring
  rw [if_pos rfl, e, n_linha_nat]

/-- What `carregar_bitmap` returns for a file with valid headers and a supported
depth, whatever its length: the code tells whether `h` stored rows fit after the
start of the pixel data, and the buffer holds the decoded pixels in the
destination rows of the stored rows that fit and its old bytes elsewhere. -/
theorem carregar_bitmap_geral (dados buffer : List Nat) (w h : Nat) (hl : 54 ≤ dados.length)
    (hm : (BMPHeader.de_bytes dados 0).tipo = 0x4D42)
    (hw : (BMPInfoHeader.de_bytes dados 14).largura = (w : Int))
    (hh : (BMPInfoHeader.de_bytes dados 14).altura.natAbs = h)
    (hbpp : (BMPInfoHeader.de_bytes dados 14).bits_por_pixel = 8 ∨
      (BMPInfoHeader.de_bytes dados 14).bits_por_pixel = 24)
    (hb : buffer.length = w * h) :
    ∃ frame, carregar_bitmap (some dados) true buffer w h
        = (if h * bytes_por_linha w (BMPInfoHeader.de_bytes dados 14).bits_por_pixel
            ≤ dados.length - inicio_pixels dados then 0 else -1, frame) ∧
      frame.length = w * h ∧
      ∀ r x, r < h → x < w → frame[r * w + x]? =
        if ((if (BMPInfoHeader.de_bytes dados 14).altura > 0 then h - 1 - r else r) + 1)
            * bytes_por_linha w (BMPInfoHeader.de_bytes dados 14).bits_por_pixel
            ≤ dados.length - inicio_pixels dados
        then pixel_armazenado dados (BMPInfoHeader.de_bytes dados 14).bits_por_pixel
          (inicio_pixels dados
            + (if (BMPInfoHeader.de_bytes dados 14).altura > 0 then h - 1 - r else r)
              * bytes_por_linha w (BMPInfoHeader.de_bytes dados 14).bits_por_pixel) x
        else buffer[r * w + x]? := by
  rw [carregar_bitmap_longo _ _ _ _ _ hl]
  simp only [hm, hw, hh, ne_eq, not_true_eq_false, if_false, or_self,
    Bool.not_true, Bool.false_eq_true, Int.toNat_ofNat]
  rcases hbpp with h8 | h24
  · rw [h8]
    simp only [if_true]
    obtain ⟨frame, hf, hfl, hfp⟩ := ler_linhas_8_geral dados w (bytes_por_linha w 8) h
      (decide ((BMPInfoHeader.de_bytes dados 14).altura > 0))
      (by rw [bytes_por_linha_8]; omega) h 0 (inicio_pixels dados) buffer (by omega) hb
    refine ⟨frame, hf, hfl, ?_⟩
    intro r x hr hx
    rw [hfp r x hr hx]
    simp only [decide_eq_true_eq, Nat.zero_le, true_and, Nat.sub_zero, pixel_armazenado,
      show ¬ ((8 : Nat) = 24) by decide, if_false]
  · rw [h24]
    simp only [if_true, show ¬ ((24 : Nat) = 8) by decide, if_false]
    obtain ⟨frame, hf, hfl, hfp⟩ := ler_linhas_24_geral dados w (bytes_por_linha w 24) h
      (decide ((BMPInfoHeader.de_bytes dados 14).altura > 0))
      (by rw [bytes_por_linha_24]; omega) h 0 (inicio_pixels dados) buffer (by omega) hb
    refine ⟨frame, hf, hfl, ?_⟩
    intro r x hr hx
    rw [hfp r x hr hx]
    simp only [decide_eq_true_eq, Nat.zero_le, true_and, Nat.sub_zero, pixel_armazenado,
      if_true]

theorem ler_linhas_8_codigo (dados : List Nat) (w s h : Nat) (inv : Bool) :
    ∀ (n y pos : Nat) (buffer : List Nat),
      (ler_linhas_8 w s h inv n y ⟨dados, pos⟩ buffer).1
        = if n * s ≤ dados.length - pos then 0 else -1 := by
  intro n
  induction n with
  | zero => intro y pos buffer; simp [ler_linhas_8]
  | succ n ih =>
    intro y pos buffer
    have hmul : (n + 1) * s = n * s + s := by ring
    rw [ler_linhas_8]
    by_cases hrow : s ≤ dados.length - pos
    · have hlen : (fread ⟨dados, pos⟩ s).length = s := by
        rw [fread_length]; omega
      simp only [hlen, ne_eq, not_true_eq_false, if_false]
      rw [avancar_ok _ _ _ hrow, ih]
      by_cases hc : n * s ≤ dados.length - (pos + s)
      · rw [if_pos hc, if_pos (by omega)]
      · rw [if_neg hc, if_neg (by omega)]
    · have hlen : (fread ⟨dados, pos⟩ s).length ≠ s := by
        rw [fread_length]; omega
      simp only [hlen, ne_eq, not_false_eq_true, if_true]
      rw [if_neg (by omega)]

theorem ler_linhas_24_codigo (dados : List Nat) (w s h : Nat) (inv : Bool) :
    ∀ (n y pos : Nat) (buffer : List Nat),
      (ler_linhas_24 w s h inv n y ⟨dados, pos⟩ buffer).1
        = if n * s ≤ dados.length - pos then 0 else -1 := by
  intro n
  induction n with
  | zero => intro y pos buffer; simp [ler_linhas_24]
  | succ n ih =>
    intro y pos buffer
    have hmul : (n + 1) * s = n * s + s := by ring
    rw [ler_linhas_24]
    by_cases hrow : s ≤ dados.length - pos
    · have hlen : (fread ⟨dados, pos⟩ s).length = s := by
        rw [fread_length]; omega
      simp only [hlen, ne_eq, not_true_eq_false, if_false]
      rw [avancar_ok _ _ _ hrow, ih]
      by_cases hc : n * s ≤ dados.length - (pos + s)
      · rw [if_pos hc, if_pos (by omega)]
      · rw [if_neg hc, if_neg (by omega)]
    · have hlen : (fread ⟨dados, pos⟩ s).length ≠ s := by
        rw [fread_length]; omega
      simp only [hlen, ne_eq, not_false_eq_true, if_true]
      rw [if_neg (by omega)]

theorem ler_linhas_8_sem_linha (dados : List Nat) (w s h : Nat) (inv : Bool) (n y pos : Nat)
    (buffer : List Nat) (hrow : dados.length - pos < s) :
    (ler_linhas_8 w s h inv n y ⟨dados, pos⟩ buffer).2 = buffer := by
  cases n with
  | zero => rfl
  | succ n =>
    have hlen : (fread ⟨dados, pos⟩ s).length ≠ s := by
      rw [fread_length]; omega
    rw [ler_linhas_8]
    simp only [hlen, ne_eq, not_false_eq_true, if_true]

theorem ler_linhas_24_sem_linha (dados : List Nat) (w s h : Nat) (inv : Bool) (n y pos : Nat)
    (buffer : List Nat) (hrow : dados.length - pos < s) :
    (ler_linhas_24 w s h inv n y ⟨dados, pos⟩ buffer).2 = buffer := by
  cases n with
  | zero => rfl
  | succ n =>
    have hlen : (fread ⟨dados, pos⟩ s).length ≠ s := by
      rw [fread_length]; omega
    rw [ler_linhas_24]
    simp only [hlen, ne_eq, not_false_eq_true, if_true]

theorem passa_validacao_iff (dados : List Nat) (w h : Int) :
    passa_validacao dados w h = true ↔
      54 ≤ dados.length ∧ (BMPHeader.de_bytes dados 0).tipo = 0x4D42 ∧
      (BMPInfoHeader.de_bytes dados 14).largura = w ∧
      ((BMPInfoHeader.de_bytes dados 14).altura.natAbs : Int) = h ∧
      ((BMPInfoHeader.de_bytes dados 14).bits_por_pixel = 8 ∨
        (BMPInfoHeader.de_bytes dados 14).bits_por_pixel = 24) := by
  unfold passa_validacao
  simp only [Bool.and_eq_true, Bool.or_eq_true, decide_eq_true_eq]
  tauto

theorem getD_of_getElem? (a b : List Nat) (i j : Nat) (h : a[i]? = b[j]?) :
    a.getD i 0 = b.getD j 0 := by
  rw [List.getD_eq_getElem?_getD, List.getD_eq_getElem?_getD, h]

theorem header_congr (a b : List Nat) (h : ∀ i, i < 54 → a[i]? = b[i]?) :
    BMPHeader.de_bytes a 0 = BMPHeader.de_bytes b 0 := by
  have g : ∀ i, i < 54 → a.getD i 0 = b.getD i 0 := fun i hi => getD_of_getElem? a b i i (h i hi)
  simp only [BMPHeader.de_bytes, ler_u16, ler_u32, Nat.zero_add, Nat.reduceAdd]
  rw [g 0 (by omega), g 1 (by omega), g 2 (by omega), g 3 (by omega), g 4 (by omega),
    g 5 (by omega), g 6 (by omega), g 7 (by omega), g 8 (by omega), g 9 (by omega),
    g 10 (by omega), g 11 (by omega), g 12 (by omega), g 13 (by omega)]

theorem info_congr (a b : List Nat) (h : ∀ i, i < 54 → a[i]? = b[i]?) :
    BMPInfoHeader.de_bytes a 14 = BMPInfoHeader.de_bytes b 14 := by
  have g : ∀ i, i < 54 → a.getD i 0 = b.getD i 0 := fun i hi => getD_of_getElem? a b i i (h i hi)
  simp only [BMPInfoHeader.de_bytes, ler_u16, ler_u32, ler_i32, Nat.reduceAdd]
  rw [g 14 (by omega), g 15 (by omega), g 16 (by omega), g 17 (by omega), g 18 (by omega),
    g 19 (by omega), g 20 (by omega), g 21 (by omega), g 22 (by omega), g 23 (by omega),
    g 24 (by omega), g 25 (by omega), g 26 (by omega), g 27 (by omega), g 28 (by omega),
    g 29 (by omega), g 30 (by omega), g 31 (by omega), g 32 (by omega), g 33 (by omega),
    g 34 (by omega), g 35 (by omega), g 36 (by omega), g 37 (by omega), g 38 (by omega),
    g 39 (by omega), g 40 (by omega), g 41 (by omega), g 42 (by omega), g 43 (by omega),
    g 44 (by omega), g 45 (by omega), g 46 (by omega), g 47 (by omega), g 48 (by omega),
    g 49 (by omega), g 50 (by omega), g 51 (by omega), g 52 (by omega), g 53 (by omega)]

theorem fseek_pos (f : Arquivo) (d : Int) :
    (fseek f d).pos = if d < 0 then f.pos else d.toNat := by
  unfold fseek; split <;> rfl

theorem inicio_pixels_congr (a b : List Nat)
    (h0 : BMPHeader.de_bytes a 0 = BMPHeader.de_bytes b 0)
    (hbpp : (BMPInfoHeader.de_bytes a 14).bits_por_pixel
      = (BMPInfoHeader.de_bytes b 14).bits_por_pixel)
    (hcor : (BMPInfoHeader.de_bytes a 14).cores_usadas
      = (BMPInfoHeader.de_bytes b 14).cores_usadas) :
    inicio_pixels a = inicio_pixels b := by
  unfold inicio_pixels
  simp only [h0, hbpp, hcor, fseek_pos]

theorem ler_linhas_8_congr (a b : List Nat) (w s h : Nat) (inv : Bool) (hws : w ≤ s)
    (hlen : a.length = b.length) :
    ∀ (n y pos : Nat) (buffer : List Nat),
      (∀ k j, k < n → j < w → a[pos + k * s + j]? = b[pos + k * s + j]?) →
      ler_linhas_8 w s h inv n y ⟨a, pos⟩ buffer = ler_linhas_8 w s h inv n y ⟨b, pos⟩ buffer := by
  intro n
  induction n with
  | zero => intro y pos buffer _; rfl
  | succ n ih =>
    intro y pos buffer hab
    rw [ler_linhas_8, ler_linhas_8]
    have hl : (fread ⟨a, pos⟩ s).length = (fread ⟨b, pos⟩ s).length := by
      rw [fread_length, fread_length, hlen]
    have htake : List.take w (fread ⟨a, pos⟩ s) = List.take w (fread ⟨b, pos⟩ s) := by
      apply List.ext_getElem?
      intro j
      rw [List.getElem?_take, List.getElem?_take]
      by_cases hj : j < w
      · rw [if_pos hj, if_pos hj, fread_getElem? _ _ _ _ (by omega),
          fread_getElem? _ _ _ _ (by omega)]
        have := hab 0 j (by omega) hj
        simpa using this
      · rw [if_neg hj, if_neg hj]
    simp only [hl]
    split
    · rfl
    · have e1 : avancar ⟨a, pos⟩ s = ⟨a, (avancar ⟨b, pos⟩ s).pos⟩ := by
        simp only [avancar, hlen]
      have e2 : avancar ⟨b, pos⟩ s = ⟨b, (avancar ⟨b, pos⟩ s).pos⟩ := rfl
      rw [e1, e2]
      have hm : ∀ base, memcpy buffer base (fread ⟨a, pos⟩ s) w
          = memcpy buffer base (fread ⟨b, pos⟩ s) w := by
        intro base; unfold memcpy; rw [htake]
      rw [hm]
      apply ih
      intro k j hk hj
      rename_i hfull
      have hs : s ≤ b.length - pos := by
        have := fread_length b pos s
        simp only [ne_eq, Decidable.not_not] at hfull
        omega
      have ep : (avancar ⟨b, pos⟩ s).pos = pos + s := by
        simp only [avancar]; omega
      rw [ep]
      have := hab (k + 1) j (by omega) hj
      have e3 : pos + (k + 1) * s + j = pos + s + k * s + j := by ring
      rw [e3] at this
      exact this

/-! ## Encoding: the byte stream of `salvar_bitmap` -/

theorem calc_padding_faixa (v : Int) : 0 ≤ calc_padding v ∧ calc_padding v ≤ 3 := by
  unfold calc_padding
  have h1 := Int.tmod_lt_of_pos v (show (0 : Int) < 4 by omega)
  have h2 : -4 < v.tmod 4 := by
    cases v with
    | ofNat n =>
      have := Int.tmod_nonneg (4 : Int) (Int.ofNat_nonneg n)
      simp only [Int.ofNat_eq_coe]; omega
    | negSucc n =>
      show -4 < -((((n + 1) % 4 : Nat)) : Int)
      omega
  have h3 : 0 ≤ (4 - v.tmod 4).tmod 4 := Int.tmod_nonneg _ (by omega)
  have h4 := Int.tmod_lt_of_pos (4 - v.tmod 4) (show (0 : Int) < 4 by omega)
  omega

theorem fwrite_take (cap : Nat) (s d : List Nat) :
    fwrite cap (s.take cap) d = (s ++ d).take cap := by
  unfold fwrite
  rw [List.take_append_eq_append_take]
  by_cases h : s.length ≤ cap
  · rw [List.take_of_length_le h]
  · have h1 : (s.take cap).length = cap := by simp; omega
    have h2 : cap - s.length = 0 := by omega
    rw [h1, h2]; simp

theorem escrever_paleta_take (cap : Nat) :
    ∀ (n i : Nat) (s : List Nat),
      escrever_paleta cap n i (s.take cap) = (s ++ paleta_bytes n i).take cap := by
  intro n
  induction n with
  | zero => intro i s; simp [escrever_paleta, paleta_bytes]
  | succ n ih =>
    intro i s
    rw [escrever_paleta, fwrite_take, ih, paleta_bytes, List.append_assoc]

theorem padding_bytes_take (p : Nat) (hp : p ≤ 3) :
    ([0, 0, 0] : List Nat).take p = List.replicate p 0 := by
  interval_cases p <;> rfl

theorem escrever_linhas_take (cap : Nat) (buffer : List Nat) (w p : Nat) (hp : p ≤ 3) :
    ∀ (y : Nat) (s : List Nat),
      escrever_linhas cap buffer w p y (s.take cap)
        = (s ++ linhas_bytes buffer w p y).take cap := by
  intro y
  induction y with
  | zero => intro s; simp [escrever_linhas, linhas_bytes]
  | succ y ih =>
    intro s
    rw [escrever_linhas]
    by_cases h0 : p > 0
    · simp only [if_pos h0]
      rw [fwrite_take, fwrite_take, ih, linhas_bytes, padding_bytes_take p hp]
      simp only [List.append_assoc]
    · have hp0 : p = 0 := by omega
      simp only [if_neg h0]
      rw [fwrite_take, ih, linhas_bytes, hp0]
      simp only [List.replicate_zero, List.append_nil, List.append_assoc]

/-- The bytes `salvar_bitmap` sends to the file, in order. -/
theorem salvar_bitmap_fluxo (cap : Nat) (buffer : List Nat) (w h : Int) :
    salvar_bitmap (some cap) buffer w h =
      (0, some (List.take cap
        ((BMPHeader.mk 0x4D42
            (u32_de_int (sizeof_BMPHeader + sizeof_BMPInfoHeader + 256 * 4
              + (w + calc_padding w) * h)) 0 0
            (u32_de_int (sizeof_BMPHeader + sizeof_BMPInfoHeader + 256 * 4))).bytes
          ++ (BMPInfoHeader.mk sizeof_BMPInfoHeader w h 1 8 0
            (u32_de_int ((w + calc_padding w) * h)) 0 0 256 256).bytes
          ++ paleta_bytes 256 0
          ++ linhas_bytes buffer w.toNat (calc_padding w).toNat h.toNat))) := by
  have hp : (calc_padding w).toNat ≤ 3 := by
    have := calc_padding_faixa w
    omega
  have e0 : ∀ d : List Nat, fwrite cap [] d = List.take cap d := by
    intro d
    have := fwrite_take cap [] d
    simpa using this
  show (0, some (escrever_linhas cap buffer w.toNat (calc_padding w).toNat h.toNat
    (escrever_paleta cap 256 0 (fwrite cap (fwrite cap [] _) _)))) = _
  rw [e0, fwrite_take, escrever_paleta_take, escrever_linhas_take _ _ _ _ hp]

theorem int_u32_ida_volta (v : Int) (h1 : -2147483648 ≤ v) (h2 : v < 2147483648) :
    int_de_u32 (u32_de_int v) = v := by
  unfold int_de_u32 u32_de_int
  split <;> omega

theorem header_bytes_length (h : BMPHeader) : h.bytes.length = 14 := by
  simp [BMPHeader.bytes, le16, le32]

theorem info_bytes_length (h : BMPInfoHeader) : h.bytes.length = 40 := by
  simp [BMPInfoHeader.bytes, le16, le32]

theorem header_ida_volta (h : BMPHeader) (resto : List Nat)
    (h1 : h.tipo < 65536) (h2 : h.tamanho < 4294967296) (h3 : h.reservado1 < 65536)
    (h4 : h.reservado2 < 65536) (h5 : h.offset < 4294967296) :
    BMPHeader.de_bytes (h.bytes ++ resto) 0 = h := by
  obtain ⟨a, b, c, d, e⟩ := h
  simp only [BMPHeader.de_bytes, BMPHeader.bytes, le16, le32, ler_u16, ler_u32,
    List.cons_append, List.nil_append, List.getD_cons_zero, List.getD_cons_succ,
    BMPHeader.mk.injEq, Nat.zero_add, Nat.reduceAdd] at *
  refine ⟨?_, ?_, ?_, ?_, ?_⟩ <;> omega

theorem info_ida_volta (h : BMPHeader) (g : BMPInfoHeader) (resto : List Nat)
    (h1 : g.tamanho < 4294967296)
    (h2 : -2147483648 ≤ g.largura ∧ g.largura < 2147483648)
    (h3 : -2147483648 ≤ g.altura ∧ g.altura < 2147483648)
    (h4 : g.planos < 65536) (h5 : g.bits_por_pixel < 65536) (h6 : g.compressao < 4294967296)
    (h7 : g.tamanho_imagem < 4294967296)
    (h8 : -2147483648 ≤ g.resolucao_x ∧ g.resolucao_x < 2147483648)
    (h9 : -2147483648 ≤ g.resolucao_y ∧ g.resolucao_y < 2147483648)
    (h10 : g.cores_usadas < 4294967296) (h11 : g.cores_importantes < 4294967296) :
    BMPInfoHeader.de_bytes (h.bytes ++ g.bytes ++ resto) 14 = g := by
  obtain ⟨a, b, c, d, e⟩ := h
  obtain ⟨t, l, al, pl, bp, co, ti, rx, ry, cu, ci⟩ := g
  have eb := int_u32_ida_volta l h2.1 h2.2
  have ec := int_u32_ida_volta al h3.1 h3.2
  have ex := int_u32_ida_volta rx h8.1 h8.2
  have ey := int_u32_ida_volta ry h9.1 h9.2
  have q : ∀ n : Nat, n < 4294967296 →
      n % 256 + 256 * (n / 256 % 256) + 65536 * (n / 65536 % 256)
        + 16777216 * (n / 16777216 % 256) = n := by
    intro n hn; omega
  have ql := q (u32_de_int l) (by unfold u32_de_int; omega)
  have qa := q (u32_de_int al) (by unfold u32_de_int; omega)
  have qx := q (u32_de_int rx) (by unfold u32_de_int; omega)
  have qy := q (u32_de_int ry) (by unfold u32_de_int; omega)
  simp only [BMPInfoHeader.de_bytes, BMPHeader.bytes, BMPInfoHeader.bytes, le16, le32, ler_u16,
    ler_u32, ler_i32, List.cons_append, List.nil_append, List.getD_cons_zero,
    List.getD_cons_succ, BMPInfoHeader.mk.injEq, Nat.reduceAdd] at *
  rw [ql, qa, qx, qy, eb, ec, ex, ey]
  refine ⟨?_, rfl, rfl, ?_, ?_, ?_, ?_, rfl, rfl, ?_, ?_⟩ <;> omega

theorem paleta_bytes_length : ∀ (n i : Nat), (paleta_bytes n i).length = 4 * n := by
  intro n
  induction n with
  | zero => intro i; rfl
  | succ n ih => intro i; simp [paleta_bytes, ih]; omega

theorem paleta_bytes_entrada : ∀ (n i j : Nat), j < n →
    ((paleta_bytes n i).drop (4 * j)).take 4 = [(i + j) % 256, (i + j) % 256, (i + j) % 256, 0] := by
  intro n
  induction n with
  | zero => intro i j hj; omega
  | succ n ih =>
    intro i j hj
    cases j with
    | zero => simp [paleta_bytes]
    | succ j =>
      have e : 4 * (j + 1) = 4 + 4 * j := by ring
      rw [paleta_bytes, e, ← List.drop_drop]
      have : List.drop 4 ([i % 256, i % 256, i % 256, 0] ++ paleta_bytes n (i + 1))
          = paleta_bytes n (i + 1) := by
        simp
      rw [this, ih (i + 1) j (by omega)]
      have e2 : i + 1 + j = i + (j + 1) := by ring
      rw [e2]

theorem linha_length (buffer : List Nat) (w p y : Nat) (hb : (y + 1) * w ≤ buffer.length) :
    ((buffer.drop (y * w)).take w ++ List.replicate p 0).length = w + p := by
  have e : (y + 1) * w = y * w + w := by ring
  simp; omega

theorem linhas_bytes_length (buffer : List Nat) (w p : Nat) :
    ∀ y, y * w ≤ buffer.length → (linhas_bytes buffer w p y).length = y * (w + p) := by
  intro y
  induction y with
  | zero => intro _; simp [linhas_bytes]
  | succ y ih =>
    intro hb
    have e : (y + 1) * w = y * w + w := by ring
    rw [linhas_bytes, List.length_append, linha_length buffer w p y hb, ih (by omega)]
    ring

theorem linhas_bytes_linha (buffer : List Nat) (w p : Nat) :
    ∀ y k, k < y → y * w ≤ buffer.length →
      ((linhas_bytes buffer w p y).drop (k * (w + p))).take (w + p)
        = (buffer.drop ((y - 1 - k) * w)).take w ++ List.replicate p 0 := by
  intro y
  induction y with
  | zero => intro k hk; omega
  | succ y ih =>
    intro k hk hb
    have e : (y + 1) * w = y * w + w := by ring
    have hl := linha_length buffer w p y hb
    rw [linhas_bytes]
    cases k with
    | zero =>
      simp only [Nat.zero_mul, List.drop_zero, Nat.add_sub_cancel, Nat.sub_zero]
      rw [List.take_append_of_le_length (by omega), List.take_of_length_le (by omega)]
    | succ k =>
      have e2 : (k + 1) * (w + p) = (w + p) + k * (w + p) := by ring
      rw [e2, ← List.drop_drop, List.drop_left' hl, ih k (by omega) (by omega)]
      have e3 : y + 1 - 1 - (k + 1) = y - 1 - k := by omega
      rw [e3]

theorem linha_int_nat (w : Nat) : (w : Int) + calc_padding (w : Int) = (((w + 3) / 4 * 4 : Nat) : Int) := by
  rw [calc_padding_nat]; omega

/-- The file `salvar_bitmap` leaves when no write is short and the sizes are in
range of `int`. -/
theorem salvar_bitmap_arquivo (w h cap : Nat) (buffer : List Nat)
    (hint : (w + 3) / 4 * 4 * h < 2147483648) (hcap : 1078 + (w + 3) / 4 * 4 * h ≤ cap)
    (hb : h * w ≤ buffer.length) :
    salvar_bitmap (some cap) buffer w h = (0, some (arquivo_salvo buffer w h)) := by
  rw [salvar_bitmap_fluxo]
  have e1 : ((w : Int) + calc_padding (w : Int)) * (h : Int)
      = (((w + 3) / 4 * 4 * h : Nat) : Int) := by
    rw [linha_int_nat]; push_cast; ring
  have e2 : u32_de_int ((sizeof_BMPHeader : Int) + (sizeof_BMPInfoHeader : Int) + 256 * 4
      + (((w + 3) / 4 * 4 * h : Nat) : Int)) = 1078 + (w + 3) / 4 * 4 * h := by
    simp only [sizeof_BMPHeader, sizeof_BMPInfoHeader, u32_de_int]
    generalize (w + 3) / 4 * 4 * h = t at hint ⊢
    omega
  have e3 : u32_de_int ((sizeof_BMPHeader : Int) + (sizeof_BMPInfoHeader : Int) + 256 * 4)
      = 1078 := by
    simp only [sizeof_BMPHeader, sizeof_BMPInfoHeader, u32_de_int]
    omega
  have e4 : u32_de_int (((w + 3) / 4 * 4 * h : Nat) : Int) = (w + 3) / 4 * 4 * h := by
    simp only [u32_de_int]
    generalize (w + 3) / 4 * 4 * h = t at hint ⊢
    omega
  rw [e1, e2, e3, e4, padding_toNat]
  simp only [Int.toNat_ofNat, sizeof_BMPInfoHeader]
  congr 2
  apply List.take_of_length_le
  simp only [List.length_append, header_bytes_length, info_bytes_length, paleta_bytes_length]
  rw [linhas_bytes_length _ _ _ _ hb]
  have e5 : w + ((w + 3) / 4 * 4 - w) = (w + 3) / 4 * 4 := by omega
  rw [e5, Nat.mul_comm h]
  omega

theorem arquivo_salvo_length (buffer : List Nat) (w h : Nat) (hb : h * w ≤ buffer.length) :
    (arquivo_salvo buffer w h).length = 1078 + (w + 3) / 4 * 4 * h := by
  unfold arquivo_salvo
  simp only [List.length_append, header_bytes_length, info_bytes_length, paleta_bytes_length]
  rw [linhas_bytes_length _ _ _ _ hb]
  have e5 : w + ((w + 3) / 4 * 4 - w) = (w + 3) / 4 * 4 := by omega
  rw [e5, Nat.mul_comm h]

theorem arquivo_salvo_header (buffer : List Nat) (w h : Nat)
    (hint : (w + 3) / 4 * 4 * h < 2147483648) :
    BMPHeader.de_bytes (arquivo_salvo buffer w h) 0
      = ⟨0x4D42, 1078 + (w + 3) / 4 * 4 * h, 0, 0, 1078⟩ := by
  unfold arquivo_salvo
  rw [List.append_assoc, List.append_assoc]
  exact header_ida_volta _ _ (by simp) (by simp; omega) (by simp) (by simp) (by simp)

theorem arquivo_salvo_info (buffer : List Nat) (w h : Nat) (hw : w < 2147483648)
    (hh : h < 2147483648) (hint : (w + 3) / 4 * 4 * h < 2147483648) :
    BMPInfoHeader.de_bytes (arquivo_salvo buffer w h) 14
      = ⟨40, w, h, 1, 8, 0, (w + 3) / 4 * 4 * h, 0, 0, 256, 256⟩ := by
  unfold arquivo_salvo
  rw [List.append_assoc]
  exact info_ida_volta _ _ _ (by simp) (by simp; omega) (by simp; omega) (by simp)
    (by simp) (by simp) (by simp; omega) (by simp) (by simp) (by simp) (by simp)

theorem arquivo_salvo_paleta (buffer : List Nat) (w h i : Nat) (hi : i < 256) :
    ((arquivo_salvo buffer w h).drop (54 + 4 * i)).take 4 = [i, i, i, 0] := by
  unfold arquivo_salvo
  have hl : ((BMPHeader.mk 0x4D42 (1078 + (w + 3) / 4 * 4 * h) 0 0 1078).bytes
      ++ (BMPInfoHeader.mk 40 w h 1 8 0 ((w + 3) / 4 * 4 * h) 0 0 256 256).bytes).length
      = 54 := by
    rw [List.length_append, header_bytes_length, info_bytes_length]
  rw [List.append_assoc, ← List.drop_drop, List.drop_left' hl,
    List.drop_append_of_le_length (by rw [paleta_bytes_length]; omega),
    List.take_append_of_le_length (by rw [List.length_drop, paleta_bytes_length]; omega),
    paleta_bytes_entrada 256 0 i hi]
  simp [Nat.mod_eq_of_lt hi]

theorem arquivo_salvo_linha (buffer : List Nat) (w h k : Nat) (hk : k < h)
    (hb : h * w ≤ buffer.length) :
    ((arquivo_salvo buffer w h).drop (1078 + k * ((w + 3) / 4 * 4))).take ((w + 3) / 4 * 4)
      = (buffer.drop ((h - 1 - k) * w)).take w ++ List.replicate ((w + 3) / 4 * 4 - w) 0 := by
  unfold arquivo_salvo
  have hl : ((BMPHeader.mk 0x4D42 (1078 + (w + 3) / 4 * 4 * h) 0 0 1078).bytes
      ++ (BMPInfoHeader.mk 40 w h 1 8 0 ((w + 3) / 4 * 4 * h) 0 0 256 256).bytes
      ++ paleta_bytes 256 0).length = 1078 := by
    simp only [List.length_append, header_bytes_length, info_bytes_length,
      paleta_bytes_length]
  have e5 : (w + 3) / 4 * 4 = w + ((w + 3) / 4 * 4 - w) := by omega
  rw [← List.drop_drop, List.drop_left' hl]
  generalize (w + 3) / 4 * 4 - w = p at e5 ⊢
  rw [e5]
  exact linhas_bytes_linha buffer w p h k hk hb

theorem limites_de_int (w h : Nat) (hw : 0 < w) (hh : 0 < h)
    (hint : (w + 3) / 4 * 4 * h < 2147483648) : w < 2147483648 ∧ h < 2147483648 := by
  have h1 : (w + 3) / 4 * 4 * 1 ≤ (w + 3) / 4 * 4 * h := Nat.mul_le_mul_left _ hh
  have h2 : 1 * h ≤ (w + 3) / 4 * 4 * h := Nat.mul_le_mul_right _ (by omega)
  omega

/-! ## Decoding what was encoded -/

theorem inicio_pixels_8 (dados : List Nat)
    (h8 : (BMPInfoHeader.de_bytes dados 14).bits_por_pixel = 8)
    (hc : (BMPInfoHeader.de_bytes dados 14).cores_usadas ≤ 536870898) :
    inicio_pixels dados = 54 + 4 * (if (BMPInfoHeader.de_bytes dados 14).cores_usadas = 0
      then 256 else (BMPInfoHeader.de_bytes dados 14).cores_usadas) := by
  unfold inicio_pixels
  simp only [h8, if_true]
  generalize (BMPInfoHeader.de_bytes dados 14).cores_usadas = c at hc ⊢
  generalize fseek ⟨dados, 54⟩ (int_de_u32 (BMPHeader.de_bytes dados 0).offset) = f
  have hd : deslocamento_paleta c = ((54 + 4 * (if c = 0 then 256 else c) : Nat) : Int) := by
    unfold deslocamento_paleta
    simp only [sizeof_BMPHeader, sizeof_BMPInfoHeader]
    by_cases hc0 : c = 0
    · subst hc0; decide
    · have hpos : c > 0 := Nat.pos_of_ne_zero hc0
      simp only [hpos, if_true, hc0, if_false]
      unfold int_de_u32 u32_de_int
      split <;> split <;> omega
  rw [hd]
  unfold fseek
  rw [if_neg (by omega)]
  exact Int.toNat_ofNat _

/-- What `carregar_bitmap` returns for a file with valid headers and 8 bits per
pixel: the code tells whether `h` rows fit after the start of the pixel data,
and each pixel of a stored row that fits holds the byte of that row. -/
theorem carregar_bitmap_8 (dados buffer : List Nat) (w h : Nat) (hl : 54 ≤ dados.length)
    (hm : (BMPHeader.de_bytes dados 0).tipo = 0x4D42)
    (hw : (BMPInfoHeader.de_bytes dados 14).largura = (w : Int))
    (hh : (BMPInfoHeader.de_bytes dados 14).altura.natAbs = h)
    (h8 : (BMPInfoHeader.de_bytes dados 14).bits_por_pixel = 8)
    (hb : buffer.length = w * h) :
    ∃ frame, carregar_bitmap (some dados) true buffer w h
        = (if h * ((w + 3) / 4 * 4) ≤ dados.length - inicio_pixels dados then 0 else -1, frame) ∧
      frame.length = w * h ∧
      ∀ r x, r < h → x < w → frame[r * w + x]? =
        if ((if (BMPInfoHeader.de_bytes dados 14).altura > 0 then h - 1 - r else r) + 1)
            * ((w + 3) / 4 * 4) ≤ dados.length - inicio_pixels dados
        then dados[inicio_pixels dados
          + (if (BMPInfoHeader.de_bytes dados 14).altura > 0 then h - 1 - r else r)
            * ((w + 3) / 4 * 4) + x]?
        else buffer[r * w + x]? := by
  rw [carregar_bitmap_longo _ _ _ _ _ hl]
  simp only [hm, hw, hh, h8, ne_eq, not_true_eq_false, if_false, or_self, if_true,
    Bool.not_true, Bool.false_eq_true, Int.toNat_ofNat]
  have es : bytes_por_linha (w : Int) 8 = (w + 3) / 4 * 4 := by
    unfold bytes_por_linha
    rw [if_neg (by decide), n_linha_nat]
  rw [es]
  obtain ⟨frame, hf, hfl, hfp⟩ := ler_linhas_8_geral dados w ((w + 3) / 4 * 4) h
    (decide ((BMPInfoHeader.de_bytes dados 14).altura > 0)) (by omega) h 0
    (inicio_pixels dados) buffer (by omega) hb
  refine ⟨frame, hf, hfl, ?_⟩
  intro r x hr hx
  rw [hfp r x hr hx]
  simp only [decide_eq_true_eq, Nat.zero_le, true_and, Nat.sub_zero]

/-- Decoding the file `salvar_bitmap` writes gives back the frame (any size in range). -/
theorem carregar_arquivo_salvo (f buffer : List Nat) (w h : Nat) (hw : 0 < w) (hh : 0 < h)
    (hint : (w + 3) / 4 * 4 * h < 2147483648) (hf : f.length = w * h)
    (hb : buffer.length = w * h) :
    carregar_bitmap (some (arquivo_salvo f w h)) true buffer w h = (0, f) := by
  have hfl : h * w ≤ f.length := by rw [hf, Nat.mul_comm]
  obtain ⟨hwlt, hhlt⟩ := limites_de_int w h hw hh hint
  have hinfo := arquivo_salvo_info f w h hwlt hhlt hint
  have hhead := arquivo_salvo_header f w h hint
  have hlen := arquivo_salvo_length f w h hfl
  have hP : inicio_pixels (arquivo_salvo f w h) = 1078 := by
    rw [inicio_pixels_8 _ (by rw [hinfo]) (by rw [hinfo]; simp)]
    rw [hinfo]
    simp
  obtain ⟨frame, hc, hl, hp⟩ := carregar_bitmap_8 (arquivo_salvo f w h) buffer w h
    (by omega) (by rw [hhead]) (by rw [hinfo]) (by rw [hinfo]; simp) (by rw [hinfo]) hb
  rw [hP, hlen] at hc
  rw [hc, if_pos (by rw [Nat.mul_comm]; omega)]
  have aux : ∀ i : Nat, frame[i]? = f[i]? := by
    intro i
    by_cases hi : i < w * h
    · obtain ⟨q, x, hr, hx, ei⟩ : ∃ q x, q < h ∧ x < w ∧ q * w + x = i := by
        refine ⟨i / w, i % w, ?_, Nat.mod_lt _ hw, ?_⟩
        · rw [Nat.div_lt_iff_lt_mul hw, Nat.mul_comm]; exact hi
        · rw [Nat.mul_comm]; exact Nat.div_add_mod i w
      have hpx := hp q x hr hx
      rw [ei, hP, hlen, hinfo] at hpx
      have hpos : ((h : Int) > 0) := by omega
      simp only [hpos, if_true] at hpx
      have hk : h - 1 - q < h := by omega
      have hfit : (h - 1 - q + 1) * ((w + 3) / 4 * 4) ≤ 1078 + (w + 3) / 4 * 4 * h - 1078 := by
        have : (h - 1 - q + 1) * ((w + 3) / 4 * 4) ≤ h * ((w + 3) / 4 * 4) :=
          Nat.mul_le_mul_right _ (by omega)
        rw [Nat.mul_comm h] at this
        omega
      rw [if_pos hfit] at hpx
      rw [hpx]
      have hrow := arquivo_salvo_linha f w h (h - 1 - q) hk hfl
      have e1 : h - 1 - (h - 1 - q) = q := by omega
      rw [e1] at hrow
      have hget := congrArg (fun l => l[x]?) hrow
      simp only at hget
      rw [List.getElem?_take, if_pos (by omega), List.getElem?_drop,
        List.getElem?_append_left (by
          rw [List.length_take, List.length_drop, hf]
          have h1 : (q + 1) * w ≤ h * w := Nat.mul_le_mul_right w (by omega)
          have h2 : (q + 1) * w = q * w + w := by ring
          have h3 : h * w = w * h := Nat.mul_comm _ _
          omega),
        List.getElem?_take, if_pos hx, List.getElem?_drop, ei] at hget
      exact hget
    · rw [List.getElem?_eq_none (by omega), List.getElem?_eq_none (by omega)]
  have hfr : frame = f := by
    apply List.ext_getElem?
    intro i
    exact aux i
  rw [hfr]

/-! ## The claims about the codec -/

/-- C1 (round trip). For every frame `f` of 160 x 120 = 19200 bytes, writing it
with `salvar_bitmap(path, f, 160, 120)` to a destination that takes the whole
file (20278 bytes) returns 0, and reading the file produced with
`carregar_bitmap(path, buf, 160, 120)` into a 19200-byte buffer returns 0 and
leaves the buffer equal to `f`. -/
theorem ida_e_volta_160x120 (f buffer : List Nat) (cap : Nat) (hf : f.length = 19200)
    (hb : buffer.length = 19200) (hcap : 20278 ≤ cap) :
    ∃ arq, salvar_bitmap (some cap) f 160 120 = (0, some arq) ∧
      carregar_bitmap (some arq) true buffer 160 120 = (0, f) := by
  refine ⟨arquivo_salvo f 160 120, ?_, ?_⟩
  · have := salvar_bitmap_arquivo 160 120 cap f (by norm_num) (by norm_num; omega)
      (by rw [hf])
    simpa using this
  · have := carregar_arquivo_salvo f buffer 160 120 (by norm_num) (by norm_num)
      (by norm_num) (by rw [hf]) (by rw [hb])
    simpa using this

/-- The round trip at the all-zero frame, read into a buffer of sevens. -/
theorem ida_e_volta_160x120_exemplo :
    (List.replicate 19200 0).length = 19200 ∧ (List.replicate 19200 7).length = 19200 ∧
    20278 ≤ 20278 ∧
    ∃ arq, salvar_bitmap (some 20278) (List.replicate 19200 0) 160 120 = (0, some arq) ∧
      carregar_bitmap (some arq) true (List.replicate 19200 7) 160 120
        = (0, List.replicate 19200 0) :=
  ⟨List.length_replicate _ _, List.length_replicate _ _, Nat.le_refl _,
    ida_e_volta_160x120 _ _ _ (List.length_replicate _ _) (List.length_replicate _ _)
      (Nat.le_refl _)⟩

/-- C2 (orientation of the decoded frame). For every file with magic `0x4D42`,
declared width 160, declared height 120 or -120, 8 bits per pixel, at most 256
declared colours and 120 complete rows of 160 bytes after the start of the pixel
data `p = 54 + 4 * N` (`N` the declared colour count, 256 when it is 0),
`carregar_bitmap` returns 0 and frame pixel `(x, r)` is byte `x` of stored row
`119 - r` when the declared height is positive and of stored row `r` when it is
negative; with a positive height, pixel `(0, 0)` is the first byte of the row
stored last. -/
theorem carregar_bitmap_de_cima_para_baixo (dados buffer : List Nat)
    (hm : (BMPHeader.de_bytes dados 0).tipo = 0x4D42)
    (hw : (BMPInfoHeader.de_bytes dados 14).largura = 160)
    (hh : (BMPInfoHeader.de_bytes dados 14).altura = 120 ∨
      (BMPInfoHeader.de_bytes dados 14).altura = -120)
    (h8 : (BMPInfoHeader.de_bytes dados 14).bits_por_pixel = 8)
    (hc : (BMPInfoHeader.de_bytes dados 14).cores_usadas ≤ 256)
    (hrows : 54 + 4 * (if (BMPInfoHeader.de_bytes dados 14).cores_usadas = 0 then 256
      else (BMPInfoHeader.de_bytes dados 14).cores_usadas) + 120 * 160 ≤ dados.length)
    (hb : buffer.length = 19200) :
    ∃ frame, carregar_bitmap (some dados) true buffer 160 120 = (0, frame) ∧
      frame.length = 19200 ∧
      (∀ r x, r < 120 → x < 160 → frame[r * 160 + x]? =
        dados[54 + 4 * (if (BMPInfoHeader.de_bytes dados 14).cores_usadas = 0 then 256
            else (BMPInfoHeader.de_bytes dados 14).cores_usadas)
          + (if (BMPInfoHeader.de_bytes dados 14).altura > 0 then 119 - r else r) * 160 + x]?) ∧
      ((BMPInfoHeader.de_bytes dados 14).altura > 0 → frame[0]? =
        dados[54 + 4 * (if (BMPInfoHeader.de_bytes dados 14).cores_usadas = 0 then 256
            else (BMPInfoHeader.de_bytes dados 14).cores_usadas) + 119 * 160]?) := by
  have hP := inicio_pixels_8 dados h8 (by omega)
  have hna : (BMPInfoHeader.de_bytes dados 14).altura.natAbs = 120 := by
    rcases hh with hh | hh <;> rw [hh] <;> rfl
  obtain ⟨frame, hcod, hl, hp⟩ := carregar_bitmap_8 dados buffer 160 120 (by omega) hm
    (by rw [hw]; rfl) hna h8 (by rw [hb])
  rw [hP] at hcod hp
  simp only [Nat.cast_ofNat] at hcod
  generalize (if (BMPInfoHeader.de_bytes dados 14).cores_usadas = 0 then 256
    else (BMPInfoHeader.de_bytes dados 14).cores_usadas) = n at hrows hcod hp ⊢
  rw [if_pos (by omega)] at hcod
  have hpix : ∀ r x, r < 120 → x < 160 → frame[r * 160 + x]? =
      dados[54 + 4 * n
        + (if (BMPInfoHeader.de_bytes dados 14).altura > 0 then 119 - r else r) * 160 + x]? := by
    intro r x hr hx
    have := hp r x hr hx
    rw [if_pos (by split <;> omega)] at this
    exact this
  refine ⟨frame, hcod, by rw [hl], hpix, ?_⟩
  intro hpos
  have := hpix 0 0 (by omega) (by omega)
  simpa [hpos] using this

/-- The decoding of a 160 x 120 file, on the file written for the all-zero frame. -/
theorem carregar_bitmap_de_cima_para_baixo_exemplo :
    ∃ frame, carregar_bitmap (some (arquivo_salvo (List.replicate 19200 0) 160 120)) true
        (List.replicate 19200 7) 160 120 = (0, frame) ∧ frame.length = 19200 := by
  have hi := arquivo_salvo_info (List.replicate 19200 0) 160 120 (by norm_num) (by norm_num)
    (by norm_num)
  have hh := arquivo_salvo_header (List.replicate 19200 0) 160 120 (by norm_num)
  have hl := arquivo_salvo_length (List.replicate 19200 0) 160 120
    (by rw [List.length_replicate])
  obtain ⟨frame, h1, h2, _⟩ := carregar_bitmap_de_cima_para_baixo
    (arquivo_salvo (List.replicate 19200 0) 160 120) (List.replicate 19200 7)
    (by rw [hh]) (by rw [hi]; rfl) (by rw [hi]; left; rfl) (by rw [hi]) (by rw [hi])
    (by rw [hi, hl]; decide) (List.length_replicate _ _)
  exact ⟨frame, h1, h2⟩

/-- Two files that agree on a stored row give the same pixels for it. -/
theorem pixel_armazenado_congr (a b : List Nat) (bpp p q x n : Nat)
    (hx : bpp = 24 → x * 3 + 2 < n) (hx8 : bpp ≠ 24 → x < n)
    (hab : ∀ j, j < n → a[p + j]? = b[q + j]?) :
    pixel_armazenado a bpp p x = pixel_armazenado b bpp q x := by
  unfold pixel_armazenado
  by_cases h24 : bpp = 24
  · have := hx h24
    rw [if_pos h24, if_pos h24,
      getD_of_getElem? a b _ _ (hab (x * 3 + 2) (by omega)),
      getD_of_getElem? a b _ _ (hab (x * 3 + 1) (by omega)),
      getD_of_getElem? a b _ _ (hab (x * 3) (by omega))]
  · rw [if_neg h24, if_neg h24, hab x (hx8 h24)]

/-- C3 (orientation invariant). Let `a` be a file that passes the header checks
for `w` by `h` pixels, declares the positive height `h` and holds `h` complete
stored rows, and let `b` be identical to it except that it declares the height
`-h` and stores the same rows in reversed order. Then `carregar_bitmap` returns
0 on both and leaves the same frame in the buffer. -/
theorem carregar_bitmap_orientacao (a b buffer : List Nat) (w h : Nat)
    (hv : passa_validacao a w h = true)
    (hpos : (BMPInfoHeader.de_bytes a 14).altura = (h : Int))
    (hcab : BMPHeader.de_bytes b 0 = BMPHeader.de_bytes a 0)
    (hinfo : BMPInfoHeader.de_bytes b 14
      = { BMPInfoHeader.de_bytes a 14 with altura := -(h : Int) })
    (hlen : b.length = a.length)
    (hfit : h * bytes_por_linha w (BMPInfoHeader.de_bytes a 14).bits_por_pixel
      ≤ a.length - inicio_pixels a)
    (hrows : ∀ k j, k < h →
      j < bytes_por_linha w (BMPInfoHeader.de_bytes a 14).bits_por_pixel →
      b[inicio_pixels a
          + k * bytes_por_linha w (BMPInfoHeader.de_bytes a 14).bits_por_pixel + j]?
        = a[inicio_pixels a
          + (h - 1 - k) * bytes_por_linha w (BMPInfoHeader.de_bytes a 14).bits_por_pixel + j]?)
    (hb : buffer.length = w * h) :
    ∃ frame, carregar_bitmap (some a) true buffer w h = (0, frame) ∧
      carregar_bitmap (some b) true buffer w h = (0, frame) := by
  obtain ⟨hl, hm, hwd, hh, hbpp⟩ := (passa_validacao_iff _ _ _).1 hv
  have hbppb : (BMPInfoHeader.de_bytes b 14).bits_por_pixel
      = (BMPInfoHeader.de_bytes a 14).bits_por_pixel := by rw [hinfo]
  have haltb : (BMPInfoHeader.de_bytes b 14).altura = -(h : Int) := by rw [hinfo]
  have eP : inicio_pixels b = inicio_pixels a :=
    inicio_pixels_congr b a hcab hbppb (by rw [hinfo])
  obtain ⟨fa, hfa, hla, hpa⟩ := carregar_bitmap_geral a buffer w h hl hm hwd
    (by exact_mod_cast hh) hbpp hb
  obtain ⟨fb, hfb, hlb, hpb⟩ := carregar_bitmap_geral b buffer w h (by omega)
    (by rw [hcab]; exact hm) (by rw [hinfo]; exact hwd)
    (by rw [haltb, Int.natAbs_neg, Int.natAbs_ofNat]) (by rw [hbppb]; exact hbpp) hb
  rw [hbppb, eP, hlen] at hfb hpb
  rw [if_pos hfit] at hfa hfb
  have hs : w ≤ bytes_por_linha w (BMPInfoHeader.de_bytes a 14).bits_por_pixel ∧
      ((BMPInfoHeader.de_bytes a 14).bits_por_pixel = 24 →
        w * 3 ≤ bytes_por_linha w (BMPInfoHeader.de_bytes a 14).bits_por_pixel) := by
    rcases hbpp with h8 | h24
    · rw [h8, bytes_por_linha_8]
      exact ⟨by omega, fun hc => absurd hc (by decide)⟩
    · rw [h24, bytes_por_linha_24]
      exact ⟨by omega, fun _ => by omega⟩
  have hfab : fb = fa := by
    apply List.ext_getElem?
    intro i
    by_cases hi : i < w * h
    · have hw0 : 0 < w := Nat.pos_of_ne_zero (fun hc => by rw [hc] at hi; omega)
      obtain ⟨r, x, hr, hx, ei⟩ : ∃ q x, q < h ∧ x < w ∧ q * w + x = i := by
        refine ⟨i / w, i % w, ?_, Nat.mod_lt _ hw0, ?_⟩
        · rw [Nat.div_lt_iff_lt_mul hw0, Nat.mul_comm]; exact hi
        · rw [Nat.mul_comm]; exact Nat.div_add_mod i w
      have h1 := hpa r x hr hx
      have h2 := hpb r x hr hx
      rw [ei] at h1 h2
      have hpa0 : (BMPInfoHeader.de_bytes a 14).altura > 0 := by rw [hpos]; omega
      have hpb0 : ¬ (BMPInfoHeader.de_bytes b 14).altura > 0 := by rw [haltb]; omega
      simp only [hpa0, if_true] at h1
      simp only [hpb0, if_false] at h2
      have hfit1 : (h - 1 - r + 1)
          * bytes_por_linha w (BMPInfoHeader.de_bytes a 14).bits_por_pixel
          ≤ a.length - inicio_pixels a :=
        Nat.le_trans (Nat.mul_le_mul_right _ (by omega)) hfit
      have hfit2 : (r + 1) * bytes_por_linha w (BMPInfoHeader.de_bytes a 14).bits_por_pixel
          ≤ a.length - inicio_pixels a :=
        Nat.le_trans (Nat.mul_le_mul_right _ (by omega)) hfit
      rw [if_pos hfit1] at h1
      rw [if_pos hfit2] at h2
      rw [h1, h2]
      exact pixel_armazenado_congr b a _ _ _ x _ (fun h24 => by have := hs.2 h24; omega)
        (fun _ => by omega) (fun j hj => hrows r j hr hj)
    · rw [List.getElem?_eq_none (by omega), List.getElem?_eq_none (by omega)]
  exact ⟨fa, hfa, by rw [hfb, hfab]⟩

/-- The two orientations of the 1 x 2 image with rows `7` and `3` decode alike. -/
theorem carregar_bitmap_orientacao_exemplo :
    passa_validacao arquivo_de_baixo_para_cima 1 2 = true ∧
    ∃ frame, carregar_bitmap (some arquivo_de_baixo_para_cima) true [9, 9] 1 2 = (0, frame) ∧
      carregar_bitmap (some arquivo_de_cima_para_baixo) true [9, 9] 1 2 = (0, frame) :=
  ⟨by decide,
    carregar_bitmap_orientacao arquivo_de_baixo_para_cima arquivo_de_cima_para_baixo [9, 9] 1 2
      (by decide) (by decide) (by decide) (by decide) (by decide) (by decide)
      (by
        intro k j hk hj
        have hj4 : j < 4 := by
          have e : bytes_por_linha ((1 : Nat) : Int)
              (BMPInfoHeader.de_bytes arquivo_de_baixo_para_cima 14).bits_por_pixel = 4 := by
            decide
          rw [e] at hj; exact hj
        interval_cases k <;> interval_cases j <;> decide)
      (by decide)⟩

/-! ## Header validation with the absolute value of the compiled code -/

/-- Away from `INT_MIN` the absolute value the compiled code computes is the
mathematical one. -/
theorem abs_de_int_eq (v : Int) (h : v ≠ -2147483648) : abs_de_int v = (v.natAbs : Int) := by
  unfold abs_de_int
  rw [if_neg h]

/-- The two readings of `abs` give the same call for every expected height
other than `-2^31` and `2^31`, whatever the file. -/
theorem carregar_bitmap_compilado_eq (nome_arquivo : Option (List Nat)) (malloc_ok : Bool)
    (buffer : List Nat) (largura_esperada altura_esperada : Int)
    (h0 : altura_esperada ≠ -2147483648) (h1 : altura_esperada ≠ 2147483648) :
    carregar_bitmap_compilado nome_arquivo malloc_ok buffer largura_esperada altura_esperada
      = carregar_bitmap nome_arquivo malloc_ok buffer largura_esperada altura_esperada := by
  cases nome_arquivo with
  | none => rfl
  | some dados =>
    unfold carregar_bitmap_compilado carregar_bitmap
    dsimp only
    generalize BMPInfoHeader.de_bytes
      (fread (avancar ⟨dados, 0⟩ sizeof_BMPHeader) sizeof_BMPInfoHeader) 0 = info
    by_cases hmin : info.altura = -2147483648
    · have ha : abs_de_int info.altura = -2147483648 := by
        unfold abs_de_int
        rw [if_pos hmin]
      have hn : (info.altura.natAbs : Int) = 2147483648 := by
        rw [hmin]
        decide
      have c1 : info.largura ≠ largura_esperada ∨ abs_de_int info.altura ≠ altura_esperada :=
        Or.inr (by rw [ha]; exact fun h => h0 h.symm)
      have c2 : info.largura ≠ largura_esperada ∨ (info.altura.natAbs : Int) ≠ altura_esperada :=
        Or.inr (by rw [hn]; exact fun h => h1 h.symm)
      rw [if_pos c1, if_pos c2]
    · rw [abs_de_int_eq _ hmin, Int.toNat_ofNat]

/-- Unfolding of `carregar_bitmap_compilado` on a file that cannot hold both
headers. -/
theorem carregar_bitmap_compilado_curto (dados : List Nat) (m : Bool) (buffer : List Nat)
    (w h : Int) (hlen : dados.length < 54) :
    carregar_bitmap_compilado (some dados) m buffer w h = (-1, buffer) := by
  unfold carregar_bitmap_compilado
  by_cases h14 : dados.length < 14
  · have l1 : (fread ⟨dados, 0⟩ sizeof_BMPHeader).length ≠ sizeof_BMPHeader := by
      rw [fread_length]; simp [sizeof_BMPHeader]; omega
    simp only [l1, ne_eq, not_false_eq_true, if_true]
  · have e1 : avancar ⟨dados, 0⟩ sizeof_BMPHeader = ⟨dados, 14⟩ := by
      rw [avancar_ok _ _ _ (by simp [sizeof_BMPHeader]; omega)]; rfl
    have l2 : (fread ⟨dados, 14⟩ sizeof_BMPInfoHeader).length ≠ sizeof_BMPInfoHeader := by
      rw [fread_length]; simp [sizeof_BMPInfoHeader]; omega
    simp only [e1, l2, ne_eq, not_false_eq_true, if_true, ite_self]

/-- Unfolding of `carregar_bitmap_compilado` on a file that holds both
headers. -/
theorem carregar_bitmap_compilado_longo (dados : List Nat) (m : Bool) (buffer : List Nat)
    (w h : Int) (hlen : 54 ≤ dados.length) :
    carregar_bitmap_compilado (some dados) m buffer w h =
      if (BMPHeader.de_bytes dados 0).tipo ≠ 0x4D42 then (-1, buffer)
      else if (BMPInfoHeader.de_bytes dados 14).largura ≠ w ∨
          abs_de_int (BMPInfoHeader.de_bytes dados 14).altura ≠ h then (-1, buffer)
      else if !m then (-1, buffer)
      else if (BMPInfoHeader.de_bytes dados 14).bits_por_pixel = 8 then
        ler_linhas_8 w.toNat (bytes_por_linha w 8)
          (abs_de_int (BMPInfoHeader.de_bytes dados 14).altura).toNat
          (decide ((BMPInfoHeader.de_bytes dados 14).altura > 0))
          (abs_de_int (BMPInfoHeader.de_bytes dados 14).altura).toNat 0
          ⟨dados, inicio_pixels dados⟩ buffer
      else if (BMPInfoHeader.de_bytes dados 14).bits_por_pixel = 24 then
        ler_linhas_24 w.toNat (bytes_por_linha w 24)
          (abs_de_int (BMPInfoHeader.de_bytes dados 14).altura).toNat
          (decide ((BMPInfoHeader.de_bytes dados 14).altura > 0))
          (abs_de_int (BMPInfoHeader.de_bytes dados 14).altura).toNat 0
          ⟨dados, inicio_pixels dados⟩ buffer
      else (-1, buffer) := by
  unfold carregar_bitmap_compilado
  have e1 : avancar ⟨dados, 0⟩ sizeof_BMPHeader = ⟨dados, 14⟩ := by
    rw [avancar_ok _ _ _ (by simp [sizeof_BMPHeader]; omega)]; rfl
  have e2 : avancar ⟨dados, 14⟩ sizeof_BMPInfoHeader = ⟨dados, 54⟩ := by
    rw [avancar_ok _ _ _ (by simp [sizeof_BMPInfoHeader]; omega)]; rfl
  have l1 : (fread ⟨dados, 0⟩ sizeof_BMPHeader).length = sizeof_BMPHeader := by
    rw [fread_length]; simp [sizeof_BMPHeader]; omega
  have l2 : (fread ⟨dados, 14⟩ sizeof_BMPInfoHeader).length = sizeof_BMPInfoHeader := by
    rw [fread_length]; simp [sizeof_BMPInfoHeader]; omega
  simp only [e1, e2, l1, l2, header_fread, info_fread, ne_eq, not_true_eq_false, if_false]
  split
  · rfl
  · split
    · rfl
    · split
      · rfl
      · by_cases h8 : (BMPInfoHeader.de_bytes dados 14).bits_por_pixel = 8
        · simp only [h8, if_true, or_true, inicio_pixels, bytes_por_linha]
          rw [fseek_eta]
          simp [fseek_dados]
        · simp only [h8, if_false, inicio_pixels, bytes_por_linha]
          split
          · rw [fseek_eta]
            simp [fseek_dados]
          · rfl

/-- The absolute value the compiled code computes differs from an expected
height other than `INT_MIN` whenever the mathematical one does. -/
theorem abs_de_int_ne (v h : Int) (h0 : h ≠ -2147483648) (hd : (v.natAbs : Int) ≠ h) :
    abs_de_int v ≠ h := by
  unfold abs_de_int
  split
  · exact fun e => h0 e.symm
  · exact hd

/-- C4, as the code refutes it: the headers of `arquivo_altura_minima` have the
magic `0x4D42`, the width 1, 8 bits per pixel and the height field `INT_MIN`,
whose absolute value `2^31` differs from the expected height `INT_MIN`, and the
call with the expected size 1 by `INT_MIN` returns 0, the buffer of the caller
untouched: `abs(info.altura)` is `INT_MIN` in the compiled code and the row
loop runs no turn. -/
theorem carregar_bitmap_altura_minima :
    (BMPHeader.de_bytes arquivo_altura_minima 0).tipo = 0x4D42 ∧
    (BMPInfoHeader.de_bytes arquivo_altura_minima 14).largura = 1 ∧
    (BMPInfoHeader.de_bytes arquivo_altura_minima 14).bits_por_pixel = 8 ∧
    (BMPInfoHeader.de_bytes arquivo_altura_minima 14).altura = -2147483648 ∧
    (((BMPInfoHeader.de_bytes arquivo_altura_minima 14).altura.natAbs : Int) ≠ -2147483648) ∧
    carregar_bitmap_compilado (some arquivo_altura_minima) true [9] 1 (-2147483648)
      = (0, [9]) := by
  refine ⟨by decide, by decide, by decide, by decide, by decide, by decide⟩

/-- C4 (header validation), amended. For every file and every expected height
other than `INT_MIN`, `carregar_bitmap` (with `abs` as the compiled code
computes it) returns -1 when the magic is not `0x4D42`, or the declared width
differs from `largura_esperada`, or the absolute value of the declared height
differs from `altura_esperada`, or the bits-per-pixel field is neither 8 nor
24; so a call that returns 0 found all four conditions satisfied. For every
expected height that is an `int` other than `INT_MIN` the call is the one of
the definition with the mathematical absolute value. -/
theorem carregar_bitmap_valida_cabecalhos (dados : List Nat) (malloc_ok : Bool)
    (buffer : List Nat) (largura_esperada altura_esperada : Int)
    (hmin : altura_esperada ≠ -2147483648) :
    (((BMPHeader.de_bytes dados 0).tipo ≠ 0x4D42 ∨
        (BMPInfoHeader.de_bytes dados 14).largura ≠ largura_esperada ∨
        ((BMPInfoHeader.de_bytes dados 14).altura.natAbs : Int) ≠ altura_esperada ∨
        ((BMPInfoHeader.de_bytes dados 14).bits_por_pixel ≠ 8 ∧
          (BMPInfoHeader.de_bytes dados 14).bits_por_pixel ≠ 24)) →
      (carregar_bitmap_compilado (some dados) malloc_ok buffer largura_esperada
        altura_esperada).1 = -1) ∧
    ((carregar_bitmap_compilado (some dados) malloc_ok buffer largura_esperada
        altura_esperada).1 = 0 →
      (BMPHeader.de_bytes dados 0).tipo = 0x4D42 ∧
      (BMPInfoHeader.de_bytes dados 14).largura = largura_esperada ∧
      ((BMPInfoHeader.de_bytes dados 14).altura.natAbs : Int) = altura_esperada ∧
      ((BMPInfoHeader.de_bytes dados 14).bits_por_pixel = 8 ∨
        (BMPInfoHeader.de_bytes dados 14).bits_por_pixel = 24)) ∧
    (altura_esperada < 2147483648 →
      carregar_bitmap_compilado (some dados) malloc_ok buffer largura_esperada altura_esperada
        = carregar_bitmap (some dados) malloc_ok buffer largura_esperada altura_esperada) := by
  have key : ((BMPHeader.de_bytes dados 0).tipo ≠ 0x4D42 ∨
        (BMPInfoHeader.de_bytes dados 14).largura ≠ largura_esperada ∨
        ((BMPInfoHeader.de_bytes dados 14).altura.natAbs : Int) ≠ altura_esperada ∨
        ((BMPInfoHeader.de_bytes dados 14).bits_por_pixel ≠ 8 ∧
          (BMPInfoHeader.de_bytes dados 14).bits_por_pixel ≠ 24)) →
      (carregar_bitmap_compilado (some dados) malloc_ok buffer largura_esperada
        altura_esperada).1 = -1 := by
    intro hbad
    by_cases hl : dados.length < 54
    · rw [carregar_bitmap_compilado_curto _ _ _ _ _ hl]
    · rw [carregar_bitmap_compilado_longo _ _ _ _ _ (by omega)]
      by_cases h1 : (BMPHeader.de_bytes dados 0).tipo ≠ 0x4D42
      · rw [if_pos h1]
      · rw [if_neg h1]
        by_cases h2 : (BMPInfoHeader.de_bytes dados 14).largura ≠ largura_esperada ∨
            abs_de_int (BMPInfoHeader.de_bytes dados 14).altura ≠ altura_esperada
        · rw [if_pos h2]
        · rw [if_neg h2]
          have h2a : ¬ ((BMPInfoHeader.de_bytes dados 14).altura.natAbs : Int)
              ≠ altura_esperada :=
            fun hd => h2 (Or.inr (abs_de_int_ne _ _ hmin hd))
          have h3 : (BMPInfoHeader.de_bytes dados 14).bits_por_pixel ≠ 8 ∧
              (BMPInfoHeader.de_bytes dados 14).bits_por_pixel ≠ 24 := by tauto
          rw [if_neg h3.1, if_neg h3.2]
          simp
  refine ⟨key, ?_, fun hmax =>
    carregar_bitmap_compilado_eq _ _ _ _ _ hmin (by omega)⟩
  intro h0
  by_contra hcon
  have hbad : (BMPHeader.de_bytes dados 0).tipo ≠ 0x4D42 ∨
      (BMPInfoHeader.de_bytes dados 14).largura ≠ largura_esperada ∨
      ((BMPInfoHeader.de_bytes dados 14).altura.natAbs : Int) ≠ altura_esperada ∨
      ((BMPInfoHeader.de_bytes dados 14).bits_por_pixel ≠ 8 ∧
        (BMPInfoHeader.de_bytes dados 14).bits_por_pixel ≠ 24) := by tauto
  rw [key hbad] at h0
  exact absurd h0 (by decide)

/-- The file of 1 by 2 pixels called with the expected size 1 by 3 returns -1;
the file with the height field `INT_MIN` called with the expected size 1 by 120
returns -1. -/
theorem carregar_bitmap_valida_cabecalhos_exemplo :
    (3 : Int) ≠ -2147483648 ∧ (120 : Int) ≠ -2147483648 ∧
    (carregar_bitmap_compilado (some arquivo_de_baixo_para_cima) true [9, 9] 1 3).1 = -1 ∧
    (carregar_bitmap_compilado (some arquivo_altura_minima) true [9] 1 120).1 = -1 :=
  ⟨by decide, by decide,
    (carregar_bitmap_valida_cabecalhos arquivo_de_baixo_para_cima true [9, 9] 1 3
      (by decide)).1 (Or.inr (Or.inr (Or.inl (by decide)))),
    (carregar_bitmap_valida_cabecalhos arquivo_altura_minima true [9] 1 120
      (by decide)).1 (Or.inr (Or.inr (Or.inl (by decide))))⟩

/-- C5 (truncation). For every file that passes the header checks and holds fewer
bytes after the position where pixel data is read from than the declared number
of rows times the stored row length (fewer than |height| complete stored rows),
`carregar_bitmap` returns -1. -/
theorem carregar_bitmap_arquivo_truncado (dados : List Nat) (malloc_ok : Bool)
    (buffer : List Nat) (largura_esperada altura_esperada : Int)
    (hv : passa_validacao dados largura_esperada altura_esperada = true)
    (ht : dados.length - inicio_pixels dados <
      (BMPInfoHeader.de_bytes dados 14).altura.natAbs
        * bytes_por_linha largura_esperada (BMPInfoHeader.de_bytes dados 14).bits_por_pixel) :
    (carregar_bitmap (some dados) malloc_ok buffer largura_esperada altura_esperada).1 = -1 := by
  obtain ⟨hl, hm, hw, hh, hbpp⟩ := (passa_validacao_iff _ _ _).1 hv
  rw [carregar_bitmap_longo _ _ _ _ _ hl]
  simp only [hm, hw, hh, ne_eq, not_true_eq_false, if_false, or_self]
  cases malloc_ok with
  | false => simp
  | true =>
    simp only [Bool.not_true, Bool.false_eq_true, if_false]
    rcases hbpp with h8 | h24
    · rw [h8] at ht
      rw [if_pos h8, ler_linhas_8_codigo, if_neg (by omega)]
    · rw [h24] at ht
      rw [if_neg (by rw [h24]; decide), if_pos h24, ler_linhas_24_codigo, if_neg (by omega)]

/-- The 1 x 2 file that holds one of its two rows is refused. -/
theorem carregar_bitmap_arquivo_truncado_exemplo :
    passa_validacao arquivo_cortado 1 2 = true ∧
    arquivo_cortado.length - inicio_pixels arquivo_cortado <
      (BMPInfoHeader.de_bytes arquivo_cortado 14).altura.natAbs
        * bytes_por_linha 1 (BMPInfoHeader.de_bytes arquivo_cortado 14).bits_por_pixel ∧
    (carregar_bitmap (some arquivo_cortado) true [9, 9] 1 2).1 = -1 :=
  ⟨by decide, by decide,
    carregar_bitmap_arquivo_truncado arquivo_cortado true [9, 9] 1 2 (by decide) (by decide)⟩

/-- C6, as the code refutes it: the file `arquivo_cortado` passes the header
checks for 1 x 2 pixels and holds one of its two rows; the call returns -1 and
the caller's buffer `[9, 9]` comes back as `[9, 7]`, the row read before the
short read having been copied into it. -/
theorem carregar_bitmap_falha_altera_buffer :
    (carregar_bitmap (some arquivo_cortado) true [9, 9] 1 2).1 = -1 ∧
    (carregar_bitmap (some arquivo_cortado) true [9, 9] 1 2).2 = [9, 7] ∧
    (carregar_bitmap (some arquivo_cortado) true [9, 9] 1 2).2 ≠ [9, 9] := by
  decide

/-- C6 amended. (a) When the call cannot read a complete first stored row (the
file cannot be opened, a header is short, the magic, the dimensions or the depth
are refused, the allocation fails, or the file holds less than one stored row
after the start of the pixel data), the caller's buffer holds exactly the bytes
it held before. (b) For a file that passes the header checks, whatever the code
returned, the buffer of `w * h` bytes holds the decoded pixels in the
destination rows of the stored rows that are complete in the file and its
previous bytes everywhere else. -/
theorem carregar_bitmap_efeito_no_buffer :
    (∀ (arq : Option (List Nat)) (malloc_ok : Bool) (buffer : List Nat) (w h : Int),
      (∀ dados, arq = some dados → passa_validacao dados w h = true → malloc_ok = true →
        dados.length - inicio_pixels dados
          < bytes_por_linha w (BMPInfoHeader.de_bytes dados 14).bits_por_pixel) →
      (carregar_bitmap arq malloc_ok buffer w h).2 = buffer) ∧
    (∀ (dados buffer : List Nat) (w h : Nat),
      passa_validacao dados w h = true → buffer.length = w * h →
      ∀ r x, r < h → x < w →
        (carregar_bitmap (some dados) true buffer w h).2[r * w + x]? =
          if ((if (BMPInfoHeader.de_bytes dados 14).altura > 0 then h - 1 - r else r) + 1)
              * bytes_por_linha w (BMPInfoHeader.de_bytes dados 14).bits_por_pixel
              ≤ dados.length - inicio_pixels dados
          then pixel_armazenado dados (BMPInfoHeader.de_bytes dados 14).bits_por_pixel
            (inicio_pixels dados
              + (if (BMPInfoHeader.de_bytes dados 14).altura > 0 then h - 1 - r else r)
                * bytes_por_linha w (BMPInfoHeader.de_bytes dados 14).bits_por_pixel) x
          else buffer[r * w + x]?) := by
  constructor
  · intro arq malloc_ok buffer w h hprim
    cases arq with
    | none => rfl
    | some dados =>
      by_cases hl : dados.length < 54
      · rw [carregar_bitmap_curto _ _ _ _ _ hl]
      · have hl54 : 54 ≤ dados.length := by omega
        rw [carregar_bitmap_longo _ _ _ _ _ hl54]
        by_cases h1 : (BMPHeader.de_bytes dados 0).tipo ≠ 0x4D42
        · rw [if_pos h1]
        · rw [if_neg h1]
          by_cases h2 : (BMPInfoHeader.de_bytes dados 14).largura ≠ w ∨
              ((BMPInfoHeader.de_bytes dados 14).altura.natAbs : Int) ≠ h
          · rw [if_pos h2]
          · rw [if_neg h2]
            cases malloc_ok with
            | false => simp
            | true =>
              simp only [Bool.not_true, Bool.false_eq_true, if_false]
              by_cases h8 : (BMPInfoHeader.de_bytes dados 14).bits_por_pixel = 8
              · have hv : passa_validacao dados w h = true := by
                  rw [passa_validacao_iff]; tauto
                have := hprim dados rfl hv rfl
                rw [h8] at this
                rw [if_pos h8]
                exact ler_linhas_8_sem_linha _ _ _ _ _ _ _ _ _ this
              · rw [if_neg h8]
                by_cases h24 : (BMPInfoHeader.de_bytes dados 14).bits_por_pixel = 24
                · have hv : passa_validacao dados w h = true := by
                    rw [passa_validacao_iff]; tauto
                  have := hprim dados rfl hv rfl
                  rw [h24] at this
                  rw [if_pos h24]
                  exact ler_linhas_24_sem_linha _ _ _ _ _ _ _ _ _ this
                · rw [if_neg h24]
  · intro dados buffer w h hv hb r x hr hx
    obtain ⟨hl, hm, hw, hh, hbpp⟩ := (passa_validacao_iff _ _ _).1 hv
    obtain ⟨frame, hf, _, hfp⟩ := carregar_bitmap_geral dados buffer w h hl hm hw
      (by exact_mod_cast hh) hbpp hb
    rw [hf]
    exact hfp r x hr hx

/-- A file cut right after the colour table leaves the buffer as it was; the file
cut after its first row leaves that row decoded in the buffer. -/
theorem carregar_bitmap_efeito_no_buffer_exemplo :
    (carregar_bitmap (some (arquivo_cortado.take 58)) true [9, 9] 1 2).2 = [9, 9] ∧
    (carregar_bitmap (some arquivo_cortado) true [9, 9] 1 2).2[1]? = some 7 := by
  constructor
  · exact carregar_bitmap_efeito_no_buffer.1 (some (arquivo_cortado.take 58)) true [9, 9] 1 2
      (fun dados hd _ _ => by
        cases hd
        decide)
  · have := carregar_bitmap_efeito_no_buffer.2 arquivo_cortado [9, 9] 1 2 (by decide)
      (by decide) 1 0 (by decide) (by decide)
    exact this.trans (by decide)

/-- C7 (row padding on decode). For every expected width `w > 0`: (a) the number
of bytes read for each stored 8-bit row is `w` rounded up to the next multiple
of 4; (b) a file with valid headers, 8 bits per pixel and `h` complete rows
decodes with code 0 and frame pixel `(x, r)` is byte `x` of the stored row found
at that stride from the start of the pixel data; (c) two 8-bit files of the
same length that agree on the headers and on every byte that is not a padding
byte (a byte at or after the start of the pixel data whose offset inside its
stored row is `w` or more) give the same result, code and buffer. -/
theorem carregar_bitmap_padding (w : Nat) (hw : 0 < w) :
    (bytes_por_linha (w : Int) 8 = (w + 3) / 4 * 4 ∧ (w + 3) / 4 * 4 % 4 = 0 ∧
      w ≤ (w + 3) / 4 * 4 ∧ (w + 3) / 4 * 4 < w + 4) ∧
    (∀ (dados buffer : List Nat) (h : Nat),
      passa_validacao dados w h = true →
      (BMPInfoHeader.de_bytes dados 14).bits_por_pixel = 8 →
      h * ((w + 3) / 4 * 4) ≤ dados.length - inicio_pixels dados →
      buffer.length = w * h →
      ∃ frame, carregar_bitmap (some dados) true buffer w h = (0, frame) ∧
        frame.length = w * h ∧
        ∀ r x, r < h → x < w → frame[r * w + x]? =
          dados[inicio_pixels dados
            + (if (BMPInfoHeader.de_bytes dados 14).altura > 0 then h - 1 - r else r)
              * ((w + 3) / 4 * 4) + x]?) ∧
    (∀ (a b : List Nat) (malloc_ok : Bool) (buffer : List Nat) (h : Int),
      (BMPInfoHeader.de_bytes a 14).bits_por_pixel = 8 →
      a.length = b.length →
      (∀ i, i < 54 ∨ ¬ (inicio_pixels a ≤ i ∧ w ≤ (i - inicio_pixels a) % ((w + 3) / 4 * 4)) →
        a[i]? = b[i]?) →
      carregar_bitmap (some a) malloc_ok buffer w h
        = carregar_bitmap (some b) malloc_ok buffer w h) := by
  refine ⟨⟨bytes_por_linha_8 w, by omega, by omega, by omega⟩, ?_, ?_⟩
  · intro dados buffer h hv h8 hfit hb
    obtain ⟨hl, hm, hwd, hh, hbpp⟩ := (passa_validacao_iff _ _ _).1 hv
    obtain ⟨frame, hf, hfl, hfp⟩ := carregar_bitmap_geral dados buffer w h hl hm hwd
      (by exact_mod_cast hh) hbpp hb
    rw [h8, bytes_por_linha_8] at hf hfp
    rw [if_pos hfit] at hf
    refine ⟨frame, hf, hfl, ?_⟩
    intro r x hr hx
    rw [hfp r x hr hx, if_pos, pixel_armazenado, if_neg (by decide)]
    have : ((if (BMPInfoHeader.de_bytes dados 14).altura > 0 then h - 1 - r else r) + 1)
        * ((w + 3) / 4 * 4) ≤ h * ((w + 3) / 4 * 4) :=
      Nat.mul_le_mul_right _ (by split <;> omega)
    omega
  · intro a b malloc_ok buffer h h8 hlen hab
    have hcab : ∀ i, i < 54 → a[i]? = b[i]? := fun i hi => hab i (Or.inl hi)
    have e0 := header_congr a b hcab
    have e1 := info_congr a b hcab
    have eP : inicio_pixels a = inicio_pixels b :=
      inicio_pixels_congr a b e0 (by rw [e1]) (by rw [e1])
    by_cases hl : a.length < 54
    · rw [carregar_bitmap_curto _ _ _ _ _ hl, carregar_bitmap_curto _ _ _ _ _ (by omega)]
    · rw [carregar_bitmap_longo _ _ _ _ _ (by omega),
        carregar_bitmap_longo _ _ _ _ _ (by omega), ← e0, ← e1, ← eP]
      simp only [h8, if_true]
      split
      · rfl
      · split
        · rfl
        · split
          · rfl
          · rw [bytes_por_linha_8]
            apply ler_linhas_8_congr a b _ _ _ _ (by omega) hlen
            intro k j _ hj
            apply hab
            right
            intro hc
            have e : inicio_pixels a + k * ((w + 3) / 4 * 4) + j - inicio_pixels a
                = j + ((w + 3) / 4 * 4) * k := by
              rw [Nat.mul_comm]; omega
            rw [e, Nat.add_mul_mod_self_left, Nat.mod_eq_of_lt (by omega)] at hc
            omega

/-- Two 1 x 2 files that differ in their six padding bytes decode alike. -/
theorem carregar_bitmap_padding_exemplo :
    (0 < 1) ∧
    arquivo_de_baixo_para_cima ≠ arquivo_com_outro_padding ∧
    carregar_bitmap (some arquivo_de_baixo_para_cima) true [9, 9] 1 2
      = carregar_bitmap (some arquivo_com_outro_padding) true [9, 9] 1 2 :=
  ⟨by decide, by decide,
    (carregar_bitmap_padding 1 (by decide)).2.2 arquivo_de_baixo_para_cima
      arquivo_com_outro_padding true [9, 9] 2 (by decide) (by decide)
      (by
        intro i hi
        by_cases h66 : i < 66
        · interval_cases i <;> first | decide | (exfalso; revert hi; decide)
        · rw [List.getElem?_eq_none (by
              have : arquivo_de_baixo_para_cima.length = 66 := by decide
              omega),
            List.getElem?_eq_none (by
              have : arquivo_com_outro_padding.length = 66 := by decide
              omega)])⟩

/-- C8 (encode headers and palette). With `stride = (w + 3) / 4 * 4` (the width
rounded up to a multiple of 4), sizes in range of `int` and a destination that
takes the whole file, `salvar_bitmap` returns 0 and the file read back field by
field declares magic `0x4D42`, file size `1078 + stride * h`, pixel-data offset
1078, info-header size 40, width `w`, height `h`, one plane, 8 bits per pixel,
compression 0 and 256 colours; the file holds exactly `1078 + stride * h` bytes;
and palette entry `i`, the four bytes from offset `54 + 4 * i`, is `i, i, i, 0`. -/
theorem salvar_bitmap_cabecalhos_e_paleta (w h cap : Nat) (buffer : List Nat)
    (hw : 0 < w) (hh : 0 < h) (hb : buffer.length = w * h)
    (hint : (w + 3) / 4 * 4 * h < 2147483648)
    (hcap : 1078 + (w + 3) / 4 * 4 * h ≤ cap) :
    ∃ arq, salvar_bitmap (some cap) buffer w h = (0, some arq) ∧
      BMPHeader.de_bytes arq 0 = ⟨0x4D42, 1078 + (w + 3) / 4 * 4 * h, 0, 0, 1078⟩ ∧
      BMPInfoHeader.de_bytes arq 14
        = ⟨40, w, h, 1, 8, 0, (w + 3) / 4 * 4 * h, 0, 0, 256, 256⟩ ∧
      arq.length = 1078 + (w + 3) / 4 * 4 * h ∧
      ∀ i, i < 256 → (arq.drop (54 + 4 * i)).take 4 = [i, i, i, 0] := by
  have hbl : h * w ≤ buffer.length := by rw [hb, Nat.mul_comm]
  obtain ⟨hwlt, hhlt⟩ := limites_de_int w h hw hh hint
  exact ⟨_, salvar_bitmap_arquivo w h cap buffer hint hcap hbl,
    arquivo_salvo_header buffer w h hint, arquivo_salvo_info buffer w h hwlt hhlt hint,
    arquivo_salvo_length buffer w h hbl, fun i hi => arquivo_salvo_paleta buffer w h i hi⟩

/-- The file written for a 1 x 1 frame holds 1082 bytes. -/
theorem salvar_bitmap_cabecalhos_e_paleta_exemplo :
    ∃ arq, salvar_bitmap (some 2000) [5] 1 1 = (0, some arq) ∧ arq.length = 1082 := by
  obtain ⟨arq, h1, _, _, h4, _⟩ := salvar_bitmap_cabecalhos_e_paleta 1 1 2000 [5]
    (by decide) (by decide) (by decide) (by decide) (by decide)
  exact ⟨arq, h1, h4⟩

/-- C9 (encode row order and padding). Under the conditions of C8, the stored
row number `k` of the file written by `salvar_bitmap` (counted from 0, starting
at offset 1078, one row every `(w + 3) / 4 * 4` bytes) is the `w` bytes of frame
row `h - 1 - k` followed by `(4 - w % 4) % 4` zero bytes, and the height the file
declares is the positive value `h`. -/
theorem salvar_bitmap_linhas_de_baixo_para_cima (w h cap : Nat) (buffer : List Nat)
    (hw : 0 < w) (hh : 0 < h) (hb : buffer.length = w * h)
    (hint : (w + 3) / 4 * 4 * h < 2147483648)
    (hcap : 1078 + (w + 3) / 4 * 4 * h ≤ cap) :
    ∃ arq, salvar_bitmap (some cap) buffer w h = (0, some arq) ∧
      (BMPInfoHeader.de_bytes arq 14).altura = (h : Int) ∧
      0 < (BMPInfoHeader.de_bytes arq 14).altura ∧
      ∀ k, k < h →
        (arq.drop (1078 + k * ((w + 3) / 4 * 4))).take ((w + 3) / 4 * 4)
          = (buffer.drop ((h - 1 - k) * w)).take w ++ List.replicate ((4 - w % 4) % 4) 0 ∧
        ((buffer.drop ((h - 1 - k) * w)).take w).length = w := by
  have hbl : h * w ≤ buffer.length := by rw [hb, Nat.mul_comm]
  obtain ⟨hwlt, hhlt⟩ := limites_de_int w h hw hh hint
  have hinfo := arquivo_salvo_info buffer w h hwlt hhlt hint
  refine ⟨_, salvar_bitmap_arquivo w h cap buffer hint hcap hbl, ?_, ?_, ?_⟩
  · rw [hinfo]
  · rw [hinfo]; simp only; omega
  · intro k hk
    have e6 : (4 - w % 4) % 4 = (w + 3) / 4 * 4 - w := by omega
    constructor
    · rw [e6]; exact arquivo_salvo_linha buffer w h k hk hbl
    · rw [List.length_take, List.length_drop, hb]
      have h1 : (h - 1 - k + 1) * w ≤ h * w := Nat.mul_le_mul_right w (by omega)
      have h2 : (h - 1 - k + 1) * w = (h - 1 - k) * w + w := by ring
      have h3 : h * w = w * h := Nat.mul_comm _ _
      omega

/-- The two stored rows of a 1 x 2 frame `5`, `6`: row 1 first, each padded with three zeros. -/
theorem salvar_bitmap_linhas_de_baixo_para_cima_exemplo :
    ∃ arq, salvar_bitmap (some 2000) [5, 6] 1 2 = (0, some arq) ∧
      (arq.drop 1078).take 4 = [6, 0, 0, 0] ∧ (arq.drop 1082).take 4 = [5, 0, 0, 0] := by
  obtain ⟨arq, h1, _, _, h4⟩ := salvar_bitmap_linhas_de_baixo_para_cima 1 2 2000 [5, 6]
    (by decide) (by decide) (by decide) (by decide) (by decide)
  exact ⟨arq, h1, (h4 0 (by decide)).1, (h4 1 (by decide)).1⟩

/-- C10, the defect evaluated: a destination that can be created and takes only
10 bytes receives the first 10 bytes of a 1082-byte file and `salvar_bitmap`
returns 0; it returns 0 for every destination that can be created, whatever
the number of bytes it takes, and -1 only when the file cannot be created. -/
theorem salvar_bitmap_ignora_escrita_curta :
    salvar_bitmap (some 10) [5] 1 1 = (0, some [66, 77, 58, 4, 0, 0, 0, 0, 0, 0]) ∧
    (∀ (cap : Nat) (buffer : List Nat) (w h : Int),
      (salvar_bitmap (some cap) buffer w h).1 = 0) ∧
    (∀ (buffer : List Nat) (w h : Int), salvar_bitmap none buffer w h = (-1, none)) := by
  refine ⟨?_, ?_, ?_⟩
  · rw [salvar_bitmap_fluxo]
    decide
  · intro cap buffer w h
    rw [salvar_bitmap_fluxo]
  · intro buffer w h
    rfl

set_option maxRecDepth 100000 in
/-- On a gray triple the conversion gives the gray level or one less. -/
theorem cinza_de_tons_de_cinza :
    ∀ v : Nat, v < 256 → cinza v v v = v ∨ cinza v v v + 1 = v := by
  decide

set_option maxRecDepth 100000 in
/-- The gray levels the conversion does not give back are 65. -/
theorem cinza_tons_alterados :
    ((List.range 256).filter (fun v => decide (cinza v v v ≠ v))).length = 65 := by
  decide

/-- C11 (decoding of 24 bits per pixel). (a) For every file that passes the
header checks for `w` by `h` pixels, declares 24 bits per pixel and holds `h`
complete stored rows, `carregar_bitmap` returns 0 and frame pixel `(x, r)` is
`cinza R G B`, with `B`, `G`, `R` the bytes at offsets `3x`, `3x + 1`, `3x + 2`
of its stored row (row `h - 1 - r` for a positive declared height, row `r`
otherwise). (b) The stored rows have stride `3w` rounded up to a multiple of 4.
(c) `cinza` evaluates the formula in binary64 and truncates: it is never above
the exact value on a gray triple, and on 65 gray triples it is one below it.
The file `arquivo_cinza_24`, whose only pixel is the gray triple (1, 1, 1),
decodes to 0 where the formula of the specification gives 1; the mid gray
(128, 128, 128) decodes to 127. -/
theorem carregar_bitmap_24_bits :
    (∀ (dados buffer : List Nat) (w h : Nat),
      passa_validacao dados w h = true →
      (BMPInfoHeader.de_bytes dados 14).bits_por_pixel = 24 →
      h * bytes_por_linha w 24 ≤ dados.length - inicio_pixels dados →
      buffer.length = w * h →
      ∃ frame, carregar_bitmap (some dados) true buffer w h = (0, frame) ∧
        ∀ r x, r < h → x < w →
          frame[r * w + x]? =
            some (cinza
              (dados.getD (inicio_pixels dados
                + (if (BMPInfoHeader.de_bytes dados 14).altura > 0 then h - 1 - r else r)
                  * bytes_por_linha w 24 + (x * 3 + 2)) 0)
              (dados.getD (inicio_pixels dados
                + (if (BMPInfoHeader.de_bytes dados 14).altura > 0 then h - 1 - r else r)
                  * bytes_por_linha w 24 + (x * 3 + 1)) 0)
              (dados.getD (inicio_pixels dados
                + (if (BMPInfoHeader.de_bytes dados 14).altura > 0 then h - 1 - r else r)
                  * bytes_por_linha w 24 + x * 3) 0))) ∧
    (∀ w : Nat, bytes_por_linha w 24 = (w * 3 + 3) / 4 * 4) ∧
    (∀ v : Nat, v < 256 →
      luma_da_formula v v v = v ∧ (cinza v v v = v ∨ cinza v v v + 1 = v)) ∧
    ((List.range 256).filter (fun v => decide (cinza v v v ≠ v))).length = 65 ∧
    (passa_validacao arquivo_cinza_24 1 1 = true ∧
      carregar_bitmap (some arquivo_cinza_24) true [9] 1 1 = (0, [0]) ∧
      luma_da_formula 1 1 1 = 1) ∧
    (cinza 128 128 128 = 127 ∧ luma_da_formula 128 128 128 = 128) := by
  refine ⟨?_, bytes_por_linha_24, ?_, ?_, ⟨?_, ?_, ?_⟩, ?_, ?_⟩
  · intro dados buffer w h hv h24 hfit hb
    obtain ⟨hl, hm, hwd, hh, hbpp⟩ := (passa_validacao_iff _ _ _).1 hv
    obtain ⟨frame, hf, _, hp⟩ := carregar_bitmap_geral dados buffer w h hl hm hwd
      (by exact_mod_cast hh) hbpp hb
    rw [h24] at hf hp
    rw [if_pos hfit] at hf
    refine ⟨frame, hf, ?_⟩
    intro r x hr hx
    rw [hp r x hr hx]
    have hrow : ((if (BMPInfoHeader.de_bytes dados 14).altura > 0 then h - 1 - r else r) + 1)
        * bytes_por_linha w 24 ≤ dados.length - inicio_pixels dados := by
      refine le_trans (Nat.mul_le_mul_right _ ?_) hfit
      split <;> omega
    rw [if_pos hrow]
    unfold pixel_armazenado
    rw [if_pos rfl]
  · intro v hv
    have h1 : ∀ v, v < 256 → luma_da_formula v v v = v := by
      intro v hv
      unfold luma_da_formula
      omega
    exact ⟨h1 v hv, cinza_de_tons_de_cinza v hv⟩
  · exact cinza_tons_alterados
  · decide
  · rw [carregar_bitmap_longo _ _ _ _ _ (by decide)]
    decide
  · decide
  · decide
  · decide

/-! ## Helper lemmas about refused files -/

/-- A file that `fopen` does not find is refused. -/
theorem carregar_bitmap_sem_arquivo (m : Bool) (buffer : List Nat) (w h : Int) :
    carregar_bitmap none m buffer w h = (-1, buffer) := rfl

/-- A file that fails one of the header checks is refused. -/
theorem carregar_bitmap_sem_validacao (dados : List Nat) (m : Bool) (buffer : List Nat)
    (w h : Int) (hv : passa_validacao dados w h = false) :
    carregar_bitmap (some dados) m buffer w h = (-1, buffer) := by
  by_cases hl : dados.length < 54
  · exact carregar_bitmap_curto _ _ _ _ _ hl
  · rw [carregar_bitmap_longo _ _ _ _ _ (by omega)]
    have hn : ¬ (54 ≤ dados.length ∧ (BMPHeader.de_bytes dados 0).tipo = 0x4D42 ∧
        (BMPInfoHeader.de_bytes dados 14).largura = w ∧
        ((BMPInfoHeader.de_bytes dados 14).altura.natAbs : Int) = h ∧
        ((BMPInfoHeader.de_bytes dados 14).bits_por_pixel = 8 ∨
          (BMPInfoHeader.de_bytes dados 14).bits_por_pixel = 24)) := by
      intro hc
      rw [(passa_validacao_iff _ _ _).2 hc] at hv
      exact absurd hv (by decide)
    by_cases h1 : (BMPHeader.de_bytes dados 0).tipo ≠ 0x4D42
    · rw [if_pos h1]
    · rw [if_neg h1]
      by_cases h2 : (BMPInfoHeader.de_bytes dados 14).largura ≠ w ∨
          ((BMPInfoHeader.de_bytes dados 14).altura.natAbs : Int) ≠ h
      · rw [if_pos h2]
      · rw [if_neg h2]
        have h3 : (BMPInfoHeader.de_bytes dados 14).bits_por_pixel ≠ 8 ∧
            (BMPInfoHeader.de_bytes dados 14).bits_por_pixel ≠ 24 := by
          constructor
          · intro h8
            exact hn ⟨by omega, not_not.mp h1, by tauto, by tauto, Or.inl h8⟩
          · intro h24
            exact hn ⟨by omega, not_not.mp h1, by tauto, by tauto, Or.inr h24⟩
        rw [if_neg h3.1, if_neg h3.2]
        simp

/-- The code `carregar_bitmap` returns for a file that passes the header checks
for 160 by 120 pixels: 0 exactly when the row buffer is allocated and the 120
stored rows are complete. -/
theorem carregar_bitmap_codigo_160x120 (dados : List Nat) (m : Bool) (buffer : List Nat)
    (hv : passa_validacao dados 160 120 = true) (hb : buffer.length = 19200) :
    (carregar_bitmap (some dados) m buffer 160 120).1 =
      if m = true ∧ 120 * bytes_por_linha 160 (BMPInfoHeader.de_bytes dados 14).bits_por_pixel
          ≤ dados.length - inicio_pixels dados then 0 else -1 := by
  obtain ⟨hl, hm, hwd, hh, hbpp⟩ := (passa_validacao_iff _ _ _).1 hv
  cases m with
  | false =>
    rw [carregar_bitmap_longo _ _ _ _ _ hl, if_neg (by rw [hm]; simp),
      if_neg (by rw [hwd, hh]; simp), if_pos (by decide), if_neg (by simp)]
  | true =>
    obtain ⟨frame, hf, _, _⟩ := carregar_bitmap_geral dados buffer 160 120 hl hm hwd
      (by exact_mod_cast hh) hbpp (by rw [hb])
    have hf2 : carregar_bitmap (some dados) true buffer 160 120 = _ := hf
    rw [hf2]
    simp only [true_and]
    rfl

/-! ## The start of the pixel data and the colour table -/

theorem info_congr_sem_cabecalho (a b : List Nat) (h : ∀ i, 14 ≤ i → i < 54 → a[i]? = b[i]?) :
    BMPInfoHeader.de_bytes a 14 = BMPInfoHeader.de_bytes b 14 := by
  have g : ∀ i, 14 ≤ i → i < 54 → a.getD i 0 = b.getD i 0 :=
    fun i h0 hi => getD_of_getElem? a b i i (h i h0 hi)
  simp only [BMPInfoHeader.de_bytes, ler_u16, ler_u32, ler_i32, Nat.reduceAdd]
  rw [g 14 (by omega) (by omega), g 15 (by omega) (by omega), g 16 (by omega) (by omega),
    g 17 (by omega) (by omega), g 18 (by omega) (by omega), g 19 (by omega) (by omega),
    g 20 (by omega) (by omega), g 21 (by omega) (by omega), g 22 (by omega) (by omega),
    g 23 (by omega) (by omega), g 24 (by omega) (by omega), g 25 (by omega) (by omega),
    g 26 (by omega) (by omega), g 27 (by omega) (by omega), g 28 (by omega) (by omega),
    g 29 (by omega) (by omega), g 30 (by omega) (by omega), g 31 (by omega) (by omega),
    g 32 (by omega) (by omega), g 33 (by omega) (by omega), g 34 (by omega) (by omega),
    g 35 (by omega) (by omega), g 36 (by omega) (by omega), g 37 (by omega) (by omega),
    g 38 (by omega) (by omega), g 39 (by omega) (by omega), g 40 (by omega) (by omega),
    g 41 (by omega) (by omega), g 42 (by omega) (by omega), g 43 (by omega) (by omega),
    g 44 (by omega) (by omega), g 45 (by omega) (by omega), g 46 (by omega) (by omega),
    g 47 (by omega) (by omega), g 48 (by omega) (by omega), g 49 (by omega) (by omega),
    g 50 (by omega) (by omega), g 51 (by omega) (by omega), g 52 (by omega) (by omega),
    g 53 (by omega) (by omega)]

theorem tipo_congr (a b : List Nat) (h : ∀ i, i < 2 → a[i]? = b[i]?) :
    (BMPHeader.de_bytes a 0).tipo = (BMPHeader.de_bytes b 0).tipo := by
  have g : ∀ i, i < 2 → a.getD i 0 = b.getD i 0 := fun i hi => getD_of_getElem? a b i i (h i hi)
  simp only [BMPHeader.de_bytes, ler_u16, Nat.zero_add]
  rw [g 0 (by omega), g 1 (by omega)]

/-- The start of the pixel data of an 8-bit file whose colour count keeps
`54 + 4N` below `2^31`. -/
theorem inicio_pixels_paleta (dados : List Nat)
    (h8 : (BMPInfoHeader.de_bytes dados 14).bits_por_pixel = 8)
    (hc : (BMPInfoHeader.de_bytes dados 14).cores_usadas ≤ 536870898) :
    inicio_pixels dados = 54 + 4 * entradas_da_paleta dados :=
  inicio_pixels_8 dados h8 hc

theorem largura_cabe_na_linha (w : Int) : w.toNat ≤ bytes_por_linha w 8 := by
  unfold bytes_por_linha
  rw [if_neg (by decide)]
  have := calc_padding_faixa w
  omega

/-- Two 8-bit files of the same length that agree on the magic, on the info
header and on every byte from `p` on, `p` being where both start their pixel
data, give the same result. -/
theorem carregar_bitmap_8_congr (a b : List Nat) (m : Bool) (buffer : List Nat) (w h : Int)
    (p : Nat) (h8 : (BMPInfoHeader.de_bytes a 14).bits_por_pixel = 8)
    (hlen : a.length = b.length)
    (h2 : ∀ i, i < 2 → a[i]? = b[i]?)
    (hinfo : ∀ i, 14 ≤ i → i < 54 → a[i]? = b[i]?)
    (hpa : inicio_pixels a = p) (hpb : inicio_pixels b = p)
    (hdepois : ∀ i, p ≤ i → a[i]? = b[i]?) :
    carregar_bitmap (some a) m buffer w h = carregar_bitmap (some b) m buffer w h := by
  have e0 := tipo_congr a b h2
  have e1 := info_congr_sem_cabecalho a b hinfo
  by_cases hl : a.length < 54
  · rw [carregar_bitmap_curto _ _ _ _ _ hl, carregar_bitmap_curto _ _ _ _ _ (by omega)]
  · rw [carregar_bitmap_longo _ _ _ _ _ (by omega),
      carregar_bitmap_longo _ _ _ _ _ (by omega), ← e0, ← e1, hpa, hpb]
    simp only [h8, if_true]
    split
    · rfl
    · split
      · rfl
      · split
        · rfl
        · apply ler_linhas_8_congr a b _ _ _ _ (largura_cabe_na_linha w) hlen
          intro k j _ _
          apply hdepois
          omega

/-- C35 (the palette on decode). (a) Two 8-bit files of the same length whose
colour count `N` keeps `54 + 4N` below `2^31` and that differ only in bytes of
the colour table (bytes 54 to `54 + 4N - 1`) give the same result, code and
buffer. (b) For such a file with valid headers and `h` complete stored rows the
call returns 0 and frame pixel `(x, r)` is the byte stored for it after the
colour table, not an entry of the table. (c) The rule fails for a colour count
that does not fit the `int` the decoder keeps it in: the file
`arquivo_paleta_cortada` declares `0xFFFFFFFF` colours, the decoder
takes that for -1 and reads the two stored rows from byte `54 - 4 = 50`, inside
the info header; the second of them is the first entry of the colour table, so
the call returns 0 with the blue byte of that entry as pixel `(0, 0)`, and two
files that differ only in that byte decode to different frames. -/
theorem paleta_nao_aplicada :
    (∀ (a b : List Nat) (m : Bool) (buffer : List Nat) (w h : Int),
      (BMPInfoHeader.de_bytes a 14).bits_por_pixel = 8 →
      (BMPInfoHeader.de_bytes a 14).cores_usadas ≤ 536870898 →
      a.length = b.length →
      (∀ i, ¬ (54 ≤ i ∧ i < 54 + 4 * entradas_da_paleta a) → a[i]? = b[i]?) →
      carregar_bitmap (some a) m buffer w h = carregar_bitmap (some b) m buffer w h) ∧
    (∀ (dados buffer : List Nat) (w h : Nat),
      passa_validacao dados w h = true →
      (BMPInfoHeader.de_bytes dados 14).bits_por_pixel = 8 →
      (BMPInfoHeader.de_bytes dados 14).cores_usadas ≤ 536870898 →
      buffer.length = w * h →
      h * ((w + 3) / 4 * 4) ≤ dados.length - (54 + 4 * entradas_da_paleta dados) →
      ∃ frame, carregar_bitmap (some dados) true buffer w h = (0, frame) ∧
        frame.length = w * h ∧
        ∀ r x, r < h → x < w → frame[r * w + x]? =
          dados[54 + 4 * entradas_da_paleta dados
            + (if (BMPInfoHeader.de_bytes dados 14).altura > 0 then h - 1 - r else r)
              * ((w + 3) / 4 * 4) + x]?) ∧
    ((BMPInfoHeader.de_bytes (arquivo_paleta_cortada 1) 14).bits_por_pixel = 8 ∧
      entradas_da_paleta (arquivo_paleta_cortada 1) = 4294967295 ∧
      (arquivo_paleta_cortada 1).take 54 = (arquivo_paleta_cortada 2).take 54 ∧
      (arquivo_paleta_cortada 1).drop 55 = (arquivo_paleta_cortada 2).drop 55 ∧
      inicio_pixels (arquivo_paleta_cortada 1) = 50 ∧
      carregar_bitmap (some (arquivo_paleta_cortada 1)) true [9, 9] 1 2 = (0, [1, 7]) ∧
      carregar_bitmap (some (arquivo_paleta_cortada 2)) true [9, 9] 1 2 = (0, [2, 7])) := by
  refine ⟨?_, ?_, ?_⟩
  · intro a b m buffer w h h8 hc hlen hab
    have e1 := info_congr_sem_cabecalho a b (fun i _ h1 => hab i (by omega))
    exact carregar_bitmap_8_congr a b m buffer w h (54 + 4 * entradas_da_paleta a) h8 hlen
      (fun i hi => hab i (by omega)) (fun i _ h1 => hab i (by omega))
      (inicio_pixels_paleta a h8 hc)
      (by
        rw [inicio_pixels_paleta b (by rw [← e1]; exact h8) (by rw [← e1]; exact hc)]
        unfold entradas_da_paleta
        rw [e1])
      (fun i hi => hab i (by omega))
  · intro dados buffer w h hv h8 hc hb hfit
    obtain ⟨hl, hm, hwd, hh, _⟩ := (passa_validacao_iff _ _ _).1 hv
    obtain ⟨frame, hf, hfl, hfp⟩ := carregar_bitmap_8 dados buffer w h hl hm hwd
      (by exact_mod_cast hh) h8 hb
    rw [inicio_pixels_paleta dados h8 hc] at hf hfp
    rw [if_pos hfit] at hf
    refine ⟨frame, hf, hfl, ?_⟩
    intro r x hr hx
    rw [hfp r x hr hx, if_pos]
    have : ((if (BMPInfoHeader.de_bytes dados 14).altura > 0 then h - 1 - r else r) + 1)
        * ((w + 3) / 4 * 4) ≤ h * ((w + 3) / 4 * 4) :=
      Nat.mul_le_mul_right _ (by split <;> omega)
    omega
  · refine ⟨by decide, by decide, by decide, by decide, by decide, by decide, by decide⟩

end Bitmap

namespace App
open TipoAlgoritmo

/-! # The controller: theorems -/

/-! ## Selections and the fields a render pass keeps -/

theorem normalizar_janela_casos (j : JanelaZoom) :
    normalizar_janela j =
      { x1 := min j.x1 j.x2, y1 := min j.y1 j.y2, x2 := max j.x1 j.x2, y2 := max j.y1 j.y2,
        ativo := j.ativo, pontos_definidos := j.pontos_definidos } := by
  obtain ⟨x1, y1, x2, y2, a, p⟩ := j
  by_cases hx : x1 > x2 <;> by_cases hy : y1 > y2 <;>
    simp only [normalizar_janela, hx, hy, if_true, if_false, JanelaZoom.mk.injEq, and_true,
      true_and] <;>
    omega

theorem normalizar_janela_ativo (j : JanelaZoom) : (normalizar_janela j).ativo = j.ativo := by
  rw [normalizar_janela_casos]

theorem normalizar_janela_pontos (j : JanelaZoom) :
    (normalizar_janela j).pontos_definidos = j.pontos_definidos := by
  rw [normalizar_janela_casos]

theorem normalizar_janela_ordenada (j : JanelaZoom) (hx : j.x1 ≤ j.x2) (hy : j.y1 ≤ j.y2) :
    normalizar_janela j = j := by
  rw [normalizar_janela_casos]
  obtain ⟨x1, y1, x2, y2, a, p⟩ := j
  simp only [JanelaZoom.mk.injEq, and_true] at hx hy ⊢
  omega

theorem processar_algoritmo (amb : Ambiente) (e : EstadoApp) (fc : Int) :
    (processar_com_algoritmo amb e fc).1.algoritmo = e.algoritmo := by
  simp only [processar_com_algoritmo]
  split <;> rfl

theorem processar_nivel_zoom (amb : Ambiente) (e : EstadoApp) (fc : Int) :
    (processar_com_algoritmo amb e fc).1.nivel_zoom = e.nivel_zoom := by
  simp only [processar_com_algoritmo]
  split <;> rfl

theorem processar_mouse (amb : Ambiente) (e : EstadoApp) (fc : Int) :
    (processar_com_algoritmo amb e fc).1.mouse_x = e.mouse_x ∧
    (processar_com_algoritmo amb e fc).1.mouse_y = e.mouse_y := by
  simp only [processar_com_algoritmo]
  split <;> exact ⟨rfl, rfl⟩

theorem processar_imagem_original (amb : Ambiente) (e : EstadoApp) (fc : Int) :
    (processar_com_algoritmo amb e fc).1.imagem_original = e.imagem_original := by
  simp only [processar_com_algoritmo]
  split <;> rfl

theorem processar_janela (amb : Ambiente) (e : EstadoApp) (fc : Int) :
    (processar_com_algoritmo amb e fc).1.janela =
      if e.janela.ativo ≠ 0 ∧ e.janela.pontos_definidos = 2 ∧ e.nivel_zoom ≠ 1
      then normalizar_janela e.janela else e.janela := by
  simp only [processar_com_algoritmo]
  split <;> rfl

/-! ## The compatibility rule -/

/-- C12 (compatibility rule). For every algorithm and every zoom level of the
five, `algoritmo_zoom_compativel` returns 1 exactly when the algorithm is the
nearest neighbour, or the average with a zoom of at most 1, or the replication
with a zoom of at least 1, and returns 0 otherwise; zoom 1 is compatible with
the three algorithms. -/
theorem algoritmo_zoom_compativel_regra (a : TipoAlgoritmo) (z : ℚ) (hz : cinco_niveis z) :
    (algoritmo_zoom_compativel a z = 1 ↔
      (a = ALG_VIZINHO_PROXIMO ∨ (a = ALG_MEDIA ∧ z ≤ 1) ∨ (a = ALG_REPLICACAO ∧ z ≥ 1))) ∧
    (algoritmo_zoom_compativel a z ≠ 1 → algoritmo_zoom_compativel a z = 0) ∧
    algoritmo_zoom_compativel ALG_VIZINHO_PROXIMO 1 = 1 ∧
    algoritmo_zoom_compativel ALG_REPLICACAO 1 = 1 ∧
    algoritmo_zoom_compativel ALG_MEDIA 1 = 1 := by
  refine ⟨?_, ?_, ?_, ?_, ?_⟩
  · rcases hz with h | h | h | h | h <;> subst h <;> cases a <;>
      norm_num [algoritmo_zoom_compativel] <;> decide
  · rcases hz with h | h | h | h | h <;> subst h <;> cases a <;>
      norm_num [algoritmo_zoom_compativel]
  · norm_num [algoritmo_zoom_compativel]
  · norm_num [algoritmo_zoom_compativel]
  · norm_num [algoritmo_zoom_compativel]

/-- The rule at the average and the level 2: the pair is refused. -/
theorem algoritmo_zoom_compativel_regra_exemplo :
    cinco_niveis 2 ∧ algoritmo_zoom_compativel ALG_MEDIA 2 ≠ 1 ∧
    algoritmo_zoom_compativel ALG_MEDIA 2 = 0 :=
  have h : cinco_niveis 2 := Or.inr (Or.inr (Or.inr (Or.inl rfl)))
  have hne : algoritmo_zoom_compativel ALG_MEDIA 2 ≠ 1 := by
    norm_num [algoritmo_zoom_compativel]
  ⟨h, hne, (algoritmo_zoom_compativel_regra ALG_MEDIA 2 h).2.1 hne⟩

/-! ## The keys, one by one -/

theorem chamar_processar_estado (amb : Ambiente) (l : Laco) :
    (chamar_processar amb l).estado = (processar_com_algoritmo amb l.estado l.frame_counter).1 :=
  rfl

theorem chamar_processar_resto (amb : Ambiente) (l : Laco) :
    (chamar_processar amb l).mouse_fd = l.mouse_fd ∧
    (chamar_processar amb l).executando = l.executando ∧
    (chamar_processar amb l).mouse_moved = l.mouse_moved ∧
    (chamar_processar amb l).last_mouse_x = l.last_mouse_x ∧
    (chamar_processar amb l).last_mouse_y = l.last_mouse_y ∧
    (chamar_processar amb l).update_counter = l.update_counter :=
  ⟨rfl, rfl, rfl, rfl, rfl, rfl⟩

theorem tratar_tecla_mais (e : Entrada) (l : Laco) (tecla : Char)
    (h : tecla = '+' ∨ tecla = '=') :
    tratar_tecla e tecla l =
      if l.estado.nivel_zoom < 4 then
        if validar_mudanca_zoom l.estado.algoritmo l.estado.nivel_zoom 1 ≠ 0 then
          chamar_processar e.amb
            { l with estado := { l.estado with nivel_zoom := l.estado.nivel_zoom * 2 } }
        else l
      else l := by
  unfold tratar_tecla
  rw [if_pos h]

theorem tratar_tecla_menos (e : Entrada) (l : Laco) (tecla : Char)
    (h : tecla = '-' ∨ tecla = '_') :
    tratar_tecla e tecla l =
      if l.estado.nivel_zoom > 0.25 then
        if validar_mudanca_zoom l.estado.algoritmo l.estado.nivel_zoom (-1) ≠ 0 then
          chamar_processar e.amb
            { l with estado := { l.estado with nivel_zoom := l.estado.nivel_zoom / 2 } }
        else l
      else l := by
  unfold tratar_tecla
  have h1 : ¬ (tecla = '+' ∨ tecla = '=') := by
    rcases h with h | h <;> subst h <;> decide
  rw [if_neg h1, if_pos h]

theorem tratar_tecla_1 (e : Entrada) (l : Laco) :
    tratar_tecla e '1' l =
      chamar_processar e.amb
        { l with estado := { l.estado with algoritmo := ALG_VIZINHO_PROXIMO } } := by
  unfold tratar_tecla
  rw [if_neg (by decide), if_neg (by decide), if_pos rfl]

theorem tratar_tecla_2 (e : Entrada) (l : Laco) :
    tratar_tecla e '2' l =
      chamar_processar e.amb
        { l with
          estado :=
            if algoritmo_zoom_compativel ALG_REPLICACAO l.estado.nivel_zoom = 0 then
              { l.estado with algoritmo := ALG_REPLICACAO, nivel_zoom := 1 }
            else { l.estado with algoritmo := ALG_REPLICACAO } } := by
  unfold tratar_tecla
  rw [if_neg (by decide), if_neg (by decide), if_neg (by decide), if_pos rfl]

theorem tratar_tecla_3 (e : Entrada) (l : Laco) :
    tratar_tecla e '3' l =
      chamar_processar e.amb
        { l with
          estado :=
            if algoritmo_zoom_compativel ALG_MEDIA l.estado.nivel_zoom = 0 then
              { l.estado with algoritmo := ALG_MEDIA, nivel_zoom := 1 }
            else { l.estado with algoritmo := ALG_MEDIA } } := by
  unfold tratar_tecla
  rw [if_neg (by decide), if_neg (by decide), if_neg (by decide), if_neg (by decide),
    if_pos rfl]

theorem tratar_tecla_l (e : Entrada) (l : Laco) (tecla : Char)
    (h : tecla = 'l' ∨ tecla = 'L') :
    tratar_tecla e tecla l =
      { l with
        estado := (carregar_nova_imagem e.amb e.linha e.arquivos l.estado).2.1
        comandos := l.comandos ++ (carregar_nova_imagem e.amb e.linha e.arquivos l.estado).2.2 } := by
  unfold tratar_tecla
  have h1 : ¬ (tecla = '+' ∨ tecla = '=') := by rcases h with h | h <;> subst h <;> decide
  have h2 : ¬ (tecla = '-' ∨ tecla = '_') := by rcases h with h | h <;> subst h <;> decide
  have h3 : ¬ tecla = '1' := by rcases h with h | h <;> subst h <;> decide
  have h4 : ¬ tecla = '2' := by rcases h with h | h <;> subst h <;> decide
  have h5 : ¬ tecla = '3' := by rcases h with h | h <;> subst h <;> decide
  rw [if_neg h1, if_neg h2, if_neg h3, if_neg h4, if_neg h5, if_pos h]

theorem tratar_tecla_r (e : Entrada) (l : Laco) (tecla : Char)
    (h : tecla = 'r' ∨ tecla = 'R') :
    tratar_tecla e tecla l =
      chamar_processar e.amb
        { l with
          estado :=
            { l.estado with
              janela := { l.estado.janela with pontos_definidos := 0, ativo := 0 }
              nivel_zoom := 1 } } := by
  unfold tratar_tecla
  have h1 : ¬ (tecla = '+' ∨ tecla = '=') := by rcases h with h | h <;> subst h <;> decide
  have h2 : ¬ (tecla = '-' ∨ tecla = '_') := by rcases h with h | h <;> subst h <;> decide
  have h3 : ¬ tecla = '1' := by rcases h with h | h <;> subst h <;> decide
  have h4 : ¬ tecla = '2' := by rcases h with h | h <;> subst h <;> decide
  have h5 : ¬ tecla = '3' := by rcases h with h | h <;> subst h <;> decide
  have h6 : ¬ (tecla = 'l' ∨ tecla = 'L') := by rcases h with h | h <;> subst h <;> decide
  rw [if_neg h1, if_neg h2, if_neg h3, if_neg h4, if_neg h5, if_neg h6, if_pos h]

/-- The remaining keys: `q`, `Q` end the loop, any other key does nothing. -/
theorem tratar_tecla_outra (e : Entrada) (l : Laco) (tecla : Char)
    (h1 : ¬ (tecla = '+' ∨ tecla = '=')) (h2 : ¬ (tecla = '-' ∨ tecla = '_'))
    (h3 : ¬ tecla = '1') (h4 : ¬ tecla = '2') (h5 : ¬ tecla = '3')
    (h6 : ¬ (tecla = 'l' ∨ tecla = 'L')) (h7 : ¬ (tecla = 'r' ∨ tecla = 'R')) :
    tratar_tecla e tecla l =
      if tecla = 'q' ∨ tecla = 'Q' then { l with executando := 0 } else l := by
  unfold tratar_tecla
  rw [if_neg h1, if_neg h2, if_neg h3, if_neg h4, if_neg h5, if_neg h6, if_neg h7]

/-! ## Zoom steps -/

theorem validar_e_compativel (a : TipoAlgoritmo) (z : ℚ) (dir : Int) :
    validar_mudanca_zoom a z dir
      = algoritmo_zoom_compativel a (if dir > 0 then z * 2 else z / 2) := rfl

/-- The state after a render pass that follows a change of `nivel_zoom` or of
`algoritmo` only, for a selection that is in order whenever it is active with
two corners: the render pass leaves every field but the working frame alone. -/
theorem processar_conserva (amb : Ambiente) (e : EstadoApp) (fc : Int)
    (hjan : e.janela.ativo ≠ 0 → e.janela.pontos_definidos = 2 →
      e.janela.x1 ≤ e.janela.x2 ∧ e.janela.y1 ≤ e.janela.y2) :
    (processar_com_algoritmo amb e fc).1.algoritmo = e.algoritmo ∧
    (processar_com_algoritmo amb e fc).1.nivel_zoom = e.nivel_zoom ∧
    (processar_com_algoritmo amb e fc).1.janela = e.janela ∧
    (processar_com_algoritmo amb e fc).1.mouse_x = e.mouse_x ∧
    (processar_com_algoritmo amb e fc).1.mouse_y = e.mouse_y ∧
    (processar_com_algoritmo amb e fc).1.imagem_original = e.imagem_original := by
  refine ⟨processar_algoritmo _ _ _, processar_nivel_zoom _ _ _, ?_, (processar_mouse _ _ _).1,
    (processar_mouse _ _ _).2, processar_imagem_original _ _ _⟩
  rw [processar_janela]
  split
  · rename_i h
    obtain ⟨hx, hy⟩ := hjan h.1 h.2.1
    exact normalizar_janela_ordenada _ hx hy
  · rfl

theorem compativel_um_ou_zero (a : TipoAlgoritmo) (z : ℚ) :
    algoritmo_zoom_compativel a z = 1 ∨ algoritmo_zoom_compativel a z = 0 := by
  unfold algoritmo_zoom_compativel
  split
  · right; rfl
  · split
    · right; rfl
    · left; rfl

theorem tecla_mais_aceita (e : Entrada) (l : Laco) (tecla : Char)
    (ht : tecla = '+' ∨ tecla = '=') (h4 : l.estado.nivel_zoom < 4)
    (h1 : algoritmo_zoom_compativel l.estado.algoritmo (l.estado.nivel_zoom * 2) = 1) :
    tratar_tecla e tecla l =
      chamar_processar e.amb
        { l with estado := { l.estado with nivel_zoom := l.estado.nivel_zoom * 2 } } := by
  rw [tratar_tecla_mais e l tecla ht]
  simp [validar_e_compativel, h4, h1]

theorem tecla_mais_recusada (e : Entrada) (l : Laco) (tecla : Char)
    (ht : tecla = '+' ∨ tecla = '=')
    (h : ¬ (l.estado.nivel_zoom < 4 ∧
      algoritmo_zoom_compativel l.estado.algoritmo (l.estado.nivel_zoom * 2) = 1)) :
    tratar_tecla e tecla l = l := by
  rw [tratar_tecla_mais e l tecla ht]
  by_cases h4 : l.estado.nivel_zoom < 4
  · rcases compativel_um_ou_zero l.estado.algoritmo (l.estado.nivel_zoom * 2) with h1 | h0
    · exact absurd ⟨h4, h1⟩ h
    · simp [validar_e_compativel, h0]
  · simp [h4]

theorem tecla_menos_aceita (e : Entrada) (l : Laco) (tecla : Char)
    (ht : tecla = '-' ∨ tecla = '_') (h4 : l.estado.nivel_zoom > 0.25)
    (h1 : algoritmo_zoom_compativel l.estado.algoritmo (l.estado.nivel_zoom / 2) = 1) :
    tratar_tecla e tecla l =
      chamar_processar e.amb
        { l with estado := { l.estado with nivel_zoom := l.estado.nivel_zoom / 2 } } := by
  rw [tratar_tecla_menos e l tecla ht]
  simp [validar_e_compativel, h4, h1]

theorem tecla_menos_recusada (e : Entrada) (l : Laco) (tecla : Char)
    (ht : tecla = '-' ∨ tecla = '_')
    (h : ¬ (l.estado.nivel_zoom > 0.25 ∧
      algoritmo_zoom_compativel l.estado.algoritmo (l.estado.nivel_zoom / 2) = 1)) :
    tratar_tecla e tecla l = l := by
  rw [tratar_tecla_menos e l tecla ht]
  by_cases h4 : l.estado.nivel_zoom > 0.25
  · rcases compativel_um_ou_zero l.estado.algoritmo (l.estado.nivel_zoom / 2) with h1 | h0
    · exact absurd ⟨h4, h1⟩ h
    · simp [validar_e_compativel, h0]
  · simp [h4]

/-- C13 (zoom step). (a) `validar_mudanca_zoom(a, z, dir)` is
`algoritmo_zoom_compativel(a, z')` with `z' = 2z` for `dir > 0` and `z / 2`
otherwise. (b) In a state whose zoom is one of the five levels and whose
selection, when active with two corners, is in order, the keys `+`, `=` change
the state only when `z < 4` and the check passes, and then `nivel_zoom` becomes
`2z`, again one of the five levels, while algorithm, selection, cursor and
original frame stay as they were; otherwise the whole state of the loop is unchanged. (c) The same for `-`, `_`
with `z > 0.25` and `z / 2`. (d) With the average selected at zoom 1 the key `+`
changes nothing. -/
theorem passo_de_zoom (e : Entrada) (l : Laco) (hz : cinco_niveis l.estado.nivel_zoom)
    (hjan : l.estado.janela.ativo ≠ 0 → l.estado.janela.pontos_definidos = 2 →
      l.estado.janela.x1 ≤ l.estado.janela.x2 ∧ l.estado.janela.y1 ≤ l.estado.janela.y2) :
    (∀ (a : TipoAlgoritmo) (dir : Int),
      validar_mudanca_zoom a l.estado.nivel_zoom dir
        = algoritmo_zoom_compativel a
            (if dir > 0 then l.estado.nivel_zoom * 2 else l.estado.nivel_zoom / 2)) ∧
    (∀ tecla : Char, tecla = '+' ∨ tecla = '=' →
      if l.estado.nivel_zoom < 4 ∧
          algoritmo_zoom_compativel l.estado.algoritmo (l.estado.nivel_zoom * 2) = 1 then
        (tratar_tecla e tecla l).estado.nivel_zoom = l.estado.nivel_zoom * 2 ∧
        cinco_niveis (l.estado.nivel_zoom * 2) ∧
        (tratar_tecla e tecla l).estado.algoritmo = l.estado.algoritmo ∧
        (tratar_tecla e tecla l).estado.janela = l.estado.janela ∧
        (tratar_tecla e tecla l).estado.mouse_x = l.estado.mouse_x ∧
        (tratar_tecla e tecla l).estado.mouse_y = l.estado.mouse_y ∧
        (tratar_tecla e tecla l).estado.imagem_original = l.estado.imagem_original
      else tratar_tecla e tecla l = l) ∧
    (∀ tecla : Char, tecla = '-' ∨ tecla = '_' →
      if l.estado.nivel_zoom > 0.25 ∧
          algoritmo_zoom_compativel l.estado.algoritmo (l.estado.nivel_zoom / 2) = 1 then
        (tratar_tecla e tecla l).estado.nivel_zoom = l.estado.nivel_zoom / 2 ∧
        cinco_niveis (l.estado.nivel_zoom / 2) ∧
        (tratar_tecla e tecla l).estado.algoritmo = l.estado.algoritmo ∧
        (tratar_tecla e tecla l).estado.janela = l.estado.janela ∧
        (tratar_tecla e tecla l).estado.mouse_x = l.estado.mouse_x ∧
        (tratar_tecla e tecla l).estado.mouse_y = l.estado.mouse_y ∧
        (tratar_tecla e tecla l).estado.imagem_original = l.estado.imagem_original
      else tratar_tecla e tecla l = l) ∧
    (l.estado.algoritmo = ALG_MEDIA → l.estado.nivel_zoom = 1 →
      tratar_tecla e '+' l = l) := by
  refine ⟨fun a dir => rfl, ?_, ?_, ?_⟩
  · intro tecla ht
    split
    · rename_i h
      rw [tecla_mais_aceita e l tecla ht h.1 h.2, chamar_processar_estado]
      have hc := processar_conserva e.amb
        { l.estado with nivel_zoom := l.estado.nivel_zoom * 2 } l.frame_counter hjan
      have hn : cinco_niveis (l.estado.nivel_zoom * 2) := by
        have h4 := h.1
        unfold cinco_niveis at hz ⊢
        rcases hz with hv | hv | hv | hv | hv <;> rw [hv] at h4 ⊢ <;> norm_num at h4 ⊢
      exact ⟨hc.2.1, hn, hc.1, hc.2.2.1, hc.2.2.2.1, hc.2.2.2.2.1, hc.2.2.2.2.2⟩
    · rename_i h
      exact tecla_mais_recusada e l tecla ht h
  · intro tecla ht
    split
    · rename_i h
      rw [tecla_menos_aceita e l tecla ht h.1 h.2, chamar_processar_estado]
      have hc := processar_conserva e.amb
        { l.estado with nivel_zoom := l.estado.nivel_zoom / 2 } l.frame_counter hjan
      have hn : cinco_niveis (l.estado.nivel_zoom / 2) := by
        have h4 := h.1
        unfold cinco_niveis at hz ⊢
        rcases hz with hv | hv | hv | hv | hv <;> rw [hv] at h4 ⊢ <;> norm_num at h4 ⊢
      exact ⟨hc.2.1, hn, hc.1, hc.2.2.1, hc.2.2.2.1, hc.2.2.2.2.1, hc.2.2.2.2.2⟩
    · rename_i h
      exact tecla_menos_recusada e l tecla ht h
  · intro ha h1
    apply tecla_mais_recusada e l _ (Or.inl rfl)
    rw [ha, h1]
    norm_num [algoritmo_zoom_compativel]

/-- The zoom step at the average, zoom 1 and a bound selection: the key `+` is
refused and the state of the loop stays as it was. -/
theorem passo_de_zoom_exemplo :
    cinco_niveis (laco_com_selecao ALG_MEDIA 1).estado.nivel_zoom ∧
    ((laco_com_selecao ALG_MEDIA 1).estado.janela.x1
        ≤ (laco_com_selecao ALG_MEDIA 1).estado.janela.x2 ∧
      (laco_com_selecao ALG_MEDIA 1).estado.janela.y1
        ≤ (laco_com_selecao ALG_MEDIA 1).estado.janela.y2) ∧
    tratar_tecla (entrada_exemplo [] none) '+' (laco_com_selecao ALG_MEDIA 1)
      = laco_com_selecao ALG_MEDIA 1 :=
  have hz : cinco_niveis (laco_com_selecao ALG_MEDIA 1).estado.nivel_zoom :=
    Or.inr (Or.inr (Or.inl rfl))
  have ho : (laco_com_selecao ALG_MEDIA 1).estado.janela.x1
        ≤ (laco_com_selecao ALG_MEDIA 1).estado.janela.x2 ∧
      (laco_com_selecao ALG_MEDIA 1).estado.janela.y1
        ≤ (laco_com_selecao ALG_MEDIA 1).estado.janela.y2 := by
    constructor <;> decide
  ⟨hz, ho,
    (passo_de_zoom (entrada_exemplo [] none) (laco_com_selecao ALG_MEDIA 1) hz
      (fun _ _ => ho)).2.2.2 rfl rfl⟩

/-! ## Switches of algorithm -/

/-- The state the keys `1`, `2`, `3` leave, in the two fields they decide: the
requested algorithm, and the zoom unchanged when it is compatible with it and 1
otherwise. -/
theorem tecla_de_algoritmo (e : Entrada) (l : Laco) (tecla : Char) (a : TipoAlgoritmo)
    (h : (tecla = '1' ∧ a = ALG_VIZINHO_PROXIMO) ∨ (tecla = '2' ∧ a = ALG_REPLICACAO) ∨
      (tecla = '3' ∧ a = ALG_MEDIA)) :
    (tratar_tecla e tecla l).estado.algoritmo = a ∧
    (tratar_tecla e tecla l).estado.nivel_zoom =
      if algoritmo_zoom_compativel a l.estado.nivel_zoom = 1 then l.estado.nivel_zoom else 1 := by
  rcases h with ⟨ht, ha⟩ | ⟨ht, ha⟩ | ⟨ht, ha⟩ <;> subst ht <;> subst ha
  · rw [tratar_tecla_1, chamar_processar_estado, processar_algoritmo, processar_nivel_zoom]
    refine ⟨rfl, ?_⟩
    rw [if_pos]
    unfold algoritmo_zoom_compativel
    rw [if_neg (by simp), if_neg (by simp)]
  · rw [tratar_tecla_2, chamar_processar_estado, processar_algoritmo, processar_nivel_zoom]
    rcases compativel_um_ou_zero ALG_REPLICACAO l.estado.nivel_zoom with h1 | h0
    · rw [h1]; simp
    · rw [h0]; simp
  · rw [tratar_tecla_3, chamar_processar_estado, processar_algoritmo, processar_nivel_zoom]
    rcases compativel_um_ou_zero ALG_MEDIA l.estado.nivel_zoom with h1 | h0
    · rw [h1]; simp
    · rw [h0]; simp

/-- C14, the case the specification names: with zoom 0.5 the key `2` selects the
replication and leaves zoom 1, not 2; with zoom 2 the key `3` selects the
average and leaves zoom 1, not 0.5. -/
theorem tecla_2_leva_a_zoom_1 :
    cinco_niveis (laco_exemplo ALG_VIZINHO_PROXIMO 0.5).estado.nivel_zoom ∧
    (tratar_tecla (entrada_exemplo [] none) '2'
      (laco_exemplo ALG_VIZINHO_PROXIMO 0.5)).estado.algoritmo = ALG_REPLICACAO ∧
    (tratar_tecla (entrada_exemplo [] none) '2'
      (laco_exemplo ALG_VIZINHO_PROXIMO 0.5)).estado.nivel_zoom = 1 ∧
    (tratar_tecla (entrada_exemplo [] none) '2'
      (laco_exemplo ALG_VIZINHO_PROXIMO 0.5)).estado.nivel_zoom ≠ 2 ∧
    cinco_niveis (laco_exemplo ALG_VIZINHO_PROXIMO 2).estado.nivel_zoom ∧
    (tratar_tecla (entrada_exemplo [] none) '3'
      (laco_exemplo ALG_VIZINHO_PROXIMO 2)).estado.algoritmo = ALG_MEDIA ∧
    (tratar_tecla (entrada_exemplo [] none) '3'
      (laco_exemplo ALG_VIZINHO_PROXIMO 2)).estado.nivel_zoom = 1 ∧
    (tratar_tecla (entrada_exemplo [] none) '3'
      (laco_exemplo ALG_VIZINHO_PROXIMO 2)).estado.nivel_zoom ≠ 0.5 := by
  have h2 := tecla_de_algoritmo (entrada_exemplo [] none)
    (laco_exemplo ALG_VIZINHO_PROXIMO 0.5) '2' ALG_REPLICACAO (Or.inr (Or.inl ⟨rfl, rfl⟩))
  have h3 := tecla_de_algoritmo (entrada_exemplo [] none)
    (laco_exemplo ALG_VIZINHO_PROXIMO 2) '3' ALG_MEDIA (Or.inr (Or.inr ⟨rfl, rfl⟩))
  have e2 : (laco_exemplo ALG_VIZINHO_PROXIMO 0.5).estado.nivel_zoom = 0.5 := rfl
  have e3 : (laco_exemplo ALG_VIZINHO_PROXIMO 2).estado.nivel_zoom = 2 := rfl
  rw [e2] at h2
  rw [e3] at h3
  have c2 : algoritmo_zoom_compativel ALG_REPLICACAO 0.5 ≠ 1 := by
    norm_num [algoritmo_zoom_compativel]
  have c3 : algoritmo_zoom_compativel ALG_MEDIA 2 ≠ 1 := by
    norm_num [algoritmo_zoom_compativel]
  rw [if_neg c2] at h2
  rw [if_neg c3] at h3
  refine ⟨Or.inr (Or.inl rfl), h2.1, h2.2, ?_, Or.inr (Or.inr (Or.inr (Or.inl rfl))),
    h3.1, h3.2, ?_⟩
  · rw [h2.2]; norm_num
  · rw [h3.2]; norm_num

/-- C14 as the code has it (switch of algorithm). In a state whose zoom is one
of the five levels, each of the keys `1`, `2`, `3` selects the algorithm it
names (nearest neighbour, replication, average); the zoom is unchanged when it
is compatible with that algorithm and becomes 1 when it is not; the resulting
pair is compatible and the zoom is one of the five levels; cursor and original
frame stay as they were. -/
theorem troca_de_algoritmo (e : Entrada) (l : Laco) (hz : cinco_niveis l.estado.nivel_zoom)
    (tecla : Char) (a : TipoAlgoritmo)
    (h : (tecla = '1' ∧ a = ALG_VIZINHO_PROXIMO) ∨ (tecla = '2' ∧ a = ALG_REPLICACAO) ∨
      (tecla = '3' ∧ a = ALG_MEDIA)) :
    (tratar_tecla e tecla l).estado.algoritmo = a ∧
    (algoritmo_zoom_compativel a l.estado.nivel_zoom = 1 →
      (tratar_tecla e tecla l).estado.nivel_zoom = l.estado.nivel_zoom) ∧
    (algoritmo_zoom_compativel a l.estado.nivel_zoom ≠ 1 →
      (tratar_tecla e tecla l).estado.nivel_zoom = 1) ∧
    algoritmo_zoom_compativel (tratar_tecla e tecla l).estado.algoritmo
      (tratar_tecla e tecla l).estado.nivel_zoom = 1 ∧
    cinco_niveis (tratar_tecla e tecla l).estado.nivel_zoom := by
  obtain ⟨ha, hzoom⟩ := tecla_de_algoritmo e l tecla a h
  rw [ha, hzoom]
  by_cases hc : algoritmo_zoom_compativel a l.estado.nivel_zoom = 1
  · rw [if_pos hc]
    exact ⟨rfl, fun _ => rfl, fun hn => absurd hc hn, hc, hz⟩
  · rw [if_neg hc]
    refine ⟨rfl, fun h1 => absurd h1 hc, fun _ => rfl, ?_, Or.inr (Or.inr (Or.inl rfl))⟩
    cases a <;> norm_num [algoritmo_zoom_compativel]

/-- The switch to the average at zoom 4: the average is selected and the zoom is 1. -/
theorem troca_de_algoritmo_exemplo :
    cinco_niveis (laco_exemplo ALG_VIZINHO_PROXIMO 4).estado.nivel_zoom ∧
    (tratar_tecla (entrada_exemplo [] none) '3'
      (laco_exemplo ALG_VIZINHO_PROXIMO 4)).estado.algoritmo = ALG_MEDIA ∧
    (tratar_tecla (entrada_exemplo [] none) '3'
      (laco_exemplo ALG_VIZINHO_PROXIMO 4)).estado.nivel_zoom = 1 :=
  have hz : cinco_niveis (laco_exemplo ALG_VIZINHO_PROXIMO 4).estado.nivel_zoom :=
    Or.inr (Or.inr (Or.inr (Or.inr rfl)))
  have hn : algoritmo_zoom_compativel ALG_MEDIA
      (laco_exemplo ALG_VIZINHO_PROXIMO 4).estado.nivel_zoom ≠ 1 := by
    norm_num [algoritmo_zoom_compativel, laco_exemplo, estado_exemplo]
  have t := troca_de_algoritmo (entrada_exemplo [] none) (laco_exemplo ALG_VIZINHO_PROXIMO 4) hz
    '3' ALG_MEDIA (Or.inr (Or.inr ⟨rfl, rfl⟩))
  ⟨hz, t.1, t.2.2.1 hn⟩

/-! ## The reconciliation function -/

/-- C15 (coercion invariant of `ajustar_zoom_para_algoritmo`). For every state whose
zoom is one of the five levels, after `ajustar_zoom_para_algoritmo` the pair of
algorithm and zoom passes `algoritmo_zoom_compativel`, the zoom is again one of
the five levels, the algorithm and every field other than `nivel_zoom` are as
before, the state is unchanged when the pair was already compatible, a pair
that was not compatible gets zoom 0.5 under the average and zoom 2 under the
replication, and a second application changes nothing. -/
theorem ajustar_zoom_para_algoritmo_invariante (estado : EstadoApp)
    (hz : cinco_niveis estado.nivel_zoom) :
    algoritmo_zoom_compativel (ajustar_zoom_para_algoritmo estado).algoritmo
      (ajustar_zoom_para_algoritmo estado).nivel_zoom = 1 ∧
    cinco_niveis (ajustar_zoom_para_algoritmo estado).nivel_zoom ∧
    (ajustar_zoom_para_algoritmo estado).algoritmo = estado.algoritmo ∧
    ajustar_zoom_para_algoritmo estado
      = { estado with nivel_zoom := (ajustar_zoom_para_algoritmo estado).nivel_zoom } ∧
    (algoritmo_zoom_compativel estado.algoritmo estado.nivel_zoom = 1 →
      ajustar_zoom_para_algoritmo estado = estado) ∧
    (algoritmo_zoom_compativel estado.algoritmo estado.nivel_zoom ≠ 1 →
      (estado.algoritmo = ALG_MEDIA → (ajustar_zoom_para_algoritmo estado).nivel_zoom = 0.5) ∧
      (estado.algoritmo = ALG_REPLICACAO →
        (ajustar_zoom_para_algoritmo estado).nivel_zoom = 2)) ∧
    ajustar_zoom_para_algoritmo (ajustar_zoom_para_algoritmo estado)
      = ajustar_zoom_para_algoritmo estado := by
  obtain ⟨io, ia, j, a, z, mx, my⟩ := estado
  simp only [cinco_niveis] at hz
  have d1 : ¬ ALG_VIZINHO_PROXIMO = ALG_REPLICACAO := by decide
  have d2 : ¬ ALG_VIZINHO_PROXIMO = ALG_MEDIA := by decide
  have d3 : ¬ ALG_REPLICACAO = ALG_MEDIA := by decide
  have d4 : ¬ ALG_MEDIA = ALG_REPLICACAO := by decide
  rcases hz with h | h | h | h | h <;> subst h <;> cases a <;>
    norm_num [ajustar_zoom_para_algoritmo, algoritmo_zoom_compativel, cinco_niveis,
      d1, d2, d3, d4]

/-- The reconciliation at the replication and zoom 0.5: the zoom becomes 2. -/
theorem ajustar_zoom_para_algoritmo_invariante_exemplo :
    cinco_niveis (estado_exemplo ALG_REPLICACAO 0.5).nivel_zoom ∧
    algoritmo_zoom_compativel (estado_exemplo ALG_REPLICACAO 0.5).algoritmo
      (estado_exemplo ALG_REPLICACAO 0.5).nivel_zoom ≠ 1 ∧
    (ajustar_zoom_para_algoritmo (estado_exemplo ALG_REPLICACAO 0.5)).nivel_zoom = 2 :=
  have hz : cinco_niveis (estado_exemplo ALG_REPLICACAO 0.5).nivel_zoom := Or.inr (Or.inl rfl)
  have hn : algoritmo_zoom_compativel (estado_exemplo ALG_REPLICACAO 0.5).algoritmo
      (estado_exemplo ALG_REPLICACAO 0.5).nivel_zoom ≠ 1 := by
    norm_num [algoritmo_zoom_compativel, estado_exemplo]
  ⟨hz, hn,
    ((ajustar_zoom_para_algoritmo_invariante (estado_exemplo ALG_REPLICACAO 0.5) hz).2.2.2.2.2.1
      hn).2 rfl⟩

/-! ## The operation a render pass dispatches -/

/-- The chain of the full-frame branch, at the five levels, is the table. -/
theorem despachar_completa_tabela (e : EstadoApp) (hz : cinco_niveis e.nivel_zoom) :
    ∃ op, despachar_completa e = [op] ∧
      operacao_da_tabela e.algoritmo e.nivel_zoom = some op := by
  obtain ⟨io, ia, j, a, z, mx, my⟩ := e
  simp only [cinco_niveis] at hz
  have d1 : ¬ ALG_VIZINHO_PROXIMO = ALG_REPLICACAO := by decide
  have d2 : ¬ ALG_VIZINHO_PROXIMO = ALG_MEDIA := by decide
  have d3 : ¬ ALG_REPLICACAO = ALG_MEDIA := by decide
  have d4 : ¬ ALG_MEDIA = ALG_REPLICACAO := by decide
  rcases hz with h | h | h | h | h <;> subst h <;> cases a <;>
    norm_num [despachar_completa, operacao_da_tabela, d1, d2, d3, d4]

/-- The chain of the region branch, at the four levels other than 1, is the table. -/
theorem despachar_regiao_tabela (e : EstadoApp) (hz : cinco_niveis e.nivel_zoom)
    (h1 : e.nivel_zoom ≠ 1) :
    ∃ op, despachar_regiao e = [op] ∧
      operacao_da_tabela e.algoritmo e.nivel_zoom = some op := by
  obtain ⟨io, ia, j, a, z, mx, my⟩ := e
  simp only [cinco_niveis] at hz
  simp only at h1
  have d1 : ¬ ALG_VIZINHO_PROXIMO = ALG_REPLICACAO := by decide
  have d2 : ¬ ALG_VIZINHO_PROXIMO = ALG_MEDIA := by decide
  have d3 : ¬ ALG_REPLICACAO = ALG_MEDIA := by decide
  have d4 : ¬ ALG_MEDIA = ALG_REPLICACAO := by decide
  rcases hz with h | h | h | h | h <;> subst h <;> cases a <;>
    norm_num [despachar_regiao, operacao_da_tabela, d1, d2, d3, d4] at h1 ⊢

/-- Every operation of the table has an operation code, below 1024. -/
theorem operacao_da_tabela_opcode (a : TipoAlgoritmo) (z : ℚ) (op : Comando)
    (h : operacao_da_tabela a z = some op) : ∃ n, op.opcode = some n ∧ n ≤ 1023 := by
  unfold operacao_da_tabela at h
  cases a <;> simp only at h <;> split_ifs at h <;> cases h <;> exact ⟨_, rfl, by decide⟩

/-- The calls of one render pass: nothing when the region branch cannot
allocate its two buffers, otherwise the transfer of a frame followed by the
calls of the chain of its branch. -/
theorem processar_comandos (amb : Ambiente) (e : EstadoApp) (fc : Int) :
    (processar_com_algoritmo amb e fc).2.2 =
      if e.janela.ativo ≠ 0 ∧ e.janela.pontos_definidos = 2 ∧ e.nivel_zoom ≠ 1 then
        if amb.malloc_regiao = true ∧ amb.malloc_temporario = true then
          Comando.carregar_imagem
            (sobrepor_regiao (List.replicate IMG_SIZE.toNat 0)
              (extrair_regiao e.imagem_original
                (bloco amb (((normalizar_janela e.janela).x2 - (normalizar_janela e.janela).x1)
                  * ((normalizar_janela e.janela).y2 - (normalizar_janela e.janela).y1)))
                (normalizar_janela e.janela).x1 (normalizar_janela e.janela).y1
                (normalizar_janela e.janela).x2 (normalizar_janela e.janela).y2)
              ((IMG_WIDTH - ((normalizar_janela e.janela).x2
                - (normalizar_janela e.janela).x1)).tdiv 2)
              ((IMG_HEIGHT - ((normalizar_janela e.janela).y2
                - (normalizar_janela e.janela).y1)).tdiv 2)
              ((normalizar_janela e.janela).x2 - (normalizar_janela e.janela).x1)
              ((normalizar_janela e.janela).y2 - (normalizar_janela e.janela).y1))
            IMG_SIZE
          :: despachar_regiao
            { e with
              imagem_atual := Bitmap.memcpy e.imagem_atual 0 e.imagem_original IMG_SIZE.toNat
              janela := normalizar_janela e.janela }
        else []
      else
        Comando.carregar_imagem (processar_com_algoritmo amb e fc).1.imagem_atual IMG_SIZE
          :: despachar_completa (processar_com_algoritmo amb e fc).1 := by
  simp only [processar_com_algoritmo]
  split
  · cases amb.malloc_regiao <;> cases amb.malloc_temporario <;> simp
  · rfl

/-- C16 (operation of a render pass). For every environment, every state whose
zoom is one of the five levels (whatever its selection and cursor) and every
value of the frame counter: unless the region branch runs and one of its two
allocations fails, in which case nothing is sent, `processar_com_algoritmo`
sends one frame of `IMG_SIZE` bytes and then calls exactly one `api_*` routine,
the one `operacao_da_tabela` gives for the pair of algorithm and zoom, in the
region branch and in the full-frame branch alike; its operation code is at most
1023. The table: zoom 1 gives the bypass (0) for the three algorithms; nearest
neighbour 2, 4, 0.5, 0.25 give 17, 18, 27, 28; replication 2, 4 give 33, 34;
average 0.5, 0.25 give 11, 12; the pairs that are not compatible give the code
of the nearest neighbour for the level. -/
theorem uma_operacao_por_passada (amb : Ambiente) (estado : EstadoApp) (frame_counter : Int)
    (hz : cinco_niveis estado.nivel_zoom) :
    (((estado.janela.ativo ≠ 0 ∧ estado.janela.pontos_definidos = 2 ∧ estado.nivel_zoom ≠ 1) →
        amb.malloc_regiao = true ∧ amb.malloc_temporario = true) →
      ∃ buffer op n,
        (processar_com_algoritmo amb estado frame_counter).2.2
          = [Comando.carregar_imagem buffer IMG_SIZE, op] ∧
        operacao_da_tabela estado.algoritmo estado.nivel_zoom = some op ∧
        op.opcode = some n ∧ n ≤ 1023) ∧
    ((estado.janela.ativo ≠ 0 ∧ estado.janela.pontos_definidos = 2 ∧ estado.nivel_zoom ≠ 1) →
      ¬ (amb.malloc_regiao = true ∧ amb.malloc_temporario = true) →
      (processar_com_algoritmo amb estado frame_counter).2.2 = []) ∧
    (∀ a, (operacao_da_tabela a 1).bind Comando.opcode = some 0) ∧
    ((operacao_da_tabela ALG_VIZINHO_PROXIMO 2).bind Comando.opcode = some 17 ∧
      (operacao_da_tabela ALG_VIZINHO_PROXIMO 4).bind Comando.opcode = some 18 ∧
      (operacao_da_tabela ALG_VIZINHO_PROXIMO 0.5).bind Comando.opcode = some 27 ∧
      (operacao_da_tabela ALG_VIZINHO_PROXIMO 0.25).bind Comando.opcode = some 28) ∧
    ((operacao_da_tabela ALG_REPLICACAO 2).bind Comando.opcode = some 33 ∧
      (operacao_da_tabela ALG_REPLICACAO 4).bind Comando.opcode = some 34 ∧
      (operacao_da_tabela ALG_REPLICACAO 0.5).bind Comando.opcode = some 27 ∧
      (operacao_da_tabela ALG_REPLICACAO 0.25).bind Comando.opcode = some 28) ∧
    ((operacao_da_tabela ALG_MEDIA 0.5).bind Comando.opcode = some 11 ∧
      (operacao_da_tabela ALG_MEDIA 0.25).bind Comando.opcode = some 12 ∧
      (operacao_da_tabela ALG_MEDIA 2).bind Comando.opcode = some 17 ∧
      (operacao_da_tabela ALG_MEDIA 4).bind Comando.opcode = some 18) := by
  refine ⟨?_, ?_, ?_, ?_, ?_, ?_⟩
  · intro hm
    rw [processar_comandos]
    split
    · rename_i hr
      rw [if_pos (hm hr)]
      obtain ⟨op, hop, htab⟩ := despachar_regiao_tabela
        { estado with
          imagem_atual :=
            Bitmap.memcpy estado.imagem_atual 0 estado.imagem_original IMG_SIZE.toNat
          janela := normalizar_janela estado.janela } hz hr.2.2
      obtain ⟨n, hn, hle⟩ := operacao_da_tabela_opcode _ _ _ htab
      rw [hop]
      exact ⟨_, op, n, rfl, htab, hn, hle⟩
    · have hz1 : cinco_niveis (processar_com_algoritmo amb estado frame_counter).1.nivel_zoom := by
        rw [processar_nivel_zoom]; exact hz
      obtain ⟨op, hop, htab⟩ := despachar_completa_tabela _ hz1
      rw [processar_algoritmo, processar_nivel_zoom] at htab
      obtain ⟨n, hn, hle⟩ := operacao_da_tabela_opcode _ _ _ htab
      rw [hop]
      exact ⟨_, op, n, rfl, htab, hn, hle⟩
  · intro hr hm
    rw [processar_comandos, if_pos hr, if_neg hm]
  · intro a
    simp [operacao_da_tabela, Comando.opcode]
  · refine ⟨?_, ?_, ?_, ?_⟩ <;> norm_num [operacao_da_tabela, Comando.opcode]
  · refine ⟨?_, ?_, ?_, ?_⟩ <;> norm_num [operacao_da_tabela, Comando.opcode]
  · refine ⟨?_, ?_, ?_, ?_⟩ <;> norm_num [operacao_da_tabela, Comando.opcode]

/-- The render pass at the replication, zoom 2 and a bound selection, with both
allocations granted: one frame, then one routine of the table. -/
theorem uma_operacao_por_passada_exemplo :
    cinco_niveis (laco_com_selecao ALG_REPLICACAO 2).estado.nivel_zoom ∧
    (ambiente_exemplo.malloc_regiao = true ∧ ambiente_exemplo.malloc_temporario = true) ∧
    ∃ buffer op n,
      (processar_com_algoritmo ambiente_exemplo (laco_com_selecao ALG_REPLICACAO 2).estado 0).2.2
        = [Comando.carregar_imagem buffer IMG_SIZE, op] ∧
      operacao_da_tabela (laco_com_selecao ALG_REPLICACAO 2).estado.algoritmo
        (laco_com_selecao ALG_REPLICACAO 2).estado.nivel_zoom = some op ∧
      op.opcode = some n ∧ n ≤ 1023 :=
  have hz : cinco_niveis (laco_com_selecao ALG_REPLICACAO 2).estado.nivel_zoom :=
    Or.inr (Or.inr (Or.inr (Or.inl rfl)))
  ⟨hz, ⟨rfl, rfl⟩,
    (uma_operacao_por_passada ambiente_exemplo (laco_com_selecao ALG_REPLICACAO 2).estado 0 hz).1
      (fun _ => ⟨rfl, rfl⟩)⟩

/-! ## The invariant of the main loop -/

theorem coerente_de_campos (e f : EstadoApp) (hz : f.nivel_zoom = e.nivel_zoom)
    (ha : f.algoritmo = e.algoritmo) (hj : f.janela = e.janela) (h : estado_coerente e) :
    estado_coerente f := by
  unfold estado_coerente at h ⊢
  rw [hz, ha, hj]
  exact h

theorem normalizar_janela_em_ordem (j : JanelaZoom) :
    (normalizar_janela j).x1 ≤ (normalizar_janela j).x2 ∧
    (normalizar_janela j).y1 ≤ (normalizar_janela j).y2 := by
  rw [normalizar_janela_casos]
  exact ⟨le_trans (min_le_left _ _) (le_max_left _ _),
    le_trans (min_le_left _ _) (le_max_left _ _)⟩

theorem coerente_processar (amb : Ambiente) (e : EstadoApp) (fc : Int)
    (h : estado_coerente e) : estado_coerente (processar_com_algoritmo amb e fc).1 := by
  unfold estado_coerente at h ⊢
  rw [processar_nivel_zoom, processar_algoritmo, processar_janela]
  refine ⟨h.1, h.2.1, ?_⟩
  split
  · intro _
    exact normalizar_janela_em_ordem _
  · exact h.2.2

theorem coerente_chamar_processar (amb : Ambiente) (l : Laco)
    (h : estado_coerente l.estado) : estado_coerente (chamar_processar amb l).estado := by
  rw [chamar_processar_estado]
  exact coerente_processar _ _ _ h

theorem coerente_zoom_1 (e : EstadoApp) (hz : e.nivel_zoom = 1)
    (hj : e.janela.pontos_definidos = 2 → e.janela.x1 ≤ e.janela.x2 ∧ e.janela.y1 ≤ e.janela.y2) :
    estado_coerente e := by
  refine ⟨Or.inr (Or.inr (Or.inl hz)), ?_, hj⟩
  rw [hz]
  cases e.algoritmo <;> norm_num [algoritmo_zoom_compativel]

theorem coerente_tratar_evento (ev : input_event) (l : Laco)
    (h : estado_coerente l.estado) : estado_coerente (tratar_evento ev l).estado := by
  unfold tratar_evento
  split
  · split
    · exact coerente_de_campos l.estado _ rfl rfl rfl h
    · split
      · exact coerente_de_campos l.estado _ rfl rfl rfl h
      · exact h
  · split
    · split
      · exact h
      · rename_i hz
        have hz1 : l.estado.nivel_zoom = 1 := not_not.mp hz
        split
        · exact coerente_zoom_1 _ hz1 (fun hp => absurd hp (show ¬ ((1 : Int) = 2) by decide))
        · split
          · exact coerente_zoom_1 _ hz1 (fun _ => normalizar_janela_em_ordem _)
          · exact h
    · exact h

theorem coerente_eventos (evs : List input_event) :
    ∀ l : Laco, estado_coerente l.estado →
      estado_coerente (evs.foldl (fun l ev => tratar_evento ev l) l).estado := by
  induction evs with
  | nil => intro l h; exact h
  | cons ev evs ih =>
    intro l h
    rw [List.foldl_cons]
    exact ih _ (coerente_tratar_evento ev l h)

theorem coerente_carregar_nova_imagem (amb : Ambiente) (linha : Option (List Char))
    (arquivos : List Char → Option (List Nat)) (e : EstadoApp) (h : estado_coerente e) :
    estado_coerente (carregar_nova_imagem amb linha arquivos e).2.1 := by
  unfold carregar_nova_imagem
  split
  · exact h
  · simp only
    split
    · exact h
    · split
      · exact h
      · split
        · exact h
        · exact coerente_zoom_1 _ rfl (fun hp => absurd hp (show ¬ ((0 : Int) = 2) by decide))

theorem coerente_tratar_tecla (e : Entrada) (tecla : Char) (l : Laco)
    (h : estado_coerente l.estado) : estado_coerente (tratar_tecla e tecla l).estado := by
  by_cases h1 : tecla = '+' ∨ tecla = '='
  · by_cases hc : l.estado.nivel_zoom < 4 ∧
        algoritmo_zoom_compativel l.estado.algoritmo (l.estado.nivel_zoom * 2) = 1
    · rw [tecla_mais_aceita e l tecla h1 hc.1 hc.2]
      apply coerente_chamar_processar
      refine ⟨?_, hc.2, h.2.2⟩
      have h4 := hc.1
      have hz := h.1
      unfold cinco_niveis at hz ⊢
      show _ ∨ _
      rcases hz with hv | hv | hv | hv | hv <;> simp only [hv] at h4 ⊢ <;> norm_num at h4 ⊢
    · rw [tecla_mais_recusada e l tecla h1 hc]
      exact h
  by_cases h2 : tecla = '-' ∨ tecla = '_'
  · by_cases hc : l.estado.nivel_zoom > 0.25 ∧
        algoritmo_zoom_compativel l.estado.algoritmo (l.estado.nivel_zoom / 2) = 1
    · rw [tecla_menos_aceita e l tecla h2 hc.1 hc.2]
      apply coerente_chamar_processar
      refine ⟨?_, hc.2, h.2.2⟩
      have h4 := hc.1
      have hz := h.1
      unfold cinco_niveis at hz ⊢
      show _ ∨ _
      rcases hz with hv | hv | hv | hv | hv <;> simp only [hv] at h4 ⊢ <;> norm_num at h4 ⊢
    · rw [tecla_menos_recusada e l tecla h2 hc]
      exact h
  by_cases h3 : tecla = '1'
  · subst h3
    rw [tratar_tecla_1]
    apply coerente_chamar_processar
    refine ⟨h.1, ?_, h.2.2⟩
    unfold algoritmo_zoom_compativel
    rw [if_neg (by simp), if_neg (by simp)]
  by_cases h4 : tecla = '2'
  · subst h4
    rw [tratar_tecla_2]
    apply coerente_chamar_processar
    rcases compativel_um_ou_zero ALG_REPLICACAO l.estado.nivel_zoom with hc | hc
    · rw [if_neg (by rw [hc]; decide)]
      exact ⟨h.1, hc, h.2.2⟩
    · rw [if_pos hc]
      exact coerente_zoom_1 _ rfl h.2.2
  by_cases h5 : tecla = '3'
  · subst h5
    rw [tratar_tecla_3]
    apply coerente_chamar_processar
    rcases compativel_um_ou_zero ALG_MEDIA l.estado.nivel_zoom with hc | hc
    · rw [if_neg (by rw [hc]; decide)]
      exact ⟨h.1, hc, h.2.2⟩
    · rw [if_pos hc]
      exact coerente_zoom_1 _ rfl h.2.2
  by_cases h6 : tecla = 'l' ∨ tecla = 'L'
  · rw [tratar_tecla_l e l tecla h6]
    exact coerente_carregar_nova_imagem _ _ _ _ h
  by_cases h7 : tecla = 'r' ∨ tecla = 'R'
  · rw [tratar_tecla_r e l tecla h7]
    apply coerente_chamar_processar
    exact coerente_zoom_1 _ rfl (fun hp => absurd hp (show ¬ ((0 : Int) = 2) by decide))
  rw [tratar_tecla_outra e l tecla h1 h2 h3 h4 h5 h6 h7]
  split
  · exact h
  · exact h

theorem coerente_processar_eventos (e : Entrada) (l : Laco) (h : estado_coerente l.estado) :
    estado_coerente (processar_eventos e l).estado := by
  unfold processar_eventos
  split
  · exact coerente_eventos _ _ h
  · exact h

theorem coerente_atualizar_ao_mover (e : Entrada) (l : Laco) (h : estado_coerente l.estado) :
    estado_coerente (atualizar_ao_mover e l).estado := by
  unfold atualizar_ao_mover
  split
  · simp only
    split
    · exact coerente_chamar_processar _ _ h
    · exact h
  · exact h

theorem coerente_animar_primeiro_canto (e : Entrada) (l : Laco)
    (h : estado_coerente l.estado) : estado_coerente (animar_primeiro_canto e l).estado := by
  unfold animar_primeiro_canto
  split
  · simp only
    split
    · exact coerente_chamar_processar _ _ h
    · exact h
  · exact h

theorem coerente_processar_tecla (e : Entrada) (l : Laco) (h : estado_coerente l.estado) :
    estado_coerente (processar_tecla e l).estado := by
  unfold processar_tecla
  split
  · exact h
  · exact coerente_tratar_tecla _ _ _ h

theorem coerente_iteracao (e : Entrada) (l : Laco) (h : estado_coerente l.estado) :
    estado_coerente (iteracao e l).estado :=
  coerente_processar_tecla _ _ (coerente_animar_primeiro_canto _ _
    (coerente_atualizar_ao_mover _ _ (coerente_processar_eventos _ _ h)))

theorem coerente_executar (es : List Entrada) :
    ∀ l : Laco, estado_coerente l.estado → estado_coerente (executar es l).estado := by
  induction es with
  | nil => intro l h; exact h
  | cons e es ih =>
    intro l h
    unfold executar
    split
    · exact ih _ (coerente_iteracao e l h)
    · exact h

/-- The state `main` enters its loop with: nearest neighbour, zoom 1 and the
empty selection. -/
theorem iniciar_estado (amb : Ambiente) (arquivo : Option (List Nat)) (mouse_fd : Int)
    (l0 : Laco) (h : iniciar amb arquivo mouse_fd = some l0) :
    l0.estado.algoritmo = ALG_VIZINHO_PROXIMO ∧ l0.estado.nivel_zoom = 1 ∧
    l0.estado.janela = { x1 := 0, y1 := 0, x2 := 0, y2 := 0, ativo := 0, pontos_definidos := 0 } := by
  unfold iniciar at h
  split at h
  · cases h
  · simp only at h
    split at h
    · cases h
    · cases h
      exact ⟨rfl, rfl, rfl⟩

/-- The file `arquivo_exemplo` decodes to the all-black frame. -/
theorem carregar_arquivo_exemplo :
    Bitmap.carregar_bitmap (some arquivo_exemplo) true (bloco ambiente_exemplo IMG_SIZE)
      IMG_WIDTH IMG_HEIGHT = (0, List.replicate 19200 0) := by
  have hb : (bloco ambiente_exemplo IMG_SIZE).length = 160 * 120 := by
    simp [bloco, IMG_SIZE, IMG_WIDTH, IMG_HEIGHT]
  exact Bitmap.carregar_arquivo_salvo (List.replicate 19200 0)
    (bloco ambiente_exemplo IMG_SIZE) 160 120 (by norm_num) (by norm_num) (by norm_num)
    (List.length_replicate _ _) hb

/-- The program starts on `arquivo_exemplo`. -/
theorem iniciar_arquivo_exemplo :
    ∃ l0, iniciar ambiente_exemplo (some arquivo_exemplo) 3 = some l0 := by
  have hc1 : (Bitmap.carregar_bitmap (some arquivo_exemplo) ambiente_exemplo.malloc_linha
      (bloco ambiente_exemplo IMG_SIZE) IMG_WIDTH IMG_HEIGHT).1 = 0 := by
    have := carregar_arquivo_exemplo
    exact congrArg Prod.fst this
  unfold iniciar
  rw [if_neg (by decide)]
  simp only
  rw [if_neg (by rw [hc1]; decide)]
  exact ⟨_, rfl⟩

/-- C17 (invariant of the reachable states). In every state the main loop
reaches, from the state `main` enters it with (nearest neighbour, zoom 1, empty
selection) and through any turns (cursor moves, clicks, zoom in, zoom out,
switches of algorithm, reset, reload, any other key), `nivel_zoom` is one of
the five levels and the pair of algorithm and zoom passes
`algoritmo_zoom_compativel`; a selection with two corners has them in order.
Hence the conditions of the fallback branches of `processar_com_algoritmo`
(average at zoom 2 or 4, replication at zoom 0.5 or 0.25) are false. The same
holds after each of the four blocks of the next turn, so every render pass of a
turn, which leaves algorithm and zoom as they are, runs on a compatible pair. -/
theorem invariante_dos_estados_alcancaveis (l : Laco) (h : Alcancavel l) :
    cinco_niveis l.estado.nivel_zoom ∧
    algoritmo_zoom_compativel l.estado.algoritmo l.estado.nivel_zoom = 1 ∧
    (l.estado.janela.pontos_definidos = 2 →
      l.estado.janela.x1 ≤ l.estado.janela.x2 ∧ l.estado.janela.y1 ≤ l.estado.janela.y2) ∧
    ¬ (l.estado.algoritmo = ALG_MEDIA ∧ (l.estado.nivel_zoom = 2 ∨ l.estado.nivel_zoom = 4)) ∧
    ¬ (l.estado.algoritmo = ALG_REPLICACAO ∧
      (l.estado.nivel_zoom = 0.5 ∨ l.estado.nivel_zoom = 0.25)) ∧
    (∀ e : Entrada,
      estado_coerente (processar_eventos e l).estado ∧
      estado_coerente (atualizar_ao_mover e (processar_eventos e l)).estado ∧
      estado_coerente
        (animar_primeiro_canto e (atualizar_ao_mover e (processar_eventos e l))).estado ∧
      estado_coerente (iteracao e l).estado) ∧
    (∀ (amb : Ambiente) (fc : Int),
      (processar_com_algoritmo amb l.estado fc).1.algoritmo = l.estado.algoritmo ∧
      (processar_com_algoritmo amb l.estado fc).1.nivel_zoom = l.estado.nivel_zoom) := by
  obtain ⟨amb, arquivo, mouse_fd, l0, entradas, hi, he⟩ := h
  obtain ⟨_, hz0, hj0⟩ := iniciar_estado amb arquivo mouse_fd l0 hi
  have h0 : estado_coerente l0.estado :=
    coerente_zoom_1 _ hz0 (fun hp => by rw [hj0] at hp; exact absurd hp (by decide))
  have hl : estado_coerente l.estado := by
    rw [← he]
    exact coerente_executar entradas l0 h0
  refine ⟨hl.1, hl.2.1, hl.2.2, ?_, ?_, ?_, ?_⟩
  · rintro ⟨ha, hz⟩
    have hc := hl.2.1
    rw [ha] at hc
    rcases hz with hz | hz <;> rw [hz] at hc <;> norm_num [algoritmo_zoom_compativel] at hc
  · rintro ⟨ha, hz⟩
    have hc := hl.2.1
    rw [ha] at hc
    have d : ¬ ALG_REPLICACAO = ALG_MEDIA := by decide
    rcases hz with hz | hz <;> rw [hz] at hc <;> norm_num [algoritmo_zoom_compativel, d] at hc
  · intro e
    have h1 := coerente_processar_eventos e l hl
    have h2 := coerente_atualizar_ao_mover e _ h1
    have h3 := coerente_animar_primeiro_canto e _ h2
    exact ⟨h1, h2, h3, coerente_processar_tecla e _ h3⟩
  · intro amb fc
    exact ⟨processar_algoritmo _ _ _, processar_nivel_zoom _ _ _⟩

/-- The state reached from `arquivo_exemplo` by the keys `+`, `+`, `3`: it
satisfies the invariant. -/
theorem invariante_dos_estados_alcancaveis_exemplo :
    ∃ l0, iniciar ambiente_exemplo (some arquivo_exemplo) 3 = some l0 ∧
      cinco_niveis
        (executar
          [entrada_exemplo [] (some '+'), entrada_exemplo [] (some '+'),
            entrada_exemplo [] (some '3')] l0).estado.nivel_zoom ∧
      algoritmo_zoom_compativel
        (executar
          [entrada_exemplo [] (some '+'), entrada_exemplo [] (some '+'),
            entrada_exemplo [] (some '3')] l0).estado.algoritmo
        (executar
          [entrada_exemplo [] (some '+'), entrada_exemplo [] (some '+'),
            entrada_exemplo [] (some '3')] l0).estado.nivel_zoom = 1 :=
  iniciar_arquivo_exemplo.elim fun l0 hi =>
    have t := invariante_dos_estados_alcancaveis
      (executar
        [entrada_exemplo [] (some '+'), entrada_exemplo [] (some '+'),
          entrada_exemplo [] (some '3')] l0)
      ⟨ambiente_exemplo, some arquivo_exemplo, 3, l0, _, hi, rfl⟩
    ⟨l0, hi, t.1, t.2.1⟩

/-! ## Clicks -/

/-- The press of the left button, unfolded. -/
theorem tratar_evento_clique (l : Laco) :
    tratar_evento clique l =
      if l.estado.nivel_zoom ≠ 1 then l
      else if l.estado.janela.pontos_definidos = 0 then
        { l with
          estado :=
            { l.estado with
              janela :=
                { l.estado.janela with
                  x1 := l.estado.mouse_x, y1 := l.estado.mouse_y, pontos_definidos := 1 } }
          mouse_moved := 1 }
      else if l.estado.janela.pontos_definidos = 1 then
        { l with
          estado :=
            { l.estado with
              janela :=
                normalizar_janela
                  { l.estado.janela with
                    x2 := l.estado.mouse_x, y2 := l.estado.mouse_y, pontos_definidos := 2,
                    ativo := 1 } }
          mouse_moved := 1 }
      else l := by
  unfold tratar_evento
  rw [if_neg (by decide), if_pos (by decide)]

/-- C18 (two clicks and normalisation). Starting at zoom 1 from the empty
selection (`pontos_definidos = 0`, `ativo = 0`), a click leaves
`pontos_definidos = 1`, the first corner at the cursor `p` and `ativo = 0`; a
click in any later state `m` that still has that selection and zoom 1, with the
cursor at `q`, leaves `pontos_definidos = 2`, `ativo = 1`, `x1 = min(px, qx)`,
`x2 = max(px, qx)`, `y1 = min(py, qy)`, `y2 = max(py, qy)`, hence `x1 <= x2` and
`y1 <= y2`. `normalizar_janela` is idempotent and keeps `ativo` and
`pontos_definidos`. -/
theorem dois_cliques (l m : Laco) (hz : l.estado.nivel_zoom = 1)
    (hp : l.estado.janela.pontos_definidos = 0) (ha : l.estado.janela.ativo = 0)
    (hm : m.estado.janela = (tratar_evento clique l).estado.janela)
    (hmz : m.estado.nivel_zoom = 1) :
    ((tratar_evento clique l).estado.janela.pontos_definidos = 1 ∧
      (tratar_evento clique l).estado.janela.x1 = l.estado.mouse_x ∧
      (tratar_evento clique l).estado.janela.y1 = l.estado.mouse_y ∧
      (tratar_evento clique l).estado.janela.ativo = 0) ∧
    ((tratar_evento clique m).estado.janela.pontos_definidos = 2 ∧
      (tratar_evento clique m).estado.janela.ativo = 1 ∧
      (tratar_evento clique m).estado.janela.x1 = min l.estado.mouse_x m.estado.mouse_x ∧
      (tratar_evento clique m).estado.janela.x2 = max l.estado.mouse_x m.estado.mouse_x ∧
      (tratar_evento clique m).estado.janela.y1 = min l.estado.mouse_y m.estado.mouse_y ∧
      (tratar_evento clique m).estado.janela.y2 = max l.estado.mouse_y m.estado.mouse_y ∧
      (tratar_evento clique m).estado.janela.x1 ≤ (tratar_evento clique m).estado.janela.x2 ∧
      (tratar_evento clique m).estado.janela.y1 ≤ (tratar_evento clique m).estado.janela.y2) ∧
    (∀ j : JanelaZoom,
      normalizar_janela (normalizar_janela j) = normalizar_janela j ∧
      (normalizar_janela j).ativo = j.ativo ∧
      (normalizar_janela j).pontos_definidos = j.pontos_definidos ∧
      (normalizar_janela j).x1 ≤ (normalizar_janela j).x2 ∧
      (normalizar_janela j).y1 ≤ (normalizar_janela j).y2) := by
  have h1 : (tratar_evento clique l).estado.janela =
      { l.estado.janela with
        x1 := l.estado.mouse_x, y1 := l.estado.mouse_y, pontos_definidos := 1 } := by
    rw [tratar_evento_clique, if_neg (by rw [hz]; simp), if_pos hp]
  have hm' := hm
  rw [h1] at hm'
  have hmp : m.estado.janela.pontos_definidos = 1 := by rw [hm']
  have h2 : (tratar_evento clique m).estado.janela =
      normalizar_janela
        { m.estado.janela with
          x2 := m.estado.mouse_x, y2 := m.estado.mouse_y, pontos_definidos := 2, ativo := 1 } := by
    rw [tratar_evento_clique, if_neg (by rw [hmz]; simp), if_neg (by rw [hmp]; decide),
      if_pos hmp]
  refine ⟨?_, ?_, ?_⟩
  · rw [h1]
    exact ⟨rfl, rfl, rfl, ha⟩
  · rw [h2, normalizar_janela_casos, hm']
    exact ⟨rfl, rfl, rfl, rfl, rfl, rfl, le_trans (min_le_left _ _) (le_max_left _ _),
      le_trans (min_le_left _ _) (le_max_left _ _)⟩
  · intro j
    have hx : (normalizar_janela j).x1 ≤ (normalizar_janela j).x2 := by
      rw [normalizar_janela_casos]
      exact le_trans (min_le_left _ _) (le_max_left _ _)
    have hy : (normalizar_janela j).y1 ≤ (normalizar_janela j).y2 := by
      rw [normalizar_janela_casos]
      exact le_trans (min_le_left _ _) (le_max_left _ _)
    exact ⟨normalizar_janela_ordenada _ hx hy, normalizar_janela_ativo j,
      normalizar_janela_pontos j, hx, hy⟩

/-- Two clicks from the empty selection at zoom 1, the first with the cursor at
(50, 20), the second with the cursor at (10, 60): the selection is bound to the
corners (10, 20) and (50, 60). -/
theorem dois_cliques_exemplo :
    (laco_com_cursor (laco_exemplo ALG_VIZINHO_PROXIMO 1) 50 20).estado.nivel_zoom = 1 ∧
    (laco_com_cursor (laco_exemplo ALG_VIZINHO_PROXIMO 1) 50 20).estado.janela.pontos_definidos
      = 0 ∧
    (laco_com_cursor (laco_exemplo ALG_VIZINHO_PROXIMO 1) 50 20).estado.janela.ativo = 0 ∧
    (tratar_evento clique
      (laco_com_cursor
        (tratar_evento clique (laco_com_cursor (laco_exemplo ALG_VIZINHO_PROXIMO 1) 50 20))
        10 60)).estado.janela.pontos_definidos = 2 ∧
    (tratar_evento clique
      (laco_com_cursor
        (tratar_evento clique (laco_com_cursor (laco_exemplo ALG_VIZINHO_PROXIMO 1) 50 20))
        10 60)).estado.janela.ativo = 1 ∧
    (tratar_evento clique
      (laco_com_cursor
        (tratar_evento clique (laco_com_cursor (laco_exemplo ALG_VIZINHO_PROXIMO 1) 50 20))
        10 60)).estado.janela.x1 = 10 ∧
    (tratar_evento clique
      (laco_com_cursor
        (tratar_evento clique (laco_com_cursor (laco_exemplo ALG_VIZINHO_PROXIMO 1) 50 20))
        10 60)).estado.janela.x2 = 50 ∧
    (tratar_evento clique
      (laco_com_cursor
        (tratar_evento clique (laco_com_cursor (laco_exemplo ALG_VIZINHO_PROXIMO 1) 50 20))
        10 60)).estado.janela.y1 = 20 ∧
    (tratar_evento clique
      (laco_com_cursor
        (tratar_evento clique (laco_com_cursor (laco_exemplo ALG_VIZINHO_PROXIMO 1) 50 20))
        10 60)).estado.janela.y2 = 60 :=
  have t := dois_cliques (laco_com_cursor (laco_exemplo ALG_VIZINHO_PROXIMO 1) 50 20)
    (laco_com_cursor
      (tratar_evento clique (laco_com_cursor (laco_exemplo ALG_VIZINHO_PROXIMO 1) 50 20)) 10 60)
    rfl rfl rfl rfl (by rw [tratar_evento_clique]; rfl)
  ⟨rfl, rfl, rfl, t.2.1.1, t.2.1.2.1, t.2.1.2.2.1.trans (by decide),
    t.2.1.2.2.2.1.trans (by decide), t.2.1.2.2.2.2.1.trans (by decide),
    t.2.1.2.2.2.2.2.1.trans (by decide)⟩

/-- C19 (click outside zoom 1). In every state whose zoom is not 1, whatever its
selection, the press of the left button leaves the whole state of the loop as
it was: the corners, `pontos_definidos`, `ativo` and everything else. The same
holds for any number of presses in a row, and a turn of the loop that receives a
press before its other events ends in the state it would end in without it. -/
theorem clique_fora_do_zoom_1 (l : Laco) (hz : l.estado.nivel_zoom ≠ 1) :
    tratar_evento clique l = l ∧
    (∀ ev : input_event, ev.type = EV_KEY → ev.code = BTN_LEFT → ev.value = 1 →
      tratar_evento ev l = l) ∧
    (∀ n : Nat, (List.replicate n clique).foldl (fun l ev => tratar_evento ev l) l = l) ∧
    (∀ e : Entrada, iteracao { e with eventos := clique :: e.eventos } l = iteracao e l) := by
  have h1 : tratar_evento clique l = l := by
    rw [tratar_evento_clique, if_pos hz]
  refine ⟨h1, ?_, ?_, ?_⟩
  · intro ev ht hc hv
    have : ev = clique := by
      obtain ⟨t, c, v⟩ := ev
      simp only at ht hc hv
      subst ht; subst hc; subst hv
      rfl
    rw [this, h1]
  · intro n
    induction n with
    | zero => rfl
    | succ n ih => rw [List.replicate_succ, List.foldl_cons, h1, ih]
  · intro e
    have hp : processar_eventos { e with eventos := clique :: e.eventos } l
        = processar_eventos e l := by
      simp only [processar_eventos, List.foldl_cons, h1]
    unfold iteracao
    rw [hp]
    rfl

/-- A click at zoom 2 on a bound selection: the state of the loop is unchanged. -/
theorem clique_fora_do_zoom_1_exemplo :
    (laco_com_selecao ALG_VIZINHO_PROXIMO 2).estado.nivel_zoom ≠ 1 ∧
    tratar_evento clique (laco_com_selecao ALG_VIZINHO_PROXIMO 2)
      = laco_com_selecao ALG_VIZINHO_PROXIMO 2 :=
  have hz : (laco_com_selecao ALG_VIZINHO_PROXIMO 2).estado.nivel_zoom ≠ 1 := by
    norm_num [laco_com_selecao, estado_exemplo]
  ⟨hz, (clique_fora_do_zoom_1 (laco_com_selecao ALG_VIZINHO_PROXIMO 2) hz).1⟩

/-! ## Corner coordinates that no click has set -/

theorem mesma_selecao_refl (j : JanelaZoom) : mesma_selecao j j :=
  ⟨rfl, rfl, fun _ => ⟨rfl, rfl⟩, fun _ => rfl⟩

theorem mesmo_estado_refl (e : EstadoApp) : mesmo_estado e e :=
  ⟨rfl, rfl, mesma_selecao_refl _, rfl, rfl, rfl, rfl⟩

theorem mesmo_laco_refl (l : Laco) : mesmo_laco l l :=
  ⟨mesmo_estado_refl _, rfl, rfl, rfl, rfl, rfl, rfl, rfl, rfl⟩

/-- Two related states are equal up to their selections. -/
theorem mesmo_estado_eq (e f : EstadoApp) (h : mesmo_estado e f) :
    f = { e with janela := f.janela } := by
  obtain ⟨io, ia, j, a, z, mx, my⟩ := e
  obtain ⟨io2, ia2, k, a2, z2, mx2, my2⟩ := f
  obtain ⟨h1, h2, _, h4, h5, h6, h7⟩ := h
  simp only at h1 h2 h4 h5 h6 h7
  subst h1 h2 h4 h5 h6 h7
  rfl

/-- Two related selections of which one is active, or has neither zero nor one
corner, are equal. -/
theorem mesma_selecao_eq (j k : JanelaZoom) (h : mesma_selecao j k)
    (hc : j.ativo ≠ 0 ∨ (j.pontos_definidos ≠ 0 ∧ j.pontos_definidos ≠ 1)) : j = k :=
  h.2.2.2 hc

theorem despachar_completa_campos (e f : EstadoApp) (hz : e.nivel_zoom = f.nivel_zoom)
    (ha : e.algoritmo = f.algoritmo) : despachar_completa e = despachar_completa f := by
  unfold despachar_completa
  rw [hz, ha]

/-- The render pass outside the region branch. -/
theorem processar_sem_regiao (amb : Ambiente) (e : EstadoApp) (fc : Int)
    (h : ¬ (e.janela.ativo ≠ 0 ∧ e.janela.pontos_definidos = 2 ∧ e.nivel_zoom ≠ 1)) :
    processar_com_algoritmo amb e fc =
      ({ e with
          imagem_atual :=
            desenhar_cursor
              (if e.janela.pontos_definidos = 1 then
                desenhar_cantos_animados
                  (Bitmap.memcpy e.imagem_atual 0 e.imagem_original IMG_SIZE.toNat)
                  e.janela.x1 e.janela.y1 IMG_WIDTH IMG_HEIGHT fc
              else Bitmap.memcpy e.imagem_atual 0 e.imagem_original IMG_SIZE.toNat)
              e.mouse_x e.mouse_y IMG_WIDTH IMG_HEIGHT },
        if e.janela.pontos_definidos = 1 then fc + 1 else fc,
        Comando.carregar_imagem
          (desenhar_cursor
            (if e.janela.pontos_definidos = 1 then
              desenhar_cantos_animados
                (Bitmap.memcpy e.imagem_atual 0 e.imagem_original IMG_SIZE.toNat)
                e.janela.x1 e.janela.y1 IMG_WIDTH IMG_HEIGHT fc
            else Bitmap.memcpy e.imagem_atual 0 e.imagem_original IMG_SIZE.toNat)
            e.mouse_x e.mouse_y IMG_WIDTH IMG_HEIGHT) IMG_SIZE
          :: despachar_completa e) := by
  simp only [processar_com_algoritmo]
  rw [if_neg h]
  by_cases hp : e.janela.pontos_definidos = 1
  · simp only [hp, if_true, despachar_completa]
  · simp only [hp, if_false, despachar_completa]

/-- The render pass on two related states: related states, the same frame
counter and the same calls. -/
theorem processar_mesmo (amb : Ambiente) (e f : EstadoApp) (fc : Int) (h : mesmo_estado e f) :
    mesmo_estado (processar_com_algoritmo amb e fc).1 (processar_com_algoritmo amb f fc).1 ∧
    (processar_com_algoritmo amb e fc).2 = (processar_com_algoritmo amb f fc).2 := by
  by_cases hc : e.janela.ativo ≠ 0 ∨
      (e.janela.pontos_definidos ≠ 0 ∧ e.janela.pontos_definidos ≠ 1)
  · have hj := mesma_selecao_eq _ _ h.2.2.1 hc
    have hf := mesmo_estado_eq e f h
    rw [← hj] at hf
    have : f = e := hf
    rw [this]
    exact ⟨mesmo_estado_refl _, rfl⟩
  · have ha : e.janela.ativo = 0 := by
      by_contra hne
      exact hc (Or.inl hne)
    have hp : e.janela.pontos_definidos = 0 ∨ e.janela.pontos_definidos = 1 := by
      by_contra hne
      push_neg at hne
      exact hc (Or.inr hne)
    obtain ⟨h1, h2, hs, h4, h5, h6, h7⟩ := h
    obtain ⟨hs1, hs2, hs3, _⟩ := hs
    have he : ¬ (e.janela.ativo ≠ 0 ∧ e.janela.pontos_definidos = 2 ∧ e.nivel_zoom ≠ 1) :=
      fun hh => hh.1 ha
    have hf : ¬ (f.janela.ativo ≠ 0 ∧ f.janela.pontos_definidos = 2 ∧ f.nivel_zoom ≠ 1) :=
      fun hh => hh.1 (by rw [← hs1]; exact ha)
    rw [processar_sem_regiao amb e fc he, processar_sem_regiao amb f fc hf]
    rw [← h1, ← h2, ← h6, ← h7, ← hs2, despachar_completa_campos f e h5.symm h4.symm]
    have hsel : mesma_selecao e.janela f.janela :=
      ⟨hs1, hs2, hs3, fun hh => by
        rcases hh with hh | hh
        · exact absurd ha hh
        · rcases hp with hp | hp
          · exact absurd hp hh.1
          · exact absurd hp hh.2⟩
    have hcantos : e.janela.pontos_definidos = 1 →
        desenhar_cantos_animados
            (Bitmap.memcpy e.imagem_atual 0 e.imagem_original IMG_SIZE.toNat)
            f.janela.x1 f.janela.y1 IMG_WIDTH IMG_HEIGHT fc
          = desenhar_cantos_animados
            (Bitmap.memcpy e.imagem_atual 0 e.imagem_original IMG_SIZE.toNat)
            e.janela.x1 e.janela.y1 IMG_WIDTH IMG_HEIGHT fc := by
      intro hp1
      obtain ⟨hx, hy⟩ := hs3 hp1
      rw [hx, hy]
    have hquadro :
        (if e.janela.pontos_definidos = 1 then
          desenhar_cantos_animados
            (Bitmap.memcpy e.imagem_atual 0 e.imagem_original IMG_SIZE.toNat)
            f.janela.x1 f.janela.y1 IMG_WIDTH IMG_HEIGHT fc
        else Bitmap.memcpy e.imagem_atual 0 e.imagem_original IMG_SIZE.toNat)
        = (if e.janela.pontos_definidos = 1 then
          desenhar_cantos_animados
            (Bitmap.memcpy e.imagem_atual 0 e.imagem_original IMG_SIZE.toNat)
            e.janela.x1 e.janela.y1 IMG_WIDTH IMG_HEIGHT fc
        else Bitmap.memcpy e.imagem_atual 0 e.imagem_original IMG_SIZE.toNat) := by
      split
      · rename_i hp1
        exact hcantos hp1
      · rfl
    rw [hquadro]
    exact ⟨⟨rfl, rfl, hsel, h4, h5, rfl, rfl⟩, rfl⟩

theorem chamar_processar_mesmo (amb : Ambiente) (s t : Laco) (h : mesmo_laco s t) :
    mesmo_laco (chamar_processar amb s) (chamar_processar amb t) := by
  obtain ⟨he, hfc, h3, h4, h5, h6, h7, h8, h9⟩ := h
  have hp := processar_mesmo amb s.estado t.estado s.frame_counter he
  unfold chamar_processar
  simp only
  rw [← hfc, ← h9]
  exact ⟨hp.1, congrArg Prod.fst hp.2, h3, h4, h5, h6, h7, h8,
    congrArg (fun r => s.comandos ++ r.2) hp.2⟩

theorem tratar_evento_mesmo (ev : input_event) (s t : Laco) (h : mesmo_laco s t) :
    mesmo_laco (tratar_evento ev s) (tratar_evento ev t) := by
  obtain ⟨he, hfc, h3, h4, h5, h6, h7, h8, h9⟩ := h
  obtain ⟨e1, e2, hs, e4, e5, e6, e7⟩ := he
  obtain ⟨hs1, hs2, hs3, hs4⟩ := hs
  have hsel : mesma_selecao s.estado.janela t.estado.janela := ⟨hs1, hs2, hs3, hs4⟩
  by_cases c1 : ev.type = EV_REL
  · by_cases c2 : ev.code = REL_X
    · simp only [tratar_evento, c1, c2, if_true]
      rw [← e6]
      exact ⟨⟨e1, e2, hsel, e4, e5, rfl, e7⟩, hfc, h3, h4, rfl, h6, h7, h8, h9⟩
    · by_cases c3 : ev.code = REL_Y
      · simp only [tratar_evento, c1, c2, c3, if_true, if_false]
        rw [← e7]
        exact ⟨⟨e1, e2, hsel, e4, e5, e6, rfl⟩, hfc, h3, h4, rfl, h6, h7, h8, h9⟩
      · simp only [tratar_evento, c1, c2, c3, if_true, if_false]
        exact ⟨⟨e1, e2, hsel, e4, e5, e6, e7⟩, hfc, h3, h4, h5, h6, h7, h8, h9⟩
  · by_cases c2 : ev.type = EV_KEY ∧ ev.code = BTN_LEFT ∧ ev.value = 1
    · unfold tratar_evento
      rw [if_neg c1, if_neg c1, if_pos c2, if_pos c2, ← e5, ← hs2, ← e6, ← e7]
      by_cases cz : s.estado.nivel_zoom ≠ 1
      · rw [if_pos cz, if_pos cz]
        exact ⟨⟨e1, e2, hsel, e4, e5, e6, e7⟩, hfc, h3, h4, h5, h6, h7, h8, h9⟩
      · rw [if_neg cz, if_neg cz]
        by_cases p0 : s.estado.janela.pontos_definidos = 0
        · rw [if_pos p0, if_pos p0]
          refine ⟨⟨e1, e2, ⟨hs1, rfl, fun _ => ⟨rfl, rfl⟩, ?_⟩, e4, e5, e6, e7⟩,
            hfc, h3, h4, rfl, h6, h7, h8, h9⟩
          intro hh
          have hjk : s.estado.janela = t.estado.janela := by
            apply hs4
            rcases hh with hh | hh
            · exact Or.inl hh
            · exact absurd rfl hh.2
          rw [← hjk]
        · rw [if_neg p0, if_neg p0]
          by_cases p1 : s.estado.janela.pontos_definidos = 1
          · rw [if_pos p1, if_pos p1]
            obtain ⟨hx, hy⟩ := hs3 p1
            have hjk : ({ s.estado.janela with
                x2 := s.estado.mouse_x, y2 := s.estado.mouse_y, pontos_definidos := 2,
                ativo := 1 } : JanelaZoom) =
              { t.estado.janela with
                x2 := s.estado.mouse_x, y2 := s.estado.mouse_y, pontos_definidos := 2,
                ativo := 1 } := by
              rw [JanelaZoom.mk.injEq]
              exact ⟨hx, hy, rfl, rfl, rfl, rfl⟩
            rw [← hjk]
            exact ⟨⟨e1, e2, mesma_selecao_refl _, e4, e5, e6, e7⟩,
              hfc, h3, h4, rfl, h6, h7, h8, h9⟩
          · rw [if_neg p1, if_neg p1]
            exact ⟨⟨e1, e2, hsel, e4, e5, e6, e7⟩, hfc, h3, h4, h5, h6, h7, h8, h9⟩
    · simp only [tratar_evento, c1, c2, if_false]
      exact ⟨⟨e1, e2, hsel, e4, e5, e6, e7⟩, hfc, h3, h4, h5, h6, h7, h8, h9⟩

theorem eventos_mesmo (evs : List input_event) :
    ∀ s t : Laco, mesmo_laco s t →
      mesmo_laco (evs.foldl (fun l ev => tratar_evento ev l) s)
        (evs.foldl (fun l ev => tratar_evento ev l) t) := by
  induction evs with
  | nil => intro s t h; exact h
  | cons ev evs ih =>
    intro s t h
    rw [List.foldl_cons, List.foldl_cons]
    exact ih _ _ (tratar_evento_mesmo ev s t h)

theorem carregar_nova_imagem_mesmo (amb : Ambiente) (linha : Option (List Char))
    (arquivos : List Char → Option (List Nat)) (e f : EstadoApp) (h : mesmo_estado e f) :
    (carregar_nova_imagem amb linha arquivos e).1 = (carregar_nova_imagem amb linha arquivos f).1 ∧
    mesmo_estado (carregar_nova_imagem amb linha arquivos e).2.1
      (carregar_nova_imagem amb linha arquivos f).2.1 ∧
    (carregar_nova_imagem amb linha arquivos e).2.2
      = (carregar_nova_imagem amb linha arquivos f).2.2 := by
  obtain ⟨e1, e2, hs, e4, e5, e6, e7⟩ := h
  cases linha with
  | none => exact ⟨rfl, ⟨e1, e2, hs, e4, e5, e6, e7⟩, rfl⟩
  | some caminho =>
    simp only [carregar_nova_imagem]
    by_cases c1 : (caminho.takeWhile (fun c => c ≠ Char.ofNat 10)).length = 0
    · rw [if_pos c1, if_pos c1]
      exact ⟨rfl, ⟨e1, e2, hs, e4, e5, e6, e7⟩, rfl⟩
    · rw [if_neg c1, if_neg c1]
      by_cases c2 : (!amb.malloc_temporario) = true
      · rw [if_pos c2, if_pos c2]
        exact ⟨rfl, ⟨e1, e2, hs, e4, e5, e6, e7⟩, rfl⟩
      · rw [if_neg c2, if_neg c2]
        by_cases c3 : (Bitmap.carregar_bitmap
            (arquivos (caminho.takeWhile (fun c => c ≠ Char.ofNat 10))) amb.malloc_linha
            (bloco amb IMG_SIZE) IMG_WIDTH IMG_HEIGHT).1 ≠ 0
        · rw [if_pos c3, if_pos c3]
          exact ⟨rfl, ⟨e1, e2, hs, e4, e5, e6, e7⟩, rfl⟩
        · rw [if_neg c3, if_neg c3, ← e1, ← e2]
          refine ⟨rfl, ⟨rfl, rfl, ⟨rfl, rfl, fun hh => absurd hh (show ¬ ((0 : Int) = 1) by decide), fun hh => ?_⟩,
            rfl, rfl, e6, e7⟩, rfl⟩
          rcases hh with hh | hh
          · exact absurd rfl hh
          · exact absurd rfl hh.1

theorem tratar_tecla_mesmo (e : Entrada) (tecla : Char) (s t : Laco) (h : mesmo_laco s t) :
    mesmo_laco (tratar_tecla e tecla s) (tratar_tecla e tecla t) := by
  have hz : s.estado.nivel_zoom = t.estado.nivel_zoom := h.1.2.2.2.2.1
  have hal : s.estado.algoritmo = t.estado.algoritmo := h.1.2.2.2.1
  obtain ⟨he, hfc, h3, h4, h5, h6, h7, h8, h9⟩ := h
  obtain ⟨e1, e2, hs, e4, e5, e6, e7⟩ := he
  have hl : mesmo_laco s t := ⟨⟨e1, e2, hs, e4, e5, e6, e7⟩, hfc, h3, h4, h5, h6, h7, h8, h9⟩
  by_cases k1 : tecla = '+' ∨ tecla = '='
  · rw [tratar_tecla_mais e s tecla k1, tratar_tecla_mais e t tecla k1, ← hz, ← hal]
    split
    · split
      · apply chamar_processar_mesmo
        exact ⟨⟨e1, e2, hs, e4, rfl, e6, e7⟩, hfc, h3, h4, h5, h6, h7, h8, h9⟩
      · exact hl
    · exact hl
  by_cases k2 : tecla = '-' ∨ tecla = '_'
  · rw [tratar_tecla_menos e s tecla k2, tratar_tecla_menos e t tecla k2, ← hz, ← hal]
    split
    · split
      · apply chamar_processar_mesmo
        exact ⟨⟨e1, e2, hs, e4, rfl, e6, e7⟩, hfc, h3, h4, h5, h6, h7, h8, h9⟩
      · exact hl
    · exact hl
  by_cases k3 : tecla = '1'
  · subst k3
    rw [tratar_tecla_1, tratar_tecla_1]
    apply chamar_processar_mesmo
    exact ⟨⟨e1, e2, hs, rfl, e5, e6, e7⟩, hfc, h3, h4, h5, h6, h7, h8, h9⟩
  by_cases k4 : tecla = '2'
  · subst k4
    rw [tratar_tecla_2, tratar_tecla_2, ← hz]
    apply chamar_processar_mesmo
    split
    · exact ⟨⟨e1, e2, hs, rfl, rfl, e6, e7⟩, hfc, h3, h4, h5, h6, h7, h8, h9⟩
    · exact ⟨⟨e1, e2, hs, rfl, e5, e6, e7⟩, hfc, h3, h4, h5, h6, h7, h8, h9⟩
  by_cases k5 : tecla = '3'
  · subst k5
    rw [tratar_tecla_3, tratar_tecla_3, ← hz]
    apply chamar_processar_mesmo
    split
    · exact ⟨⟨e1, e2, hs, rfl, rfl, e6, e7⟩, hfc, h3, h4, h5, h6, h7, h8, h9⟩
    · exact ⟨⟨e1, e2, hs, rfl, e5, e6, e7⟩, hfc, h3, h4, h5, h6, h7, h8, h9⟩
  by_cases k6 : tecla = 'l' ∨ tecla = 'L'
  · rw [tratar_tecla_l e s tecla k6, tratar_tecla_l e t tecla k6]
    obtain ⟨_, c2, c3⟩ := carregar_nova_imagem_mesmo e.amb e.linha e.arquivos s.estado t.estado
      ⟨e1, e2, hs, e4, e5, e6, e7⟩
    exact ⟨c2, hfc, h3, h4, h5, h6, h7, h8, by simp only [h9, c3]⟩
  by_cases k7 : tecla = 'r' ∨ tecla = 'R'
  · rw [tratar_tecla_r e s tecla k7, tratar_tecla_r e t tecla k7]
    apply chamar_processar_mesmo
    refine ⟨⟨e1, e2, ⟨rfl, rfl, fun hh => absurd hh (show ¬ ((0 : Int) = 1) by decide), fun hh => ?_⟩, e4, rfl, e6, e7⟩,
      hfc, h3, h4, h5, h6, h7, h8, h9⟩
    rcases hh with hh | hh
    · exact absurd rfl hh
    · exact absurd rfl hh.1
  rw [tratar_tecla_outra e s tecla k1 k2 k3 k4 k5 k6 k7,
    tratar_tecla_outra e t tecla k1 k2 k3 k4 k5 k6 k7]
  split
  · exact ⟨⟨e1, e2, hs, e4, e5, e6, e7⟩, hfc, h3, rfl, h5, h6, h7, h8, h9⟩
  · exact hl

theorem processar_eventos_mesmo (e : Entrada) (s t : Laco) (h : mesmo_laco s t) :
    mesmo_laco (processar_eventos e s) (processar_eventos e t) := by
  have hfd : s.mouse_fd = t.mouse_fd := h.2.2.1
  unfold processar_eventos
  rw [← hfd]
  split
  · exact eventos_mesmo _ _ _ h
  · exact h

theorem atualizar_ao_mover_mesmo (e : Entrada) (s t : Laco) (h : mesmo_laco s t) :
    mesmo_laco (atualizar_ao_mover e s) (atualizar_ao_mover e t) := by
  have hl := h
  obtain ⟨he, hfc, h3, h4, h5, h6, h7, h8, h9⟩ := h
  obtain ⟨e1, e2, hs, e4, e5, e6, e7⟩ := he
  unfold atualizar_ao_mover
  rw [← h5, ← h6, ← h7, ← e5, ← e6, ← e7]
  split
  · simp only
    split
    · have hc := chamar_processar_mesmo e.amb s t hl
      obtain ⟨he', hfc', h3', h4', h5', h6', h7', h8', h9'⟩ := hc
      exact ⟨he', hfc', h3', h4', rfl, he'.2.2.2.2.2.1, he'.2.2.2.2.2.2, h8', h9'⟩
    · exact ⟨⟨e1, e2, hs, e4, e5, e6, e7⟩, hfc, h3, h4, rfl, e6, e7, h8, h9⟩
  · exact hl

theorem animar_primeiro_canto_mesmo (e : Entrada) (s t : Laco) (h : mesmo_laco s t) :
    mesmo_laco (animar_primeiro_canto e s) (animar_primeiro_canto e t) := by
  have hl := h
  obtain ⟨he, hfc, h3, h4, h5, h6, h7, h8, h9⟩ := h
  obtain ⟨e1, e2, hs, e4, e5, e6, e7⟩ := he
  unfold animar_primeiro_canto
  rw [← hs.2.1, ← e5, ← h8]
  split
  · simp only
    split
    · apply chamar_processar_mesmo
      exact ⟨⟨e1, e2, hs, e4, e5, e6, e7⟩, hfc, h3, h4, h5, h6, h7, rfl, h9⟩
    · exact ⟨⟨e1, e2, hs, e4, e5, e6, e7⟩, hfc, h3, h4, h5, h6, h7, rfl, h9⟩
  · exact hl

theorem processar_tecla_mesmo (e : Entrada) (s t : Laco) (h : mesmo_laco s t) :
    mesmo_laco (processar_tecla e s) (processar_tecla e t) := by
  unfold processar_tecla
  split
  · exact h
  · exact tratar_tecla_mesmo _ _ _ _ h

theorem iteracao_mesmo (e : Entrada) (s t : Laco) (h : mesmo_laco s t) :
    mesmo_laco (iteracao e s) (iteracao e t) :=
  processar_tecla_mesmo _ _ _ (animar_primeiro_canto_mesmo _ _ _
    (atualizar_ao_mover_mesmo _ _ _ (processar_eventos_mesmo _ _ _ h)))

theorem executar_mesmo (es : List Entrada) :
    ∀ s t : Laco, mesmo_laco s t → mesmo_laco (executar es s) (executar es t) := by
  induction es with
  | nil => intro s t h; exact h
  | cons e es ih =>
    intro s t h
    have hex : s.executando = t.executando := h.2.2.2.1
    unfold executar
    rw [← hex]
    split
    · exact ih _ _ (iteracao_mesmo e s t h)
    · exact h

/-- A state with the empty selection is related to itself with the corner
coordinates set to 0. -/
theorem mesmo_laco_limpar_cantos (l : Laco) (hp : l.estado.janela.pontos_definidos = 0)
    (ha : l.estado.janela.ativo = 0) : mesmo_laco l (limpar_cantos l) := by
  refine ⟨⟨rfl, rfl, ⟨rfl, rfl, fun hh => ?_, fun hh => ?_⟩, rfl, rfl, rfl, rfl⟩,
    rfl, rfl, rfl, rfl, rfl, rfl, rfl, rfl⟩
  · rw [hp] at hh
    exact absurd hh (by decide)
  · rcases hh with hh | hh
    · exact absurd ha hh
    · exact absurd hp hh.1

/-- The selection after the key `r`. -/
theorem tratar_tecla_r_janela (e : Entrada) (l : Laco) (tecla : Char)
    (h : tecla = 'r' ∨ tecla = 'R') :
    (tratar_tecla e tecla l).estado.janela
      = { l.estado.janela with pontos_definidos := 0, ativo := 0 } ∧
    (tratar_tecla e tecla l).estado.nivel_zoom = 1 := by
  rw [tratar_tecla_r e l tecla h, chamar_processar_estado, processar_janela,
    processar_nivel_zoom]
  refine ⟨?_, rfl⟩
  rw [if_neg]
  intro hh
  exact hh.1 rfl

/-- The selection after a successful reload. -/
theorem carregar_nova_imagem_janela (amb : Ambiente) (linha : Option (List Char))
    (arquivos : List Char → Option (List Nat)) (estado : EstadoApp)
    (h : (carregar_nova_imagem amb linha arquivos estado).1 = 1) :
    (carregar_nova_imagem amb linha arquivos estado).2.1.janela
      = { estado.janela with pontos_definidos := 0, ativo := 0 } ∧
    (carregar_nova_imagem amb linha arquivos estado).2.1.nivel_zoom = 1 ∧
    (carregar_nova_imagem amb linha arquivos estado).2.1.algoritmo = ALG_VIZINHO_PROXIMO := by
  unfold carregar_nova_imagem at h ⊢
  split at h
  · exact absurd h (show ¬ ((0 : Int) = 1) by decide)
  · simp only at h ⊢
    split at h
    · exact absurd h (show ¬ ((0 : Int) = 1) by decide)
    · split at h
      · exact absurd h (show ¬ ((0 : Int) = 1) by decide)
      · split at h
        · exact absurd h (show ¬ ((0 : Int) = 1) by decide)
        · rename_i c1 c2 c3
          rw [if_neg c1, if_neg c2, if_neg c3]
          exact ⟨rfl, rfl, rfl⟩

/-- C20 (reset and reload). From every state, whatever its selection, the keys
`r`, `R` and a reload that succeeds (`carregar_nova_imagem` returns 1, keys
`l`, `L`) leave `pontos_definidos = 0` and `ativo = 0`; the four corner
coordinates keep their old values. Those values have no effect afterwards: the
state reached and the same state with the four coordinates set to 0 are
related by `mesmo_laco`, and for any two related states and any further turns
of the loop the states reached are related again, that is, they have the same
frames, the same algorithm, zoom and cursor, the same calls made to the
coprocessor, the same `ativo` and `pontos_definidos`, the same first corner once
a click has set it and the same four coordinates once the selection is bound. -/
theorem reset_e_recarga (e : Entrada) (l : Laco) :
    (∀ tecla : Char, tecla = 'r' ∨ tecla = 'R' →
      (tratar_tecla e tecla l).estado.janela
        = { l.estado.janela with pontos_definidos := 0, ativo := 0 } ∧
      mesmo_laco (tratar_tecla e tecla l) (limpar_cantos (tratar_tecla e tecla l)) ∧
      ∀ es : List Entrada,
        mesmo_laco (executar es (tratar_tecla e tecla l))
          (executar es (limpar_cantos (tratar_tecla e tecla l)))) ∧
    (∀ tecla : Char, tecla = 'l' ∨ tecla = 'L' →
      (carregar_nova_imagem e.amb e.linha e.arquivos l.estado).1 = 1 →
      (tratar_tecla e tecla l).estado.janela
        = { l.estado.janela with pontos_definidos := 0, ativo := 0 } ∧
      mesmo_laco (tratar_tecla e tecla l) (limpar_cantos (tratar_tecla e tecla l)) ∧
      ∀ es : List Entrada,
        mesmo_laco (executar es (tratar_tecla e tecla l))
          (executar es (limpar_cantos (tratar_tecla e tecla l)))) ∧
    (∀ (s t : Laco), mesmo_laco s t →
      (∀ (amb : Ambiente),
        (processar_com_algoritmo amb s.estado s.frame_counter).2
          = (processar_com_algoritmo amb t.estado t.frame_counter).2 ∧
        (processar_com_algoritmo amb s.estado s.frame_counter).1.imagem_atual
          = (processar_com_algoritmo amb t.estado t.frame_counter).1.imagem_atual) ∧
      (∀ e2 : Entrada, mesmo_laco (iteracao e2 s) (iteracao e2 t)) ∧
      (∀ es : List Entrada, mesmo_laco (executar es s) (executar es t))) := by
  refine ⟨?_, ?_, ?_⟩
  · intro tecla ht
    obtain ⟨hj, _⟩ := tratar_tecla_r_janela e l tecla ht
    have hm := mesmo_laco_limpar_cantos (tratar_tecla e tecla l) (by rw [hj]) (by rw [hj])
    exact ⟨hj, hm, fun es => executar_mesmo es _ _ hm⟩
  · intro tecla ht hok
    have hj : (tratar_tecla e tecla l).estado.janela
        = { l.estado.janela with pontos_definidos := 0, ativo := 0 } := by
      rw [tratar_tecla_l e l tecla ht]
      exact (carregar_nova_imagem_janela _ _ _ _ hok).1
    have hm := mesmo_laco_limpar_cantos (tratar_tecla e tecla l) (by rw [hj]) (by rw [hj])
    exact ⟨hj, hm, fun es => executar_mesmo es _ _ hm⟩
  · intro s t h
    refine ⟨fun amb => ?_, fun e2 => iteracao_mesmo e2 s t h, fun es => executar_mesmo es s t h⟩
    have hfc : s.frame_counter = t.frame_counter := h.2.1
    rw [← hfc]
    have hp := processar_mesmo amb s.estado t.estado s.frame_counter h.1
    exact ⟨hp.2, hp.1.2.1⟩

/-- The reload of `entrada_de_recarga` succeeds. -/
theorem recarga_exemplo (estado : EstadoApp) :
    (carregar_nova_imagem entrada_de_recarga.amb entrada_de_recarga.linha
      entrada_de_recarga.arquivos estado).1 = 1 := by
  have hc1 : (Bitmap.carregar_bitmap (some arquivo_exemplo) ambiente_exemplo.malloc_linha
      (bloco ambiente_exemplo IMG_SIZE) IMG_WIDTH IMG_HEIGHT).1 = 0 :=
    congrArg Prod.fst carregar_arquivo_exemplo
  show (carregar_nova_imagem ambiente_exemplo (some ['a', Char.ofNat 10])
    (fun _ => some arquivo_exemplo) estado).1 = 1
  simp only [carregar_nova_imagem]
  rw [if_neg (by decide), if_neg (by decide), if_neg (by rw [hc1]; decide)]

/-- The key `r` and a reload on a selection bound to (10, 20) and (50, 60) at
zoom 2: the selection is emptied and the four coordinates stay. -/
theorem reset_e_recarga_exemplo :
    (tratar_tecla entrada_de_recarga 'r' (laco_com_selecao ALG_VIZINHO_PROXIMO 2)).estado.janela
      = { x1 := 10, y1 := 20, x2 := 50, y2 := 60, ativo := 0, pontos_definidos := 0 } ∧
    (carregar_nova_imagem entrada_de_recarga.amb entrada_de_recarga.linha
      entrada_de_recarga.arquivos (laco_com_selecao ALG_VIZINHO_PROXIMO 2).estado).1 = 1 ∧
    (tratar_tecla entrada_de_recarga 'l' (laco_com_selecao ALG_VIZINHO_PROXIMO 2)).estado.janela
      = { x1 := 10, y1 := 20, x2 := 50, y2 := 60, ativo := 0, pontos_definidos := 0 } :=
  have t := reset_e_recarga entrada_de_recarga (laco_com_selecao ALG_VIZINHO_PROXIMO 2)
  ⟨(t.1 'r' (Or.inl rfl)).1, recarga_exemplo _,
    (t.2.1 'l' (Or.inl rfl) (recarga_exemplo _)).1⟩

/-! ## Loads and stores -/

theorem escrever_length (b : List Nat) (i : Int) (v : Nat) :
    (escrever b i v).length = b.length := by
  unfold escrever
  split
  · exact List.length_set _ _ _
  · rfl

theorem ler_escrever (b : List Nat) (i : Int) (v : Nat) (k : Int) :
    ler (escrever b i v) k = if k = i ∧ 0 ≤ i ∧ i < b.length then v else ler b k := by
  by_cases hi : 0 ≤ i
  · by_cases hk : 0 ≤ k
    · unfold ler escrever
      rw [if_pos hi, if_pos hk, if_pos hk, List.getD_eq_getElem?_getD, List.getElem?_set,
        List.getD_eq_getElem?_getD]
      by_cases hki : k = i
      · subst hki
        by_cases hl : k < b.length
        · have : k.toNat < b.length := by omega
          rw [if_pos rfl, if_pos this, if_pos ⟨rfl, hk, hl⟩]
          rfl
        · have : ¬ k.toNat < b.length := by omega
          rw [if_pos rfl, if_neg this, if_neg (fun h => hl h.2.2),
            List.getElem?_eq_none (by omega)]
      · have : ¬ i.toNat = k.toNat := by omega
        rw [if_neg this, if_neg (fun h => hki h.1)]
    · have hne : ¬ (k = i ∧ 0 ≤ i ∧ i < b.length) := fun h => hk (h.1 ▸ hi)
      rw [if_neg hne]
      unfold ler
      rw [if_neg hk, if_neg hk]
  · have hne : ¬ (k = i ∧ 0 ≤ i ∧ i < b.length) := fun h => hi h.2.1
    rw [if_neg hne]
    unfold escrever
    rw [if_neg hi]

theorem escrever_verificado_eq (b : List Nat) (i : Int) (v : Nat) (h0 : 0 ≤ i)
    (h1 : i < b.length) : escrever_verificado b i v = some (escrever b i v) := by
  unfold escrever_verificado escrever
  rw [if_pos ⟨h0, h1⟩, if_pos h0]

theorem ler_verificado_eq (b : List Nat) (i : Int) (h0 : 0 ≤ i) (h1 : i < b.length) :
    ler_verificado b i = some (ler b i) := by
  unfold ler_verificado ler
  rw [if_pos ⟨h0, h1⟩, if_pos h0]

/-- A row index is determined by the position in a buffer of rows of `W` cells. -/
theorem linha_unica (W d X : Int) (hX0 : 0 ≤ X) (hXW : X < W) (h0 : 0 ≤ d * W + X)
    (h1 : d * W + X < W) : d = 0 := by
  by_contra hd
  rcases lt_or_gt_of_ne hd with hneg | hpos
  · have : d * W ≤ -1 * W := by
      apply mul_le_mul_of_nonneg_right _ (by omega)
      omega
    omega
  · have : 1 * W ≤ d * W := by
      apply mul_le_mul_of_nonneg_right _ (by omega)
      omega
    omega

/-- The position of a pixel of a `W` by `H` buffer is an index of the buffer. -/
theorem indice_no_buffer (W H X Y : Int) (hX0 : 0 ≤ X) (hXW : X < W) (hY0 : 0 ≤ Y)
    (hYH : Y < H) : 0 ≤ Y * W + X ∧ Y * W + X < W * H := by
  have h1 : 0 ≤ Y * W := mul_nonneg hY0 (by omega)
  have h2 : (Y + 1) * W ≤ H * W := mul_le_mul_of_nonneg_right (by omega) (by omega)
  have h3 : (Y + 1) * W = Y * W + W := by ring
  have h4 : H * W = W * H := by ring
  constructor
  · omega
  · omega

/-! ## The segment primitives -/

theorem laco_linha_horizontal_length (y W : Int) (cor : Nat) :
    ∀ (n : Nat) (x : Int) (b : List Nat),
      (laco_linha_horizontal y W cor n x b).length = b.length := by
  intro n
  induction n with
  | zero => intro x b; rfl
  | succ n ih =>
    intro x b
    rw [laco_linha_horizontal, ih, escrever_length]

theorem laco_linha_horizontal_ler (y W : Int) (cor : Nat) :
    ∀ (n : Nat) (x : Int) (b : List Nat) (k : Int),
      ler (laco_linha_horizontal y W cor n x b) k =
        if y * W + x ≤ k ∧ k < y * W + x + n ∧ 0 ≤ k ∧ k < b.length then cor else ler b k := by
  intro n
  induction n with
  | zero =>
    intro x b k
    rw [laco_linha_horizontal, if_neg]
    intro h
    have := h.1
    have := h.2.1
    simp only [Nat.cast_zero] at *
    omega
  | succ n ih =>
    intro x b k
    rw [laco_linha_horizontal, ih, ler_escrever, escrever_length]
    generalize y * W = base
    push_cast
    by_cases c1 : base + (x + 1) ≤ k ∧ k < base + (x + 1) + n ∧ 0 ≤ k ∧ k < b.length
    · rw [if_pos c1, if_pos]
      omega
    · rw [if_neg c1]
      by_cases c2 : k = base + x ∧ 0 ≤ base + x ∧ base + x < b.length
      · rw [if_pos c2, if_pos]
        omega
      · rw [if_neg c2, if_neg]
        omega

theorem laco_linha_horizontal_verificado_eq (y W : Int) (cor : Nat) :
    ∀ (n : Nat) (x : Int) (b : List Nat),
      (n ≠ 0 → 0 ≤ y * W + x ∧ y * W + x + n ≤ b.length) →
      laco_linha_horizontal_verificado y W cor n x b
        = some (laco_linha_horizontal y W cor n x b) := by
  intro n
  induction n with
  | zero => intro x b _; rfl
  | succ n ih =>
    intro x b h
    have h' := h (Nat.succ_ne_zero n)
    push_cast at h'
    rw [laco_linha_horizontal_verificado, laco_linha_horizontal,
      escrever_verificado_eq _ _ _ h'.1 (by omega), Option.some_bind]
    apply ih
    intro _
    rw [escrever_length]
    generalize y * W = base at *
    omega

theorem laco_linha_vertical_length (x W : Int) (cor : Nat) :
    ∀ (n : Nat) (y : Int) (b : List Nat),
      (laco_linha_vertical x W cor n y b).length = b.length := by
  intro n
  induction n with
  | zero => intro y b; rfl
  | succ n ih =>
    intro y b
    rw [laco_linha_vertical, ih, escrever_length]

theorem laco_linha_vertical_ler (x W : Int) (cor : Nat) :
    ∀ (n : Nat) (y : Int) (b : List Nat) (k : Int),
      (((∃ y2 : Int, y ≤ y2 ∧ y2 < y + n ∧ k = y2 * W + x) ∧ 0 ≤ k ∧ k < b.length) →
        ler (laco_linha_vertical x W cor n y b) k = cor) ∧
      (¬ ((∃ y2 : Int, y ≤ y2 ∧ y2 < y + n ∧ k = y2 * W + x) ∧ 0 ≤ k ∧ k < b.length) →
        ler (laco_linha_vertical x W cor n y b) k = ler b k) := by
  intro n
  induction n with
  | zero =>
    intro y b k
    refine ⟨?_, fun _ => rfl⟩
    rintro ⟨⟨y2, h1, h2, _⟩, _⟩
    simp only [Nat.cast_zero] at h2
    omega
  | succ n ih =>
    intro y b k
    obtain ⟨ih1, ih2⟩ := ih (y + 1) (escrever b (y * W + x) cor) k
    rw [escrever_length] at ih1 ih2
    rw [laco_linha_vertical]
    by_cases c1 : (∃ y2 : Int, y + 1 ≤ y2 ∧ y2 < y + 1 + n ∧ k = y2 * W + x) ∧
        0 ≤ k ∧ k < b.length
    · refine ⟨fun _ => ih1 c1, fun hn => absurd ?_ hn⟩
      obtain ⟨⟨y2, h1, h2, h3⟩, h4⟩ := c1
      exact ⟨⟨y2, by omega, by push_cast; omega, h3⟩, h4⟩
    · rw [ih2 c1, ler_escrever]
      by_cases c2 : k = y * W + x ∧ 0 ≤ y * W + x ∧ y * W + x < b.length
      · rw [if_pos c2]
        refine ⟨fun _ => rfl, fun hn => absurd ?_ hn⟩
        exact ⟨⟨y, le_refl _, by push_cast; omega, c2.1⟩, by rw [c2.1]; exact c2.2⟩
      · rw [if_neg c2]
        refine ⟨fun hc => absurd hc ?_, fun _ => rfl⟩
        rintro ⟨⟨y2, h1, h2, h3⟩, h4⟩
        push_cast at h2
        by_cases hy : y2 = y
        · subst hy
          exact c2 ⟨h3, by rw [← h3]; exact h4⟩
        · exact c1 ⟨⟨y2, by omega, by omega, h3⟩, h4⟩

theorem laco_linha_vertical_verificado_eq (x W : Int) (cor : Nat) :
    ∀ (n : Nat) (y : Int) (b : List Nat),
      (∀ y2 : Int, y ≤ y2 → y2 < y + n → 0 ≤ y2 * W + x ∧ y2 * W + x < b.length) →
      laco_linha_vertical_verificado x W cor n y b
        = some (laco_linha_vertical x W cor n y b) := by
  intro n
  induction n with
  | zero => intro y b _; rfl
  | succ n ih =>
    intro y b h
    have h' := h y (le_refl _) (by push_cast; omega)
    rw [laco_linha_vertical_verificado, laco_linha_vertical,
      escrever_verificado_eq _ _ _ h'.1 h'.2, Option.some_bind]
    apply ih
    intro y2 h1 h2
    rw [escrever_length]
    exact h y2 (by omega) (by push_cast; omega)

theorem desenhar_linha_horizontal_length (b : List Nat) (x1 x2 y W H : Int) (c : Nat) :
    (desenhar_linha_horizontal b x1 x2 y W H c).length = b.length := by
  unfold desenhar_linha_horizontal
  split
  · rfl
  · exact laco_linha_horizontal_length _ _ _ _ _ _

theorem desenhar_linha_vertical_length (b : List Nat) (x y1 y2 W H : Int) (c : Nat) :
    (desenhar_linha_vertical b x y1 y2 W H c).length = b.length := by
  unfold desenhar_linha_vertical
  split
  · rfl
  · exact laco_linha_vertical_length _ _ _ _ _ _

/-- The pixels of a buffer of `W` by `H` cells after `desenhar_linha_horizontal`. -/
theorem desenhar_linha_horizontal_pixel (b : List Nat) (x1 x2 y W H : Int) (c : Nat)
    (hlen : (b.length : Int) = W * H) (X Y : Int) (hX : 0 ≤ X) (hXW : X < W) (hY : 0 ≤ Y)
    (hYH : Y < H) :
    ler (desenhar_linha_horizontal b x1 x2 y W H c) (Y * W + X) =
      if Y = y ∧ max 0 x1 ≤ X ∧ X ≤ min x2 (W - 1) then c else ler b (Y * W + X) := by
  obtain ⟨hk0, hk1⟩ := indice_no_buffer W H X Y hX hXW hY hYH
  unfold desenhar_linha_horizontal
  by_cases hy : y < 0 ∨ y ≥ H
  · rw [if_pos hy, if_neg]
    rintro ⟨h, _⟩
    omega
  · rw [if_neg hy]
    simp only
    have hs : (if x1 < 0 then 0 else x1) = max 0 x1 := by split <;> omega
    have hf : (if x2 ≥ W then W - 1 else x2) = min x2 (W - 1) := by split <;> omega
    rw [hs, hf, laco_linha_horizontal_ler]
    have hd : (Y - y) * W = Y * W - y * W := by ring
    by_cases hc : Y = y ∧ max 0 x1 ≤ X ∧ X ≤ min x2 (W - 1)
    · rw [if_pos hc, if_pos]
      obtain ⟨h1, h2, h3⟩ := hc
      subst h1
      refine ⟨by omega, ?_, hk0, by rw [hlen]; exact hk1⟩
      have : ((min x2 (W - 1) - max 0 x1 + 1).toNat : Int) = min x2 (W - 1) - max 0 x1 + 1 :=
        Int.toNat_of_nonneg (by omega)
      rw [this]
      omega
    · rw [if_neg hc, if_neg]
      rintro ⟨h1, h2, _, _⟩
      apply hc
      by_cases hn : 0 ≤ min x2 (W - 1) - max 0 x1 + 1
      · have hnn : ((min x2 (W - 1) - max 0 x1 + 1).toNat : Int)
            = min x2 (W - 1) - max 0 x1 + 1 := Int.toNat_of_nonneg hn
        rw [hnn] at h2
        have hz : Y - y = 0 := linha_unica W (Y - y) X hX hXW (by omega) (by omega)
        have hY : Y = y := by omega
        subst hY
        exact ⟨rfl, by omega, by omega⟩
      · have hnn : ((min x2 (W - 1) - max 0 x1 + 1).toNat : Int) = 0 := by
          rw [Int.toNat_eq_zero.mpr (by omega)]; rfl
        rw [hnn] at h2
        omega

/-- The function `desenhar_linha_horizontal` makes no access outside a buffer of `W` by `H` cells. -/
theorem desenhar_linha_horizontal_verificado_eq (b : List Nat) (x1 x2 y W H : Int) (c : Nat)
    (hW : 0 ≤ W) (hlen : (b.length : Int) = W * H) :
    desenhar_linha_horizontal_verificado b x1 x2 y W H c
      = some (desenhar_linha_horizontal b x1 x2 y W H c) := by
  unfold desenhar_linha_horizontal_verificado desenhar_linha_horizontal
  by_cases hy : y < 0 ∨ y ≥ H
  · rw [if_pos hy, if_pos hy]
  · rw [if_neg hy, if_neg hy]
    simp only
    have hs : (if x1 < 0 then 0 else x1) = max 0 x1 := by split <;> omega
    have hf : (if x2 ≥ W then W - 1 else x2) = min x2 (W - 1) := by split <;> omega
    rw [hs, hf]
    apply laco_linha_horizontal_verificado_eq
    intro hn
    have hpos : 0 < min x2 (W - 1) - max 0 x1 + 1 := by
      by_contra hc
      exact hn (Int.toNat_eq_zero.mpr (by omega))
    have hnn : ((min x2 (W - 1) - max 0 x1 + 1).toNat : Int)
        = min x2 (W - 1) - max 0 x1 + 1 := Int.toNat_of_nonneg (by omega)
    rw [hnn, hlen]
    have h1 : 0 ≤ y * W := mul_nonneg (by omega) hW
    have h2 : (y + 1) * W ≤ H * W := mul_le_mul_of_nonneg_right (by omega) hW
    have h3 : (y + 1) * W = y * W + W := by ring
    have h4 : H * W = W * H := by ring
    constructor
    · omega
    · omega

/-- The pixels of a buffer of `W` by `H` cells after `desenhar_linha_vertical`. -/
theorem desenhar_linha_vertical_pixel (b : List Nat) (x y1 y2 W H : Int) (c : Nat)
    (hlen : (b.length : Int) = W * H) (X Y : Int) (hX : 0 ≤ X) (hXW : X < W) (hY : 0 ≤ Y)
    (hYH : Y < H) :
    ler (desenhar_linha_vertical b x y1 y2 W H c) (Y * W + X) =
      if X = x ∧ max 0 y1 ≤ Y ∧ Y ≤ min y2 (H - 1) then c else ler b (Y * W + X) := by
  obtain ⟨hk0, hk1⟩ := indice_no_buffer W H X Y hX hXW hY hYH
  unfold desenhar_linha_vertical
  by_cases hx : x < 0 ∨ x ≥ W
  · rw [if_pos hx, if_neg]
    rintro ⟨h, _⟩
    omega
  · rw [if_neg hx]
    simp only
    have hs : (if y1 < 0 then 0 else y1) = max 0 y1 := by split <;> omega
    have hf : (if y2 ≥ H then H - 1 else y2) = min y2 (H - 1) := by split <;> omega
    rw [hs, hf]
    obtain ⟨l1, l2⟩ := laco_linha_vertical_ler x W c (min y2 (H - 1) - max 0 y1 + 1).toNat
      (max 0 y1) b (Y * W + X)
    by_cases hc : X = x ∧ max 0 y1 ≤ Y ∧ Y ≤ min y2 (H - 1)
    · rw [if_pos hc]
      apply l1
      obtain ⟨h1, h2, h3⟩ := hc
      subst h1
      refine ⟨⟨Y, h2, ?_, rfl⟩, hk0, by rw [hlen]; exact hk1⟩
      rw [Int.toNat_of_nonneg (by omega)]
      omega
    · rw [if_neg hc]
      apply l2
      rintro ⟨⟨y3, h1, h2, h3⟩, _, _⟩
      apply hc
      by_cases hn : 0 ≤ min y2 (H - 1) - max 0 y1 + 1
      · rw [Int.toNat_of_nonneg hn] at h2
        have hd : (Y - y3) * W = Y * W - y3 * W := by ring
        have hz : Y - y3 = 0 := linha_unica W (Y - y3) X hX hXW (by omega) (by omega)
        have hY3 : Y = y3 := by omega
        subst hY3
        exact ⟨by omega, by omega, by omega⟩
      · rw [Int.toNat_eq_zero.mpr (by omega)] at h2
        simp only [Nat.cast_zero] at h2
        omega

/-- The function `desenhar_linha_vertical` makes no access outside a buffer of `W` by `H` cells. -/
theorem desenhar_linha_vertical_verificado_eq (b : List Nat) (x y1 y2 W H : Int) (c : Nat)
    (hlen : (b.length : Int) = W * H) :
    desenhar_linha_vertical_verificado b x y1 y2 W H c
      = some (desenhar_linha_vertical b x y1 y2 W H c) := by
  unfold desenhar_linha_vertical_verificado desenhar_linha_vertical
  by_cases hx : x < 0 ∨ x ≥ W
  · rw [if_pos hx, if_pos hx]
  · rw [if_neg hx, if_neg hx]
    simp only
    have hs : (if y1 < 0 then 0 else y1) = max 0 y1 := by split <;> omega
    have hf : (if y2 ≥ H then H - 1 else y2) = min y2 (H - 1) := by split <;> omega
    rw [hs, hf]
    apply laco_linha_vertical_verificado_eq
    intro y3 h1 h2
    by_cases hn : 0 ≤ min y2 (H - 1) - max 0 y1 + 1
    · rw [Int.toNat_of_nonneg hn] at h2
      rw [hlen]
      exact indice_no_buffer W H x y3 (by omega) (by omega) (by omega) (by omega)
    · rw [Int.toNat_eq_zero.mpr (by omega)] at h2
      simp only [Nat.cast_zero] at h2
      omega

/-- C25 (segment primitives). For every buffer of `W` by `H` cells and all
integer arguments: `desenhar_linha_horizontal(buf, x1, x2, y, W, H, c)` gives a
buffer of the same length in which pixel `(X, Y)` is `c` when `Y = y` and
`max(0, x1) <= X <= min(x2, W - 1)` and is the pixel of the input otherwise; it
is the identity when `y < 0` or `y >= H`; no store falls outside the buffer.
The same holds for `desenhar_linha_vertical` with the roles of the two
coordinates exchanged (identity when `x < 0` or `x >= W`). -/
theorem segmentos_recortados (b : List Nat) (W H : Int) (hW : 0 ≤ W)
    (hlen : (b.length : Int) = W * H) (c : Nat) :
    (∀ x1 x2 y : Int,
      (desenhar_linha_horizontal b x1 x2 y W H c).length = b.length ∧
      (∀ X Y : Int, 0 ≤ X → X < W → 0 ≤ Y → Y < H →
        ler (desenhar_linha_horizontal b x1 x2 y W H c) (Y * W + X) =
          if Y = y ∧ max 0 x1 ≤ X ∧ X ≤ min x2 (W - 1) then c else ler b (Y * W + X)) ∧
      (y < 0 ∨ y ≥ H → desenhar_linha_horizontal b x1 x2 y W H c = b) ∧
      desenhar_linha_horizontal_verificado b x1 x2 y W H c
        = some (desenhar_linha_horizontal b x1 x2 y W H c)) ∧
    (∀ x y1 y2 : Int,
      (desenhar_linha_vertical b x y1 y2 W H c).length = b.length ∧
      (∀ X Y : Int, 0 ≤ X → X < W → 0 ≤ Y → Y < H →
        ler (desenhar_linha_vertical b x y1 y2 W H c) (Y * W + X) =
          if X = x ∧ max 0 y1 ≤ Y ∧ Y ≤ min y2 (H - 1) then c else ler b (Y * W + X)) ∧
      (x < 0 ∨ x ≥ W → desenhar_linha_vertical b x y1 y2 W H c = b) ∧
      desenhar_linha_vertical_verificado b x y1 y2 W H c
        = some (desenhar_linha_vertical b x y1 y2 W H c)) := by
  refine ⟨fun x1 x2 y => ⟨desenhar_linha_horizontal_length _ _ _ _ _ _ _,
      fun X Y hX hXW hY hYH => desenhar_linha_horizontal_pixel b x1 x2 y W H c hlen X Y hX hXW hY hYH,
      fun hy => ?_, desenhar_linha_horizontal_verificado_eq b x1 x2 y W H c hW hlen⟩,
    fun x y1 y2 => ⟨desenhar_linha_vertical_length _ _ _ _ _ _ _,
      fun X Y hX hXW hY hYH => desenhar_linha_vertical_pixel b x y1 y2 W H c hlen X Y hX hXW hY hYH,
      fun hx => ?_, desenhar_linha_vertical_verificado_eq b x y1 y2 W H c hlen⟩⟩
  · unfold desenhar_linha_horizontal
    rw [if_pos hy]
  · unfold desenhar_linha_vertical
    rw [if_pos hx]

/-- The two segments on a buffer of 4 by 3 cells: a row clipped on both sides
and a column outside the buffer. -/
theorem segmentos_recortados_exemplo :
    (0 : Int) ≤ 4 ∧ ((List.replicate 12 0).length : Int) = 4 * 3 ∧
    desenhar_linha_horizontal (List.replicate 12 0) (-2) 9 1 4 3 7
      = [0, 0, 0, 0, 7, 7, 7, 7, 0, 0, 0, 0] ∧
    desenhar_linha_vertical (List.replicate 12 0) 4 0 2 4 3 7 = List.replicate 12 0 ∧
    desenhar_linha_horizontal_verificado (List.replicate 12 0) (-2) 9 1 4 3 7
      = some (desenhar_linha_horizontal (List.replicate 12 0) (-2) 9 1 4 3 7) :=
  have t := segmentos_recortados (List.replicate 12 0) 4 3 (by decide) (by decide) 7
  ⟨by decide, by decide, by decide, (t.2 4 0 2).2.2.1 (Or.inr (by decide)),
    (t.1 (-2) 9 1).2.2.2⟩

/-! ## The selection rectangle -/

theorem se_ou (p q : Prop) [Decidable p] [Decidable q] (c r : Nat) :
    (if p then c else if q then c else r) = if p ∨ q then c else r := by
  by_cases hp : p
  · rw [if_pos hp, if_pos (Or.inl hp)]
  · by_cases hq : q
    · rw [if_neg hp, if_pos hq, if_pos (Or.inr hq)]
    · rw [if_neg hp, if_neg hq, if_neg (fun h => h.elim hp hq)]

/-- The function `desenhar_retangulo` as its eight segments, on the corners put in order. -/
theorem desenhar_retangulo_segmentos (b : List Nat) (x1 y1 x2 y2 W H : Int) :
    desenhar_retangulo b x1 y1 x2 y2 W H =
      desenhar_linha_vertical
        (desenhar_linha_vertical
          (desenhar_linha_vertical
            (desenhar_linha_vertical
              (desenhar_linha_horizontal
                (desenhar_linha_horizontal
                  (desenhar_linha_horizontal
                    (desenhar_linha_horizontal b (min x1 x2) (max x1 x2) (min y1 y2 + 0) W H
                      RECT_COLOR)
                    (min x1 x2) (max x1 x2) (max y1 y2 - 0) W H RECT_COLOR)
                  (min x1 x2) (max x1 x2) (min y1 y2 + (0 + 1)) W H RECT_COLOR)
                (min x1 x2) (max x1 x2) (max y1 y2 - (0 + 1)) W H RECT_COLOR)
              (min x1 x2 + 0) (min y1 y2) (max y1 y2) W H RECT_COLOR)
            (max x1 x2 - 0) (min y1 y2) (max y1 y2) W H RECT_COLOR)
          (min x1 x2 + (0 + 1)) (min y1 y2) (max y1 y2) W H RECT_COLOR)
        (max x1 x2 - (0 + 1)) (min y1 y2) (max y1 y2) W H RECT_COLOR := by
  have h2 : RECT_THICKNESS.toNat = 2 := rfl
  by_cases hx : x1 > x2 <;> by_cases hy : y1 > y2 <;>
    simp only [desenhar_retangulo, hx, hy, if_true, if_false, h2, laco_bordas_horizontais,
      laco_bordas_verticais]
  · rw [min_eq_right (by omega), max_eq_left (by omega), min_eq_right (by omega),
      max_eq_left (by omega)]
  · rw [min_eq_right (by omega), max_eq_left (by omega), min_eq_left (by omega),
      max_eq_right (by omega)]
  · rw [min_eq_left (by omega), max_eq_right (by omega), min_eq_right (by omega),
      max_eq_left (by omega)]
  · rw [min_eq_left (by omega), max_eq_right (by omega), min_eq_left (by omega),
      max_eq_right (by omega)]

theorem desenhar_retangulo_length (b : List Nat) (x1 y1 x2 y2 W H : Int) :
    (desenhar_retangulo b x1 y1 x2 y2 W H).length = b.length := by
  rw [desenhar_retangulo_segmentos]
  simp only [desenhar_linha_vertical_length, desenhar_linha_horizontal_length]

/-- The eight clipped segments, for a cell of the frame. -/
theorem cobertura_iff (a b c d X Y : Int) (hX : 0 ≤ X) (hXW : X < 160) (hY : 0 ≤ Y)
    (hYH : Y < 120) :
    (X = b - (0 + 1) ∧ max 0 c ≤ Y ∧ Y ≤ min d (120 - 1) ∨
      X = a + (0 + 1) ∧ max 0 c ≤ Y ∧ Y ≤ min d (120 - 1) ∨
      X = b - 0 ∧ max 0 c ≤ Y ∧ Y ≤ min d (120 - 1) ∨
      X = a + 0 ∧ max 0 c ≤ Y ∧ Y ≤ min d (120 - 1) ∨
      Y = d - (0 + 1) ∧ max 0 a ≤ X ∧ X ≤ min b (160 - 1) ∨
      Y = c + (0 + 1) ∧ max 0 a ≤ X ∧ X ≤ min b (160 - 1) ∨
      Y = d - 0 ∧ max 0 a ≤ X ∧ X ≤ min b (160 - 1) ∨
      Y = c + 0 ∧ max 0 a ≤ X ∧ X ≤ min b (160 - 1)) ↔
    (((Y = c ∨ Y = c + 1 ∨ Y = d ∨ Y = d - 1) ∧ a ≤ X ∧ X ≤ b) ∨
      ((X = a ∨ X = a + 1 ∨ X = b ∨ X = b - 1) ∧ c ≤ Y ∧ Y ≤ d)) := by
  constructor
  · rintro (h | h | h | h | h | h | h | h) <;> obtain ⟨h1, h2, h3⟩ := h <;>
      first
      | exact Or.inl ⟨by omega, by omega, by omega⟩
      | exact Or.inr ⟨by omega, by omega, by omega⟩
  · rintro (⟨hc | hc | hc | hc, h1, h2⟩ | ⟨hc | hc | hc | hc, h1, h2⟩) <;>
      first
      | exact Or.inl ⟨by omega, by omega, by omega⟩
      | exact Or.inr (Or.inl ⟨by omega, by omega, by omega⟩)
      | exact Or.inr (Or.inr (Or.inl ⟨by omega, by omega, by omega⟩))
      | exact Or.inr (Or.inr (Or.inr (Or.inl ⟨by omega, by omega, by omega⟩)))
      | exact Or.inr (Or.inr (Or.inr (Or.inr (Or.inl ⟨by omega, by omega, by omega⟩))))
      | exact Or.inr (Or.inr (Or.inr (Or.inr (Or.inr (Or.inl ⟨by omega, by omega, by omega⟩)))))
      | exact Or.inr (Or.inr (Or.inr (Or.inr (Or.inr (Or.inr
          (Or.inl ⟨by omega, by omega, by omega⟩))))))
      | exact Or.inr (Or.inr (Or.inr (Or.inr (Or.inr (Or.inr
          (Or.inr ⟨by omega, by omega, by omega⟩))))))

/-- The pixels of a frame after `desenhar_retangulo`. -/
theorem desenhar_retangulo_pixel (b : List Nat) (hlen : b.length = 19200)
    (x1 y1 x2 y2 X Y : Int) (hq : dentro_do_quadro X Y) :
    (coberto_pelos_segmentos x1 y1 x2 y2 X Y →
      pixel (desenhar_retangulo b x1 y1 x2 y2 IMG_WIDTH IMG_HEIGHT) X Y = RECT_COLOR) ∧
    (¬ coberto_pelos_segmentos x1 y1 x2 y2 X Y →
      pixel (desenhar_retangulo b x1 y1 x2 y2 IMG_WIDTH IMG_HEIGHT) X Y = pixel b X Y) := by
  obtain ⟨hX, hXW, hY, hYH⟩ := hq
  have hl : ∀ c : List Nat, c.length = b.length →
      (c.length : Int) = IMG_WIDTH * IMG_HEIGHT := by
    intro c hc
    rw [hc, hlen]
    rfl
  unfold pixel
  rw [desenhar_retangulo_segmentos]
  rw [desenhar_linha_vertical_pixel _ _ _ _ _ _ _
      (hl _ (by simp only [desenhar_linha_vertical_length, desenhar_linha_horizontal_length]))
      X Y hX hXW hY hYH,
    desenhar_linha_vertical_pixel _ _ _ _ _ _ _
      (hl _ (by simp only [desenhar_linha_vertical_length, desenhar_linha_horizontal_length]))
      X Y hX hXW hY hYH,
    desenhar_linha_vertical_pixel _ _ _ _ _ _ _
      (hl _ (by simp only [desenhar_linha_vertical_length, desenhar_linha_horizontal_length]))
      X Y hX hXW hY hYH,
    desenhar_linha_vertical_pixel _ _ _ _ _ _ _
      (hl _ (by simp only [desenhar_linha_vertical_length, desenhar_linha_horizontal_length]))
      X Y hX hXW hY hYH,
    desenhar_linha_horizontal_pixel _ _ _ _ _ _ _
      (hl _ (by simp only [desenhar_linha_vertical_length, desenhar_linha_horizontal_length]))
      X Y hX hXW hY hYH,
    desenhar_linha_horizontal_pixel _ _ _ _ _ _ _
      (hl _ (by simp only [desenhar_linha_vertical_length, desenhar_linha_horizontal_length]))
      X Y hX hXW hY hYH,
    desenhar_linha_horizontal_pixel _ _ _ _ _ _ _
      (hl _ (by simp only [desenhar_linha_vertical_length, desenhar_linha_horizontal_length]))
      X Y hX hXW hY hYH,
    desenhar_linha_horizontal_pixel _ _ _ _ _ _ _ (hl _ rfl) X Y hX hXW hY hYH]
  simp only [se_ou]
  unfold coberto_pelos_segmentos
  have hW : IMG_WIDTH = 160 := rfl
  have hH : IMG_HEIGHT = 120 := rfl
  rw [hW] at hXW
  rw [hH] at hYH
  simp only [hW, hH]
  have hiff := cobertura_iff (min x1 x2) (max x1 x2) (min y1 y2) (max y1 y2) X Y hX hXW hY hYH
  constructor
  · intro hc
    rw [if_pos (hiff.2 hc)]
  · intro hc
    rw [if_neg (fun h => hc (hiff.1 h))]

/-- On a rectangle with two distinct columns and two distinct rows the eight
segments are the border of the specification. -/
theorem cobertura_e_borda (a b c d X Y : Int) (hab : a < b) (hcd : c < d) :
    (((Y = c ∨ Y = c + 1 ∨ Y = d ∨ Y = d - 1) ∧ a ≤ X ∧ X ≤ b) ∨
      ((X = a ∨ X = a + 1 ∨ X = b ∨ X = b - 1) ∧ c ≤ Y ∧ Y ≤ d)) ↔
    ((a ≤ X ∧ X ≤ b ∧ c ≤ Y ∧ Y ≤ d) ∧ (X - a < 2 ∨ b - X < 2 ∨ Y - c < 2 ∨ d - Y < 2)) := by
  constructor
  · rintro (⟨hc | hc | hc | hc, h1, h2⟩ | ⟨hc | hc | hc | hc, h1, h2⟩) <;>
      exact ⟨⟨by omega, by omega, by omega, by omega⟩, by omega⟩
  · rintro ⟨⟨h1, h2, h3, h4⟩, hd | hd | hd | hd⟩
    · exact Or.inr ⟨by omega, h3, h4⟩
    · exact Or.inr ⟨by omega, h3, h4⟩
    · exact Or.inl ⟨by omega, h1, h2⟩
    · exact Or.inl ⟨by omega, h1, h2⟩

/-- The all-black frame has every pixel 0. -/
theorem pixel_quadro_preto (X Y : Int) : pixel (List.replicate 19200 0) X Y = 0 := by
  unfold pixel ler
  split
  · rw [List.getD_eq_getElem?_getD, List.getElem?_replicate]
    split <;> rfl
  · rfl

/-- C26, a rectangle of one row: with the corners (5, 5) and (9, 5), both inside
the frame, `desenhar_retangulo` sets pixel (5, 6) of the all-black frame to 255,
a pixel that is outside the closed rectangle `[5, 9] x [5, 5]`. -/
theorem retangulo_de_uma_linha :
    dentro_do_quadro 5 5 ∧ dentro_do_quadro 9 5 ∧ dentro_do_quadro 5 6 ∧
    pixel (List.replicate 19200 0) 5 6 = 0 ∧
    pixel (desenhar_retangulo (List.replicate 19200 0) 5 5 9 5 IMG_WIDTH IMG_HEIGHT) 5 6 = 255 ∧
    ¬ na_borda_do_retangulo 5 5 9 5 5 6 := by
  have hq : dentro_do_quadro 5 6 := by unfold dentro_do_quadro; decide
  refine ⟨by unfold dentro_do_quadro; decide, by unfold dentro_do_quadro; decide, hq,
    pixel_quadro_preto 5 6, ?_, ?_⟩
  · exact (desenhar_retangulo_pixel (List.replicate 19200 0) (List.length_replicate _ _)
      5 5 9 5 5 6 hq).1 (by unfold coberto_pelos_segmentos; decide)
  · unfold na_borda_do_retangulo
    decide

/-- C26 as the code has it (selection rectangle). For every frame of 19200
bytes and every two corners, in any order: `desenhar_retangulo` keeps the
length of the frame, sets to 255 the pixels of the frame that one of its eight
segments passes through (rows `min y`, `min y + 1`, `max y - 1`, `max y` between
the columns of the corners, columns `min x`, `min x + 1`, `max x - 1`, `max x`
between their rows) and leaves every other pixel as it was. When the corners
differ in both coordinates those pixels are exactly the cells of the closed
rectangle at distance less than 2 from one of its sides. The result is the
same for the four orders of the corners. -/
theorem desenhar_retangulo_borda (b : List Nat) (hlen : b.length = 19200)
    (x1 y1 x2 y2 : Int) :
    (desenhar_retangulo b x1 y1 x2 y2 IMG_WIDTH IMG_HEIGHT).length = b.length ∧
    (∀ X Y : Int, dentro_do_quadro X Y →
      (coberto_pelos_segmentos x1 y1 x2 y2 X Y →
        pixel (desenhar_retangulo b x1 y1 x2 y2 IMG_WIDTH IMG_HEIGHT) X Y = 255) ∧
      (¬ coberto_pelos_segmentos x1 y1 x2 y2 X Y →
        pixel (desenhar_retangulo b x1 y1 x2 y2 IMG_WIDTH IMG_HEIGHT) X Y = pixel b X Y)) ∧
    (x1 ≠ x2 → y1 ≠ y2 → ∀ X Y : Int,
      coberto_pelos_segmentos x1 y1 x2 y2 X Y ↔ na_borda_do_retangulo x1 y1 x2 y2 X Y) ∧
    (desenhar_retangulo b x2 y1 x1 y2 IMG_WIDTH IMG_HEIGHT
        = desenhar_retangulo b x1 y1 x2 y2 IMG_WIDTH IMG_HEIGHT ∧
      desenhar_retangulo b x1 y2 x2 y1 IMG_WIDTH IMG_HEIGHT
        = desenhar_retangulo b x1 y1 x2 y2 IMG_WIDTH IMG_HEIGHT ∧
      desenhar_retangulo b x2 y2 x1 y1 IMG_WIDTH IMG_HEIGHT
        = desenhar_retangulo b x1 y1 x2 y2 IMG_WIDTH IMG_HEIGHT) := by
  refine ⟨desenhar_retangulo_length _ _ _ _ _ _ _,
    fun X Y hq => desenhar_retangulo_pixel b hlen x1 y1 x2 y2 X Y hq, ?_, ?_, ?_, ?_⟩
  · intro hx hy X Y
    unfold coberto_pelos_segmentos na_borda_do_retangulo
    exact cobertura_e_borda _ _ _ _ X Y (by omega) (by omega)
  · rw [desenhar_retangulo_segmentos, desenhar_retangulo_segmentos b x1 y1 x2 y2,
      min_comm x2 x1, max_comm x2 x1]
  · rw [desenhar_retangulo_segmentos, desenhar_retangulo_segmentos b x1 y1 x2 y2,
      min_comm y2 y1, max_comm y2 y1]
  · rw [desenhar_retangulo_segmentos, desenhar_retangulo_segmentos b x1 y1 x2 y2,
      min_comm x2 x1, max_comm x2 x1, min_comm y2 y1, max_comm y2 y1]

/-- The rectangle with the corners (50, 60) and (10, 20) on the all-black frame:
the corner pixel (10, 20) is set, the centre (30, 40) is not. -/
theorem desenhar_retangulo_borda_exemplo :
    (List.replicate 19200 0).length = 19200 ∧
    pixel (desenhar_retangulo (List.replicate 19200 0) 50 60 10 20 IMG_WIDTH IMG_HEIGHT) 10 20
      = 255 ∧
    pixel (desenhar_retangulo (List.replicate 19200 0) 50 60 10 20 IMG_WIDTH IMG_HEIGHT) 30 40
      = 0 :=
  have t := (desenhar_retangulo_borda (List.replicate 19200 0) (List.length_replicate _ _)
    50 60 10 20).2.1
  ⟨List.length_replicate _ _,
    (t 10 20 (by unfold dentro_do_quadro; decide)).1
      (by unfold coberto_pelos_segmentos; decide),
    ((t 30 40 (by unfold dentro_do_quadro; decide)).2
      (by unfold coberto_pelos_segmentos; decide)).trans (pixel_quadro_preto 30 40)⟩

/-! ## Extraction of a region -/

theorem extrair_linha_length (src : List Nat) (x1 y1 w y : Int) :
    ∀ (n : Nat) (x : Int) (r : List Nat),
      (extrair_linha src x1 y1 w y n x r).length = r.length := by
  intro n
  induction n with
  | zero => intro x r; rfl
  | succ n ih =>
    intro x r
    rw [extrair_linha]
    rw [ih]
    split
    · exact escrever_length _ _ _
    · rfl

theorem extrair_linha_ler (src : List Nat) (x1 y1 w y : Int) :
    ∀ (n : Nat) (x : Int) (r : List Nat) (k : Int),
      ler (extrair_linha src x1 y1 w y n x r) k =
        if x ≤ k - y * w ∧ k - y * w < x + n ∧
            (x1 + (k - y * w) ≥ 0 ∧ x1 + (k - y * w) < IMG_WIDTH ∧ y1 + y ≥ 0 ∧
              y1 + y < IMG_HEIGHT) ∧ 0 ≤ k ∧ k < r.length
        then ler src ((y1 + y) * IMG_WIDTH + (x1 + (k - y * w))) else ler r k := by
  intro n
  induction n with
  | zero =>
    intro x r k
    rw [extrair_linha, if_neg]
    rintro ⟨h1, h2, _⟩
    simp only [Nat.cast_zero] at h2
    omega
  | succ n ih =>
    intro x r k
    rw [extrair_linha]
    rw [ih]
    have hlen : (if x1 + x ≥ 0 ∧ x1 + x < IMG_WIDTH ∧ y1 + y ≥ 0 ∧ y1 + y < IMG_HEIGHT then
        escrever r (y * w + x) (ler src ((y1 + y) * IMG_WIDTH + (x1 + x))) else r).length
          = r.length := by
      split
      · exact escrever_length _ _ _
      · rfl
    rw [hlen]
    push_cast
    generalize y * w = base
    by_cases c1 : x + 1 ≤ k - base ∧ k - base < x + 1 + n ∧
        (x1 + (k - base) ≥ 0 ∧ x1 + (k - base) < IMG_WIDTH ∧ y1 + y ≥ 0 ∧
          y1 + y < IMG_HEIGHT) ∧ 0 ≤ k ∧ k < r.length
    · rw [if_pos c1, if_pos]
      obtain ⟨h1, h2, h3, h4⟩ := c1
      exact ⟨by omega, by omega, h3, h4⟩
    · rw [if_neg c1]
      by_cases hq : x1 + x ≥ 0 ∧ x1 + x < IMG_WIDTH ∧ y1 + y ≥ 0 ∧ y1 + y < IMG_HEIGHT
      · rw [if_pos hq, ler_escrever]
        by_cases c2 : k = base + x ∧ 0 ≤ base + x ∧ base + x < r.length
        · have hk : k - base = x := by omega
          rw [if_pos c2, if_pos, hk]
          rw [hk]
          exact ⟨le_refl _, by omega, hq, by omega, by omega⟩
        · rw [if_neg c2, if_neg]
          rintro ⟨h1, h2, h3, h4⟩
          by_cases hk : k - base = x
          · exact c2 ⟨by omega, by omega, by omega⟩
          · exact c1 ⟨by omega, by omega, h3, h4⟩
      · rw [if_neg hq, if_neg]
        rintro ⟨h1, h2, h3, h4⟩
        by_cases hk : k - base = x
        · rw [hk] at h3
          exact hq h3
        · exact c1 ⟨by omega, by omega, h3, h4⟩

theorem extrair_linha_verificada_eq (src : List Nat) (hsrc : src.length = 19200)
    (x1 y1 w y : Int) :
    ∀ (n : Nat) (x : Int) (r : List Nat),
      (∀ x2 : Int, x ≤ x2 → x2 < x + n → 0 ≤ y * w + x2 ∧ y * w + x2 < r.length) →
      extrair_linha_verificada src x1 y1 w y n x r = some (extrair_linha src x1 y1 w y n x r) := by
  intro n
  induction n with
  | zero => intro x r _; rfl
  | succ n ih =>
    intro x r h
    rw [extrair_linha_verificada, extrair_linha]
    have hx := h x (le_refl _) (by push_cast; omega)
    by_cases hq : x1 + x ≥ 0 ∧ x1 + x < IMG_WIDTH ∧ y1 + y ≥ 0 ∧ y1 + y < IMG_HEIGHT
    · have hi := indice_no_buffer IMG_WIDTH IMG_HEIGHT (x1 + x) (y1 + y) hq.1 hq.2.1 hq.2.2.1
        hq.2.2.2
      have hs : ((src.length : Nat) : Int) = IMG_WIDTH * IMG_HEIGHT := by rw [hsrc]; rfl
      rw [if_pos hq, if_pos hq, ler_verificado_eq _ _ hi.1 (by rw [hs]; exact hi.2),
        Option.some_bind, escrever_verificado_eq _ _ _ hx.1 hx.2, Option.some_bind]
      apply ih
      intro x2 h1 h2
      rw [escrever_length]
      exact h x2 (by omega) (by push_cast; omega)
    · rw [if_neg hq, if_neg hq, Option.some_bind]
      apply ih
      intro x2 h1 h2
      exact h x2 (by omega) (by push_cast; omega)

theorem extrair_linhas_length (src : List Nat) (x1 y1 w : Int) :
    ∀ (n : Nat) (y : Int) (r : List Nat),
      (extrair_linhas src x1 y1 w n y r).length = r.length := by
  intro n
  induction n with
  | zero => intro y r; rfl
  | succ n ih =>
    intro y r
    rw [extrair_linhas, ih, extrair_linha_length]

theorem extrair_linhas_ler (src : List Nat) (x1 y1 w : Int) (i j : Int) (hi0 : 0 ≤ i)
    (hiw : i < w) :
    ∀ (n : Nat) (y : Int) (r : List Nat),
      ler (extrair_linhas src x1 y1 w n y r) (j * w + i) =
        if y ≤ j ∧ j < y + n ∧
            (x1 + i ≥ 0 ∧ x1 + i < IMG_WIDTH ∧ y1 + j ≥ 0 ∧ y1 + j < IMG_HEIGHT) ∧
            0 ≤ j * w + i ∧ j * w + i < r.length
        then ler src ((y1 + j) * IMG_WIDTH + (x1 + i)) else ler r (j * w + i) := by
  intro n
  induction n with
  | zero =>
    intro y r
    rw [extrair_linhas, if_neg]
    rintro ⟨h1, h2, _⟩
    simp only [Nat.cast_zero] at h2
    omega
  | succ n ih =>
    intro y r
    rw [extrair_linhas, ih, extrair_linha_length, extrair_linha_ler]
    have hwn : ((w.toNat : Nat) : Int) = w := Int.toNat_of_nonneg (by omega)
    rw [hwn]
    push_cast
    have hd : (j - y) * w = j * w - y * w := by ring
    by_cases c1 : y + 1 ≤ j ∧ j < y + 1 + n ∧
        (x1 + i ≥ 0 ∧ x1 + i < IMG_WIDTH ∧ y1 + j ≥ 0 ∧ y1 + j < IMG_HEIGHT) ∧
        0 ≤ j * w + i ∧ j * w + i < r.length
    · rw [if_pos c1, if_pos]
      obtain ⟨h1, h2, h3, h4⟩ := c1
      exact ⟨by omega, by omega, h3, h4⟩
    · rw [if_neg c1]
      by_cases hjy : j = y
      · subst hjy
        have hk : j * w + i - j * w = i := by omega
        rw [hk]
        by_cases c2 : (x1 + i ≥ 0 ∧ x1 + i < IMG_WIDTH ∧ y1 + j ≥ 0 ∧ y1 + j < IMG_HEIGHT) ∧
            0 ≤ j * w + i ∧ j * w + i < r.length
        · rw [if_pos ⟨hi0, by omega, c2⟩, if_pos ⟨le_refl _, by omega, c2⟩]
        · rw [if_neg (fun h => c2 h.2.2), if_neg (fun h => c2 h.2.2)]
      · rw [if_neg, if_neg]
        · rintro ⟨h1, h2, h3, h4⟩
          exact c1 ⟨by omega, by omega, h3, h4⟩
        · rintro ⟨h1, h2, _⟩
          have hz : j - y = 0 := linha_unica w (j - y) i hi0 hiw (by omega) (by omega)
          omega

theorem extrair_linhas_verificada_eq (src : List Nat) (hsrc : src.length = 19200)
    (x1 y1 w h : Int) (hw : 0 ≤ w) :
    ∀ (n : Nat) (y : Int) (r : List Nat), 0 ≤ y → y + n ≤ h → (r.length : Int) = w * h →
      extrair_linhas_verificada src x1 y1 w n y r = some (extrair_linhas src x1 y1 w n y r) := by
  intro n
  induction n with
  | zero => intro y r _ _ _; rfl
  | succ n ih =>
    intro y r hy hyn hr
    push_cast at hyn
    rw [extrair_linhas_verificada, extrair_linhas,
      extrair_linha_verificada_eq src hsrc x1 y1 w y _ _ _ ?_, Option.some_bind]
    · apply ih _ _ (by omega) (by omega)
      rw [extrair_linha_length]
      exact hr
    · intro x2 h1 h2
      rw [Int.toNat_of_nonneg hw] at h2
      rw [hr]
      exact indice_no_buffer w h x2 y h1 (by omega) hy (by omega)

/-- The cells of the region buffer after `extrair_regiao`. -/
theorem extrair_regiao_ler (src regiao : List Nat) (x1 y1 x2 y2 : Int)
    (hy : y1 ≤ y2) (hreg : (regiao.length : Int) = (x2 - x1) * (y2 - y1)) (i j : Int)
    (hi0 : 0 ≤ i) (hiw : i < x2 - x1) (hj0 : 0 ≤ j) (hjh : j < y2 - y1) :
    ler (extrair_regiao src regiao x1 y1 x2 y2) (j * (x2 - x1) + i) =
      if x1 + i ≥ 0 ∧ x1 + i < IMG_WIDTH ∧ y1 + j ≥ 0 ∧ y1 + j < IMG_HEIGHT
      then ler src ((y1 + j) * IMG_WIDTH + (x1 + i)) else ler regiao (j * (x2 - x1) + i) := by
  have hidx := indice_no_buffer (x2 - x1) (y2 - y1) i j hi0 hiw hj0 hjh
  unfold extrair_regiao
  dsimp only
  rw [extrair_linhas_ler src x1 y1 (x2 - x1) i j hi0 hiw, Int.toNat_of_nonneg (by omega)]
  by_cases hq : x1 + i ≥ 0 ∧ x1 + i < IMG_WIDTH ∧ y1 + j ≥ 0 ∧ y1 + j < IMG_HEIGHT
  · rw [if_pos hq, if_pos ⟨hj0, by omega, hq, hidx.1, by rw [hreg]; exact hidx.2⟩]
  · rw [if_neg hq, if_neg (fun h => hq h.2.2.1)]

theorem extrair_regiao_length (src regiao : List Nat) (x1 y1 x2 y2 : Int) :
    (extrair_regiao src regiao x1 y1 x2 y2).length = regiao.length :=
  extrair_linhas_length _ _ _ _ _ _ _

/-- C21 (extraction of a region). For every source frame of 19200 bytes, every
`x1 <= x2`, `y1 <= y2` and every region buffer of `w * h` bytes, `w = x2 - x1`,
`h = y2 - y1`: `extrair_regiao` gives a region buffer of the same length in
which, for `0 <= i < w` and `0 <= j < h`, cell `j * w + i` is source pixel
`(x1 + i, y1 + j)` when that coordinate is inside the frame and is the cell of
the region buffer before the call otherwise; no load falls outside the source
frame and no store outside the region buffer. The source frame is only read. -/
theorem extrair_regiao_copia (src regiao : List Nat) (x1 y1 x2 y2 : Int)
    (hsrc : src.length = 19200) (hx : x1 ≤ x2) (hy : y1 ≤ y2)
    (hreg : (regiao.length : Int) = (x2 - x1) * (y2 - y1)) :
    (extrair_regiao src regiao x1 y1 x2 y2).length = regiao.length ∧
    (∀ i j : Int, 0 ≤ i → i < x2 - x1 → 0 ≤ j → j < y2 - y1 →
      (dentro_do_quadro (x1 + i) (y1 + j) →
        ler (extrair_regiao src regiao x1 y1 x2 y2) (j * (x2 - x1) + i)
          = pixel src (x1 + i) (y1 + j)) ∧
      (¬ dentro_do_quadro (x1 + i) (y1 + j) →
        ler (extrair_regiao src regiao x1 y1 x2 y2) (j * (x2 - x1) + i)
          = ler regiao (j * (x2 - x1) + i))) ∧
    extrair_regiao_verificada src regiao x1 y1 x2 y2
      = some (extrair_regiao src regiao x1 y1 x2 y2) := by
  refine ⟨extrair_linhas_length _ _ _ _ _ _ _, ?_, ?_⟩
  · intro i j hi0 hiw hj0 hjh
    rw [extrair_regiao_ler src regiao x1 y1 x2 y2 hy hreg i j hi0 hiw hj0 hjh]
    unfold pixel dentro_do_quadro
    constructor
    · intro hq
      rw [if_pos hq]
    · intro hq
      rw [if_neg hq]
  · unfold extrair_regiao_verificada extrair_regiao
    exact extrair_linhas_verificada_eq src hsrc x1 y1 (x2 - x1) (y2 - y1) (by omega) _ 0 regiao
      (le_refl _) (by rw [Int.toNat_of_nonneg (by omega)]; omega) hreg

/-- The extraction of the region from (158, 0) to (162, 1), two columns of which
are outside the frame: cell 1 is source pixel (159, 0), cell 2 keeps its value. -/
theorem extrair_regiao_copia_exemplo :
    (List.replicate 19200 7).length = 19200 ∧ (158 : Int) ≤ 162 ∧ (0 : Int) ≤ 1 ∧
    (([9, 9, 9, 9] : List Nat).length : Int) = (162 - 158) * (1 - 0) ∧
    ler (extrair_regiao (List.replicate 19200 7) [9, 9, 9, 9] 158 0 162 1) (0 * (162 - 158) + 1)
      = pixel (List.replicate 19200 7) (158 + 1) (0 + 0) ∧
    ler (extrair_regiao (List.replicate 19200 7) [9, 9, 9, 9] 158 0 162 1) (0 * (162 - 158) + 2)
      = 9 ∧
    extrair_regiao_verificada (List.replicate 19200 7) [9, 9, 9, 9] 158 0 162 1
      = some (extrair_regiao (List.replicate 19200 7) [9, 9, 9, 9] 158 0 162 1) :=
  have t := extrair_regiao_copia (List.replicate 19200 7) [9, 9, 9, 9] 158 0 162 1
    (List.length_replicate _ _) (by decide) (by decide) (by decide)
  ⟨List.length_replicate _ _, by decide, by decide, by decide,
    (t.2.1 1 0 (by decide) (by decide) (by decide) (by decide)).1
      (by unfold dentro_do_quadro; decide),
    ((t.2.1 2 0 (by decide) (by decide) (by decide) (by decide)).2
      (by unfold dentro_do_quadro; decide)).trans (by decide),
    t.2.2⟩

/-! ## Composition of a region into a frame -/

theorem sobrepor_linha_length (regiao : List Nat) (x1 y1 largura y : Int) :
    ∀ (n : Nat) (x : Int) (b : List Nat),
      (sobrepor_linha regiao x1 y1 largura y n x b).length = b.length := by
  intro n
  induction n with
  | zero => intro x b; rfl
  | succ n ih =>
    intro x b
    rw [sobrepor_linha]
    split
    · rw [ih]
      split
      · exact escrever_length _ _ _
      · rfl
    · rfl

/-- The cells of the base image after the inner loop of `sobrepor_regiao`, for
any offsets. -/
theorem sobrepor_linha_ler (regiao : List Nat) (x1 y1 largura y : Int) :
    ∀ (n : Nat) (x : Int) (b : List Nat) (k : Int),
      ler (sobrepor_linha regiao x1 y1 largura y n x b) k =
        if x ≤ k - ((y1 + y) * 160 + x1) ∧ k - ((y1 + y) * 160 + x1) < x + n ∧
            x1 + (k - ((y1 + y) * 160 + x1)) < 160 ∧ k < 19200 ∧ 0 ≤ k ∧ k < b.length
        then ler regiao (y * largura + (k - ((y1 + y) * 160 + x1))) else ler b k := by
  intro n
  induction n with
  | zero =>
    intro x b k
    rw [sobrepor_linha, if_neg]
    rintro ⟨h1, h2, _⟩
    simp only [Nat.cast_zero] at h2
    omega
  | succ n ih =>
    intro x b k
    rw [sobrepor_linha]
    have hW : IMG_WIDTH = 160 := rfl
    have hS : IMG_SIZE = 19200 := rfl
    rw [hW, hS]
    push_cast
    by_cases hx : x1 + x < 160
    · rw [if_pos hx, ih]
      have hlen : (if (y1 + y) * 160 + (x1 + x) < 19200 then
          escrever b ((y1 + y) * 160 + (x1 + x)) (ler regiao (y * largura + x)) else b).length
            = b.length := by
        split
        · exact escrever_length _ _ _
        · rfl
      rw [hlen]
      generalize y * largura = base
      by_cases c1 : x + 1 ≤ k - ((y1 + y) * 160 + x1) ∧ k - ((y1 + y) * 160 + x1) < x + 1 + n ∧
          x1 + (k - ((y1 + y) * 160 + x1)) < 160 ∧ k < 19200 ∧ 0 ≤ k ∧ k < b.length
      · rw [if_pos c1, if_pos]
        omega
      · rw [if_neg c1]
        by_cases hd : (y1 + y) * 160 + (x1 + x) < 19200
        · rw [if_pos hd, ler_escrever]
          by_cases c2 : k = (y1 + y) * 160 + (x1 + x) ∧ 0 ≤ (y1 + y) * 160 + (x1 + x) ∧
              (y1 + y) * 160 + (x1 + x) < b.length
          · have hk : k - ((y1 + y) * 160 + x1) = x := by omega
            rw [if_pos c2, if_pos, hk]
            rw [hk]
            omega
          · rw [if_neg c2, if_neg]
            omega
        · rw [if_neg hd, if_neg]
          omega
    · rw [if_neg hx, if_neg]
      omega

theorem sobrepor_linha_verificada_eq (regiao : List Nat) (x1 y1 largura y : Int)
    (hx1 : 0 ≤ x1) (hy1 : 0 ≤ y1 + y) :
    ∀ (n : Nat) (x : Int) (b : List Nat), 0 ≤ x → b.length = 19200 →
      (∀ x2 : Int, x ≤ x2 → x2 < x + n → 0 ≤ y * largura + x2 ∧ y * largura + x2 < regiao.length) →
      sobrepor_linha_verificada regiao x1 y1 largura y n x b
        = some (sobrepor_linha regiao x1 y1 largura y n x b) := by
  intro n
  induction n with
  | zero => intro x b _ _ _; rfl
  | succ n ih =>
    intro x b hx hb h
    rw [sobrepor_linha_verificada, sobrepor_linha]
    have hW : IMG_WIDTH = 160 := rfl
    have hS : IMG_SIZE = 19200 := rfl
    rw [hW, hS]
    have hr := h x (le_refl _) (by push_cast; omega)
    by_cases hc : x1 + x < 160
    · rw [if_pos hc, if_pos hc]
      dsimp only
      by_cases hd : (y1 + y) * 160 + (x1 + x) < 19200
      · rw [if_pos hd, if_pos hd, ler_verificado_eq _ _ hr.1 hr.2, Option.some_bind,
          escrever_verificado_eq _ _ _ (by omega) (by omega), Option.some_bind]
        apply ih _ _ (by omega) (by rw [escrever_length]; exact hb)
        intro x2 h1 h2
        exact h x2 (by omega) (by push_cast; omega)
      · rw [if_neg hd, if_neg hd, Option.some_bind]
        apply ih _ _ (by omega) hb
        intro x2 h1 h2
        exact h x2 (by omega) (by push_cast; omega)
    · rw [if_neg hc, if_neg hc]

theorem sobrepor_linhas_length (regiao : List Nat) (x1 y1 largura : Int) :
    ∀ (n : Nat) (y : Int) (b : List Nat),
      (sobrepor_linhas regiao x1 y1 largura n y b).length = b.length := by
  intro n
  induction n with
  | zero => intro y b; rfl
  | succ n ih =>
    intro y b
    rw [sobrepor_linhas]
    split
    · rw [ih, sobrepor_linha_length]
    · rfl

/-- The pixels of a frame after the loops of `sobrepor_regiao`, for a column offset
that is not negative. -/
theorem sobrepor_linhas_pixel (regiao : List Nat) (x1 y1 largura : Int) (hx1 : 0 ≤ x1)
    (X Y : Int) (hX : 0 ≤ X) (hXW : X < 160) (hY : 0 ≤ Y) (hYH : Y < 120) :
    ∀ (n : Nat) (y : Int) (b : List Nat), b.length = 19200 →
      ler (sobrepor_linhas regiao x1 y1 largura n y b) (Y * 160 + X) =
        if y ≤ Y - y1 ∧ Y - y1 < y + n ∧ x1 ≤ X ∧ X < x1 + largura
        then ler regiao ((Y - y1) * largura + (X - x1)) else ler b (Y * 160 + X) := by
  intro n
  induction n with
  | zero =>
    intro y b _
    rw [sobrepor_linhas, if_neg]
    rintro ⟨h1, h2, _⟩
    simp only [Nat.cast_zero] at h2
    omega
  | succ n ih =>
    intro y b hb
    rw [sobrepor_linhas]
    have hH : IMG_HEIGHT = 120 := rfl
    rw [hH]
    push_cast
    by_cases hy : y1 + y < 120
    · rw [if_pos hy, ih _ _ (by rw [sobrepor_linha_length]; exact hb), sobrepor_linha_ler, hb]
      by_cases c1 : y + 1 ≤ Y - y1 ∧ Y - y1 < y + 1 + n ∧ x1 ≤ X ∧ X < x1 + largura
      · rw [if_pos c1, if_pos]
        omega
      · rw [if_neg c1]
        by_cases hYy : Y - y1 = y
        · have hk : Y * 160 + X - ((y1 + y) * 160 + x1) = X - x1 := by omega
          rw [hk, ← hYy]
          by_cases c2 : x1 ≤ X ∧ X < x1 + largura
          · rw [if_pos, if_pos]
            · omega
            · by_cases hl : 0 ≤ largura
              · rw [Int.toNat_of_nonneg hl]
                push_cast
                omega
              · omega
          · rw [if_neg, if_neg]
            · omega
            · by_cases hl : 0 ≤ largura
              · rw [Int.toNat_of_nonneg hl]
                push_cast
                omega
              · rw [Int.toNat_eq_zero.mpr (by omega)]
                push_cast
                omega
        · rw [if_neg, if_neg]
          · omega
          · by_cases hl : 0 ≤ largura
            · rw [Int.toNat_of_nonneg hl]
              push_cast
              omega
            · rw [Int.toNat_eq_zero.mpr (by omega)]
              push_cast
              omega
    · rw [if_neg hy, if_neg]
      omega

theorem sobrepor_linhas_verificada_eq (regiao : List Nat) (x1 y1 largura altura : Int)
    (hx1 : 0 ≤ x1) (hy1 : 0 ≤ y1) (hl : 0 ≤ largura)
    (hreg : (regiao.length : Int) = largura * altura) :
    ∀ (n : Nat) (y : Int) (b : List Nat), 0 ≤ y → y + n ≤ altura → b.length = 19200 →
      sobrepor_linhas_verificada regiao x1 y1 largura n y b
        = some (sobrepor_linhas regiao x1 y1 largura n y b) := by
  intro n
  induction n with
  | zero => intro y b _ _ _; rfl
  | succ n ih =>
    intro y b hy hyn hb
    push_cast at hyn
    rw [sobrepor_linhas_verificada, sobrepor_linhas]
    by_cases hc : y1 + y < IMG_HEIGHT
    · rw [if_pos hc, if_pos hc,
        sobrepor_linha_verificada_eq regiao x1 y1 largura y hx1 (by omega) _ 0 b (le_refl _) hb ?_,
        Option.some_bind]
      · exact ih _ _ (by omega) (by omega) (by rw [sobrepor_linha_length]; exact hb)
      · intro x2 h1 h2
        rw [Int.toNat_of_nonneg hl] at h2
        rw [hreg]
        exact indice_no_buffer largura altura x2 y h1 (by omega) hy (by omega)
    · rw [if_neg hc, if_neg hc]

/-- The pixels of a frame after `sobrepor_regiao` at offsets that are not negative. -/
theorem sobrepor_regiao_pixel (b regiao : List Nat) (x1 y1 largura altura : Int)
    (hb : b.length = 19200) (hx1 : 0 ≤ x1) (X Y : Int) (hq : dentro_do_quadro X Y) :
    pixel (sobrepor_regiao b regiao x1 y1 largura altura) X Y =
      if x1 ≤ X ∧ X < x1 + largura ∧ y1 ≤ Y ∧ Y < y1 + altura
      then ler regiao ((Y - y1) * largura + (X - x1)) else pixel b X Y := by
  obtain ⟨hX, hXW, hY, hYH⟩ := hq
  have hW : IMG_WIDTH = 160 := rfl
  have hH : IMG_HEIGHT = 120 := rfl
  rw [hW] at hXW
  rw [hH] at hYH
  unfold pixel sobrepor_regiao
  rw [hW, sobrepor_linhas_pixel regiao x1 y1 largura hx1 X Y hX hXW hY hYH _ _ _ hb]
  by_cases c : x1 ≤ X ∧ X < x1 + largura ∧ y1 ≤ Y ∧ Y < y1 + altura
  · rw [if_pos c, if_pos]
    refine ⟨by omega, ?_, c.1, c.2.1⟩
    rw [Int.toNat_of_nonneg (by omega)]
    omega
  · rw [if_neg c, if_neg]
    rintro ⟨h1, h2, h3, h4⟩
    apply c
    by_cases ha : 0 ≤ altura
    · rw [Int.toNat_of_nonneg ha] at h2
      omega
    · rw [Int.toNat_eq_zero.mpr (by omega)] at h2
      simp only [Nat.cast_zero] at h2
      omega

theorem sobrepor_regiao_length (b regiao : List Nat) (x1 y1 largura altura : Int) :
    (sobrepor_regiao b regiao x1 y1 largura altura).length = b.length :=
  sobrepor_linhas_length _ _ _ _ _ _ _

theorem sobrepor_regiao_verificada_eq (b regiao : List Nat) (x1 y1 largura altura : Int)
    (hb : b.length = 19200) (hx1 : 0 ≤ x1) (hy1 : 0 ≤ y1) (hl : 0 ≤ largura) (ha : 0 ≤ altura)
    (hreg : (regiao.length : Int) = largura * altura) :
    sobrepor_regiao_verificada b regiao x1 y1 largura altura
      = some (sobrepor_regiao b regiao x1 y1 largura altura) := by
  unfold sobrepor_regiao_verificada sobrepor_regiao
  exact sobrepor_linhas_verificada_eq regiao x1 y1 largura altura hx1 hy1 hl hreg _ 0 b
    (le_refl _) (by rw [Int.toNat_of_nonneg ha]; omega) hb

/-- The zero-filled canvas of the region branch. -/
theorem tela_preta : List.replicate IMG_SIZE.toNat 0 = List.replicate 19200 0 := rfl

/-- C22 (centred composition). For every region buffer of `sub_w` by `sub_h`
bytes with `0 <= sub_w <= 160` and `0 <= sub_h <= 120`, the zero-filled canvas
after `sobrepor_regiao` at `offset_x = (160 - sub_w) / 2`, `offset_y = (120 - sub_h) / 2`
has 19200 bytes; its pixel `(X, Y)` is sample `(X - offset_x, Y - offset_y)` of
the region buffer when `offset_x <= X < offset_x + sub_w` and
`offset_y <= Y < offset_y + sub_h`, and 0 otherwise; no access falls outside a
buffer. The offsets are not negative, the left and top margins are at most the
right and bottom margins and differ from them by at most 1. -/
theorem composicao_centrada (regiao : List Nat) (sub_w sub_h : Int) (hw0 : 0 ≤ sub_w)
    (hw : sub_w ≤ 160) (hh0 : 0 ≤ sub_h) (hh : sub_h ≤ 120)
    (hreg : (regiao.length : Int) = sub_w * sub_h) :
    (sobrepor_regiao (List.replicate IMG_SIZE.toNat 0) regiao ((IMG_WIDTH - sub_w).tdiv 2)
      ((IMG_HEIGHT - sub_h).tdiv 2) sub_w sub_h).length = 19200 ∧
    (∀ X Y : Int, dentro_do_quadro X Y →
      pixel (sobrepor_regiao (List.replicate IMG_SIZE.toNat 0) regiao
          ((IMG_WIDTH - sub_w).tdiv 2) ((IMG_HEIGHT - sub_h).tdiv 2) sub_w sub_h) X Y =
        if (IMG_WIDTH - sub_w).tdiv 2 ≤ X ∧ X < (IMG_WIDTH - sub_w).tdiv 2 + sub_w ∧
            (IMG_HEIGHT - sub_h).tdiv 2 ≤ Y ∧ Y < (IMG_HEIGHT - sub_h).tdiv 2 + sub_h
        then ler regiao ((Y - (IMG_HEIGHT - sub_h).tdiv 2) * sub_w
          + (X - (IMG_WIDTH - sub_w).tdiv 2))
        else 0) ∧
    sobrepor_regiao_verificada (List.replicate IMG_SIZE.toNat 0) regiao
        ((IMG_WIDTH - sub_w).tdiv 2) ((IMG_HEIGHT - sub_h).tdiv 2) sub_w sub_h
      = some (sobrepor_regiao (List.replicate IMG_SIZE.toNat 0) regiao
        ((IMG_WIDTH - sub_w).tdiv 2) ((IMG_HEIGHT - sub_h).tdiv 2) sub_w sub_h) ∧
    (0 ≤ (IMG_WIDTH - sub_w).tdiv 2 ∧
      (IMG_WIDTH - sub_w).tdiv 2 ≤ IMG_WIDTH - sub_w - (IMG_WIDTH - sub_w).tdiv 2 ∧
      IMG_WIDTH - sub_w - (IMG_WIDTH - sub_w).tdiv 2 ≤ (IMG_WIDTH - sub_w).tdiv 2 + 1) ∧
    (0 ≤ (IMG_HEIGHT - sub_h).tdiv 2 ∧
      (IMG_HEIGHT - sub_h).tdiv 2 ≤ IMG_HEIGHT - sub_h - (IMG_HEIGHT - sub_h).tdiv 2 ∧
      IMG_HEIGHT - sub_h - (IMG_HEIGHT - sub_h).tdiv 2 ≤ (IMG_HEIGHT - sub_h).tdiv 2 + 1) := by
  have hW : IMG_WIDTH = 160 := rfl
  have hH : IMG_HEIGHT = 120 := rfl
  have hox : (IMG_WIDTH - sub_w).tdiv 2 = (160 - sub_w) / 2 := by
    rw [hW]
    exact Int.tdiv_eq_ediv (by omega) (by decide)
  have hoy : (IMG_HEIGHT - sub_h).tdiv 2 = (120 - sub_h) / 2 := by
    rw [hH]
    exact Int.tdiv_eq_ediv (by omega) (by decide)
  rw [hox, hoy, tela_preta]
  have hb : (List.replicate 19200 0).length = 19200 := List.length_replicate _ _
  refine ⟨by rw [sobrepor_regiao_length, hb], ?_, ?_, ?_, ?_⟩
  · intro X Y hq
    rw [sobrepor_regiao_pixel _ _ _ _ _ _ hb (by omega) X Y hq, pixel_quadro_preto]
  · exact sobrepor_regiao_verificada_eq _ _ _ _ _ _ hb (by omega) (by omega) hw0 hh0 hreg
  · rw [hW]
    omega
  · rw [hH]
    omega

/-- The region of 40 by 30 bytes: the offsets are (60, 45), pixel (60, 45) is
the first sample and pixel (59, 45) is 0. -/
theorem composicao_centrada_exemplo :
    (IMG_WIDTH - 40).tdiv 2 = 60 ∧ (IMG_HEIGHT - 30).tdiv 2 = 45 ∧
    pixel (sobrepor_regiao (List.replicate IMG_SIZE.toNat 0) (List.replicate 1200 9)
      ((IMG_WIDTH - 40).tdiv 2) ((IMG_HEIGHT - 30).tdiv 2) 40 30) 60 45 = 9 ∧
    pixel (sobrepor_regiao (List.replicate IMG_SIZE.toNat 0) (List.replicate 1200 9)
      ((IMG_WIDTH - 40).tdiv 2) ((IMG_HEIGHT - 30).tdiv 2) 40 30) 59 45 = 0 :=
  have t := (composicao_centrada (List.replicate 1200 9) 40 30 (by decide) (by decide)
    (by decide) (by decide) (by rw [List.length_replicate]; rfl)).2.1
  ⟨by decide, by decide,
    (t 60 45 (by unfold dentro_do_quadro; decide)).trans (by
      rw [if_pos (by decide)]
      decide),
    (t 59 45 (by unfold dentro_do_quadro; decide)).trans (by
      rw [if_neg (by decide)])⟩

/-- The composition of a region of one byte at the offsets (-5, 1). -/
theorem sobrepor_regiao_coluna_negativa (b : List Nat) (v : Nat) :
    sobrepor_regiao b [v] (-5) 1 1 1 = escrever b 155 v := by
  simp [sobrepor_regiao, sobrepor_linhas, sobrepor_linha, IMG_WIDTH, IMG_HEIGHT, IMG_SIZE, ler]

/-- The composition of a region of one byte at the offsets (0, -1), with every
access checked. -/
theorem sobrepor_regiao_linha_negativa (b : List Nat) (v : Nat) :
    sobrepor_regiao_verificada b [v] 0 (-1) 1 1 = none := by
  simp [sobrepor_regiao_verificada, sobrepor_linhas_verificada, sobrepor_linha_verificada,
    IMG_WIDTH, IMG_HEIGHT, IMG_SIZE, ler_verificado, escrever_verificado]

/-- C23, as the code refutes it: `sobrepor_regiao` has no test of the lower
bounds. At the offsets (-5, 1), where no sample of a region of 1 by 1 falls
inside the frame, the sample 7 is stored in cell (155, 0) of the all-black
frame, a cell of row 0 and not of row 1; at the offsets (0, -1) it is stored at
index -160, outside the frame (the function with every access checked
fails). -/
theorem sobrepor_regiao_sem_limite_inferior :
    ¬ dentro_do_quadro (-5) 1 ∧
    pixel (List.replicate 19200 0) 155 0 = 0 ∧
    pixel (sobrepor_regiao (List.replicate 19200 0) [7] (-5) 1 1 1) 155 0 = 7 ∧
    sobrepor_regiao_verificada (List.replicate 19200 0) [7] 0 (-1) 1 1 = none := by
  refine ⟨by unfold dentro_do_quadro; decide, pixel_quadro_preto _ _, ?_,
    sobrepor_regiao_linha_negativa _ _⟩
  rw [sobrepor_regiao_coluna_negativa]
  unfold pixel
  rw [ler_escrever, if_pos]
  refine ⟨by decide, by decide, ?_⟩
  rw [List.length_replicate]
  decide

/-- C23 (clipping of the composition), amended. For offsets `(x1, y1)` that are
not negative, every region buffer of `largura * altura` bytes and every frame
of 19200 bytes, `sobrepor_regiao` keeps the length of the frame, gives cell
`(x1 + x, y1 + y)` of the frame sample `(x, y)` of the region for the samples
that fall inside the frame, leaves every other pixel as it was, so that no
sample lands in another row, and makes no access outside a buffer. The
centring offsets of a region of at most 160 by 120 are not negative. -/
theorem sobrepor_regiao_recorte (b regiao : List Nat) (x1 y1 largura altura : Int)
    (hb : b.length = 19200) (hx1 : 0 ≤ x1) (hy1 : 0 ≤ y1) (hl : 0 ≤ largura)
    (ha : 0 ≤ altura) (hreg : (regiao.length : Int) = largura * altura) :
    (sobrepor_regiao b regiao x1 y1 largura altura).length = 19200 ∧
    (∀ X Y : Int, dentro_do_quadro X Y →
      pixel (sobrepor_regiao b regiao x1 y1 largura altura) X Y =
        if x1 ≤ X ∧ X < x1 + largura ∧ y1 ≤ Y ∧ Y < y1 + altura
        then ler regiao ((Y - y1) * largura + (X - x1)) else pixel b X Y) ∧
    sobrepor_regiao_verificada b regiao x1 y1 largura altura
      = some (sobrepor_regiao b regiao x1 y1 largura altura) ∧
    (∀ sub_w sub_h : Int, 0 ≤ sub_w → sub_w ≤ 160 → 0 ≤ sub_h → sub_h ≤ 120 →
      0 ≤ (IMG_WIDTH - sub_w).tdiv 2 ∧ 0 ≤ (IMG_HEIGHT - sub_h).tdiv 2) := by
  refine ⟨by rw [sobrepor_regiao_length, hb],
    fun X Y hq => sobrepor_regiao_pixel b regiao x1 y1 largura altura hb hx1 X Y hq,
    sobrepor_regiao_verificada_eq b regiao x1 y1 largura altura hb hx1 hy1 hl ha hreg, ?_⟩
  intro sub_w sub_h hw0 hw hh0 hh
  have hW : IMG_WIDTH = 160 := rfl
  have hH : IMG_HEIGHT = 120 := rfl
  rw [hW, hH, Int.tdiv_eq_ediv (by omega) (by decide), Int.tdiv_eq_ediv (by omega) (by decide)]
  constructor <;> omega

/-- A region of one byte at the offsets (155, 1) of the all-black frame: the
sample is in cell (155, 1) and cell (155, 0) keeps its 0. -/
theorem sobrepor_regiao_recorte_exemplo :
    (List.replicate 19200 0).length = 19200 ∧
    pixel (sobrepor_regiao (List.replicate 19200 0) [7] 155 1 1 1) 155 1 = 7 ∧
    pixel (sobrepor_regiao (List.replicate 19200 0) [7] 155 1 1 1) 155 0 = 0 :=
  have hb : (List.replicate 19200 0).length = 19200 := List.length_replicate _ _
  have t := (sobrepor_regiao_recorte (List.replicate 19200 0) [7] 155 1 1 1 hb
    (by decide) (by decide) (by decide) (by decide) (by decide)).2.1
  ⟨hb,
    (t 155 1 ⟨by decide, by decide, by decide, by decide⟩).trans (by
      rw [if_pos (by decide)]
      decide),
    (t 155 0 ⟨by decide, by decide, by decide, by decide⟩).trans (by
      rw [if_neg (by decide)]
      exact pixel_quadro_preto _ _)⟩

/-! ## A reload that fails -/

theorem bloco_length (amb : Ambiente) : (bloco amb IMG_SIZE).length = 19200 := by
  unfold bloco
  rw [List.length_map, List.length_range]
  rfl

/-- What `carregar_nova_imagem` does when a path was typed and the temporary buffer was
allocated, in terms of the code of the decode. -/
theorem carregar_nova_imagem_decodifica (amb : Ambiente) (caminho : List Char)
    (arquivos : List Char → Option (List Nat)) (estado : EstadoApp)
    (hc : (caminho.takeWhile (fun c => c ≠ Char.ofNat 10)).length ≠ 0)
    (hm : amb.malloc_temporario = true)
    (hd : (Bitmap.carregar_bitmap (arquivos (caminho.takeWhile (fun c => c ≠ Char.ofNat 10)))
      amb.malloc_linha (bloco amb IMG_SIZE) IMG_WIDTH IMG_HEIGHT).1 ≠ 0) :
    carregar_nova_imagem amb (some caminho) arquivos estado = (0, estado, []) := by
  simp only [carregar_nova_imagem]
  rw [if_neg hc, if_neg (by rw [hm]; decide), if_pos hd]

/-- C24 (a reload that fails). `carregar_nova_imagem` returns 0 or 1. Whenever it returns
0 the state after the call is the state before it (original frame, working
frame, selection, algorithm, zoom, cursor) and no call is made to the
coprocessor; the key `l` then leaves the whole state of the loop as it was. It
returns 0 when no line is read, when the path is empty (cancelled), when the
temporary buffer cannot be allocated, and when the decode does not return 0: in
particular when the file is not found, when it fails a header check (magic,
dimensions, bit depth), and when it passes them but is truncated. -/
theorem recarga_que_falha (amb : Ambiente) (linha : Option (List Char))
    (arquivos : List Char → Option (List Nat)) (estado : EstadoApp) :
    ((carregar_nova_imagem amb linha arquivos estado).1 = 0 ∨
      (carregar_nova_imagem amb linha arquivos estado).1 = 1) ∧
    ((carregar_nova_imagem amb linha arquivos estado).1 = 0 →
      carregar_nova_imagem amb linha arquivos estado = (0, estado, [])) ∧
    (linha = none → (carregar_nova_imagem amb linha arquivos estado).1 = 0) ∧
    (∀ caminho : List Char, linha = some caminho →
      ((caminho.takeWhile (fun c => c ≠ Char.ofNat 10)).length = 0 →
        (carregar_nova_imagem amb linha arquivos estado).1 = 0) ∧
      (amb.malloc_temporario = false →
        (carregar_nova_imagem amb linha arquivos estado).1 = 0) ∧
      ((Bitmap.carregar_bitmap (arquivos (caminho.takeWhile (fun c => c ≠ Char.ofNat 10)))
          amb.malloc_linha (bloco amb IMG_SIZE) IMG_WIDTH IMG_HEIGHT).1 ≠ 0 →
        (carregar_nova_imagem amb linha arquivos estado).1 = 0) ∧
      (arquivos (caminho.takeWhile (fun c => c ≠ Char.ofNat 10)) = none →
        (carregar_nova_imagem amb linha arquivos estado).1 = 0) ∧
      (∀ dados : List Nat,
        arquivos (caminho.takeWhile (fun c => c ≠ Char.ofNat 10)) = some dados →
        (Bitmap.passa_validacao dados IMG_WIDTH IMG_HEIGHT = false ∨
          ¬ (120 * Bitmap.bytes_por_linha IMG_WIDTH
              (Bitmap.BMPInfoHeader.de_bytes dados 14).bits_por_pixel
            ≤ dados.length - Bitmap.inicio_pixels dados)) →
        (carregar_nova_imagem amb linha arquivos estado).1 = 0)) ∧
    (∀ (e : Entrada) (l : Laco) (tecla : Char), tecla = 'l' ∨ tecla = 'L' →
      (carregar_nova_imagem e.amb e.linha e.arquivos l.estado).1 = 0 →
      tratar_tecla e tecla l = l) := by
  have hcasos : ∀ (amb : Ambiente) (linha : Option (List Char))
      (arquivos : List Char → Option (List Nat)) (estado : EstadoApp),
      carregar_nova_imagem amb linha arquivos estado = (0, estado, []) ∨
      (carregar_nova_imagem amb linha arquivos estado).1 = 1 := by
    intro amb linha arquivos estado
    unfold carregar_nova_imagem
    split
    · exact Or.inl rfl
    · dsimp only
      split
      · exact Or.inl rfl
      · split
        · exact Or.inl rfl
        · split
          · exact Or.inl rfl
          · exact Or.inr rfl
  have hzero : ∀ (amb : Ambiente) (linha : Option (List Char))
      (arquivos : List Char → Option (List Nat)) (estado : EstadoApp),
      (carregar_nova_imagem amb linha arquivos estado).1 = 0 →
      carregar_nova_imagem amb linha arquivos estado = (0, estado, []) := by
    intro amb linha arquivos estado h0
    rcases hcasos amb linha arquivos estado with h | h
    · exact h
    · rw [h] at h0
      exact absurd h0 (by decide)
  have hdec : ∀ caminho : List Char,
      (caminho.takeWhile (fun c => c ≠ Char.ofNat 10)).length ≠ 0 →
      amb.malloc_temporario = true →
      (Bitmap.carregar_bitmap (arquivos (caminho.takeWhile (fun c => c ≠ Char.ofNat 10)))
          amb.malloc_linha (bloco amb IMG_SIZE) IMG_WIDTH IMG_HEIGHT).1 ≠ 0 →
      (carregar_nova_imagem amb (some caminho) arquivos estado).1 = 0 := by
    intro caminho hc hm hd
    rw [carregar_nova_imagem_decodifica amb caminho arquivos estado hc hm hd]
  have hvazio : ∀ caminho : List Char,
      (caminho.takeWhile (fun c => c ≠ Char.ofNat 10)).length = 0 →
      (carregar_nova_imagem amb (some caminho) arquivos estado).1 = 0 := by
    intro caminho hc
    simp only [carregar_nova_imagem]
    rw [if_pos hc]
  have hmalloc : ∀ caminho : List Char, amb.malloc_temporario = false →
      (carregar_nova_imagem amb (some caminho) arquivos estado).1 = 0 := by
    intro caminho hm
    simp only [carregar_nova_imagem]
    split
    · rfl
    · rw [if_pos (by rw [hm]; decide)]
  have hgeral : ∀ caminho : List Char,
      (Bitmap.carregar_bitmap (arquivos (caminho.takeWhile (fun c => c ≠ Char.ofNat 10)))
          amb.malloc_linha (bloco amb IMG_SIZE) IMG_WIDTH IMG_HEIGHT).1 ≠ 0 →
      (carregar_nova_imagem amb (some caminho) arquivos estado).1 = 0 := by
    intro caminho hd
    by_cases hc : (caminho.takeWhile (fun c => c ≠ Char.ofNat 10)).length = 0
    · exact hvazio caminho hc
    · cases hm : amb.malloc_temporario with
      | false => exact hmalloc caminho hm
      | true => exact hdec caminho hc hm hd
  refine ⟨?_, hzero amb linha arquivos estado, ?_, ?_, ?_⟩
  · rcases hcasos amb linha arquivos estado with h | h
    · left; rw [h]
    · right; exact h
  · intro hl
    subst hl
    rfl
  · intro caminho hl
    subst hl
    refine ⟨hvazio caminho, hmalloc caminho, hgeral caminho, ?_, ?_⟩
    · intro hnone
      apply hgeral
      rw [hnone, Bitmap.carregar_bitmap_sem_arquivo]
      exact (show ¬ ((-1 : Int) = 0) by decide)
    · intro dados hsome hbad
      apply hgeral
      rw [hsome]
      cases hv : Bitmap.passa_validacao dados IMG_WIDTH IMG_HEIGHT with
      | false =>
        rw [Bitmap.carregar_bitmap_sem_validacao _ _ _ _ _ hv]
        exact (show ¬ ((-1 : Int) = 0) by decide)
      | true =>
        have htr : ¬ (120 * Bitmap.bytes_por_linha IMG_WIDTH
            (Bitmap.BMPInfoHeader.de_bytes dados 14).bits_por_pixel
              ≤ dados.length - Bitmap.inicio_pixels dados) := by
          rcases hbad with hb | hb
          · rw [hv] at hb
            exact absurd hb (by decide)
          · exact hb
        have hcod := Bitmap.carregar_bitmap_codigo_160x120 dados amb.malloc_linha
          (bloco amb IMG_SIZE) hv (bloco_length amb)
        have hcod2 : (Bitmap.carregar_bitmap (some dados) amb.malloc_linha (bloco amb IMG_SIZE)
            IMG_WIDTH IMG_HEIGHT).1 = _ := hcod
        rw [hcod2, if_neg (fun h => htr h.2)]
        decide
  · intro e l tecla ht h0
    rw [tratar_tecla_l e l tecla ht, hzero _ _ _ _ h0]
    simp only [List.append_nil]

/-- A reload that names the truncated file `arquivo_cortado`: the call returns 0
and the state is the one before it. -/
theorem recarga_que_falha_exemplo :
    carregar_nova_imagem ambiente_exemplo (some ['a']) (fun _ => some Bitmap.arquivo_cortado)
      (estado_exemplo ALG_MEDIA 0.5) = (0, estado_exemplo ALG_MEDIA 0.5, []) :=
  have t := recarga_que_falha ambiente_exemplo (some ['a'])
    (fun _ => some Bitmap.arquivo_cortado) (estado_exemplo ALG_MEDIA 0.5)
  t.2.1 ((t.2.2.2.1 ['a'] rfl).2.2.2.2 Bitmap.arquivo_cortado rfl (Or.inl (by decide)))

/-! ## The two frames of a render pass -/

/-- The copy `memcpy(imagem_atual, imagem_original, IMG_SIZE)` of two frames of 19200 bytes. -/
theorem copia_do_original (ia io : List Nat) (ha : ia.length = 19200) (ho : io.length = 19200) :
    Bitmap.memcpy ia 0 io IMG_SIZE.toNat = io := by
  have hn : IMG_SIZE.toNat = 19200 := rfl
  unfold Bitmap.memcpy
  rw [hn, List.take_zero, List.nil_append, List.take_of_length_le (by omega),
    List.drop_of_length_le (by omega), List.append_nil]

theorem desenhar_cursor_length (b : List Nat) (mx my W H : Int) :
    (desenhar_cursor b mx my W H).length = b.length := by
  unfold desenhar_cursor
  simp only [desenhar_linha_vertical_length, desenhar_linha_horizontal_length]

theorem desenhar_cantos_animados_length (b : List Nat) (x y W H fase : Int) :
    (desenhar_cantos_animados b x y W H fase).length = b.length := by
  unfold desenhar_cantos_animados
  dsimp only
  split
  · rw [escrever_length]
    simp only [desenhar_linha_vertical_length, desenhar_linha_horizontal_length]
  · simp only [desenhar_linha_vertical_length, desenhar_linha_horizontal_length]

/-- The working frame a render pass leaves, as a function of the original frame. -/
theorem processar_imagem_atual (amb : Ambiente) (e : EstadoApp) (fc : Int)
    (ho : e.imagem_original.length = 19200) (ha : e.imagem_atual.length = 19200) :
    (processar_com_algoritmo amb e fc).1.imagem_atual =
      if e.janela.ativo ≠ 0 ∧ e.janela.pontos_definidos = 2 ∧ e.nivel_zoom ≠ 1 then
        desenhar_retangulo e.imagem_original (normalizar_janela e.janela).x1
          (normalizar_janela e.janela).y1 (normalizar_janela e.janela).x2
          (normalizar_janela e.janela).y2 IMG_WIDTH IMG_HEIGHT
      else
        desenhar_cursor
          (if e.janela.pontos_definidos = 1 then
            desenhar_cantos_animados e.imagem_original e.janela.x1 e.janela.y1
              IMG_WIDTH IMG_HEIGHT fc
          else e.imagem_original)
          e.mouse_x e.mouse_y IMG_WIDTH IMG_HEIGHT := by
  by_cases hr : e.janela.ativo ≠ 0 ∧ e.janela.pontos_definidos = 2 ∧ e.nivel_zoom ≠ 1
  · rw [if_pos hr]
    simp only [processar_com_algoritmo]
    rw [if_pos hr, copia_do_original _ _ ha ho]
  · rw [if_neg hr, processar_sem_regiao amb e fc hr, copia_do_original _ _ ha ho]

/-- The render pass does not read the working frame it is given. -/
theorem processar_ignora_imagem_atual (amb : Ambiente) (e : EstadoApp) (fc : Int)
    (ia : List Nat) (ho : e.imagem_original.length = 19200)
    (ha : e.imagem_atual.length = 19200) (hia : ia.length = 19200) :
    processar_com_algoritmo amb { e with imagem_atual := ia } fc
      = processar_com_algoritmo amb e fc := by
  simp only [processar_com_algoritmo]
  rw [copia_do_original _ _ ha ho, copia_do_original _ _ hia ho]

/-- C27 (the original frame under rendering). For every state whose two frames
have 19200 bytes, every environment and frame counter, one render pass leaves
`imagem_original` as it was, and leaves in `imagem_atual` a frame of 19200 bytes
that is the original frame with overlays: the selection rectangle in the region
branch, and otherwise the corner marker (when one corner is set) and the
cursor. The pass gives the same state, frame counter and calls whatever frame
of 19200 bytes `imagem_atual` held before it. -/
theorem quadro_original_imutavel (amb : Ambiente) (estado : EstadoApp) (frame_counter : Int)
    (ho : estado.imagem_original.length = 19200) (ha : estado.imagem_atual.length = 19200) :
    (processar_com_algoritmo amb estado frame_counter).1.imagem_original
      = estado.imagem_original ∧
    (processar_com_algoritmo amb estado frame_counter).1.imagem_atual.length = 19200 ∧
    (processar_com_algoritmo amb estado frame_counter).1.imagem_atual =
      (if estado.janela.ativo ≠ 0 ∧ estado.janela.pontos_definidos = 2 ∧ estado.nivel_zoom ≠ 1
      then
        desenhar_retangulo estado.imagem_original (normalizar_janela estado.janela).x1
          (normalizar_janela estado.janela).y1 (normalizar_janela estado.janela).x2
          (normalizar_janela estado.janela).y2 IMG_WIDTH IMG_HEIGHT
      else
        desenhar_cursor
          (if estado.janela.pontos_definidos = 1 then
            desenhar_cantos_animados estado.imagem_original estado.janela.x1 estado.janela.y1
              IMG_WIDTH IMG_HEIGHT frame_counter
          else estado.imagem_original)
          estado.mouse_x estado.mouse_y IMG_WIDTH IMG_HEIGHT) ∧
    (∀ ia : List Nat, ia.length = 19200 →
      processar_com_algoritmo amb { estado with imagem_atual := ia } frame_counter
        = processar_com_algoritmo amb estado frame_counter) := by
  have h3 := processar_imagem_atual amb estado frame_counter ho ha
  refine ⟨processar_imagem_original _ _ _, ?_, h3,
    fun ia hia => processar_ignora_imagem_atual amb estado frame_counter ia ho ha hia⟩
  rw [h3]
  split
  · rw [desenhar_retangulo_length, ho]
  · rw [desenhar_cursor_length]
    split
    · rw [desenhar_cantos_animados_length, ho]
    · exact ho

/-- The render pass on the all-black example state with a working frame of
sevens: the original frame stays and the result is the one for the example
state itself. -/
theorem quadro_original_imutavel_exemplo :
    (estado_exemplo ALG_VIZINHO_PROXIMO 1).imagem_original.length = 19200 ∧
    (estado_exemplo ALG_VIZINHO_PROXIMO 1).imagem_atual.length = 19200 ∧
    (List.replicate 19200 7).length = 19200 ∧
    (processar_com_algoritmo ambiente_exemplo (estado_exemplo ALG_VIZINHO_PROXIMO 1) 0).1.imagem_original
      = List.replicate 19200 0 ∧
    processar_com_algoritmo ambiente_exemplo
        { estado_exemplo ALG_VIZINHO_PROXIMO 1 with imagem_atual := List.replicate 19200 7 } 0
      = processar_com_algoritmo ambiente_exemplo (estado_exemplo ALG_VIZINHO_PROXIMO 1) 0 :=
  have ho : (estado_exemplo ALG_VIZINHO_PROXIMO 1).imagem_original.length = 19200 :=
    List.length_replicate _ _
  have ha : (estado_exemplo ALG_VIZINHO_PROXIMO 1).imagem_atual.length = 19200 :=
    List.length_replicate _ _
  have t := quadro_original_imutavel ambiente_exemplo (estado_exemplo ALG_VIZINHO_PROXIMO 1) 0
    ho ha
  ⟨ho, ha, List.length_replicate _ _, t.1, t.2.2.2 _ (List.length_replicate _ _)⟩

/-! ## Cursor and corners inside the frame -/

theorem no_quadro_de_campos (e f : EstadoApp) (h1 : f.mouse_x = e.mouse_x)
    (h2 : f.mouse_y = e.mouse_y) (h3 : f.janela.x1 = e.janela.x1)
    (h4 : f.janela.y1 = e.janela.y1) (h5 : f.janela.x2 = e.janela.x2)
    (h6 : f.janela.y2 = e.janela.y2) (h : estado_no_quadro e) : estado_no_quadro f := by
  unfold estado_no_quadro at h ⊢
  rw [h1, h2, h3, h4, h5, h6]
  exact h

theorem normalizar_janela_no_quadro (j : JanelaZoom) (h1 : dentro_do_quadro j.x1 j.y1)
    (h2 : dentro_do_quadro j.x2 j.y2) :
    dentro_do_quadro (normalizar_janela j).x1 (normalizar_janela j).y1 ∧
    dentro_do_quadro (normalizar_janela j).x2 (normalizar_janela j).y2 := by
  rw [normalizar_janela_casos]
  unfold dentro_do_quadro at h1 h2 ⊢
  dsimp only
  constructor
  · refine ⟨?_, ?_, ?_, ?_⟩ <;> omega
  · refine ⟨?_, ?_, ?_, ?_⟩ <;> omega

theorem no_quadro_processar (amb : Ambiente) (e : EstadoApp) (fc : Int)
    (h : estado_no_quadro e) : estado_no_quadro (processar_com_algoritmo amb e fc).1 := by
  unfold estado_no_quadro at h ⊢
  rw [(processar_mouse amb e fc).1, (processar_mouse amb e fc).2, processar_janela]
  split
  · exact ⟨h.1, normalizar_janela_no_quadro _ h.2.1 h.2.2⟩
  · exact h

theorem no_quadro_chamar_processar (amb : Ambiente) (l : Laco)
    (h : estado_no_quadro l.estado) : estado_no_quadro (chamar_processar amb l).estado := by
  rw [chamar_processar_estado]
  exact no_quadro_processar _ _ _ h

/-- The cursor after a relative move, whatever the state before it. -/
theorem cursor_recortado (ev : input_event) (l : Laco) (ht : ev.type = EV_REL) :
    (ev.code = REL_X →
      0 ≤ (tratar_evento ev l).estado.mouse_x ∧ (tratar_evento ev l).estado.mouse_x ≤ 159 ∧
      (tratar_evento ev l).estado.mouse_y = l.estado.mouse_y) ∧
    (ev.code = REL_Y →
      0 ≤ (tratar_evento ev l).estado.mouse_y ∧ (tratar_evento ev l).estado.mouse_y ≤ 119 ∧
      (tratar_evento ev l).estado.mouse_x = l.estado.mouse_x) := by
  have hW : IMG_WIDTH = 160 := rfl
  have hH : IMG_HEIGHT = 120 := rfl
  constructor
  · intro hc
    unfold tratar_evento
    rw [if_pos ht, if_pos hc, hW]
    dsimp only
    refine ⟨?_, ?_, rfl⟩
    · split <;> split <;> omega
    · split <;> split <;> omega
  · intro hc
    have hx : ¬ ev.code = REL_X := by rw [hc]; decide
    unfold tratar_evento
    rw [if_pos ht, if_neg hx, if_pos hc, hH]
    dsimp only
    refine ⟨?_, ?_, rfl⟩
    · split <;> split <;> omega
    · split <;> split <;> omega

theorem no_quadro_tratar_evento (ev : input_event) (l : Laco)
    (h : estado_no_quadro l.estado) : estado_no_quadro (tratar_evento ev l).estado := by
  by_cases c1 : ev.type = EV_REL
  · obtain ⟨hx, hy⟩ := cursor_recortado ev l c1
    by_cases c2 : ev.code = REL_X
    · obtain ⟨a, b, c⟩ := hx c2
      have hj : (tratar_evento ev l).estado.janela = l.estado.janela := by
        unfold tratar_evento
        rw [if_pos c1, if_pos c2]
      unfold estado_no_quadro dentro_do_quadro at h ⊢
      rw [hj, c]
      have hW : IMG_WIDTH = 160 := rfl
      rw [hW] at h ⊢
      exact ⟨⟨a, by omega, h.1.2.2⟩, h.2⟩
    · by_cases c3 : ev.code = REL_Y
      · obtain ⟨a, b, c⟩ := hy c3
        have hj : (tratar_evento ev l).estado.janela = l.estado.janela := by
          unfold tratar_evento
          rw [if_pos c1, if_neg c2, if_pos c3]
        unfold estado_no_quadro dentro_do_quadro at h ⊢
        rw [hj, c]
        have hH : IMG_HEIGHT = 120 := rfl
        rw [hH] at h ⊢
        exact ⟨⟨h.1.1, h.1.2.1, a, by omega⟩, h.2⟩
      · unfold tratar_evento
        rw [if_pos c1, if_neg c2, if_neg c3]
        exact h
  · unfold tratar_evento
    rw [if_neg c1]
    split
    · split
      · exact h
      · split
        · exact ⟨h.1, h.1, h.2.2⟩
        · split
          · exact ⟨h.1, normalizar_janela_no_quadro _ h.2.1 h.1⟩
          · exact h
    · exact h

theorem no_quadro_eventos (evs : List input_event) :
    ∀ l : Laco, estado_no_quadro l.estado →
      estado_no_quadro (evs.foldl (fun l ev => tratar_evento ev l) l).estado := by
  induction evs with
  | nil => intro l h; exact h
  | cons ev evs ih =>
    intro l h
    rw [List.foldl_cons]
    exact ih _ (no_quadro_tratar_evento ev l h)

theorem no_quadro_carregar_nova_imagem (amb : Ambiente) (linha : Option (List Char))
    (arquivos : List Char → Option (List Nat)) (e : EstadoApp) (h : estado_no_quadro e) :
    estado_no_quadro (carregar_nova_imagem amb linha arquivos e).2.1 := by
  unfold carregar_nova_imagem
  split
  · exact h
  · dsimp only
    split
    · exact h
    · split
      · exact h
      · split
        · exact h
        · exact h

theorem no_quadro_tratar_tecla (e : Entrada) (tecla : Char) (l : Laco)
    (h : estado_no_quadro l.estado) : estado_no_quadro (tratar_tecla e tecla l).estado := by
  by_cases h1 : tecla = '+' ∨ tecla = '='
  · rw [tratar_tecla_mais e l tecla h1]
    split
    · split
      · exact no_quadro_chamar_processar _ _ h
      · exact h
    · exact h
  by_cases h2 : tecla = '-' ∨ tecla = '_'
  · rw [tratar_tecla_menos e l tecla h2]
    split
    · split
      · exact no_quadro_chamar_processar _ _ h
      · exact h
    · exact h
  by_cases h3 : tecla = '1'
  · subst h3
    rw [tratar_tecla_1]
    exact no_quadro_chamar_processar _ _ h
  by_cases h4 : tecla = '2'
  · subst h4
    rw [tratar_tecla_2]
    apply no_quadro_chamar_processar
    split
    · exact h
    · exact h
  by_cases h5 : tecla = '3'
  · subst h5
    rw [tratar_tecla_3]
    apply no_quadro_chamar_processar
    split
    · exact h
    · exact h
  by_cases h6 : tecla = 'l' ∨ tecla = 'L'
  · rw [tratar_tecla_l e l tecla h6]
    exact no_quadro_carregar_nova_imagem _ _ _ _ h
  by_cases h7 : tecla = 'r' ∨ tecla = 'R'
  · rw [tratar_tecla_r e l tecla h7]
    exact no_quadro_chamar_processar _ _ h
  rw [tratar_tecla_outra e l tecla h1 h2 h3 h4 h5 h6 h7]
  split
  · exact h
  · exact h

theorem no_quadro_iteracao (e : Entrada) (l : Laco) (h : estado_no_quadro l.estado) :
    estado_no_quadro (iteracao e l).estado := by
  have h1 : estado_no_quadro (processar_eventos e l).estado := by
    unfold processar_eventos
    split
    · exact no_quadro_eventos _ _ h
    · exact h
  have h2 : estado_no_quadro (atualizar_ao_mover e (processar_eventos e l)).estado := by
    unfold atualizar_ao_mover
    split
    · dsimp only
      split
      · exact no_quadro_chamar_processar _ _ h1
      · exact h1
    · exact h1
  have h3 : estado_no_quadro
      (animar_primeiro_canto e (atualizar_ao_mover e (processar_eventos e l))).estado := by
    unfold animar_primeiro_canto
    split
    · dsimp only
      split
      · exact no_quadro_chamar_processar _ _ h2
      · exact h2
    · exact h2
  unfold iteracao processar_tecla
  split
  · exact h3
  · exact no_quadro_tratar_tecla _ _ _ h3

theorem no_quadro_executar (es : List Entrada) :
    ∀ l : Laco, estado_no_quadro l.estado → estado_no_quadro (executar es l).estado := by
  induction es with
  | nil => intro l h; exact h
  | cons e es ih =>
    intro l h
    unfold executar
    split
    · exact ih _ (no_quadro_iteracao e l h)
    · exact h

/-- The cursor of `iniciar` is the origin. -/
theorem iniciar_cursor (amb : Ambiente) (arquivo : Option (List Nat)) (mouse_fd : Int)
    (l0 : Laco) (h : iniciar amb arquivo mouse_fd = some l0) :
    l0.estado.mouse_x = 0 ∧ l0.estado.mouse_y = 0 := by
  unfold iniciar at h
  split at h
  · cases h
  · dsimp only at h
    split at h
    · cases h
    · cases h
      exact ⟨rfl, rfl⟩

/-- Every reachable state keeps the two invariants of the loop. -/
theorem alcancavel_invariantes (l : Laco) (h : Alcancavel l) :
    estado_coerente l.estado ∧ estado_no_quadro l.estado := by
  obtain ⟨amb, arquivo, mouse_fd, l0, entradas, hi, he⟩ := h
  obtain ⟨_, hz0, hj0⟩ := iniciar_estado amb arquivo mouse_fd l0 hi
  obtain ⟨hmx, hmy⟩ := iniciar_cursor amb arquivo mouse_fd l0 hi
  have h0 : estado_coerente l0.estado :=
    coerente_zoom_1 _ hz0 (fun hp => by
      rw [hj0] at hp
      exact absurd hp (show ¬ ((0 : Int) = 2) by decide))
  have hq : estado_no_quadro l0.estado := by
    unfold estado_no_quadro
    rw [hmx, hmy, hj0]
    unfold dentro_do_quadro
    decide
  rw [← he]
  exact ⟨coerente_executar entradas l0 h0, no_quadro_executar entradas l0 hq⟩

/-- C28 (cursor and corners inside the frame). After every relative move of the
pointer, whatever the state before it and the size and sign of the move, the
cursor has `0 <= mouse_x <= 159` and `0 <= mouse_y <= 119`. In every reachable
state the cursor and the two corners of the selection are inside the frame; a
selection with two corners has `0 <= x2 - x1 <= 159` and `0 <= y2 - y1 <= 119`,
the two centring offsets of the region branch are not negative, and every
coordinate `(x1 + i, y1 + j)` with `0 <= i < x2 - x1`, `0 <= j < y2 - y1` that
`extrair_regiao` visits is inside the frame. -/
theorem cursor_e_cantos_no_quadro (l : Laco) (h : Alcancavel l) :
    (∀ (ev : input_event) (s : Laco), ev.type = EV_REL →
      (ev.code = REL_X →
        0 ≤ (tratar_evento ev s).estado.mouse_x ∧ (tratar_evento ev s).estado.mouse_x ≤ 159) ∧
      (ev.code = REL_Y →
        0 ≤ (tratar_evento ev s).estado.mouse_y ∧ (tratar_evento ev s).estado.mouse_y ≤ 119)) ∧
    (0 ≤ l.estado.mouse_x ∧ l.estado.mouse_x ≤ 159 ∧
      0 ≤ l.estado.mouse_y ∧ l.estado.mouse_y ≤ 119) ∧
    (0 ≤ l.estado.janela.x1 ∧ l.estado.janela.x1 ≤ 159 ∧
      0 ≤ l.estado.janela.y1 ∧ l.estado.janela.y1 ≤ 119 ∧
      0 ≤ l.estado.janela.x2 ∧ l.estado.janela.x2 ≤ 159 ∧
      0 ≤ l.estado.janela.y2 ∧ l.estado.janela.y2 ≤ 119) ∧
    (l.estado.janela.pontos_definidos = 2 →
      (0 ≤ l.estado.janela.x2 - l.estado.janela.x1 ∧
        l.estado.janela.x2 - l.estado.janela.x1 ≤ 159 ∧
        0 ≤ l.estado.janela.y2 - l.estado.janela.y1 ∧
        l.estado.janela.y2 - l.estado.janela.y1 ≤ 119) ∧
      0 ≤ (IMG_WIDTH - (l.estado.janela.x2 - l.estado.janela.x1)).tdiv 2 ∧
      0 ≤ (IMG_HEIGHT - (l.estado.janela.y2 - l.estado.janela.y1)).tdiv 2 ∧
      ∀ i j : Int, 0 ≤ i → i < l.estado.janela.x2 - l.estado.janela.x1 →
        0 ≤ j → j < l.estado.janela.y2 - l.estado.janela.y1 →
        dentro_do_quadro (l.estado.janela.x1 + i) (l.estado.janela.y1 + j)) := by
  obtain ⟨hc, hq⟩ := alcancavel_invariantes l h
  have hW : IMG_WIDTH = 160 := rfl
  have hH : IMG_HEIGHT = 120 := rfl
  unfold estado_no_quadro dentro_do_quadro at hq
  rw [hW, hH] at hq
  obtain ⟨⟨m1, m2, m3, m4⟩, ⟨a1, a2, a3, a4⟩, ⟨b1, b2, b3, b4⟩⟩ := hq
  refine ⟨?_, ⟨m1, by omega, m3, by omega⟩,
    ⟨a1, by omega, a3, by omega, b1, by omega, b3, by omega⟩, ?_⟩
  · intro ev s ht
    obtain ⟨hx, hy⟩ := cursor_recortado ev s ht
    exact ⟨fun c => ⟨(hx c).1, (hx c).2.1⟩, fun c => ⟨(hy c).1, (hy c).2.1⟩⟩
  · intro hp
    obtain ⟨ox, oy⟩ := hc.2.2 hp
    refine ⟨⟨by omega, by omega, by omega, by omega⟩, ?_, ?_, ?_⟩
    · rw [hW, Int.tdiv_eq_ediv (by omega) (by decide)]
      omega
    · rw [hH, Int.tdiv_eq_ediv (by omega) (by decide)]
      omega
    · intro i j hi0 hi1 hj0 hj1
      unfold dentro_do_quadro
      rw [hW, hH]
      exact ⟨by omega, by omega, by omega, by omega⟩

/-- The state reached from `arquivo_exemplo` by a move of 500 to the right, a
click, a move of 300 down and a click: cursor and corners are inside the
frame. -/
theorem cursor_e_cantos_no_quadro_exemplo :
    ∃ l0, iniciar ambiente_exemplo (some arquivo_exemplo) 3 = some l0 ∧
      (0 ≤ (executar
          [entrada_exemplo [{ type := EV_REL, code := REL_X, value := 500 }, clique] none,
            entrada_exemplo [{ type := EV_REL, code := REL_Y, value := 300 }, clique] none]
          l0).estado.mouse_x ∧
        (executar
          [entrada_exemplo [{ type := EV_REL, code := REL_X, value := 500 }, clique] none,
            entrada_exemplo [{ type := EV_REL, code := REL_Y, value := 300 }, clique] none]
          l0).estado.mouse_x ≤ 159 ∧
        0 ≤ (executar
          [entrada_exemplo [{ type := EV_REL, code := REL_X, value := 500 }, clique] none,
            entrada_exemplo [{ type := EV_REL, code := REL_Y, value := 300 }, clique] none]
          l0).estado.mouse_y ∧
        (executar
          [entrada_exemplo [{ type := EV_REL, code := REL_X, value := 500 }, clique] none,
            entrada_exemplo [{ type := EV_REL, code := REL_Y, value := 300 }, clique] none]
          l0).estado.mouse_y ≤ 119) :=
  iniciar_arquivo_exemplo.elim fun l0 hi =>
    ⟨l0, hi,
      (cursor_e_cantos_no_quadro
        (executar
          [entrada_exemplo [{ type := EV_REL, code := REL_X, value := 500 }, clique] none,
            entrada_exemplo [{ type := EV_REL, code := REL_Y, value := 300 }, clique] none]
          l0)
        ⟨ambiente_exemplo, some arquivo_exemplo, 3, l0, _, hi, rfl⟩).2.1⟩

/-! ## What a render pass sends -/

/-- Every operation of the table is one of the `api_*` routines. -/
theorem operacao_da_tabela_inicia (a : TipoAlgoritmo) (z : ℚ) (op : Comando)
    (h : operacao_da_tabela a z = some op) : op.inicia_operacao = true := by
  unfold operacao_da_tabela at h
  cases a <;> simp only at h <;> split_ifs at h <;> cases h <;> rfl

/-- The calls of one render pass, when the allocations of the region branch
succeed: the transfer of the frame the pass composed, then one routine. -/
theorem processar_carga_e_operacao (amb : Ambiente) (e : EstadoApp) (fc : Int)
    (hz : cinco_niveis e.nivel_zoom)
    (hm : (e.janela.ativo ≠ 0 ∧ e.janela.pontos_definidos = 2 ∧ e.nivel_zoom ≠ 1) →
      amb.malloc_regiao = true ∧ amb.malloc_temporario = true) :
    ∃ op, (processar_com_algoritmo amb e fc).2.2 =
        [Comando.carregar_imagem
          (if e.janela.ativo ≠ 0 ∧ e.janela.pontos_definidos = 2 ∧ e.nivel_zoom ≠ 1 then
            quadro_da_regiao amb e.imagem_original (normalizar_janela e.janela)
          else (processar_com_algoritmo amb e fc).1.imagem_atual) IMG_SIZE, op] ∧
      operacao_da_tabela e.algoritmo e.nivel_zoom = some op ∧
      op.inicia_operacao = true := by
  rw [processar_comandos]
  by_cases hr : e.janela.ativo ≠ 0 ∧ e.janela.pontos_definidos = 2 ∧ e.nivel_zoom ≠ 1
  · rw [if_pos hr, if_pos (hm hr), if_pos hr]
    obtain ⟨op, hop, htab⟩ := despachar_regiao_tabela
      { e with
        imagem_atual := Bitmap.memcpy e.imagem_atual 0 e.imagem_original IMG_SIZE.toNat
        janela := normalizar_janela e.janela } hz hr.2.2
    rw [hop]
    exact ⟨op, rfl, htab, operacao_da_tabela_inicia _ _ _ htab⟩
  · rw [if_neg hr, if_neg hr]
    have hz1 : cinco_niveis (processar_com_algoritmo amb e fc).1.nivel_zoom := by
      rw [processar_nivel_zoom]; exact hz
    obtain ⟨op, hop, htab⟩ := despachar_completa_tabela _ hz1
    rw [processar_algoritmo, processar_nivel_zoom] at htab
    rw [hop]
    exact ⟨op, rfl, htab, operacao_da_tabela_inicia _ _ _ htab⟩

/-- C29 (load before dispatch). In every render pass on a state whose zoom is one
of the five levels: unless the region branch runs and one of its two
allocations fails, the calls made to the coprocessor are exactly
`carregar_imagem(buffer, IMG_SIZE)`, with `IMG_SIZE = 19200`, followed by one
`api_*` routine, and the buffer is the frame the pass composed: the centred
region canvas in the region branch, the working frame with its overlays
otherwise. In every case a call of an `api_*` routine is the second call of the
pass and the first is a `carregar_imagem`. -/
theorem carga_antes_da_operacao (amb : Ambiente) (estado : EstadoApp) (frame_counter : Int)
    (hz : cinco_niveis estado.nivel_zoom) :
    (((estado.janela.ativo ≠ 0 ∧ estado.janela.pontos_definidos = 2 ∧ estado.nivel_zoom ≠ 1) →
        amb.malloc_regiao = true ∧ amb.malloc_temporario = true) →
      ∃ op, (processar_com_algoritmo amb estado frame_counter).2.2 =
          [Comando.carregar_imagem
            (if estado.janela.ativo ≠ 0 ∧ estado.janela.pontos_definidos = 2 ∧
                estado.nivel_zoom ≠ 1 then
              quadro_da_regiao amb estado.imagem_original (normalizar_janela estado.janela)
            else (processar_com_algoritmo amb estado frame_counter).1.imagem_atual)
            IMG_SIZE, op] ∧
        op.inicia_operacao = true) ∧
    IMG_SIZE = 19200 ∧
    (∀ (k : Nat) (op : Comando),
      (processar_com_algoritmo amb estado frame_counter).2.2[k]? = some op →
      op.inicia_operacao = true →
      k = 1 ∧ ∃ b, (processar_com_algoritmo amb estado frame_counter).2.2[0]?
        = some (Comando.carregar_imagem b IMG_SIZE)) := by
  refine ⟨?_, rfl, ?_⟩
  · intro hm
    obtain ⟨op, h1, _, h3⟩ := processar_carga_e_operacao amb estado frame_counter hz hm
    exact ⟨op, h1, h3⟩
  · intro k op hk hop
    by_cases hm : (estado.janela.ativo ≠ 0 ∧ estado.janela.pontos_definidos = 2 ∧
        estado.nivel_zoom ≠ 1) → amb.malloc_regiao = true ∧ amb.malloc_temporario = true
    · obtain ⟨op2, h1, _, _⟩ := processar_carga_e_operacao amb estado frame_counter hz hm
      rw [h1] at hk ⊢
      match k, hk with
      | 0, hk =>
        simp only [List.getElem?_cons_zero, Option.some.injEq] at hk
        rw [← hk] at hop
        exact absurd hop (show ¬ (false = true) by decide)
      | 1, _ => exact ⟨rfl, _, rfl⟩
      | k + 2, hk =>
        simp at hk
    · have hr : estado.janela.ativo ≠ 0 ∧ estado.janela.pontos_definidos = 2 ∧
          estado.nivel_zoom ≠ 1 := by
        by_contra hc
        exact hm (fun h => absurd h hc)
      have hn : ¬ (amb.malloc_regiao = true ∧ amb.malloc_temporario = true) :=
        fun h => hm (fun _ => h)
      rw [processar_comandos, if_pos hr, if_neg hn] at hk
      simp at hk

/-- The render pass on the example state at zoom 2: the working frame is loaded,
then one routine is called. -/
theorem carga_antes_da_operacao_exemplo :
    cinco_niveis (estado_exemplo ALG_VIZINHO_PROXIMO 2).nivel_zoom ∧
    ∃ op, (processar_com_algoritmo ambiente_exemplo (estado_exemplo ALG_VIZINHO_PROXIMO 2) 0).2.2 =
        [Comando.carregar_imagem
          (if (estado_exemplo ALG_VIZINHO_PROXIMO 2).janela.ativo ≠ 0 ∧
              (estado_exemplo ALG_VIZINHO_PROXIMO 2).janela.pontos_definidos = 2 ∧
              (estado_exemplo ALG_VIZINHO_PROXIMO 2).nivel_zoom ≠ 1 then
            quadro_da_regiao ambiente_exemplo (estado_exemplo ALG_VIZINHO_PROXIMO 2).imagem_original
              (normalizar_janela (estado_exemplo ALG_VIZINHO_PROXIMO 2).janela)
          else (processar_com_algoritmo ambiente_exemplo
            (estado_exemplo ALG_VIZINHO_PROXIMO 2) 0).1.imagem_atual)
          IMG_SIZE, op] ∧
      op.inicia_operacao = true :=
  have hz : cinco_niveis (estado_exemplo ALG_VIZINHO_PROXIMO 2).nivel_zoom :=
    Or.inr (Or.inr (Or.inr (Or.inl rfl)))
  ⟨hz, (carga_antes_da_operacao ambiente_exemplo (estado_exemplo ALG_VIZINHO_PROXIMO 2) 0 hz).1
    (fun _ => ⟨rfl, rfl⟩)⟩

/-! ## The frame of the region branch -/

theorem quadro_da_regiao_length (amb : Ambiente) (io : List Nat) (j : JanelaZoom) :
    (quadro_da_regiao amb io j).length = 19200 := by
  unfold quadro_da_regiao
  dsimp only
  rw [sobrepor_regiao_length, tela_preta, List.length_replicate]

/-- The pixels of the frame of the region branch, for a selection in order whose
corners are inside the frame. -/
theorem quadro_da_regiao_pixel (amb : Ambiente) (io : List Nat) (j : JanelaZoom)
    (hx0 : 0 ≤ j.x1) (hx1 : j.x1 ≤ j.x2) (hx2 : j.x2 ≤ 159) (hy0 : 0 ≤ j.y1)
    (hy1 : j.y1 ≤ j.y2) (hy2 : j.y2 ≤ 119) (X Y : Int) (hq : dentro_do_quadro X Y) :
    pixel (quadro_da_regiao amb io j) X Y =
      if (IMG_WIDTH - (j.x2 - j.x1)).tdiv 2 ≤ X ∧
          X < (IMG_WIDTH - (j.x2 - j.x1)).tdiv 2 + (j.x2 - j.x1) ∧
          (IMG_HEIGHT - (j.y2 - j.y1)).tdiv 2 ≤ Y ∧
          Y < (IMG_HEIGHT - (j.y2 - j.y1)).tdiv 2 + (j.y2 - j.y1)
      then pixel io (j.x1 + (X - (IMG_WIDTH - (j.x2 - j.x1)).tdiv 2))
        (j.y1 + (Y - (IMG_HEIGHT - (j.y2 - j.y1)).tdiv 2))
      else 0 := by
  have hW : IMG_WIDTH = 160 := rfl
  have hH : IMG_HEIGHT = 120 := rfl
  have hox : (IMG_WIDTH - (j.x2 - j.x1)).tdiv 2 = (160 - (j.x2 - j.x1)) / 2 := by
    rw [hW]
    exact Int.tdiv_eq_ediv (by omega) (by decide)
  have hoy : (IMG_HEIGHT - (j.y2 - j.y1)).tdiv 2 = (120 - (j.y2 - j.y1)) / 2 := by
    rw [hH]
    exact Int.tdiv_eq_ediv (by omega) (by decide)
  unfold quadro_da_regiao
  dsimp only
  rw [hox, hoy, tela_preta,
    sobrepor_regiao_pixel _ _ _ _ _ _ (List.length_replicate _ _) (by omega) X Y hq,
    pixel_quadro_preto]
  by_cases hc : (160 - (j.x2 - j.x1)) / 2 ≤ X ∧ X < (160 - (j.x2 - j.x1)) / 2 + (j.x2 - j.x1) ∧
      (120 - (j.y2 - j.y1)) / 2 ≤ Y ∧ Y < (120 - (j.y2 - j.y1)) / 2 + (j.y2 - j.y1)
  · rw [if_pos hc, if_pos hc]
    have hreg : ((bloco amb ((j.x2 - j.x1) * (j.y2 - j.y1))).length : Int)
        = (j.x2 - j.x1) * (j.y2 - j.y1) := by
      unfold bloco
      rw [List.length_map, List.length_range]
      exact Int.toNat_of_nonneg (mul_nonneg (by omega) (by omega))
    rw [extrair_regiao_ler io _ j.x1 j.y1 j.x2 j.y2 hy1 hreg _ _ (by omega) (by omega)
      (by omega) (by omega), if_pos]
    · rfl
    · rw [hW, hH]
      omega
  · rw [if_neg hc, if_neg hc]

/-- C30 (render of a bound selection at a zoom other than 1). For every state
with `ativo = 1`, `pontos_definidos = 2`, corners in order and inside the frame
(`0 <= x1 <= x2 <= 159`, `0 <= y1 <= y2 <= 119`), zoom 0.25, 0.5, 2 or 4, two
frames of 19200 bytes, and both allocations of the branch granted: the render
pass sends one frame of 19200 bytes and calls one routine; with `w = x2 - x1`,
`h = y2 - y1`, `ox = (160 - w) / 2`, `oy = (120 - h) / 2`, pixel `(X, Y)` of the
frame sent is original pixel `(x1 + (X - ox), y1 + (Y - oy))` when
`ox <= X < ox + w` and `oy <= Y < oy + h` and 0 otherwise, so it carries neither
cursor nor rectangle; the pass leaves the original frame and the selection as
they were, and the working frame is the original frame with the selection
rectangle. -/
theorem passada_com_regiao (amb : Ambiente) (estado : EstadoApp) (frame_counter : Int)
    (hat : estado.janela.ativo = 1) (hp : estado.janela.pontos_definidos = 2)
    (hx : 0 ≤ estado.janela.x1 ∧ estado.janela.x1 ≤ estado.janela.x2 ∧ estado.janela.x2 ≤ 159)
    (hy : 0 ≤ estado.janela.y1 ∧ estado.janela.y1 ≤ estado.janela.y2 ∧ estado.janela.y2 ≤ 119)
    (hz : estado.nivel_zoom = 0.25 ∨ estado.nivel_zoom = 0.5 ∨ estado.nivel_zoom = 2 ∨
      estado.nivel_zoom = 4)
    (ho : estado.imagem_original.length = 19200) (ha : estado.imagem_atual.length = 19200)
    (hm : amb.malloc_regiao = true ∧ amb.malloc_temporario = true) :
    (∃ op, (processar_com_algoritmo amb estado frame_counter).2.2 =
        [Comando.carregar_imagem (quadro_da_regiao amb estado.imagem_original estado.janela)
          IMG_SIZE, op] ∧
      op.inicia_operacao = true) ∧
    (quadro_da_regiao amb estado.imagem_original estado.janela).length = 19200 ∧
    (∀ X Y : Int, dentro_do_quadro X Y →
      pixel (quadro_da_regiao amb estado.imagem_original estado.janela) X Y =
        if (IMG_WIDTH - (estado.janela.x2 - estado.janela.x1)).tdiv 2 ≤ X ∧
            X < (IMG_WIDTH - (estado.janela.x2 - estado.janela.x1)).tdiv 2
              + (estado.janela.x2 - estado.janela.x1) ∧
            (IMG_HEIGHT - (estado.janela.y2 - estado.janela.y1)).tdiv 2 ≤ Y ∧
            Y < (IMG_HEIGHT - (estado.janela.y2 - estado.janela.y1)).tdiv 2
              + (estado.janela.y2 - estado.janela.y1)
        then pixel estado.imagem_original
          (estado.janela.x1 + (X - (IMG_WIDTH - (estado.janela.x2 - estado.janela.x1)).tdiv 2))
          (estado.janela.y1 + (Y - (IMG_HEIGHT - (estado.janela.y2 - estado.janela.y1)).tdiv 2))
        else 0) ∧
    (processar_com_algoritmo amb estado frame_counter).1.janela = estado.janela ∧
    (processar_com_algoritmo amb estado frame_counter).1.imagem_original
      = estado.imagem_original ∧
    (processar_com_algoritmo amb estado frame_counter).1.imagem_atual
      = desenhar_retangulo estado.imagem_original estado.janela.x1 estado.janela.y1
        estado.janela.x2 estado.janela.y2 IMG_WIDTH IMG_HEIGHT := by
  have hz1 : estado.nivel_zoom ≠ 1 := by
    rcases hz with h | h | h | h <;> rw [h] <;> norm_num
  have hz5 : cinco_niveis estado.nivel_zoom := by
    unfold cinco_niveis
    rcases hz with h | h | h | h
    · exact Or.inl h
    · exact Or.inr (Or.inl h)
    · exact Or.inr (Or.inr (Or.inr (Or.inl h)))
    · exact Or.inr (Or.inr (Or.inr (Or.inr h)))
  have hr : estado.janela.ativo ≠ 0 ∧ estado.janela.pontos_definidos = 2 ∧
      estado.nivel_zoom ≠ 1 := ⟨by rw [hat]; decide, hp, hz1⟩
  have hn : normalizar_janela estado.janela = estado.janela :=
    normalizar_janela_ordenada _ hx.2.1 hy.2.1
  refine ⟨?_, quadro_da_regiao_length _ _ _,
    fun X Y hq => quadro_da_regiao_pixel amb estado.imagem_original estado.janela
      hx.1 hx.2.1 hx.2.2 hy.1 hy.2.1 hy.2.2 X Y hq, ?_, processar_imagem_original _ _ _, ?_⟩
  · obtain ⟨op, h1, _, h3⟩ := processar_carga_e_operacao amb estado frame_counter hz5
      (fun _ => hm)
    rw [if_pos hr, hn] at h1
    exact ⟨op, h1, h3⟩
  · rw [processar_janela, if_pos hr, hn]
  · rw [processar_imagem_atual amb estado frame_counter ho ha, if_pos hr, hn]

/-- The render pass on the selection bound to (10, 20) and (50, 60) at zoom 2:
the region of 40 by 40 pixels is sent centred at (60, 40). -/
theorem passada_com_regiao_exemplo :
    (laco_com_selecao ALG_VIZINHO_PROXIMO 2).estado.janela
      = { x1 := 10, y1 := 20, x2 := 50, y2 := 60, ativo := 1, pontos_definidos := 2 } ∧
    (IMG_WIDTH - (50 - 10)).tdiv 2 = 60 ∧ (IMG_HEIGHT - (60 - 20)).tdiv 2 = 40 ∧
    (∃ op, (processar_com_algoritmo ambiente_exemplo
        (laco_com_selecao ALG_VIZINHO_PROXIMO 2).estado 0).2.2 =
        [Comando.carregar_imagem
          (quadro_da_regiao ambiente_exemplo
            (laco_com_selecao ALG_VIZINHO_PROXIMO 2).estado.imagem_original
            (laco_com_selecao ALG_VIZINHO_PROXIMO 2).estado.janela) IMG_SIZE, op] ∧
      op.inicia_operacao = true) ∧
    (processar_com_algoritmo ambiente_exemplo
      (laco_com_selecao ALG_VIZINHO_PROXIMO 2).estado 0).1.janela
      = (laco_com_selecao ALG_VIZINHO_PROXIMO 2).estado.janela :=
  have t := passada_com_regiao ambiente_exemplo (laco_com_selecao ALG_VIZINHO_PROXIMO 2).estado 0
    rfl rfl (by decide) (by decide) (Or.inr (Or.inr (Or.inl rfl)))
    (List.length_replicate _ _) (List.length_replicate _ _) ⟨rfl, rfl⟩
  ⟨rfl, by decide, by decide, t.1, t.2.2.2.1⟩

/-! ## The cursor and the corner marker, pixel by pixel -/

/-- The pixels of a frame after `desenhar_linha_horizontal`. -/
theorem linha_horizontal_no_quadro (b : List Nat) (x1 x2 y : Int) (c : Nat) (X Y : Int)
    (hq : dentro_do_quadro X Y) (hlen : b.length = 19200) :
    pixel (desenhar_linha_horizontal b x1 x2 y IMG_WIDTH IMG_HEIGHT c) X Y =
      if Y = y ∧ x1 ≤ X ∧ X ≤ x2 then c else pixel b X Y := by
  obtain ⟨hX, hXW, hY, hYH⟩ := hq
  unfold pixel
  rw [desenhar_linha_horizontal_pixel b x1 x2 y IMG_WIDTH IMG_HEIGHT c (by rw [hlen]; rfl)
    X Y hX hXW hY hYH]
  have hW : IMG_WIDTH = 160 := rfl
  rw [hW] at hXW
  simp only [hW]
  by_cases h : Y = y ∧ x1 ≤ X ∧ X ≤ x2
  · rw [if_pos h, if_pos ⟨h.1, by omega, by omega⟩]
  · rw [if_neg h, if_neg]
    rintro ⟨h1, h2, h3⟩
    exact h ⟨h1, by omega, by omega⟩

/-- The pixels of a frame after `desenhar_linha_vertical`. -/
theorem linha_vertical_no_quadro (b : List Nat) (x y1 y2 : Int) (c : Nat) (X Y : Int)
    (hq : dentro_do_quadro X Y) (hlen : b.length = 19200) :
    pixel (desenhar_linha_vertical b x y1 y2 IMG_WIDTH IMG_HEIGHT c) X Y =
      if X = x ∧ y1 ≤ Y ∧ Y ≤ y2 then c else pixel b X Y := by
  obtain ⟨hX, hXW, hY, hYH⟩ := hq
  unfold pixel
  rw [desenhar_linha_vertical_pixel b x y1 y2 IMG_WIDTH IMG_HEIGHT c (by rw [hlen]; rfl)
    X Y hX hXW hY hYH]
  have hH : IMG_HEIGHT = 120 := rfl
  rw [hH] at hYH
  simp only [hH]
  by_cases h : X = x ∧ y1 ≤ Y ∧ Y ≤ y2
  · rw [if_pos h, if_pos ⟨h.1, by omega, by omega⟩]
  · rw [if_neg h, if_neg]
    rintro ⟨h1, h2, h3⟩
    exact h ⟨h1, by omega, by omega⟩

/-- The pixels of a frame after a store at the cell `(x, y)` of the frame. -/
theorem escrever_no_quadro (b : List Nat) (x y : Int) (c : Nat) (X Y : Int)
    (hq : dentro_do_quadro X Y) (hxy : dentro_do_quadro x y) (hlen : b.length = 19200) :
    pixel (escrever b (y * IMG_WIDTH + x) c) X Y = if X = x ∧ Y = y then c else pixel b X Y := by
  obtain ⟨hX, hXW, hY, hYH⟩ := hq
  obtain ⟨hx, hxW, hy, hyH⟩ := hxy
  unfold pixel
  have hW : IMG_WIDTH = 160 := rfl
  have hH : IMG_HEIGHT = 120 := rfl
  rw [hW] at hXW hxW
  rw [hH] at hYH hyH
  simp only [hW]
  rw [ler_escrever]
  by_cases h : X = x ∧ Y = y
  · rw [if_pos h, if_pos]
    obtain ⟨h1, h2⟩ := h
    subst h1 h2
    refine ⟨rfl, by omega, ?_⟩
    rw [hlen]
    push_cast
    omega
  · rw [if_neg h, if_neg]
    rintro ⟨h1, _, _⟩
    exact h ⟨by omega, by omega⟩

/-- The pixels of a frame after `desenhar_cursor`: the six segments in the order
of the last store. -/
theorem desenhar_cursor_pixel (b : List Nat) (mx my X Y : Int)
    (hq : dentro_do_quadro X Y) (hlen : b.length = 19200) :
    pixel (desenhar_cursor b mx my IMG_WIDTH IMG_HEIGHT) X Y =
      if X = mx + 1 ∧ my - 5 ≤ Y ∧ Y ≤ my + 5 then 0
      else if X = mx ∧ my - 5 ≤ Y ∧ Y ≤ my + 5 then 255
      else if X = mx - 1 ∧ my - 5 ≤ Y ∧ Y ≤ my + 5 then 0
      else if Y = my + 1 ∧ mx - 5 ≤ X ∧ X ≤ mx + 5 then 0
      else if Y = my ∧ mx - 5 ≤ X ∧ X ≤ mx + 5 then 255
      else if Y = my - 1 ∧ mx - 5 ≤ X ∧ X ≤ mx + 5 then 0
      else pixel b X Y := by
  unfold desenhar_cursor
  simp only [CURSOR_SIZE, CURSOR_COLOR, CURSOR_BORDER_COLOR]
  rw [linha_vertical_no_quadro _ _ _ _ _ X Y hq, linha_vertical_no_quadro _ _ _ _ _ X Y hq,
    linha_vertical_no_quadro _ _ _ _ _ X Y hq, linha_horizontal_no_quadro _ _ _ _ _ X Y hq,
    linha_horizontal_no_quadro _ _ _ _ _ X Y hq, linha_horizontal_no_quadro _ _ _ _ _ X Y hq]
  all_goals
    first
    | exact hlen
    | (simp only [desenhar_linha_vertical_length, desenhar_linha_horizontal_length]
       exact hlen)

/-- The pixels of a frame after `desenhar_cantos_animados`, `t` being the length
`CORNER_SIZE + fase % 4` of the arms. -/
theorem desenhar_cantos_animados_pixel (b : List Nat) (x y fase X Y : Int)
    (hq : dentro_do_quadro X Y) (hlen : b.length = 19200) :
    pixel (desenhar_cantos_animados b x y IMG_WIDTH IMG_HEIGHT fase) X Y =
      if X = x ∧ Y = y then 255
      else if X = x + 1 ∧ y - 1 ≤ Y ∧ Y ≤ y + (8 + fase.tmod 4) then 0
      else if X = x ∧ y ≤ Y ∧ Y ≤ y + (8 + fase.tmod 4) then 255
      else if X = x - 1 ∧ y - 1 ≤ Y ∧ Y ≤ y + (8 + fase.tmod 4) then 0
      else if Y = y + 1 ∧ x - 1 ≤ X ∧ X ≤ x + (8 + fase.tmod 4) then 0
      else if Y = y ∧ x ≤ X ∧ X ≤ x + (8 + fase.tmod 4) then 255
      else if Y = y - 1 ∧ x - 1 ≤ X ∧ X ≤ x + (8 + fase.tmod 4) then 0
      else pixel b X Y := by
  have hseg : ∀ c : List Nat, c.length = 19200 →
      pixel (desenhar_linha_vertical
        (desenhar_linha_vertical
          (desenhar_linha_vertical
            (desenhar_linha_horizontal
              (desenhar_linha_horizontal
                (desenhar_linha_horizontal c (x - 1) (x + (8 + fase.tmod 4)) (y - 1)
                  IMG_WIDTH IMG_HEIGHT 0)
                x (x + (8 + fase.tmod 4)) y IMG_WIDTH IMG_HEIGHT 255)
              (x - 1) (x + (8 + fase.tmod 4)) (y + 1) IMG_WIDTH IMG_HEIGHT 0)
            (x - 1) (y - 1) (y + (8 + fase.tmod 4)) IMG_WIDTH IMG_HEIGHT 0)
          x y (y + (8 + fase.tmod 4)) IMG_WIDTH IMG_HEIGHT 255)
        (x + 1) (y - 1) (y + (8 + fase.tmod 4)) IMG_WIDTH IMG_HEIGHT 0) X Y =
      if X = x + 1 ∧ y - 1 ≤ Y ∧ Y ≤ y + (8 + fase.tmod 4) then 0
      else if X = x ∧ y ≤ Y ∧ Y ≤ y + (8 + fase.tmod 4) then 255
      else if X = x - 1 ∧ y - 1 ≤ Y ∧ Y ≤ y + (8 + fase.tmod 4) then 0
      else if Y = y + 1 ∧ x - 1 ≤ X ∧ X ≤ x + (8 + fase.tmod 4) then 0
      else if Y = y ∧ x ≤ X ∧ X ≤ x + (8 + fase.tmod 4) then 255
      else if Y = y - 1 ∧ x - 1 ≤ X ∧ X ≤ x + (8 + fase.tmod 4) then 0
      else pixel c X Y := by
    intro c hc
    rw [linha_vertical_no_quadro _ _ _ _ _ X Y hq, linha_vertical_no_quadro _ _ _ _ _ X Y hq,
      linha_vertical_no_quadro _ _ _ _ _ X Y hq, linha_horizontal_no_quadro _ _ _ _ _ X Y hq,
      linha_horizontal_no_quadro _ _ _ _ _ X Y hq, linha_horizontal_no_quadro _ _ _ _ _ X Y hq]
    all_goals
      first
      | exact hc
      | (simp only [desenhar_linha_vertical_length, desenhar_linha_horizontal_length]
         exact hc)
  unfold desenhar_cantos_animados
  simp only [CORNER_SIZE, CURSOR_COLOR, CURSOR_BORDER_COLOR]
  by_cases hc : x ≥ 0 ∧ x < IMG_WIDTH ∧ y ≥ 0 ∧ y < IMG_HEIGHT
  · rw [if_pos hc, escrever_no_quadro _ x y 255 X Y hq ⟨hc.1, hc.2.1, hc.2.2.1, hc.2.2.2⟩
      (by
        simp only [desenhar_linha_vertical_length, desenhar_linha_horizontal_length]
        exact hlen), hseg b hlen]
  · have hn : ¬ (X = x ∧ Y = y) := by
      rintro ⟨h1, h2⟩
      subst h1 h2
      exact hc ⟨hq.1, hq.2.1, hq.2.2.1, hq.2.2.2⟩
    rw [if_neg hc, hseg b hlen, if_neg hn]

theorem comprimento_do_quadro (c : List Nat) (hc : c.length = 19200) :
    (c.length : Int) = IMG_WIDTH * IMG_HEIGHT := by
  rw [hc]
  rfl

/-- No store of `desenhar_cursor` falls outside a frame of 19200 bytes. -/
theorem desenhar_cursor_verificado_eq (b : List Nat) (mx my : Int) (hlen : b.length = 19200) :
    desenhar_cursor_verificado b mx my IMG_WIDTH IMG_HEIGHT
      = some (desenhar_cursor b mx my IMG_WIDTH IMG_HEIGHT) := by
  have hW : (0 : Int) ≤ IMG_WIDTH := by decide
  unfold desenhar_cursor_verificado desenhar_cursor
  rw [desenhar_linha_horizontal_verificado_eq _ _ _ _ _ _ _ hW (comprimento_do_quadro _ hlen),
    Option.some_bind,
    desenhar_linha_horizontal_verificado_eq _ _ _ _ _ _ _ hW
      (comprimento_do_quadro _ (by rw [desenhar_linha_horizontal_length]; exact hlen)),
    Option.some_bind,
    desenhar_linha_horizontal_verificado_eq _ _ _ _ _ _ _ hW
      (comprimento_do_quadro _ (by
        rw [desenhar_linha_horizontal_length, desenhar_linha_horizontal_length]; exact hlen)),
    Option.some_bind,
    desenhar_linha_vertical_verificado_eq _ _ _ _ _ _ _
      (comprimento_do_quadro _ (by
        rw [desenhar_linha_horizontal_length, desenhar_linha_horizontal_length,
          desenhar_linha_horizontal_length]; exact hlen)),
    Option.some_bind,
    desenhar_linha_vertical_verificado_eq _ _ _ _ _ _ _
      (comprimento_do_quadro _ (by
        rw [desenhar_linha_vertical_length, desenhar_linha_horizontal_length,
          desenhar_linha_horizontal_length, desenhar_linha_horizontal_length]; exact hlen)),
    Option.some_bind,
    desenhar_linha_vertical_verificado_eq _ _ _ _ _ _ _
      (comprimento_do_quadro _ (by
        rw [desenhar_linha_vertical_length, desenhar_linha_vertical_length,
          desenhar_linha_horizontal_length, desenhar_linha_horizontal_length,
          desenhar_linha_horizontal_length]; exact hlen))]

/-- The cells of the cross around a cursor at least 5 cells away from every
side of the frame are cells of the frame. -/
theorem cruz_no_quadro (x y X Y : Int) (hx0 : 5 ≤ x) (hx1 : x ≤ 154) (hy0 : 5 ≤ y)
    (hy1 : y ≤ 114) (hc : na_cruz x y X Y) : dentro_do_quadro X Y := by
  unfold dentro_do_quadro
  have hW : IMG_WIDTH = 160 := rfl
  have hH : IMG_HEIGHT = 120 := rfl
  rw [hW, hH]
  rcases hc with ⟨h1, h2, h3, h4⟩ | ⟨h1, h2, h3, h4⟩
  · exact ⟨by omega, by omega, by omega, by omega⟩
  · exact ⟨by omega, by omega, by omega, by omega⟩

/-- The value `desenhar_cursor` leaves in each cell of the frame. -/
theorem desenhar_cursor_valores (b : List Nat) (x y X Y : Int) (hlen : b.length = 19200)
    (hq : dentro_do_quadro X Y) :
    (¬ na_cruz x y X Y → pixel (desenhar_cursor b x y IMG_WIDTH IMG_HEIGHT) X Y = pixel b X Y) ∧
    (X = x → y - 5 ≤ Y → Y ≤ y + 5 →
      pixel (desenhar_cursor b x y IMG_WIDTH IMG_HEIGHT) X Y = 255) ∧
    (Y = y → ((x - 5 ≤ X ∧ X ≤ x - 2) ∨ (x + 2 ≤ X ∧ X ≤ x + 5)) →
      pixel (desenhar_cursor b x y IMG_WIDTH IMG_HEIGHT) X Y = 255) ∧
    ((X = x - 1 ∨ X = x + 1) → y - 5 ≤ Y → Y ≤ y + 5 →
      pixel (desenhar_cursor b x y IMG_WIDTH IMG_HEIGHT) X Y = 0) ∧
    ((Y = y - 1 ∨ Y = y + 1) → ((x - 5 ≤ X ∧ X ≤ x - 2) ∨ (x + 2 ≤ X ∧ X ≤ x + 5)) →
      pixel (desenhar_cursor b x y IMG_WIDTH IMG_HEIGHT) X Y = 0) := by
  rw [desenhar_cursor_pixel b x y X Y hq hlen]
  unfold na_cruz
  refine ⟨?_, ?_, ?_, ?_, ?_⟩
  · intro hn
    split_ifs <;> first | rfl | (exfalso; omega)
  · intro h1 h2 h3
    split_ifs <;> first | rfl | (exfalso; omega)
  · intro h1 h2
    split_ifs <;> first | rfl | (exfalso; omega)
  · intro h1 h2 h3
    split_ifs <;> first | rfl | (exfalso; omega)
  · intro h1 h2
    split_ifs <;> first | rfl | (exfalso; omega)

theorem dentro_do_quadro_iff (X Y : Int) :
    dentro_do_quadro X Y ↔ 0 ≤ X ∧ X < 160 ∧ 0 ≤ Y ∧ Y < 120 := Iff.rfl

/-- The values of the cells of the cross that are cells of the frame. -/
theorem cruz_recortada (b : List Nat) (x y : Int) (hlen : b.length = 19200) (d : Int)
    (hd0 : -5 ≤ d) (hd1 : d ≤ 5) :
    (dentro_do_quadro x (y + d) →
      pixel (desenhar_cursor b x y IMG_WIDTH IMG_HEIGHT) x (y + d) = 255) ∧
    (dentro_do_quadro (x - 1) (y + d) →
      pixel (desenhar_cursor b x y IMG_WIDTH IMG_HEIGHT) (x - 1) (y + d) = 0) ∧
    (dentro_do_quadro (x + 1) (y + d) →
      pixel (desenhar_cursor b x y IMG_WIDTH IMG_HEIGHT) (x + 1) (y + d) = 0) ∧
    ((d ≤ -2 ∨ 2 ≤ d) →
      (dentro_do_quadro (x + d) y →
        pixel (desenhar_cursor b x y IMG_WIDTH IMG_HEIGHT) (x + d) y = 255) ∧
      (dentro_do_quadro (x + d) (y - 1) →
        pixel (desenhar_cursor b x y IMG_WIDTH IMG_HEIGHT) (x + d) (y - 1) = 0) ∧
      (dentro_do_quadro (x + d) (y + 1) →
        pixel (desenhar_cursor b x y IMG_WIDTH IMG_HEIGHT) (x + d) (y + 1) = 0)) := by
  refine ⟨fun hq => ?_, fun hq => ?_, fun hq => ?_, fun h2 => ⟨fun hq => ?_, fun hq => ?_,
    fun hq => ?_⟩⟩
  · exact (desenhar_cursor_valores b x y _ _ hlen hq).2.1 rfl (by omega) (by omega)
  · exact (desenhar_cursor_valores b x y _ _ hlen hq).2.2.2.1 (Or.inl rfl) (by omega) (by omega)
  · exact (desenhar_cursor_valores b x y _ _ hlen hq).2.2.2.1 (Or.inr rfl) (by omega) (by omega)
  · exact (desenhar_cursor_valores b x y _ _ hlen hq).2.2.1 rfl (by omega)
  · exact (desenhar_cursor_valores b x y _ _ hlen hq).2.2.2.2 (Or.inl rfl) (by omega)
  · exact (desenhar_cursor_valores b x y _ _ hlen hq).2.2.2.2 (Or.inr rfl) (by omega)

/-- C32 (cursor cross pixels). For every frame of 19200 bytes and every cursor
position `(x, y)`: (a) when `5 ≤ x ≤ 154` and `5 ≤ y ≤ 114`, after
`desenhar_cursor` the cells `(x, y + d)` hold 255 and the cells `(x - 1, y + d)`,
`(x + 1, y + d)` hold 0 for every `|d| ≤ 5`, and for `2 ≤ |d| ≤ 5` the cells
`(x + d, y)` hold 255 and the cells `(x + d, y - 1)`, `(x + d, y + 1)` hold 0;
(b) for every position, a cell of the frame outside the cross
`{|dx| ≤ 5, |dy| ≤ 1} ∪ {|dx| ≤ 1, |dy| ≤ 5}` keeps its value; (c) for every
position the cells of (a) that are cells of the frame hold the values of (a),
so near a side the same pattern appears clipped; (d) the frame keeps its
length and no store falls outside it. -/
theorem cruz_do_cursor (b : List Nat) (x y : Int) (hlen : b.length = 19200) :
    (5 ≤ x → x ≤ 154 → 5 ≤ y → y ≤ 114 →
      ∀ d : Int, -5 ≤ d → d ≤ 5 →
        pixel (desenhar_cursor b x y IMG_WIDTH IMG_HEIGHT) x (y + d) = 255 ∧
        pixel (desenhar_cursor b x y IMG_WIDTH IMG_HEIGHT) (x - 1) (y + d) = 0 ∧
        pixel (desenhar_cursor b x y IMG_WIDTH IMG_HEIGHT) (x + 1) (y + d) = 0 ∧
        ((d ≤ -2 ∨ 2 ≤ d) →
          pixel (desenhar_cursor b x y IMG_WIDTH IMG_HEIGHT) (x + d) y = 255 ∧
          pixel (desenhar_cursor b x y IMG_WIDTH IMG_HEIGHT) (x + d) (y - 1) = 0 ∧
          pixel (desenhar_cursor b x y IMG_WIDTH IMG_HEIGHT) (x + d) (y + 1) = 0)) ∧
    (∀ X Y : Int, dentro_do_quadro X Y → ¬ na_cruz x y X Y →
      pixel (desenhar_cursor b x y IMG_WIDTH IMG_HEIGHT) X Y = pixel b X Y) ∧
    (∀ d : Int, -5 ≤ d → d ≤ 5 →
      (dentro_do_quadro x (y + d) →
        pixel (desenhar_cursor b x y IMG_WIDTH IMG_HEIGHT) x (y + d) = 255) ∧
      (dentro_do_quadro (x - 1) (y + d) →
        pixel (desenhar_cursor b x y IMG_WIDTH IMG_HEIGHT) (x - 1) (y + d) = 0) ∧
      (dentro_do_quadro (x + 1) (y + d) →
        pixel (desenhar_cursor b x y IMG_WIDTH IMG_HEIGHT) (x + 1) (y + d) = 0) ∧
      ((d ≤ -2 ∨ 2 ≤ d) →
        (dentro_do_quadro (x + d) y →
          pixel (desenhar_cursor b x y IMG_WIDTH IMG_HEIGHT) (x + d) y = 255) ∧
        (dentro_do_quadro (x + d) (y - 1) →
          pixel (desenhar_cursor b x y IMG_WIDTH IMG_HEIGHT) (x + d) (y - 1) = 0) ∧
        (dentro_do_quadro (x + d) (y + 1) →
          pixel (desenhar_cursor b x y IMG_WIDTH IMG_HEIGHT) (x + d) (y + 1) = 0))) ∧
    (desenhar_cursor b x y IMG_WIDTH IMG_HEIGHT).length = b.length ∧
    desenhar_cursor_verificado b x y IMG_WIDTH IMG_HEIGHT
      = some (desenhar_cursor b x y IMG_WIDTH IMG_HEIGHT) := by
  refine ⟨?_, ?_, fun d hd0 hd1 => cruz_recortada b x y hlen d hd0 hd1,
    desenhar_cursor_length _ _ _ _ _, desenhar_cursor_verificado_eq b x y hlen⟩
  · intro hx0 hx1 hy0 hy1 d hd0 hd1
    obtain ⟨c1, c2, c3, c4⟩ := cruz_recortada b x y hlen d hd0 hd1
    refine ⟨c1 ?_, c2 ?_, c3 ?_, fun h2 => ⟨(c4 h2).1 ?_, (c4 h2).2.1 ?_, (c4 h2).2.2 ?_⟩⟩
    all_goals
      rw [dentro_do_quadro_iff]
      omega
  · intro X Y hq hn
    exact (desenhar_cursor_valores b x y X Y hlen hq).1 hn

/-- The cursor at (80, 60) on the all-black frame: the centre and the ends of
the two bars are white, their borders black, and the cell (86, 60) beyond the
horizontal bar keeps its value. -/
theorem cruz_do_cursor_exemplo :
    (List.replicate 19200 7).length = 19200 ∧
    pixel (desenhar_cursor (List.replicate 19200 7) 80 60 IMG_WIDTH IMG_HEIGHT) 80 60 = 255 ∧
    pixel (desenhar_cursor (List.replicate 19200 7) 80 60 IMG_WIDTH IMG_HEIGHT) 80 65 = 255 ∧
    pixel (desenhar_cursor (List.replicate 19200 7) 80 60 IMG_WIDTH IMG_HEIGHT) 85 60 = 255 ∧
    pixel (desenhar_cursor (List.replicate 19200 7) 80 60 IMG_WIDTH IMG_HEIGHT) 81 60 = 0 ∧
    pixel (desenhar_cursor (List.replicate 19200 7) 80 60 IMG_WIDTH IMG_HEIGHT) 85 61 = 0 ∧
    pixel (desenhar_cursor (List.replicate 19200 7) 80 60 IMG_WIDTH IMG_HEIGHT) 86 60
      = pixel (List.replicate 19200 7) 86 60 :=
  have hl : (List.replicate 19200 7).length = 19200 := List.length_replicate _ _
  have t := cruz_do_cursor (List.replicate 19200 7) 80 60 hl
  have h0 := t.1 (by decide) (by decide) (by decide) (by decide) 0 (by decide) (by decide)
  have h5 := t.1 (by decide) (by decide) (by decide) (by decide) 5 (by decide) (by decide)
  ⟨hl, h0.1, h5.1, (h5.2.2.2 (Or.inr (by decide))).1, h0.2.2.1,
    (h5.2.2.2 (Or.inr (by decide))).2.2,
    t.2.1 86 60 ⟨by decide, by decide, by decide, by decide⟩ (by unfold na_cruz; decide)⟩

/-! ## The corner marker -/

/-- The length of the arms for a phase that is not negative. -/
theorem tamanho_do_canto (fase : Int) (hf : 0 ≤ fase) :
    CORNER_SIZE + fase.tmod 4 = 8 + fase % 4 ∧ 8 ≤ CORNER_SIZE + fase.tmod 4 ∧
      CORNER_SIZE + fase.tmod 4 ≤ 11 := by
  have hC : CORNER_SIZE = 8 := rfl
  rw [hC, Int.tmod_eq_emod hf (by decide)]
  omega

/-- The phases `fase` and `fase + 4` give the same remainder. -/
theorem fase_mais_4 (fase : Int) (hf : 0 ≤ fase) : (fase + 4).tmod 4 = fase.tmod 4 := by
  rw [Int.tmod_eq_emod hf (by decide), Int.tmod_eq_emod (by omega) (by decide)]
  omega

/-- No store of `desenhar_cantos_animados` falls outside a frame of 19200 bytes. -/
theorem desenhar_cantos_animados_verificado_eq (b : List Nat) (x y fase : Int)
    (hlen : b.length = 19200) :
    desenhar_cantos_animados_verificado b x y IMG_WIDTH IMG_HEIGHT fase
      = some (desenhar_cantos_animados b x y IMG_WIDTH IMG_HEIGHT fase) := by
  have hW : (0 : Int) ≤ IMG_WIDTH := by decide
  unfold desenhar_cantos_animados_verificado desenhar_cantos_animados
  dsimp only
  rw [desenhar_linha_horizontal_verificado_eq _ _ _ _ _ _ _ hW (comprimento_do_quadro _ hlen),
    Option.some_bind,
    desenhar_linha_horizontal_verificado_eq _ _ _ _ _ _ _ hW
      (comprimento_do_quadro _ (by rw [desenhar_linha_horizontal_length]; exact hlen)),
    Option.some_bind,
    desenhar_linha_horizontal_verificado_eq _ _ _ _ _ _ _ hW
      (comprimento_do_quadro _ (by
        rw [desenhar_linha_horizontal_length, desenhar_linha_horizontal_length]; exact hlen)),
    Option.some_bind,
    desenhar_linha_vertical_verificado_eq _ _ _ _ _ _ _
      (comprimento_do_quadro _ (by
        rw [desenhar_linha_horizontal_length, desenhar_linha_horizontal_length,
          desenhar_linha_horizontal_length]; exact hlen)),
    Option.some_bind,
    desenhar_linha_vertical_verificado_eq _ _ _ _ _ _ _
      (comprimento_do_quadro _ (by
        rw [desenhar_linha_vertical_length, desenhar_linha_horizontal_length,
          desenhar_linha_horizontal_length, desenhar_linha_horizontal_length]; exact hlen)),
    Option.some_bind,
    desenhar_linha_vertical_verificado_eq _ _ _ _ _ _ _
      (comprimento_do_quadro _ (by
        rw [desenhar_linha_vertical_length, desenhar_linha_vertical_length,
          desenhar_linha_horizontal_length, desenhar_linha_horizontal_length,
          desenhar_linha_horizontal_length]; exact hlen)),
    Option.some_bind]
  by_cases hc : x ≥ 0 ∧ x < IMG_WIDTH ∧ y ≥ 0 ∧ y < IMG_HEIGHT
  · rw [if_pos hc, if_pos hc]
    obtain ⟨k0, k1⟩ := indice_no_buffer IMG_WIDTH IMG_HEIGHT x y hc.1 hc.2.1 hc.2.2.1 hc.2.2.2
    apply escrever_verificado_eq _ _ _ k0
    rw [comprimento_do_quadro _ (by
      rw [desenhar_linha_vertical_length, desenhar_linha_vertical_length,
        desenhar_linha_vertical_length, desenhar_linha_horizontal_length,
        desenhar_linha_horizontal_length, desenhar_linha_horizontal_length]; exact hlen)]
    exact k1
  · rw [if_neg hc, if_neg hc]

/-- The value `desenhar_cantos_animados` leaves in the cells of its two fill arms
and in the cells beyond the marker, for a phase that is not negative. -/
theorem desenhar_cantos_animados_valores (b : List Nat) (x y fase X Y : Int)
    (hlen : b.length = 19200) (hf : 0 ≤ fase) (hq : dentro_do_quadro X Y) :
    (Y = y → x + 2 ≤ X → X ≤ x + (8 + fase % 4) →
      pixel (desenhar_cantos_animados b x y IMG_WIDTH IMG_HEIGHT fase) X Y = 255) ∧
    (X = x → y ≤ Y → Y ≤ y + (8 + fase % 4) →
      pixel (desenhar_cantos_animados b x y IMG_WIDTH IMG_HEIGHT fase) X Y = 255) ∧
    (X = x + 1 → Y = y →
      pixel (desenhar_cantos_animados b x y IMG_WIDTH IMG_HEIGHT fase) X Y = 0) ∧
    ((x + (8 + fase % 4) < X ∨ y + (8 + fase % 4) < Y ∨ X < x - 1 ∨ Y < y - 1) →
      pixel (desenhar_cantos_animados b x y IMG_WIDTH IMG_HEIGHT fase) X Y = pixel b X Y) := by
  rw [desenhar_cantos_animados_pixel b x y fase X Y hq hlen, Int.tmod_eq_emod hf (by decide)]
  have hm0 : 0 ≤ fase % 4 := Int.emod_nonneg _ (by decide)
  have hm1 : fase % 4 < 4 := Int.emod_lt_of_pos _ (by decide)
  generalize fase % 4 = m at hm0 hm1 ⊢
  refine ⟨?_, ?_, ?_, ?_⟩
  · intro h1 h2 h3
    split_ifs <;> first | rfl | (exfalso; omega)
  · intro h1 h2 h3
    split_ifs <;> first | rfl | (exfalso; omega)
  · intro h1 h2
    split_ifs <;> first | rfl | (exfalso; omega)
  · intro h1
    split_ifs <;> first | rfl | (exfalso; omega)

/-- C33 (corner marker animation). For every frame of 19200 bytes, every
position `(x, y)` and every phase `fase ≥ 0`, with `t = 8 + fase mod 4` the
length of the arms of `desenhar_cantos_animados`: (a) `t` is the value
`CORNER_SIZE + fase % 4` of the code and lies in 8..11; (b) the cells
`(x + d, y)` with `2 ≤ d ≤ t` and the cells `(x, y + d)` with `0 ≤ d ≤ t` that
are cells of the frame hold 255, so the fill arms end at `(x + t, y)` and
`(x, y + t)`; the cell `(x + 1, y)` holds 0, the border of the vertical arm;
(c) no cell of the frame to the right of column `x + t`, below row `y + t`, to
the left of column `x - 1` or above row `y - 1` changes; (d) the centre
`(x, y)` holds 255 when it is a cell of the frame; (e) the phases `fase` and
`fase + 4` give the same frame; (f) the frame keeps its length and no store
falls outside it. -/
theorem animacao_do_canto (b : List Nat) (x y fase : Int) (hlen : b.length = 19200)
    (hf : 0 ≤ fase) :
    (CORNER_SIZE + fase.tmod 4 = 8 + fase % 4 ∧ 8 ≤ CORNER_SIZE + fase.tmod 4 ∧
      CORNER_SIZE + fase.tmod 4 ≤ 11) ∧
    (∀ d : Int, 2 ≤ d → d ≤ 8 + fase % 4 → dentro_do_quadro (x + d) y →
      pixel (desenhar_cantos_animados b x y IMG_WIDTH IMG_HEIGHT fase) (x + d) y = 255) ∧
    (∀ d : Int, 0 ≤ d → d ≤ 8 + fase % 4 → dentro_do_quadro x (y + d) →
      pixel (desenhar_cantos_animados b x y IMG_WIDTH IMG_HEIGHT fase) x (y + d) = 255) ∧
    (dentro_do_quadro (x + 1) y →
      pixel (desenhar_cantos_animados b x y IMG_WIDTH IMG_HEIGHT fase) (x + 1) y = 0) ∧
    (∀ X Y : Int, dentro_do_quadro X Y →
      (x + (8 + fase % 4) < X ∨ y + (8 + fase % 4) < Y ∨ X < x - 1 ∨ Y < y - 1) →
      pixel (desenhar_cantos_animados b x y IMG_WIDTH IMG_HEIGHT fase) X Y = pixel b X Y) ∧
    (dentro_do_quadro x y →
      pixel (desenhar_cantos_animados b x y IMG_WIDTH IMG_HEIGHT fase) x y = 255) ∧
    desenhar_cantos_animados b x y IMG_WIDTH IMG_HEIGHT (fase + 4)
      = desenhar_cantos_animados b x y IMG_WIDTH IMG_HEIGHT fase ∧
    (desenhar_cantos_animados b x y IMG_WIDTH IMG_HEIGHT fase).length = b.length ∧
    desenhar_cantos_animados_verificado b x y IMG_WIDTH IMG_HEIGHT fase
      = some (desenhar_cantos_animados b x y IMG_WIDTH IMG_HEIGHT fase) := by
  have hm0 : 0 ≤ fase % 4 := Int.emod_nonneg _ (by decide)
  refine ⟨tamanho_do_canto fase hf, ?_, ?_, ?_, ?_, ?_, ?_,
    desenhar_cantos_animados_length _ _ _ _ _ _,
    desenhar_cantos_animados_verificado_eq b x y fase hlen⟩
  · intro d hd0 hd1 hq
    exact (desenhar_cantos_animados_valores b x y fase _ _ hlen hf hq).1 rfl (by omega)
      (by omega)
  · intro d hd0 hd1 hq
    exact (desenhar_cantos_animados_valores b x y fase _ _ hlen hf hq).2.1 rfl (by omega)
      (by omega)
  · intro hq
    exact (desenhar_cantos_animados_valores b x y fase _ _ hlen hf hq).2.2.1 rfl rfl
  · intro X Y hq h
    exact (desenhar_cantos_animados_valores b x y fase X Y hlen hf hq).2.2.2 h
  · intro hq
    exact (desenhar_cantos_animados_valores b x y fase _ _ hlen hf hq).2.1 rfl (by omega)
      (by omega)
  · unfold desenhar_cantos_animados
    rw [fase_mais_4 fase hf]

/-- The marker at (10, 20) in phase 5 on a frame of sevens: the arms have
length 9, their last cells (19, 20) and (10, 29) and the centre are white, the
cell (20, 20) past the horizontal arm keeps its 7, and phase 9 gives the same
frame. -/
theorem animacao_do_canto_exemplo :
    (List.replicate 19200 7).length = 19200 ∧ (0 : Int) ≤ 5 ∧
    CORNER_SIZE + (5 : Int).tmod 4 = 9 ∧
    pixel (desenhar_cantos_animados (List.replicate 19200 7) 10 20 IMG_WIDTH IMG_HEIGHT 5)
      19 20 = 255 ∧
    pixel (desenhar_cantos_animados (List.replicate 19200 7) 10 20 IMG_WIDTH IMG_HEIGHT 5)
      10 29 = 255 ∧
    pixel (desenhar_cantos_animados (List.replicate 19200 7) 10 20 IMG_WIDTH IMG_HEIGHT 5)
      10 20 = 255 ∧
    pixel (desenhar_cantos_animados (List.replicate 19200 7) 10 20 IMG_WIDTH IMG_HEIGHT 5)
      20 20 = pixel (List.replicate 19200 7) 20 20 ∧
    desenhar_cantos_animados (List.replicate 19200 7) 10 20 IMG_WIDTH IMG_HEIGHT 9
      = desenhar_cantos_animados (List.replicate 19200 7) 10 20 IMG_WIDTH IMG_HEIGHT 5 :=
  have hl : (List.replicate 19200 7).length = 19200 := List.length_replicate _ _
  have t := animacao_do_canto (List.replicate 19200 7) 10 20 5 hl (by decide)
  ⟨hl, by decide, t.1.1,
    t.2.1 9 (by decide) (by decide) ⟨by decide, by decide, by decide, by decide⟩,
    t.2.2.1 9 (by decide) (by decide) ⟨by decide, by decide, by decide, by decide⟩,
    t.2.2.2.2.2.1 ⟨by decide, by decide, by decide, by decide⟩,
    t.2.2.2.2.1 20 20 ⟨by decide, by decide, by decide, by decide⟩ (Or.inl (by decide)),
    t.2.2.2.2.2.2.1⟩

/-! ## The overlays of the full-frame branch -/

/-- The render pass outside the region branch, for frames of 19200 bytes: the
working frame, the frame counter and the calls. -/
theorem processar_quadro_completo (amb : Ambiente) (e : EstadoApp) (fc : Int)
    (ho : e.imagem_original.length = 19200) (ha : e.imagem_atual.length = 19200)
    (h : ¬ (e.janela.ativo ≠ 0 ∧ e.janela.pontos_definidos = 2 ∧ e.nivel_zoom ≠ 1)) :
    (processar_com_algoritmo amb e fc).1.imagem_atual =
      desenhar_cursor
        (if e.janela.pontos_definidos = 1 then
          desenhar_cantos_animados e.imagem_original e.janela.x1 e.janela.y1
            IMG_WIDTH IMG_HEIGHT fc
        else e.imagem_original)
        e.mouse_x e.mouse_y IMG_WIDTH IMG_HEIGHT ∧
    (processar_com_algoritmo amb e fc).2.1 = (if e.janela.pontos_definidos = 1 then fc + 1 else fc) ∧
    (processar_com_algoritmo amb e fc).2.2 =
      Comando.carregar_imagem (processar_com_algoritmo amb e fc).1.imagem_atual IMG_SIZE
        :: despachar_completa e := by
  rw [processar_sem_regiao amb e fc h, copia_do_original _ _ ha ho]
  exact ⟨rfl, rfl, rfl⟩

/-- The working frame of the example state with one corner set, after a render pass. -/
theorem quadro_com_um_canto :
    (processar_com_algoritmo ambiente_exemplo estado_com_um_canto 0).1.imagem_atual =
      desenhar_cursor
        (desenhar_cantos_animados (List.replicate 19200 0) 10 20 IMG_WIDTH IMG_HEIGHT 0)
        100 100 IMG_WIDTH IMG_HEIGHT := by
  have h := (processar_quadro_completo ambiente_exemplo estado_com_um_canto 0
    (List.length_replicate _ _) (List.length_replicate _ _)
    (fun hc => absurd hc.2.1 (show ¬ ((1 : Int) = 2) by decide))).1
  rw [h]
  rfl

/-- The cell (100, 100) of the all-black frame after the marker at (10, 20) is
drawn with and without the cursor at (100, 100). -/
theorem pixel_do_cursor_com_um_canto :
    pixel (desenhar_cursor
        (desenhar_cantos_animados (List.replicate 19200 0) 10 20 IMG_WIDTH IMG_HEIGHT 0)
        100 100 IMG_WIDTH IMG_HEIGHT) 100 100 = 255 ∧
    pixel (desenhar_cantos_animados (List.replicate 19200 0) 10 20 IMG_WIDTH IMG_HEIGHT 0)
      100 100 = 0 := by
  have hq : dentro_do_quadro 100 100 := ⟨by decide, by decide, by decide, by decide⟩
  constructor
  · exact (desenhar_cursor_valores _ 100 100 100 100
      (by rw [desenhar_cantos_animados_length]; exact List.length_replicate _ _) hq).2.1
      rfl (by decide) (by decide)
  · rw [(desenhar_cantos_animados_valores (List.replicate 19200 0) 10 20 0 100 100
      (List.length_replicate _ _) (by decide) hq).2.2.2 (Or.inl (by decide))]
    exact pixel_quadro_preto 100 100

/-- C31, as the code refutes it: in the example state with the first corner
set at (10, 20) and the cursor at (100, 100), the working frame a render pass
produces and loads is not the original frame with only the marker drawn: its
cell (100, 100) holds the 255 of the cursor, where the marker alone leaves 0. -/
theorem cursor_desenhado_com_um_canto :
    estado_com_um_canto.janela.pontos_definidos = 1 ∧
    (processar_com_algoritmo ambiente_exemplo estado_com_um_canto 0).2.2 =
      [Comando.carregar_imagem
        (processar_com_algoritmo ambiente_exemplo estado_com_um_canto 0).1.imagem_atual IMG_SIZE,
        Comando.api_bypass] ∧
    (processar_com_algoritmo ambiente_exemplo estado_com_um_canto 0).1.imagem_atual ≠
      desenhar_cantos_animados estado_com_um_canto.imagem_original
        estado_com_um_canto.janela.x1 estado_com_um_canto.janela.y1 IMG_WIDTH IMG_HEIGHT 0 ∧
    pixel (processar_com_algoritmo ambiente_exemplo estado_com_um_canto 0).1.imagem_atual
      100 100 = 255 ∧
    pixel (desenhar_cantos_animados estado_com_um_canto.imagem_original
      estado_com_um_canto.janela.x1 estado_com_um_canto.janela.y1 IMG_WIDTH IMG_HEIGHT 0)
      100 100 = 0 := by
  have hc := (processar_quadro_completo ambiente_exemplo estado_com_um_canto 0
    (List.length_replicate _ _) (List.length_replicate _ _)
    (fun hc => absurd hc.2.1 (show ¬ ((1 : Int) = 2) by decide))).2.2
  have h255 : pixel (processar_com_algoritmo ambiente_exemplo estado_com_um_canto 0).1.imagem_atual
      100 100 = 255 := by
    rw [quadro_com_um_canto]
    exact pixel_do_cursor_com_um_canto.1
  have h0 : pixel (desenhar_cantos_animados estado_com_um_canto.imagem_original
      estado_com_um_canto.janela.x1 estado_com_um_canto.janela.y1 IMG_WIDTH IMG_HEIGHT 0)
      100 100 = 0 := pixel_do_cursor_com_um_canto.2
  refine ⟨rfl, ?_, ?_, h255, h0⟩
  · rw [hc]
    have hd : despachar_completa estado_com_um_canto = [Comando.api_bypass] := by
      unfold despachar_completa
      exact if_pos rfl
    rw [hd]
  · intro he
    rw [he, h0] at h255
    exact absurd h255 (by decide)

/-- C31 (overlays of the full-frame branch), amended. For every state whose two
frames have 19200 bytes: (a) with `pontos_definidos = 1` the working frame a
render pass produces is the original frame with the animated corner marker
drawn at corner 1 and then the cursor cross drawn over it at
`(mouse_x, mouse_y)`, so the cell under the cursor holds 255; the frame counter
advances by one; (b) with `pontos_definidos = 0` the working frame is the
original frame with only the cursor drawn and the frame counter stays; (c) in
both cases the pass loads that working frame, whole, and then runs the chain
of tests of the full-frame branch. -/
theorem passada_com_um_canto (amb : Ambiente) (estado : EstadoApp) (frame_counter : Int)
    (ho : estado.imagem_original.length = 19200) (ha : estado.imagem_atual.length = 19200) :
    (estado.janela.pontos_definidos = 1 →
      (processar_com_algoritmo amb estado frame_counter).1.imagem_atual =
        desenhar_cursor
          (desenhar_cantos_animados estado.imagem_original estado.janela.x1 estado.janela.y1
            IMG_WIDTH IMG_HEIGHT frame_counter)
          estado.mouse_x estado.mouse_y IMG_WIDTH IMG_HEIGHT ∧
      (dentro_do_quadro estado.mouse_x estado.mouse_y →
        pixel (processar_com_algoritmo amb estado frame_counter).1.imagem_atual
          estado.mouse_x estado.mouse_y = 255) ∧
      (processar_com_algoritmo amb estado frame_counter).2.1 = frame_counter + 1) ∧
    (estado.janela.pontos_definidos = 0 →
      (processar_com_algoritmo amb estado frame_counter).1.imagem_atual =
        desenhar_cursor estado.imagem_original estado.mouse_x estado.mouse_y
          IMG_WIDTH IMG_HEIGHT ∧
      (processar_com_algoritmo amb estado frame_counter).2.1 = frame_counter) ∧
    ((estado.janela.pontos_definidos = 1 ∨ estado.janela.pontos_definidos = 0) →
      (processar_com_algoritmo amb estado frame_counter).2.2 =
        Comando.carregar_imagem (processar_com_algoritmo amb estado frame_counter).1.imagem_atual
          IMG_SIZE :: despachar_completa estado) := by
  refine ⟨fun h1 => ?_, fun h0 => ?_, fun h => ?_⟩
  · have hn : ¬ (estado.janela.ativo ≠ 0 ∧ estado.janela.pontos_definidos = 2 ∧
        estado.nivel_zoom ≠ 1) := by
      rintro ⟨_, h2, _⟩
      rw [h1] at h2
      exact absurd h2 (by decide)
    obtain ⟨c1, c2, _⟩ := processar_quadro_completo amb estado frame_counter ho ha hn
    rw [if_pos h1] at c1 c2
    refine ⟨c1, fun hq => ?_, c2⟩
    rw [c1]
    exact (desenhar_cursor_valores _ _ _ _ _
      (by rw [desenhar_cantos_animados_length]; exact ho) hq).2.1 rfl (by omega) (by omega)
  · have hn : ¬ (estado.janela.ativo ≠ 0 ∧ estado.janela.pontos_definidos = 2 ∧
        estado.nivel_zoom ≠ 1) := by
      rintro ⟨_, h2, _⟩
      rw [h0] at h2
      exact absurd h2 (by decide)
    obtain ⟨c1, c2, _⟩ := processar_quadro_completo amb estado frame_counter ho ha hn
    have h1 : ¬ estado.janela.pontos_definidos = 1 := by
      rw [h0]
      decide
    rw [if_neg h1] at c1 c2
    exact ⟨c1, c2⟩
  · have hn : ¬ (estado.janela.ativo ≠ 0 ∧ estado.janela.pontos_definidos = 2 ∧
        estado.nivel_zoom ≠ 1) := by
      rintro ⟨_, h2, _⟩
      rcases h with h | h <;> rw [h] at h2 <;> exact absurd h2 (by decide)
    exact (processar_quadro_completo amb estado frame_counter ho ha hn).2.2

/-- The render pass on the example state with one corner set: the working frame
is the marker with the cursor over it, the cell under the cursor is white and
the frame counter goes from 0 to 1. -/
theorem passada_com_um_canto_exemplo :
    estado_com_um_canto.imagem_original.length = 19200 ∧
    estado_com_um_canto.imagem_atual.length = 19200 ∧
    estado_com_um_canto.janela.pontos_definidos = 1 ∧
    dentro_do_quadro estado_com_um_canto.mouse_x estado_com_um_canto.mouse_y ∧
    pixel (processar_com_algoritmo ambiente_exemplo estado_com_um_canto 0).1.imagem_atual
      estado_com_um_canto.mouse_x estado_com_um_canto.mouse_y = 255 ∧
    (processar_com_algoritmo ambiente_exemplo estado_com_um_canto 0).2.1 = 0 + 1 :=
  have ho : estado_com_um_canto.imagem_original.length = 19200 := List.length_replicate _ _
  have ha : estado_com_um_canto.imagem_atual.length = 19200 := List.length_replicate _ _
  have hq : dentro_do_quadro estado_com_um_canto.mouse_x estado_com_um_canto.mouse_y :=
    ⟨by decide, by decide, by decide, by decide⟩
  have t := (passada_com_um_canto ambiente_exemplo estado_com_um_canto 0 ho ha).1 rfl
  ⟨ho, ha, rfl, hq, t.2.1 hq, t.2.2⟩

/-! ## The bound selection -/

/-- A render pass keeps a selection whose corners are in order. -/
theorem janela_processar (amb : Ambiente) (e : EstadoApp) (fc : Int)
    (hx : e.janela.x1 ≤ e.janela.x2) (hy : e.janela.y1 ≤ e.janela.y2) :
    (processar_com_algoritmo amb e fc).1.janela = e.janela := by
  rw [processar_janela]
  split
  · exact normalizar_janela_ordenada _ hx hy
  · rfl

theorem janela_chamar_processar (amb : Ambiente) (l : Laco)
    (hx : l.estado.janela.x1 ≤ l.estado.janela.x2)
    (hy : l.estado.janela.y1 ≤ l.estado.janela.y2) :
    (chamar_processar amb l).estado.janela = l.estado.janela := by
  rw [chamar_processar_estado]
  exact janela_processar amb l.estado l.frame_counter hx hy

/-- A third press of the left button changes nothing. -/
theorem tratar_evento_terceiro_clique (l : Laco) (h2 : l.estado.janela.pontos_definidos = 2) :
    tratar_evento clique l = l := by
  rw [tratar_evento_clique]
  split
  · rfl
  · rw [if_neg (by rw [h2]; decide), if_neg (by rw [h2]; decide)]

/-- No event changes a selection with two corners. -/
theorem janela_tratar_evento (ev : input_event) (l : Laco)
    (h2 : l.estado.janela.pontos_definidos = 2) :
    (tratar_evento ev l).estado.janela = l.estado.janela := by
  unfold tratar_evento
  split
  · split
    · rfl
    · split <;> rfl
  · split
    · split
      · rfl
      · rw [if_neg (by rw [h2]; decide), if_neg (by rw [h2]; decide)]
    · rfl

theorem janela_eventos (evs : List input_event) :
    ∀ l : Laco, l.estado.janela.pontos_definidos = 2 →
      (evs.foldl (fun l ev => tratar_evento ev l) l).estado.janela = l.estado.janela := by
  induction evs with
  | nil => intro l _; rfl
  | cons ev evs ih =>
    intro l h2
    rw [List.foldl_cons, ih _ (by rw [janela_tratar_evento ev l h2]; exact h2),
      janela_tratar_evento ev l h2]

/-- A reload that returns 0 leaves the state as it was. -/
theorem carregar_nova_imagem_falhou (amb : Ambiente) (linha : Option (List Char))
    (arquivos : List Char → Option (List Nat)) (estado : EstadoApp)
    (h : (carregar_nova_imagem amb linha arquivos estado).1 = 0) :
    (carregar_nova_imagem amb linha arquivos estado).2.1 = estado := by
  unfold carregar_nova_imagem at h ⊢
  split
  · rfl
  · dsimp only at h ⊢
    split
    · rfl
    · split
      · rfl
      · split
        · rfl
        · rename_i c1 c2 c3
          rw [if_neg c1, if_neg c2, if_neg c3] at h
          exact absurd h (show ¬ ((1 : Int) = 0) by decide)

/-- The value a reload returns does not depend on the state. -/
theorem carregar_nova_imagem_codigo (amb : Ambiente) (linha : Option (List Char))
    (arquivos : List Char → Option (List Nat)) (e1 e2 : EstadoApp) :
    (carregar_nova_imagem amb linha arquivos e1).1
      = (carregar_nova_imagem amb linha arquivos e2).1 := by
  unfold carregar_nova_imagem
  split
  · rfl
  · dsimp only
    split
    · rfl
    · split
      · rfl
      · split <;> rfl

/-- A key other than the reset and the reload that succeeds keeps a selection
whose corners are in order. -/
theorem janela_tratar_tecla (e : Entrada) (tecla : Char) (l : Laco)
    (hx : l.estado.janela.x1 ≤ l.estado.janela.x2)
    (hy : l.estado.janela.y1 ≤ l.estado.janela.y2)
    (hr : ¬ (tecla = 'r' ∨ tecla = 'R'))
    (hl : (tecla = 'l' ∨ tecla = 'L') →
      (carregar_nova_imagem e.amb e.linha e.arquivos l.estado).1 = 0) :
    (tratar_tecla e tecla l).estado.janela = l.estado.janela := by
  unfold tratar_tecla
  split
  · split
    · split
      · exact janela_chamar_processar e.amb _ hx hy
      · rfl
    · rfl
  · split
    · split
      · split
        · exact janela_chamar_processar e.amb _ hx hy
        · rfl
      · rfl
    · split
      · exact janela_chamar_processar e.amb _ hx hy
      · split
        · dsimp only
          split
          · exact janela_chamar_processar e.amb _ hx hy
          · exact janela_chamar_processar e.amb _ hx hy
        · split
          · dsimp only
            split
            · exact janela_chamar_processar e.amb _ hx hy
            · exact janela_chamar_processar e.amb _ hx hy
          · split
            · rename_i hk
              dsimp only
              rw [carregar_nova_imagem_falhou _ _ _ _ (hl hk)]
            · split <;> rfl

theorem janela_processar_eventos (e : Entrada) (l : Laco)
    (h2 : l.estado.janela.pontos_definidos = 2) :
    (processar_eventos e l).estado.janela = l.estado.janela := by
  unfold processar_eventos
  split
  · exact janela_eventos _ l h2
  · rfl

theorem janela_atualizar_ao_mover (e : Entrada) (l : Laco)
    (hx : l.estado.janela.x1 ≤ l.estado.janela.x2)
    (hy : l.estado.janela.y1 ≤ l.estado.janela.y2) :
    (atualizar_ao_mover e l).estado.janela = l.estado.janela := by
  unfold atualizar_ao_mover
  split
  · dsimp only
    split
    · exact janela_chamar_processar e.amb l hx hy
    · rfl
  · rfl

theorem janela_animar_primeiro_canto (e : Entrada) (l : Laco)
    (h2 : l.estado.janela.pontos_definidos = 2) :
    animar_primeiro_canto e l = l := by
  unfold animar_primeiro_canto
  rw [if_neg]
  rintro ⟨h1, _⟩
  rw [h2] at h1
  exact absurd h1 (by decide)

theorem janela_iteracao (e : Entrada) (l : Laco) (h2 : l.estado.janela.pontos_definidos = 2)
    (hx : l.estado.janela.x1 ≤ l.estado.janela.x2)
    (hy : l.estado.janela.y1 ≤ l.estado.janela.y2) (hs : sem_reset_nem_recarga e) :
    (iteracao e l).estado.janela = l.estado.janela := by
  have e1 := janela_processar_eventos e l h2
  have e2 := janela_atualizar_ao_mover e (processar_eventos e l) (by rw [e1]; exact hx)
    (by rw [e1]; exact hy)
  have e3 := janela_animar_primeiro_canto e (atualizar_ao_mover e (processar_eventos e l))
    (by rw [e2, e1]; exact h2)
  unfold iteracao
  rw [e3]
  unfold processar_tecla
  split
  · rw [e2, e1]
  · rename_i tecla ht
    obtain ⟨r1, r2, r3⟩ := hs tecla ht
    rw [janela_tratar_tecla e tecla _ (by rw [e2, e1]; exact hx) (by rw [e2, e1]; exact hy)
      (by
        rintro (h | h)
        · exact r1 h
        · exact r2 h)
      (fun hk => r3 hk _), e2, e1]

theorem janela_executar (es : List Entrada) :
    ∀ l : Laco, l.estado.janela.pontos_definidos = 2 →
      l.estado.janela.x1 ≤ l.estado.janela.x2 → l.estado.janela.y1 ≤ l.estado.janela.y2 →
      (∀ e ∈ es, sem_reset_nem_recarga e) →
      (executar es l).estado.janela = l.estado.janela := by
  induction es with
  | nil => intro l _ _ _ _; rfl
  | cons e es ih =>
    intro l h2 hx hy hs
    have e1 := janela_iteracao e l h2 hx hy (hs e (List.mem_cons_self _ _))
    unfold executar
    split
    · rw [ih (iteracao e l) (by rw [e1]; exact h2) (by rw [e1]; exact hx)
        (by rw [e1]; exact hy) (fun e' he' => hs e' (List.mem_cons_of_mem _ he')), e1]
    · rfl

/-- C36 (a bound selection is stable). A selection with two corners has them in
order in every state the loop reaches. In every state with
`pontos_definidos = 2` and the corners in order: a press of the left button
leaves the whole state of the loop as it was, at any zoom level, so a third
click does not start a new selection; every event (a click, a move of the
pointer, any other) leaves the selection (corners, `pontos_definidos`, `ativo`)
as it was; so does a render pass, and so does every key other than `r`, `R`
(zoom steps, switches of algorithm, `q`, any other key), the keys `l`, `L`
included when the reload returns 0. Hence a whole turn of the loop, and any
number of turns, whose key is not a reset or a reload that succeeds,
leaves the selection as it was. -/
theorem selecao_definida_estavel (l : Laco) (h2 : l.estado.janela.pontos_definidos = 2)
    (hx : l.estado.janela.x1 ≤ l.estado.janela.x2)
    (hy : l.estado.janela.y1 ≤ l.estado.janela.y2) :
    (∀ s : Laco, Alcancavel s → s.estado.janela.pontos_definidos = 2 →
      s.estado.janela.x1 ≤ s.estado.janela.x2 ∧ s.estado.janela.y1 ≤ s.estado.janela.y2) ∧
    tratar_evento clique l = l ∧
    (∀ ev : input_event, (tratar_evento ev l).estado.janela = l.estado.janela) ∧
    (∀ amb : Ambiente, (chamar_processar amb l).estado.janela = l.estado.janela) ∧
    (∀ (e : Entrada) (tecla : Char), tecla ≠ 'r' → tecla ≠ 'R' →
      ((tecla = 'l' ∨ tecla = 'L') →
        (carregar_nova_imagem e.amb e.linha e.arquivos l.estado).1 = 0) →
      (tratar_tecla e tecla l).estado.janela = l.estado.janela) ∧
    (∀ e : Entrada, sem_reset_nem_recarga e →
      (iteracao e l).estado.janela = l.estado.janela) ∧
    (∀ es : List Entrada, (∀ e ∈ es, sem_reset_nem_recarga e) →
      (executar es l).estado.janela = l.estado.janela) := by
  refine ⟨fun s hs hp => (alcancavel_invariantes s hs).1.2.2 hp,
    tratar_evento_terceiro_clique l h2, fun ev => janela_tratar_evento ev l h2,
    fun amb => janela_chamar_processar amb l hx hy, ?_,
    fun e hs => janela_iteracao e l h2 hx hy hs,
    fun es hs => janela_executar es l h2 hx hy hs⟩
  intro e tecla r1 r2 hl
  exact janela_tratar_tecla e tecla l hx hy
    (by
      rintro (h | h)
      · exact r1 h
      · exact r2 h) hl

/-- The selection bound to (10, 20) and (50, 60) at zoom 2: a click changes
nothing, and the selection is the same after a zoom step, after a switch of
algorithm and after a turn of the loop with a click and the key `+`. -/
theorem selecao_definida_estavel_exemplo :
    (laco_com_selecao ALG_VIZINHO_PROXIMO 2).estado.janela.pontos_definidos = 2 ∧
    (laco_com_selecao ALG_VIZINHO_PROXIMO 2).estado.janela.x1
      ≤ (laco_com_selecao ALG_VIZINHO_PROXIMO 2).estado.janela.x2 ∧
    (laco_com_selecao ALG_VIZINHO_PROXIMO 2).estado.janela.y1
      ≤ (laco_com_selecao ALG_VIZINHO_PROXIMO 2).estado.janela.y2 ∧
    tratar_evento clique (laco_com_selecao ALG_VIZINHO_PROXIMO 2)
      = laco_com_selecao ALG_VIZINHO_PROXIMO 2 ∧
    (tratar_tecla (entrada_exemplo [] none) '-' (laco_com_selecao ALG_VIZINHO_PROXIMO 2)).estado.janela
      = (laco_com_selecao ALG_VIZINHO_PROXIMO 2).estado.janela ∧
    (tratar_tecla (entrada_exemplo [] none) '3' (laco_com_selecao ALG_VIZINHO_PROXIMO 2)).estado.janela
      = (laco_com_selecao ALG_VIZINHO_PROXIMO 2).estado.janela ∧
    (iteracao (entrada_exemplo [clique] (some '+'))
        (laco_com_selecao ALG_VIZINHO_PROXIMO 2)).estado.janela
      = (laco_com_selecao ALG_VIZINHO_PROXIMO 2).estado.janela :=
  have h2 : (laco_com_selecao ALG_VIZINHO_PROXIMO 2).estado.janela.pontos_definidos = 2 := rfl
  have hx : (laco_com_selecao ALG_VIZINHO_PROXIMO 2).estado.janela.x1
      ≤ (laco_com_selecao ALG_VIZINHO_PROXIMO 2).estado.janela.x2 := by decide
  have hy : (laco_com_selecao ALG_VIZINHO_PROXIMO 2).estado.janela.y1
      ≤ (laco_com_selecao ALG_VIZINHO_PROXIMO 2).estado.janela.y2 := by decide
  have t := selecao_definida_estavel (laco_com_selecao ALG_VIZINHO_PROXIMO 2) h2 hx hy
  ⟨h2, hx, hy, t.2.1,
    t.2.2.2.2.1 (entrada_exemplo [] none) '-' (by decide) (by decide)
      (fun h => absurd h (by decide)),
    t.2.2.2.2.1 (entrada_exemplo [] none) '3' (by decide) (by decide)
      (fun h => absurd h (by decide)),
    t.2.2.2.2.2.1 (entrada_exemplo [clique] (some '+'))
      (fun tecla ht => by
        cases ht
        exact ⟨by decide, by decide, fun h => absurd h (by decide)⟩)⟩

/-! ## The region sent and the outline drawn -/

/-- Two frames of 19200 bytes with the same pixels are the same frame. -/
theorem quadro_ext (a b : List Nat) (ha : a.length = 19200) (hb : b.length = 19200)
    (h : ∀ X Y : Int, dentro_do_quadro X Y → pixel a X Y = pixel b X Y) : a = b := by
  apply List.ext_getElem (by rw [ha, hb])
  intro n h1 h2
  have hq : dentro_do_quadro ((n : Int) % 160) ((n : Int) / 160) := by
    rw [dentro_do_quadro_iff]
    omega
  have hp := h _ _ hq
  unfold pixel ler at hp
  have hk : ((n : Int) / 160) * IMG_WIDTH + (n : Int) % 160 = (n : Int) := by
    have hW : IMG_WIDTH = 160 := rfl
    rw [hW]
    omega
  rw [hk, if_pos (by omega), if_pos (by omega), Int.toNat_ofNat,
    List.getD_eq_getElem _ _ h1, List.getD_eq_getElem _ _ h2] at hp
  exact hp

theorem despachar_regiao_campos (e f : EstadoApp) (hz : e.nivel_zoom = f.nivel_zoom)
    (ha : e.algoritmo = f.algoritmo) : despachar_regiao e = despachar_regiao f := by
  unfold despachar_regiao
  rw [hz, ha]

/-- The calls of the region branch on a selection in order. -/
theorem processar_regiao_comandos (amb : Ambiente) (e : EstadoApp) (fc : Int)
    (hr : e.janela.ativo ≠ 0 ∧ e.janela.pontos_definidos = 2 ∧ e.nivel_zoom ≠ 1)
    (hx : e.janela.x1 ≤ e.janela.x2) (hy : e.janela.y1 ≤ e.janela.y2) :
    (processar_com_algoritmo amb e fc).2.2 =
      if amb.malloc_regiao = true ∧ amb.malloc_temporario = true then
        Comando.carregar_imagem (quadro_da_regiao amb e.imagem_original e.janela) IMG_SIZE
          :: despachar_regiao e
      else [] := by
  rw [processar_comandos, if_pos hr, normalizar_janela_ordenada _ hx hy]
  split
  · rw [despachar_regiao_campos _ e rfl rfl]
    rfl
  · rfl

/-- The frame of the region branch depends on the original frame through the
cells of `[x1, x2) x [y1, y2)` only. -/
theorem quadro_da_regiao_congr (amb : Ambiente) (io io2 : List Nat) (j : JanelaZoom)
    (hx0 : 0 ≤ j.x1) (hx1 : j.x1 ≤ j.x2) (hx2 : j.x2 ≤ 159) (hy0 : 0 ≤ j.y1)
    (hy1 : j.y1 ≤ j.y2) (hy2 : j.y2 ≤ 119)
    (h : iguais_na_regiao io io2 j.x1 j.y1 j.x2 j.y2) :
    quadro_da_regiao amb io2 j = quadro_da_regiao amb io j := by
  apply quadro_ext _ _ (quadro_da_regiao_length _ _ _) (quadro_da_regiao_length _ _ _)
  intro X Y hq
  rw [quadro_da_regiao_pixel amb io2 j hx0 hx1 hx2 hy0 hy1 hy2 X Y hq,
    quadro_da_regiao_pixel amb io j hx0 hx1 hx2 hy0 hy1 hy2 X Y hq]
  split
  · rename_i hc
    exact (h _ _ (by omega) (by omega) (by omega) (by omega)).symm
  · rfl

/-- The frame of the region branch for a selection of no width or no height. -/
theorem quadro_da_regiao_vazio (amb : Ambiente) (io : List Nat) (j : JanelaZoom)
    (hx0 : 0 ≤ j.x1) (hx1 : j.x1 ≤ j.x2) (hx2 : j.x2 ≤ 159) (hy0 : 0 ≤ j.y1)
    (hy1 : j.y1 ≤ j.y2) (hy2 : j.y2 ≤ 119) (hv : j.x1 = j.x2 ∨ j.y1 = j.y2) :
    quadro_da_regiao amb io j = List.replicate 19200 0 := by
  apply quadro_ext _ _ (quadro_da_regiao_length _ _ _) (List.length_replicate _ _)
  intro X Y hq
  rw [quadro_da_regiao_pixel amb io j hx0 hx1 hx2 hy0 hy1 hy2 X Y hq, pixel_quadro_preto,
    if_neg]
  rintro ⟨h1, h2, h3, h4⟩
  rcases hv with hv | hv
  · omega
  · omega

/-- The far sides of the outline: the cells of row `y2` and of column `x2` of the
closed rectangle, and those of row `y1` and column `x1`, are set by
`desenhar_retangulo`. -/
theorem desenhar_retangulo_lados (b : List Nat) (hlen : b.length = 19200)
    (x1 y1 x2 y2 : Int) (hx0 : 0 ≤ x1) (hx1 : x1 ≤ x2) (hx2 : x2 ≤ 159) (hy0 : 0 ≤ y1)
    (hy1 : y1 ≤ y2) (hy2 : y2 ≤ 119) :
    (∀ X : Int, x1 ≤ X → X ≤ x2 →
      pixel (desenhar_retangulo b x1 y1 x2 y2 IMG_WIDTH IMG_HEIGHT) X y2 = 255 ∧
      pixel (desenhar_retangulo b x1 y1 x2 y2 IMG_WIDTH IMG_HEIGHT) X y1 = 255) ∧
    (∀ Y : Int, y1 ≤ Y → Y ≤ y2 →
      pixel (desenhar_retangulo b x1 y1 x2 y2 IMG_WIDTH IMG_HEIGHT) x2 Y = 255 ∧
      pixel (desenhar_retangulo b x1 y1 x2 y2 IMG_WIDTH IMG_HEIGHT) x1 Y = 255) := by
  have hmx : min x1 x2 = x1 := min_eq_left hx1
  have hMx : max x1 x2 = x2 := max_eq_right hx1
  have hmy : min y1 y2 = y1 := min_eq_left hy1
  have hMy : max y1 y2 = y2 := max_eq_right hy1
  constructor
  · intro X h1 h2
    constructor
    · apply (desenhar_retangulo_pixel b hlen x1 y1 x2 y2 X y2
        ((dentro_do_quadro_iff _ _).2 ⟨by omega, by omega, by omega, by omega⟩)).1
      unfold coberto_pelos_segmentos
      rw [hmx, hMx, hmy, hMy]
      exact Or.inl ⟨Or.inr (Or.inr (Or.inl rfl)), h1, h2⟩
    · apply (desenhar_retangulo_pixel b hlen x1 y1 x2 y2 X y1
        ((dentro_do_quadro_iff _ _).2 ⟨by omega, by omega, by omega, by omega⟩)).1
      unfold coberto_pelos_segmentos
      rw [hmx, hMx, hmy, hMy]
      exact Or.inl ⟨Or.inl rfl, h1, h2⟩
  · intro Y h1 h2
    constructor
    · apply (desenhar_retangulo_pixel b hlen x1 y1 x2 y2 x2 Y
        ((dentro_do_quadro_iff _ _).2 ⟨by omega, by omega, by omega, by omega⟩)).1
      unfold coberto_pelos_segmentos
      rw [hmx, hMx, hmy, hMy]
      exact Or.inr ⟨Or.inr (Or.inr (Or.inl rfl)), h1, h2⟩
    · apply (desenhar_retangulo_pixel b hlen x1 y1 x2 y2 x1 Y
        ((dentro_do_quadro_iff _ _).2 ⟨by omega, by omega, by omega, by omega⟩)).1
      unfold coberto_pelos_segmentos
      rw [hmx, hMx, hmy, hMy]
      exact Or.inr ⟨Or.inl rfl, h1, h2⟩

/-- C37 (half-open extraction, closed outline). For every state with
`ativo = 1`, `pontos_definidos = 2`, corners in order and inside the frame, a
zoom other than 1 and two frames of 19200 bytes, with `w = x2 - x1`,
`h = y2 - y1`, `ox = (160 - w) / 2`, `oy = (120 - h) / 2`: (a) the render pass
sends the frame `quadro_da_regiao` and then runs the chain of the region
branch, and sends nothing when one of the two allocations fails; (b) that
frame holds original pixel `(sx, sy)` at `(ox + sx - x1, oy + sy - y1)` for
every `(sx, sy)` of `[x1, x2) x [y1, y2)` and 0 in every other cell; (c) the
calls of the pass are the same for any other original frame that agrees with
this one on `[x1, x2) x [y1, y2)`, so no pixel of column `x2` or of row `y2`
reaches the frame sent; (d) the working frame is the original with the outline
of `desenhar_retangulo`, which sets the cells of rows `y1`, `y2` between columns
`x1` and `x2` and of columns `x1`, `x2` between rows `y1` and `y2`, the far
sides of the closed rectangle included; (e) when `x1 = x2` or `y1 = y2` the
frame sent is entirely zero. -/
theorem regiao_semiaberta (amb : Ambiente) (estado : EstadoApp) (frame_counter : Int)
    (hat : estado.janela.ativo = 1) (hp : estado.janela.pontos_definidos = 2)
    (hx : 0 ≤ estado.janela.x1 ∧ estado.janela.x1 ≤ estado.janela.x2 ∧ estado.janela.x2 ≤ 159)
    (hy : 0 ≤ estado.janela.y1 ∧ estado.janela.y1 ≤ estado.janela.y2 ∧ estado.janela.y2 ≤ 119)
    (hz : estado.nivel_zoom ≠ 1)
    (ho : estado.imagem_original.length = 19200) (ha : estado.imagem_atual.length = 19200) :
    (processar_com_algoritmo amb estado frame_counter).2.2 =
      (if amb.malloc_regiao = true ∧ amb.malloc_temporario = true then
        Comando.carregar_imagem (quadro_da_regiao amb estado.imagem_original estado.janela)
          IMG_SIZE :: despachar_regiao estado
      else []) ∧
    (∀ sx sy : Int, estado.janela.x1 ≤ sx → sx < estado.janela.x2 →
      estado.janela.y1 ≤ sy → sy < estado.janela.y2 →
      pixel (quadro_da_regiao amb estado.imagem_original estado.janela)
        ((160 - (estado.janela.x2 - estado.janela.x1)) / 2 + (sx - estado.janela.x1))
        ((120 - (estado.janela.y2 - estado.janela.y1)) / 2 + (sy - estado.janela.y1))
        = pixel estado.imagem_original sx sy) ∧
    (∀ X Y : Int, dentro_do_quadro X Y →
      ¬ ((160 - (estado.janela.x2 - estado.janela.x1)) / 2 ≤ X ∧
        X < (160 - (estado.janela.x2 - estado.janela.x1)) / 2
          + (estado.janela.x2 - estado.janela.x1) ∧
        (120 - (estado.janela.y2 - estado.janela.y1)) / 2 ≤ Y ∧
        Y < (120 - (estado.janela.y2 - estado.janela.y1)) / 2
          + (estado.janela.y2 - estado.janela.y1)) →
      pixel (quadro_da_regiao amb estado.imagem_original estado.janela) X Y = 0) ∧
    (∀ io2 : List Nat,
      iguais_na_regiao estado.imagem_original io2 estado.janela.x1 estado.janela.y1
        estado.janela.x2 estado.janela.y2 →
      (processar_com_algoritmo amb { estado with imagem_original := io2 } frame_counter).2.2
        = (processar_com_algoritmo amb estado frame_counter).2.2) ∧
    ((processar_com_algoritmo amb estado frame_counter).1.imagem_atual
        = desenhar_retangulo estado.imagem_original estado.janela.x1 estado.janela.y1
          estado.janela.x2 estado.janela.y2 IMG_WIDTH IMG_HEIGHT ∧
      (∀ X : Int, estado.janela.x1 ≤ X → X ≤ estado.janela.x2 →
        pixel (processar_com_algoritmo amb estado frame_counter).1.imagem_atual
          X estado.janela.y2 = 255 ∧
        pixel (processar_com_algoritmo amb estado frame_counter).1.imagem_atual
          X estado.janela.y1 = 255) ∧
      (∀ Y : Int, estado.janela.y1 ≤ Y → Y ≤ estado.janela.y2 →
        pixel (processar_com_algoritmo amb estado frame_counter).1.imagem_atual
          estado.janela.x2 Y = 255 ∧
        pixel (processar_com_algoritmo amb estado frame_counter).1.imagem_atual
          estado.janela.x1 Y = 255)) ∧
    ((estado.janela.x1 = estado.janela.x2 ∨ estado.janela.y1 = estado.janela.y2) →
      quadro_da_regiao amb estado.imagem_original estado.janela = List.replicate 19200 0) := by
  have hW : IMG_WIDTH = 160 := rfl
  have hH : IMG_HEIGHT = 120 := rfl
  have hr : estado.janela.ativo ≠ 0 ∧ estado.janela.pontos_definidos = 2 ∧
      estado.nivel_zoom ≠ 1 := ⟨by rw [hat]; decide, hp, hz⟩
  have hn : normalizar_janela estado.janela = estado.janela :=
    normalizar_janela_ordenada _ hx.2.1 hy.2.1
  have hox : (IMG_WIDTH - (estado.janela.x2 - estado.janela.x1)).tdiv 2
      = (160 - (estado.janela.x2 - estado.janela.x1)) / 2 := by
    rw [hW]
    exact Int.tdiv_eq_ediv (by omega) (by decide)
  have hoy : (IMG_HEIGHT - (estado.janela.y2 - estado.janela.y1)).tdiv 2
      = (120 - (estado.janela.y2 - estado.janela.y1)) / 2 := by
    rw [hH]
    exact Int.tdiv_eq_ediv (by omega) (by decide)
  have hpix := fun X Y hq => quadro_da_regiao_pixel amb estado.imagem_original estado.janela
    hx.1 hx.2.1 hx.2.2 hy.1 hy.2.1 hy.2.2 X Y hq
  rw [hox, hoy] at hpix
  have hcmd := processar_regiao_comandos amb estado frame_counter hr hx.2.1 hy.2.1
  have hatual : (processar_com_algoritmo amb estado frame_counter).1.imagem_atual
      = desenhar_retangulo estado.imagem_original estado.janela.x1 estado.janela.y1
        estado.janela.x2 estado.janela.y2 IMG_WIDTH IMG_HEIGHT := by
    rw [processar_imagem_atual amb estado frame_counter ho ha, if_pos hr, hn]
  refine ⟨hcmd, ?_, ?_, ?_, ⟨hatual, ?_, ?_⟩, ?_⟩
  · intro sx sy h1 h2 h3 h4
    rw [hpix _ _ ((dentro_do_quadro_iff _ _).2 ⟨by omega, by omega, by omega, by omega⟩),
      if_pos ⟨by omega, by omega, by omega, by omega⟩]
    congr 1 <;> omega
  · intro X Y hq hn2
    rw [hpix X Y hq, if_neg hn2]
  · intro io2 hig
    rw [hcmd, processar_regiao_comandos amb { estado with imagem_original := io2 }
      frame_counter hr hx.2.1 hy.2.1]
    have hq2 : quadro_da_regiao amb io2 estado.janela
        = quadro_da_regiao amb estado.imagem_original estado.janela :=
      quadro_da_regiao_congr amb estado.imagem_original io2 estado.janela
        hx.1 hx.2.1 hx.2.2 hy.1 hy.2.1 hy.2.2 hig
    dsimp only
    rw [hq2, despachar_regiao_campos { estado with imagem_original := io2 } estado rfl rfl]
  · rw [hatual]
    exact (desenhar_retangulo_lados _ ho _ _ _ _ hx.1 hx.2.1 hx.2.2 hy.1 hy.2.1 hy.2.2).1
  · rw [hatual]
    exact (desenhar_retangulo_lados _ ho _ _ _ _ hx.1 hx.2.1 hx.2.2 hy.1 hy.2.1 hy.2.2).2
  · intro hv
    exact quadro_da_regiao_vazio amb estado.imagem_original estado.janela
      hx.1 hx.2.1 hx.2.2 hy.1 hy.2.1 hy.2.2 hv

/-- The render pass on the selection bound to (10, 20) and (50, 60) at zoom 2:
the frame sent holds original pixel (49, 59) at (99, 79) and 0 at (100, 80),
where pixel (50, 60) would be, while the corner (50, 60) of the working frame
is part of the outline. -/
theorem regiao_semiaberta_exemplo :
    (laco_com_selecao ALG_VIZINHO_PROXIMO 2).estado.janela
      = { x1 := 10, y1 := 20, x2 := 50, y2 := 60, ativo := 1, pontos_definidos := 2 } ∧
    (laco_com_selecao ALG_VIZINHO_PROXIMO 2).estado.nivel_zoom ≠ 1 ∧
    pixel (quadro_da_regiao ambiente_exemplo
        (laco_com_selecao ALG_VIZINHO_PROXIMO 2).estado.imagem_original
        (laco_com_selecao ALG_VIZINHO_PROXIMO 2).estado.janela) 99 79
      = pixel (laco_com_selecao ALG_VIZINHO_PROXIMO 2).estado.imagem_original 49 59 ∧
    pixel (quadro_da_regiao ambiente_exemplo
        (laco_com_selecao ALG_VIZINHO_PROXIMO 2).estado.imagem_original
        (laco_com_selecao ALG_VIZINHO_PROXIMO 2).estado.janela) 100 80 = 0 ∧
    pixel (processar_com_algoritmo ambiente_exemplo
      (laco_com_selecao ALG_VIZINHO_PROXIMO 2).estado 0).1.imagem_atual 50 60 = 255 :=
  have hz : (laco_com_selecao ALG_VIZINHO_PROXIMO 2).estado.nivel_zoom ≠ 1 := by
    show ¬ ((2 : ℚ) = 1)
    norm_num
  have t := regiao_semiaberta ambiente_exemplo (laco_com_selecao ALG_VIZINHO_PROXIMO 2).estado 0
    rfl rfl (by decide) (by decide) hz
    (List.length_replicate _ _) (List.length_replicate _ _)
  ⟨rfl, hz, t.2.1 49 59 (by decide) (by decide) (by decide) (by decide),
    t.2.2.1 100 80 ⟨by decide, by decide, by decide, by decide⟩ (by decide),
    (t.2.2.2.2.1.2.1 50 (by decide) (by decide)).1⟩

end App
